import Mathlib

/-!
# EAGLE cooling step driver of SWIFT: embedding and properties

Shallow embedding of `src/cooling/EAGLE/cooling.c`: the step driver
`cooling_cool_part` with the solvers `newton_iter` and `bisection_iter`, the
helium-reionization term, the abundance ratios and the rate evaluator
`eagle_metal_cooling_rate` with its wrapper `eagle_cooling_rate`.

* Numbers.  The C code computes in `float` and `double`.  Here every such
  quantity lives in an arbitrary linearly ordered field `F`, and the
  conversion to `float` is the field `to_float` of `Libm F`.  It is applied
  where the source narrows a value that decides a branch or is handed on:
  the redshift of `cooling_update` (line 80), the sum `u_0` of line 134, the
  `float` arguments `logu_init`, `He_reion_heat` and `dt` of the solver calls
  (lines 193, 202, 210), the table bounds and `LambdaNet_old` of
  `newton_iter` (lines 732-735, 750), the `float` results of `newton_iter`
  and `bisection_iter`, and every operation of the gravity kernels.  All
  other arithmetic is exact: `double` operations are not rounded, and the
  remaining `float` variables (for instance `cooling_du_dt` of line 246) hold
  exact values.  Division is the division of the field, so `x / 0 = 0`; the
  non-finite values of C (`log(0)`, a quotient by 0) are outside the model,
  and statements that would meet them carry a hypothesis that excludes them.
  With `F = ℚ` every definition below runs; `binary32` is the IEEE 754
  conversion over `ℚ`.  With `F = ℝ` and the real exponential and logarithm
  (`real_libm`) it is the real-number reading of the code.
* The C library (`exp`, `log`, `log10`, `erf`, `M_SQRT2`, `M_LOG10E`,
  `M_LN10`) is not part of the repository; it is the record `Libm F`, and a
  statement that needs a property of it says so as a hypothesis.
* `eagle_cooling_rate` is a parameter of the solvers (type `RateEval F`), so
  every statement holds for every table and every rate function.  A call
  with a `NULL` derivative pointer is `rate x none ..`, a call with
  `&dLambdaNet_du` holding `d` is `rate x (some d) ..`; the second component
  of the result is the pointee after the call.  The evaluator of the source
  is the instance `eagle_rate_eval`; the interpolation functions it calls are
  the record `TableQuery F`.
* Loops are functions recursing on the loop counter, with the loop condition
  of the source as the only reason they stop.  Every function returns, next
  to its C result, how many rate evaluations it made.
* `cooling_cool_part` is cut along its source lines into
  `cooling_newton_stage` (189-206), `cooling_solve` (183-220),
  `cooling_clamp` (228-243) and `cooling_locals` (123-246, all local
  variables), so that statements can name intermediate values.  In the same
  way `bisection_bracket` (829-882) and `bisection_final` (884-900) are the
  two stages of `bisection_iter`, and `newton_trace` lists the iterates of
  `newton_iter`.
* Two smaller pieces of the repository are embedded as well: the
  particle-particle gravity kernels `runner_iact_grav_pp` and
  `runner_iact_grav_pp_nonsym` of `src/gravity/Default/gravity_iact.h`, with
  `sqrtf` and `kernel_grav_eval` as parameters and the two particles passed
  and returned as values, and `random_uniform` of `tests/testPair.c`, with the
  value of `rand()` and `RAND_MAX` as arguments.
-/

namespace EagleCooling

/-! ## Constants (cooling.c, lines 47-58) -/

/-- Source `newton_max_iterations`. -/
def newton_max_iterations : Nat := 15

/-- Source `bisection_max_iterations`. -/
def bisection_max_iterations : Nat := 150

/-- Source `explicit_tolerance`. -/
def explicit_tolerance (F : Type) [LinearOrderedField F] : F := 5 / 100

/-- Source `newton_tolerance`. -/
def newton_tolerance (F : Type) [LinearOrderedField F] : F := 1 / 10000

/-- Source `bisection_tolerance`. -/
def bisection_tolerance (F : Type) [LinearOrderedField F] : F := 1 / 1000000

/-- Source `rounding_tolerance`. -/
def rounding_tolerance (F : Type) [LinearOrderedField F] : F := 1 / 10000

/-- Source `bracket_factor`, the decimal 1.0488088481701. -/
def bracket_factor (F : Type) [LinearOrderedField F] : F := 10488088481701 / 10000000000000

/-- Source `newton_log_u_guess_cgs`, the decimal 28.3241683. -/
def newton_log_u_guess_cgs (F : Type) [LinearOrderedField F] : F := 283241683 / 10000000

/-- Value `bisection_iter` returns on failure. -/
def bisection_failure (F : Type) [LinearOrderedField F] : F := -100

/-! ## Data model -/

/-- Functions and constants of the C mathematics library used by the code,
and the conversion `to_float` of a `double` value to `float` that the C
implementation applies when such a value is stored in a `float` object,
passed for a `float` parameter or returned from a function of type `float`. -/
structure Libm (F : Type) where
  exp : F → F
  log : F → F
  log10 : F → F
  erf : F → F
  M_SQRT2 : F
  M_LOG10E : F
  M_LN10 : F
  to_float : F → F

/-- Enum `chemistry_element`, in the order the source documents
(`Enum: H, He, C, N, O, Ne, Mg, Si, Fe`). -/
def chemistry_element_H : Nat := 0

/-- Helium in `chemistry_element`. -/
def chemistry_element_He : Nat := 1

/-- Silicon in `chemistry_element`. -/
def chemistry_element_Si : Nat := 7

/-- Iron in `chemistry_element`. -/
def chemistry_element_Fe : Nat := 8

/-- Number of tracked elements. -/
def chemistry_element_count : Nat := 9

/-- Fields of `struct cosmology` the cooling code reads. -/
structure cosmology (F : Type) where
  z : F
  H : F
  a_inv : F

/-- Fields of `struct hydro_props` the cooling code reads. -/
structure hydro_props (F : Type) where
  minimal_internal_energy : F

/-- Fields of `struct phys_const` the cooling code reads. -/
structure phys_const (F : Type) where
  const_proton_mass : F

/-- Modelled from the spec: `units_cgs_conversion_factor(us, UNIT_CONV_TIME)`
of units.h, which is not part of the sources; the unit system is represented
by the factor it yields. -/
structure unit_system (F : Type) where
  time_cgs : F

/-- The tables of `cooling_function_data.table` the rate evaluator reads, as
flat arrays. -/
structure cooling_tables (F : Type) where
  H_plus_He_heating : Nat → F
  H_plus_He_electron_abundance : Nat → F
  electron_abundance : Nat → F
  metal_heating : Nat → F

/-- Fields of `struct cooling_function_data` used by the step driver, the
solvers and the rate evaluator.  Arrays are functions of the index. -/
structure cooling_function_data (F : Type) where
  internal_energy_scale : F
  number_density_scale : F
  proton_mass_cgs : F
  he_reion_ev_pH : F
  he_reion_z_center : F
  he_reion_z_sigma : F
  reionisation_redshift : F
  calcium_over_silicon_ratio : F
  sulphur_over_silicon_ratio : F
  N_Temp : Nat
  N_nH : Nat
  N_He : Nat
  Therm : Nat → F
  HeFrac : Nat → F
  nH : Nat → F
  SolarAbundances : Nat → F
  z_index : Int
  dz : F
  newton_flag : Bool
  N_Redshifts : Nat
  N_Elements : Nat
  Redshifts : Nat → F
  Temp : Nat → F
  compton_rate_cgs : F
  T_CMB_0 : F
  table : cooling_tables F

/-- Modelled from the spec: the particle as the hydro accessors of hydro.h
(not part of the sources) present it: `u` is
`hydro_get_physical_internal_energy`, `u_dt` is what
`hydro_get_physical_internal_energy_dt` reads and
`hydro_set_physical_internal_energy_dt` writes, `rho` is
`hydro_get_physical_density`, `mass` is `hydro_get_mass`. -/
structure part (F : Type) where
  id : Nat
  u : F
  u_dt : F
  rho : F
  mass : F
  smoothed_metal_mass_fraction : Nat → F

/-- Extended particle data: the cooling accumulator. -/
structure xpart (F : Type) where
  radiated_energy : F

/-- The rate evaluator `eagle_cooling_rate` as the solvers call it: arguments
`logu`, the derivative pointer (`none` for `NULL`, `some d` for a pointer whose
target holds `d`), `n_h_i`, `d_n_h`, `He_i`, `d_He`, `abundance_ratio`; the
particle and the tables are fixed.  Result: the returned rate and the
pointee afterwards. -/
abbrev RateEval (F : Type) :=
  F → Option F → Int → F → Int → F → (Nat → F) → F × Option F

/-- Modelled from the spec: `get_index_1d` of interpolate.h (not part of the
sources): from a grid, its length and a value to a grid index and offset. -/
abbrev IndexFn (F : Type) := (Nat → F) → Nat → F → Int × F

variable {F : Type} [LinearOrderedField F]

/-! ## Helium reionization and abundance ratios -/

/-- Source `eagle_helium_reionization_extraheat` (lines 261-274). -/
def eagle_helium_reionization_extraheat (m : Libm F) (z dz : F)
    (cooling : cooling_function_data F) : F :=
  let he_reion_erg_pG := cooling.he_reion_ev_pH / cooling.proton_mass_cgs
  let extra_heating := he_reion_erg_pG *
    (m.erf ((z - dz - cooling.he_reion_z_center) / (m.M_SQRT2 * cooling.he_reion_z_sigma)) -
     m.erf ((z - cooling.he_reion_z_center) / (m.M_SQRT2 * cooling.he_reion_z_sigma))) / 2
  extra_heating

/-- One pass of the element loop of `abundance_ratio_to_solar`
(lines 674-682). -/
def abundance_ratio_elem (p : part F) (cooling : cooling_function_data F)
    (ratio_solar : Nat → F) (elem : Nat) : Nat → F :=
  if elem = chemistry_element_Fe then
    Function.update ratio_solar elem
      (p.smoothed_metal_mass_fraction elem / cooling.SolarAbundances (elem + 2))
  else
    Function.update ratio_solar elem
      (p.smoothed_metal_mass_fraction elem / cooling.SolarAbundances elem)

/-- Source `abundance_ratio_to_solar` (lines 667-695); `ratio_solar` is the
caller's array on entry, the result is the array on exit. -/
def abundance_ratio_to_solar (p : part F) (cooling : cooling_function_data F)
    (ratio_solar : Nat → F) : Nat → F :=
  let r1 := (List.range chemistry_element_count).foldl (abundance_ratio_elem p cooling) ratio_solar
  let r2 := Function.update r1 chemistry_element_count
    (p.smoothed_metal_mass_fraction chemistry_element_Si * cooling.sulphur_over_silicon_ratio /
      cooling.SolarAbundances (chemistry_element_count - 1))
  Function.update r2 (chemistry_element_count + 1)
    (p.smoothed_metal_mass_fraction chemistry_element_Si * cooling.calcium_over_silicon_ratio /
      cooling.SolarAbundances chemistry_element_count)

/-! ## Net rate evaluator -/

/-- Modelled from the spec: the table query interface of interpolate.h and
`eagle_convert_u_to_temp` (neither is part of the sources).  The
`interpolate_nd` functions take the table, the axis indices, the axis
offsets and the dimensions in the argument order of the source's calls;
`eagle_convert_u_to_temp` returns the temperature together with the value it
stores through its `dT_du` pointer; `get_index_1d` returns the index and
offset it stores through its two pointers. -/
structure TableQuery (F : Type) where
  eagle_convert_u_to_temp : F → Int → Int → F → F → cooling_function_data F → cosmology F → F × F
  get_index_1d : (Nat → F) → Nat → F → Int × F
  interpolate_2d : (Nat → F) → Int → Int → F → F → Nat → Nat → F
  interpolate_3d : (Nat → F) → Int → Int → Int → F → F → F → Nat → Nat → Nat → F
  interpolate_4d :
    (Nat → F) → Int → Int → Int → Int → F → F → F → F → Nat → Nat → Nat → Nat → F

/-- What a call of `eagle_metal_cooling_rate` leaves behind: the returned
rate, the target of `dlambda_du` and the array `element_lambda` afterwards
(`none` for a `NULL` pointer), and the number of `interpolate_nd` calls made. -/
structure metal_rate_out (F : Type) where
  cooling_rate : F
  dlambda_du : Option F
  element_lambda : Option (Nat → F)
  lookups : Nat

/-- Local variables of `eagle_metal_cooling_rate` that its metal loops read. -/
structure metal_rate_locals (F : Type) where
  temp_i : Int
  d_temp : F
  delta_T : F
  dT_du : F
  h_plus_he_electron_abundance : F
  h_plus_he_electron_abundance_high : F
  h_plus_he_electron_abundance_low : F
  solar_electron_abundance : F
  solar_electron_abundance_high : F
  solar_electron_abundance_low : F

/-- The value `temp_lambda` of pass `i` of the high-redshift metal loop
(lines 459-464). -/
def metal_lambda_highz (q : TableQuery F) (cooling : cooling_function_data F)
    (n_h_i : Int) (d_n_h : F) (v : metal_rate_locals F) (solar_ratio : Nat → F) (i : Nat) : F :=
  q.interpolate_3d cooling.table.metal_heating n_h_i v.temp_i (i : Int) d_n_h v.d_temp 0
      cooling.N_nH cooling.N_Temp cooling.N_Elements *
    (v.h_plus_he_electron_abundance / v.solar_electron_abundance) *
    solar_ratio (i + 2)

/-- The value `temp_lambda` of pass `i` of the redshift-interpolated metal
loop (lines 503-508). -/
def metal_lambda_lowz (q : TableQuery F) (cooling : cooling_function_data F)
    (n_h_i : Int) (d_n_h : F) (v : metal_rate_locals F) (solar_ratio : Nat → F) (i : Nat) : F :=
  q.interpolate_4d cooling.table.metal_heating 0 n_h_i v.temp_i (i : Int) cooling.dz d_n_h
      v.d_temp 0 2 cooling.N_nH cooling.N_Temp cooling.N_Elements *
    (v.h_plus_he_electron_abundance / v.solar_electron_abundance) *
    solar_ratio (i + 2)

/-- One pass of the high-redshift metal loop (lines 458-485). -/
def metal_step_highz (q : TableQuery F) (cooling : cooling_function_data F)
    (n_h_i : Int) (d_n_h : F) (v : metal_rate_locals F) (solar_ratio : Nat → F)
    (st : metal_rate_out F) (i : Nat) : metal_rate_out F :=
  let temp_lambda := metal_lambda_highz q cooling n_h_i d_n_h v solar_ratio i
  let cooling_rate := st.cooling_rate + temp_lambda
  let element_lambda := st.element_lambda.map (fun a => Function.update a (i + 2) temp_lambda)
  match st.dlambda_du with
  | none =>
    { cooling_rate := cooling_rate, dlambda_du := none, element_lambda := element_lambda
      lookups := st.lookups + 1 }
  | some d =>
    let elem_cool_high := q.interpolate_3d cooling.table.metal_heating n_h_i v.temp_i (i : Int)
      d_n_h 1 0 cooling.N_nH cooling.N_Temp cooling.N_Elements
    let elem_cool_low := q.interpolate_3d cooling.table.metal_heating n_h_i v.temp_i (i : Int)
      d_n_h 0 0 cooling.N_nH cooling.N_Temp cooling.N_Elements
    { cooling_rate := cooling_rate
      dlambda_du := some (d +
        (elem_cool_high * v.h_plus_he_electron_abundance_high / v.solar_electron_abundance_high -
          elem_cool_low * v.h_plus_he_electron_abundance_low / v.solar_electron_abundance_low) /
          v.delta_T * v.dT_du * solar_ratio (i + 2))
      element_lambda := element_lambda
      lookups := st.lookups + 3 }

/-- One pass of the redshift-interpolated metal loop (lines 502-529). -/
def metal_step_lowz (q : TableQuery F) (cooling : cooling_function_data F)
    (n_h_i : Int) (d_n_h : F) (v : metal_rate_locals F) (solar_ratio : Nat → F)
    (st : metal_rate_out F) (i : Nat) : metal_rate_out F :=
  let temp_lambda := metal_lambda_lowz q cooling n_h_i d_n_h v solar_ratio i
  let cooling_rate := st.cooling_rate + temp_lambda
  let element_lambda := st.element_lambda.map (fun a => Function.update a (i + 2) temp_lambda)
  match st.dlambda_du with
  | none =>
    { cooling_rate := cooling_rate, dlambda_du := none, element_lambda := element_lambda
      lookups := st.lookups + 1 }
  | some d =>
    let elem_cool_high := q.interpolate_4d cooling.table.metal_heating 0 n_h_i v.temp_i (i : Int)
      cooling.dz d_n_h 1 0 2 cooling.N_nH cooling.N_Temp cooling.N_Elements
    let elem_cool_low := q.interpolate_4d cooling.table.metal_heating 0 n_h_i v.temp_i (i : Int)
      cooling.dz d_n_h 0 0 2 cooling.N_nH cooling.N_Temp cooling.N_Elements
    { cooling_rate := cooling_rate
      dlambda_du := some (d +
        (elem_cool_high * v.h_plus_he_electron_abundance_high / v.solar_electron_abundance_high -
          elem_cool_low * v.h_plus_he_electron_abundance_low / v.solar_electron_abundance_low) /
          v.delta_T * v.dT_du * solar_ratio (i + 2))
      element_lambda := element_lambda
      lookups := st.lookups + 3 }

/-- The metal-free part of `eagle_metal_cooling_rate` (lines 350-414): the
H+He lookups, with the endpoint lookups only for a non-`NULL` `dlambda_du`.
Result: `temp_lambda`, `h_plus_he_electron_abundance`, the `high` and `low`
values of both (0 when not computed) and the number of lookups. -/
def metal_free_lookups (q : TableQuery F) (cooling : cooling_function_data F) (z : F)
    (derivative : Bool) (n_h_i : Int) (d_n_h : F) (He_i : Int) (d_He : F)
    (temp_i : Int) (d_temp : F) : F × F × (F × F) × (F × F) × Nat :=
  if z > cooling.Redshifts (cooling.N_Redshifts - 1) then
    let temp_lambda := q.interpolate_3d cooling.table.H_plus_He_heating n_h_i He_i temp_i
      d_n_h d_He d_temp cooling.N_nH cooling.N_He cooling.N_Temp
    let h_plus_he_electron_abundance :=
      q.interpolate_3d cooling.table.H_plus_He_electron_abundance n_h_i He_i temp_i
        d_n_h d_He d_temp cooling.N_nH cooling.N_He cooling.N_Temp
    if derivative then
      (temp_lambda, h_plus_he_electron_abundance,
        (q.interpolate_3d cooling.table.H_plus_He_heating n_h_i He_i temp_i
            d_n_h d_He 1 cooling.N_nH cooling.N_He cooling.N_Temp,
          q.interpolate_3d cooling.table.H_plus_He_heating n_h_i He_i temp_i
            d_n_h d_He 0 cooling.N_nH cooling.N_He cooling.N_Temp),
        (q.interpolate_3d cooling.table.H_plus_He_electron_abundance n_h_i He_i temp_i
            d_n_h d_He 1 cooling.N_nH cooling.N_He cooling.N_Temp,
          q.interpolate_3d cooling.table.H_plus_He_electron_abundance n_h_i He_i temp_i
            d_n_h d_He 0 cooling.N_nH cooling.N_He cooling.N_Temp), 6)
    else (temp_lambda, h_plus_he_electron_abundance, (0, 0), (0, 0), 2)
  else
    let temp_lambda := q.interpolate_4d cooling.table.H_plus_He_heating 0 n_h_i He_i temp_i
      cooling.dz d_n_h d_He d_temp 2 cooling.N_nH cooling.N_He cooling.N_Temp
    let h_plus_he_electron_abundance :=
      q.interpolate_4d cooling.table.H_plus_He_electron_abundance 0 n_h_i He_i temp_i
        cooling.dz d_n_h d_He d_temp 2 cooling.N_nH cooling.N_He cooling.N_Temp
    if derivative then
      (temp_lambda, h_plus_he_electron_abundance,
        (q.interpolate_4d cooling.table.H_plus_He_heating 0 n_h_i He_i temp_i
            cooling.dz d_n_h d_He 1 2 cooling.N_nH cooling.N_He cooling.N_Temp,
          q.interpolate_4d cooling.table.H_plus_He_heating 0 n_h_i He_i temp_i
            cooling.dz d_n_h d_He 0 2 cooling.N_nH cooling.N_He cooling.N_Temp),
        (q.interpolate_4d cooling.table.H_plus_He_electron_abundance 0 n_h_i He_i temp_i
            cooling.dz d_n_h d_He 1 2 cooling.N_nH cooling.N_He cooling.N_Temp,
          q.interpolate_4d cooling.table.H_plus_He_electron_abundance 0 n_h_i He_i temp_i
            cooling.dz d_n_h d_He 0 2 cooling.N_nH cooling.N_He cooling.N_Temp), 6)
    else (temp_lambda, h_plus_he_electron_abundance, (0, 0), (0, 0), 2)

/-- The solar electron abundance lookups of the metal part (lines 444-456 and
488-500): the value at the particle's offset, the `high` and `low` values
(0 when not computed) and the number of lookups. -/
def solar_electron_lookups (q : TableQuery F) (cooling : cooling_function_data F) (z : F)
    (derivative : Bool) (n_h_i : Int) (d_n_h : F) (temp_i : Int) (d_temp : F) :
    F × (F × F) × Nat :=
  if z > cooling.Redshifts (cooling.N_Redshifts - 1) then
    let solar_electron_abundance := q.interpolate_2d cooling.table.electron_abundance
      n_h_i temp_i d_n_h d_temp cooling.N_nH cooling.N_Temp
    if derivative then
      (solar_electron_abundance,
        (q.interpolate_2d cooling.table.electron_abundance n_h_i temp_i d_n_h 1
            cooling.N_nH cooling.N_Temp,
          q.interpolate_2d cooling.table.electron_abundance n_h_i temp_i d_n_h 0
            cooling.N_nH cooling.N_Temp), 3)
    else (solar_electron_abundance, (0, 0), 1)
  else
    let solar_electron_abundance := q.interpolate_3d cooling.table.electron_abundance
      0 n_h_i temp_i cooling.dz d_n_h d_temp 2 cooling.N_nH cooling.N_Temp
    if derivative then
      (solar_electron_abundance,
        (q.interpolate_3d cooling.table.electron_abundance 0 n_h_i temp_i cooling.dz d_n_h 1
            2 cooling.N_nH cooling.N_Temp,
          q.interpolate_3d cooling.table.electron_abundance 0 n_h_i temp_i cooling.dz d_n_h 0
            2 cooling.N_nH cooling.N_Temp), 3)
    else (solar_electron_abundance, (0, 0), 1)

/-- Source `eagle_metal_cooling_rate` (lines 308-533).  `dlambda_du` and
`element_lambda` are the contents behind the two pointers on entry (`none`
for `NULL`). -/
def eagle_metal_cooling_rate (m : Libm F) (q : TableQuery F) (log_10_u : F)
    (dlambda_du : Option F) (n_h_i : Int) (d_n_h : F) (He_i : Int) (d_He : F)
    (p : part F) (cooling : cooling_function_data F) (cosmo : cosmology F)
    (phys : phys_const F) (element_lambda : Option (Nat → F)) (solar_ratio : Nat → F) :
    metal_rate_out F :=
  let z := cosmo.z
  let XH := p.smoothed_metal_mass_fraction chemistry_element_H
  let n_h := p.rho * XH / phys.const_proton_mass * cooling.number_density_scale
  let tc := q.eagle_convert_u_to_temp log_10_u n_h_i He_i d_n_h d_He cooling cosmo
  let temp := tc.1
  let dT_du := tc.2
  let ti := q.get_index_1d cooling.Temp cooling.N_Temp temp
  let temp_i := ti.1
  let d_temp := ti.2
  let delta_T := m.exp (m.M_LN10 * cooling.Temp (temp_i + 1).toNat) -
    m.exp (m.M_LN10 * cooling.Temp temp_i.toNat)
  let hhe := metal_free_lookups q cooling z dlambda_du.isSome n_h_i d_n_h He_i d_He temp_i d_temp
  let temp_lambda := hhe.1
  let h_plus_he_electron_abundance := hhe.2.1
  let cooling_rate1 := 0 + temp_lambda
  let dlambda_du1 := dlambda_du.map (fun d => d + (hhe.2.2.1.1 - hhe.2.2.1.2) / delta_T * dT_du)
  let element_lambda1 := element_lambda.map (fun a => Function.update a 0 temp_lambda)
  let compton := -cooling.compton_rate_cgs * (temp - cooling.T_CMB_0 * (1 + z)) * (1 + z) *
    (1 + z) * (1 + z) * (1 + z) * h_plus_he_electron_abundance / n_h
  let st2 : metal_rate_out F :=
    if z > cooling.Redshifts (cooling.N_Redshifts - 1) ∨ z > cooling.reionisation_redshift then
      { cooling_rate := cooling_rate1 + compton, dlambda_du := dlambda_du1
        element_lambda := element_lambda1.map (fun a => Function.update a 1 compton)
        lookups := hhe.2.2.2.2 }
    else
      { cooling_rate := cooling_rate1, dlambda_du := dlambda_du1
        element_lambda := element_lambda1, lookups := hhe.2.2.2.2 }
  let sol := solar_electron_lookups q cooling z dlambda_du.isSome n_h_i d_n_h temp_i d_temp
  let v : metal_rate_locals F :=
    { temp_i := temp_i, d_temp := d_temp, delta_T := delta_T, dT_du := dT_du
      h_plus_he_electron_abundance := h_plus_he_electron_abundance
      h_plus_he_electron_abundance_high := hhe.2.2.2.1.1
      h_plus_he_electron_abundance_low := hhe.2.2.2.1.2
      solar_electron_abundance := sol.1
      solar_electron_abundance_high := sol.2.1.1
      solar_electron_abundance_low := sol.2.1.2 }
  let st3 : metal_rate_out F := { st2 with lookups := st2.lookups + sol.2.2 }
  if z > cooling.Redshifts (cooling.N_Redshifts - 1) then
    (List.range cooling.N_Elements).foldl (metal_step_highz q cooling n_h_i d_n_h v solar_ratio) st3
  else
    (List.range cooling.N_Elements).foldl (metal_step_lowz q cooling n_h_i d_n_h v solar_ratio) st3

/-- Source `eagle_cooling_rate` (lines 553-571): the returned rate and the
target of `dLambdaNet_du` afterwards. -/
def eagle_cooling_rate (m : Libm F) (q : TableQuery F) (logu : F) (dLambdaNet_du : Option F)
    (n_h_i : Int) (d_n_h : F) (He_i : Int) (d_He : F) (p : part F)
    (cooling : cooling_function_data F) (cosmo : cosmology F) (phys : phys_const F)
    (abundance_ratio : Nat → F) : F × Option F :=
  let element_lambda : Option (Nat → F) := none
  let o := eagle_metal_cooling_rate m q (logu / m.M_LN10) dLambdaNet_du n_h_i d_n_h He_i d_He
    p cooling cosmo phys element_lambda abundance_ratio
  (o.cooling_rate, o.dlambda_du)

/-- The evaluator `eagle_cooling_rate` of one particle as the solvers
receive it. -/
def eagle_rate_eval (m : Libm F) (q : TableQuery F) (p : part F)
    (cooling : cooling_function_data F) (cosmo : cosmology F) (phys : phys_const F) :
    RateEval F :=
  fun logu d n_h_i d_n_h He_i d_He abundance_ratio =>
    eagle_cooling_rate m q logu d n_h_i d_n_h He_i d_He p cooling cosmo phys abundance_ratio

/-! ## Newton-Raphson scheme -/

/-- Local variables of `newton_iter` when its loop is left. -/
structure newton_loop_out (F : Type) where
  logu : F
  i : Nat
  rate_evals : Nat

/-- Lines 754-768 of `newton_iter`: one pass of the loop body up to the
table-bound test, entered with counter `i`.  Returns the new `logu`,
`LambdaNet` and `dLambdaNet_du`.  `Lam` is `eagle_cooling_rate` with the
fixed arguments of this call applied.  `LambdaNet_old` is a `float` in the
source (line 750), so the rate of the pass before is narrowed when line 755
stores it. -/
def newton_correction (m : Libm F) (Lam : F → Option F → F × Option F)
    (u_ini He_reion_heat dt ratefact : F)
    (i : Nat) (logu LambdaNet dLambdaNet_du : F) : F × F × F :=
  let logu_old := logu
  let LambdaNet_old := m.to_float LambdaNet
  let r := Lam logu_old (some dLambdaNet_du)
  let dLambdaNet_du1 := r.2.getD dLambdaNet_du
  let LambdaNet1 := He_reion_heat / (dt * ratefact) + r.1
  let logu1 := logu_old -
    (1 - u_ini * m.exp (-logu_old) - LambdaNet1 * ratefact * dt * m.exp (-logu_old)) /
      (1 - dLambdaNet_du1 * ratefact * dt)
  let logu2 := if i = 1 ∧ LambdaNet_old * LambdaNet1 < 0 then newton_log_u_guess_cgs F else logu1
  (logu2, LambdaNet1, dLambdaNet_du1)

/-- The `do ... while` loop of `newton_iter` (lines 752-782), entered with
counter `i` and the current `logu`, `LambdaNet`, `dLambdaNet_du`. -/
def newton_loop (m : Libm F) (Lam : F → Option F → F × Option F)
    (u_ini He_reion_heat dt ratefact log_table_bound_high log_table_bound_low : F)
    (i : Nat) (logu LambdaNet dLambdaNet_du : F) (rate_evals : Nat) : newton_loop_out F :=
  let logu_old := logu
  let s := newton_correction m Lam u_ini He_reion_heat dt ratefact i logu LambdaNet dLambdaNet_du
  if s.1 > log_table_bound_high then
    { logu := s.1, i := newton_max_iterations, rate_evals := rate_evals + 1 }
  else if s.1 < log_table_bound_low then
    { logu := s.1, i := newton_max_iterations, rate_evals := rate_evals + 1 }
  else if h : |s.1 - logu_old| > newton_tolerance F ∧ i + 1 < newton_max_iterations then
    newton_loop m Lam u_ini He_reion_heat dt ratefact log_table_bound_high log_table_bound_low
      (i + 1) s.1 s.2.1 s.2.2 (rate_evals + 1)
  else
    { logu := s.1, i := i + 1, rate_evals := rate_evals + 1 }
termination_by newton_max_iterations - i
decreasing_by
  exact Nat.sub_lt_sub_left (Nat.lt_of_succ_lt h.2) (Nat.lt_succ_self i)

/-- Result of `newton_iter`: the returned `logu`, the caller's
`bisection_flag` afterwards, and the number of rate evaluations made. -/
structure newton_out (F : Type) where
  value : F
  bisection_flag : Bool
  rate_evals : Nat

/-- Source `newton_iter` (lines 720-789).  `logu_init`, `He_reion_heat` and
`dt` are the values of the `float` parameters of the source: a caller passes
its arguments through `to_float`, as `cooling_newton_stage` does.  The two
table bounds are `float` locals, and the function returns `logu` as a
`float`. -/
def newton_iter (m : Libm F) (rate : RateEval F)
    (logu_init u_ini : F) (n_h_i : Int) (d_n_h : F) (He_i : Int) (d_He : F)
    (He_reion_heat : F) (p : part F) (cooling : cooling_function_data F)
    (phys : phys_const F) (abundance_ratio : Nat → F) (dt : F)
    (bisection_flag : Bool) : newton_out F :=
  let log_table_bound_high :=
    m.to_float ((cooling.Therm (cooling.N_Temp - 1) - 5 / 100) / m.M_LOG10E)
  let log_table_bound_low := m.to_float ((cooling.Therm 0 + 5 / 100) / m.M_LOG10E)
  let XH := p.smoothed_metal_mass_fraction chemistry_element_H
  let n_h := p.rho * XH / phys.const_proton_mass * cooling.number_density_scale
  let ratefact := n_h * (XH / cooling.proton_mass_cgs)
  let out := newton_loop m (fun x d => rate x d n_h_i d_n_h He_i d_He abundance_ratio)
    u_ini He_reion_heat dt ratefact log_table_bound_high log_table_bound_low
    0 logu_init 0 0 0
  { value := m.to_float out.logu
    bisection_flag := if out.i ≥ newton_max_iterations then true else bisection_flag
    rate_evals := out.rate_evals }

/-! ## Bisection scheme -/

/-- Local variables of `bisection_iter` when a bracketing loop is left. -/
structure bracket_out (F : Type) where
  i : Nat
  u_lower : F
  u_upper : F
  rate_evals : Nat

/-- The `while` loop of the cooling branch of `bisection_iter`
(lines 847-855). -/
def bracket_cool_loop (m : Libm F) (Lam : F → Option F → F × Option F)
    (u_ini He_reion_heat dt ratefact : F)
    (i : Nat) (u_lower u_upper LambdaNet : F) (rate_evals : Nat) : bracket_out F :=
  if h : u_lower - u_ini - LambdaNet * ratefact * dt > 0 ∧ i < bisection_max_iterations then
    let u_lower1 := u_lower / bracket_factor F
    let u_upper1 := u_upper / bracket_factor F
    let LambdaNet1 := He_reion_heat / (dt * ratefact) + (Lam (m.log u_lower1) none).1
    bracket_cool_loop m Lam u_ini He_reion_heat dt ratefact
      (i + 1) u_lower1 u_upper1 LambdaNet1 (rate_evals + 1)
  else
    { i := i, u_lower := u_lower, u_upper := u_upper, rate_evals := rate_evals }
termination_by bisection_max_iterations - i
decreasing_by
  exact Nat.sub_lt_sub_left h.2 (Nat.lt_succ_self i)

/-- The `while` loop of the heating branch of `bisection_iter`
(lines 869-877). -/
def bracket_heat_loop (m : Libm F) (Lam : F → Option F → F × Option F)
    (u_ini He_reion_heat dt ratefact : F)
    (i : Nat) (u_lower u_upper LambdaNet : F) (rate_evals : Nat) : bracket_out F :=
  if h : u_upper - u_ini - LambdaNet * ratefact * dt < 0 ∧ i < bisection_max_iterations then
    let u_lower1 := u_lower * bracket_factor F
    let u_upper1 := u_upper * bracket_factor F
    let LambdaNet1 := He_reion_heat / (dt * ratefact) + (Lam (m.log u_upper1) none).1
    bracket_heat_loop m Lam u_ini He_reion_heat dt ratefact
      (i + 1) u_lower1 u_upper1 LambdaNet1 (rate_evals + 1)
  else
    { i := i, u_lower := u_lower, u_upper := u_upper, rate_evals := rate_evals }
termination_by bisection_max_iterations - i
decreasing_by
  exact Nat.sub_lt_sub_left h.2 (Nat.lt_succ_self i)

/-- Local variables of `bisection_iter` when the bisection loop is left. -/
structure bisect_out (F : Type) where
  i : Nat
  u_lower : F
  u_upper : F
  u_next : F
  rate_evals : Nat

/-- Lines 887-896 of `bisection_iter`: the midpoint and the bracket end it
replaces.  Returns the new `u_lower`, `u_upper` and `u_next`. -/
def bisect_step (m : Libm F) (Lam : F → Option F → F × Option F)
    (u_ini He_reion_heat dt ratefact : F) (u_lower u_upper : F) : F × F × F :=
  let u_next := (1 / 2) * (u_lower + u_upper)
  let LambdaNet := He_reion_heat / (dt * ratefact) + (Lam (m.log u_next) none).1
  if u_next - u_ini - LambdaNet * ratefact * dt > 0 then
    (u_lower, u_next, u_next)
  else
    (u_next, u_upper, u_next)

/-- The `do ... while` loop of `bisection_iter` (lines 886-900). -/
def bisect_loop (m : Libm F) (Lam : F → Option F → F × Option F)
    (u_ini He_reion_heat dt ratefact : F)
    (i : Nat) (u_lower u_upper : F) (rate_evals : Nat) : bisect_out F :=
  let s := bisect_step m Lam u_ini He_reion_heat dt ratefact u_lower u_upper
  if h : |s.2.1 - s.1| / s.2.2 > bisection_tolerance F ∧
      i + 1 < bisection_max_iterations then
    bisect_loop m Lam u_ini He_reion_heat dt ratefact (i + 1) s.1 s.2.1 (rate_evals + 1)
  else
    { i := i + 1, u_lower := s.1, u_upper := s.2.1, u_next := s.2.2,
      rate_evals := rate_evals + 1 }
termination_by bisection_max_iterations - i
decreasing_by
  exact Nat.sub_lt_sub_left (Nat.lt_of_succ_lt h.2) (Nat.lt_succ_self i)

/-- Result of `bisection_iter`: the returned value, the number of rate
evaluations made and the number of diagnostic messages printed. -/
structure bisection_out (F : Type) where
  value : F
  rate_evals : Nat
  messages : Nat

/-- Source `bisection_iter` (lines 808-908).  `logu_init`, `He_reion_heat`
and `dt` are the values of the `float` parameters of the source: a caller
passes its arguments through `to_float`, as `cooling_solve` does.  The
function returns `log(u_upper)` as a `float`; the failure value `-100` is a
`float` as it stands. -/
def bisection_iter (m : Libm F) (rate : RateEval F)
    (logu_init u_ini : F) (n_h_i : Int) (d_n_h : F) (He_i : Int) (d_He : F)
    (He_reion_heat : F) (p : part F) (cooling : cooling_function_data F)
    (phys : phys_const F) (abundance_ratio : Nat → F) (dt : F) : bisection_out F :=
  let Lam : F → Option F → F × Option F :=
    fun x d => rate x d n_h_i d_n_h He_i d_He abundance_ratio
  let u_init := m.exp logu_init
  let XH := p.smoothed_metal_mass_fraction chemistry_element_H
  let n_h := p.rho * XH / phys.const_proton_mass * cooling.number_density_scale
  let ratefact := n_h * (XH / cooling.proton_mass_cgs)
  let u_lower := u_init
  let u_upper := u_init
  let LambdaNet := He_reion_heat / (dt * ratefact) + (Lam (m.log u_init) none).1
  let b : bracket_out F :=
    if LambdaNet < 0 then
      let u_lower1 := u_lower / bracket_factor F
      let u_upper1 := u_upper * bracket_factor F
      let LambdaNet1 := He_reion_heat / (dt * ratefact) + (Lam (m.log u_lower1) none).1
      bracket_cool_loop m Lam u_ini He_reion_heat dt ratefact 0 u_lower1 u_upper1 LambdaNet1 2
    else
      let u_lower1 := u_lower / bracket_factor F
      let u_upper1 := u_upper * bracket_factor F
      let LambdaNet1 := He_reion_heat / (dt * ratefact) + (Lam (m.log u_upper1) none).1
      bracket_heat_loop m Lam u_ini He_reion_heat dt ratefact 0 u_lower1 u_upper1 LambdaNet1 2
  if b.i ≥ bisection_max_iterations then
    { value := bisection_failure F, rate_evals := b.rate_evals, messages := 1 }
  else
    let s := bisect_loop m Lam u_ini He_reion_heat dt ratefact 0 b.u_lower b.u_upper b.rate_evals
    if s.i ≥ bisection_max_iterations then
      { value := bisection_failure F, rate_evals := s.rate_evals, messages := 0 }
    else
      { value := m.to_float (m.log s.u_upper), rate_evals := s.rate_evals, messages := 0 }

/-! ## Step driver -/

/-- State of `cooling_cool_part` after its Newton stage (lines 189-206). -/
structure newton_stage_out (F : Type) where
  bisection_flag : Bool
  log_u_final_cgs : F
  newton_calls : Nat
  rate_evals : Nat

/-- Lines 189-206 of `cooling_cool_part`: the Newton attempt and its retry
from `newton_log_u_guess_cgs`.  The arguments `log(u_0_cgs)` (or the fixed
guess), `LambdaTune` and `dt_cgs` are `double` values passed for the `float`
parameters `logu_init`, `He_reion_heat` and `dt` of `newton_iter`. -/
def cooling_newton_stage (m : Libm F) (rate : RateEval F)
    (cooling : cooling_function_data F) (p : part F) (phys : phys_const F)
    (n_h_i : Int) (d_n_h : F) (He_i : Int) (d_He : F) (abundance_ratio : Nat → F)
    (LambdaTune LambdaNet u_0_cgs dt_cgs : F) : newton_stage_out F :=
  let bisection_flag := false
  let log_u_final_cgs : F := 0
  if cooling.newton_flag then
    let n1 := newton_iter m rate (m.to_float (m.log u_0_cgs)) u_0_cgs n_h_i d_n_h He_i d_He
      (m.to_float LambdaTune) p cooling phys abundance_ratio (m.to_float dt_cgs) bisection_flag
    if LambdaNet < 0 ∧ n1.value > m.log u_0_cgs then
      let n2 := newton_iter m rate (m.to_float (newton_log_u_guess_cgs F)) u_0_cgs n_h_i d_n_h
        He_i d_He (m.to_float LambdaTune) p cooling phys abundance_ratio (m.to_float dt_cgs)
        false
      { bisection_flag := n2.bisection_flag, log_u_final_cgs := n2.value,
        newton_calls := 2, rate_evals := n1.rate_evals + n2.rate_evals }
    else
      { bisection_flag := n1.bisection_flag, log_u_final_cgs := n1.value,
        newton_calls := 1, rate_evals := n1.rate_evals }
  else
    { bisection_flag := bisection_flag, log_u_final_cgs := log_u_final_cgs,
      newton_calls := 0, rate_evals := 0 }

/-- Outcome of the solve of `cooling_cool_part` (lines 183-220). -/
structure solve_out (F : Type) where
  u_final_cgs : F
  explicit_path : Bool
  bisection_flag : Bool
  newton_calls : Nat
  bisection_calls : Nat
  rate_evals : Nat
  messages : Nat

/-- Lines 183-220 of `cooling_cool_part`: explicit update, or Newton and
bisection.  `rate_evals` counts the evaluations made here, the one for
`LambdaNet` not included.  The arguments `log(u_0_cgs)`, `LambdaTune` and
`dt_cgs` of the call of `bisection_iter` are passed for `float` parameters.
The model covers calls with `u_0_cgs > 0`: for `u_0_cgs = 0` the source
computes `log(0) = -inf`, which no value of the field stands for. -/
def cooling_solve (m : Libm F) (rate : RateEval F)
    (cooling : cooling_function_data F) (p : part F) (phys : phys_const F)
    (n_h_i : Int) (d_n_h : F) (He_i : Int) (d_He : F) (abundance_ratio : Nat → F)
    (LambdaTune LambdaNet u_0_cgs dt_cgs ratefact : F) : solve_out F :=
  if |ratefact * LambdaNet * dt_cgs| < explicit_tolerance F * u_0_cgs then
    { u_final_cgs := u_0_cgs + ratefact * LambdaNet * dt_cgs
      explicit_path := true, bisection_flag := false
      newton_calls := 0, bisection_calls := 0, rate_evals := 0, messages := 0 }
  else
    let n := cooling_newton_stage m rate cooling p phys n_h_i d_n_h He_i d_He abundance_ratio
      LambdaTune LambdaNet u_0_cgs dt_cgs
    if n.bisection_flag ∨ ¬ cooling.newton_flag then
      let b := bisection_iter m rate (m.to_float (m.log u_0_cgs)) u_0_cgs n_h_i d_n_h He_i d_He
        (m.to_float LambdaTune) p cooling phys abundance_ratio (m.to_float dt_cgs)
      if b.value = bisection_failure F then
        { u_final_cgs := m.exp (m.log u_0_cgs)
          explicit_path := false, bisection_flag := n.bisection_flag
          newton_calls := n.newton_calls, bisection_calls := 1
          rate_evals := n.rate_evals + b.rate_evals, messages := b.messages + 1 }
      else
        { u_final_cgs := m.exp b.value
          explicit_path := false, bisection_flag := n.bisection_flag
          newton_calls := n.newton_calls, bisection_calls := 1
          rate_evals := n.rate_evals + b.rate_evals, messages := b.messages }
    else
      { u_final_cgs := m.exp n.log_u_final_cgs
        explicit_path := false, bisection_flag := n.bisection_flag
        newton_calls := n.newton_calls, bisection_calls := 0
        rate_evals := n.rate_evals, messages := 0 }

/-- Lines 228-243 of `cooling_cool_part`: the two limits on `delta_u`. -/
def cooling_clamp (u_start minimal_internal_energy delta_u : F) : F :=
  let delta_u1 :=
    if u_start + (3 / 2) * delta_u < minimal_internal_energy then
      (minimal_internal_energy - u_start) / (3 / 2)
    else delta_u
  if u_start + (5 / 2) * delta_u1 < 0 then
    -u_start / (5 / 2 + rounding_tolerance F)
  else delta_u1

/-- Local variables of `cooling_cool_part` at the end of a call that got past
the `dt == 0` test. -/
structure cool_locals (F : Type) where
  u_start : F
  hydro_du_dt : F
  u_0 : F
  u_start_cgs : F
  u_0_cgs : F
  dt_cgs : F
  ratefact : F
  LambdaTune : F
  He_i : Int
  d_He : F
  n_h_i : Int
  d_n_h : F
  abundance_ratio : Nat → F
  LambdaNet : F
  solve : solve_out F
  delta_u_cgs : F
  delta_u_raw : F
  delta_u : F
  cooling_du_dt : F

/-- Lines 123-246 of `cooling_cool_part`: everything computed before the two
stores.  The array `abundance_ratio` is declared without initial value in the
source; `abundance_ratio_to_solar` writes each of its
`chemistry_element_count + 2` entries, and the model starts it from zeros.
The three operands of line 134 are `float`s, so the product and the sum are
formed in `float` before the result is widened to the `double` `u_0`. -/
def cooling_locals (m : Libm F) (get_index_1d : IndexFn F) (rate : RateEval F)
    (phys : phys_const F) (us : unit_system F) (cosmo : cosmology F)
    (hydro_properties : hydro_props F) (cooling : cooling_function_data F)
    (p : part F) (dt dt_therm : F) : cool_locals F :=
  let u_start := p.u
  let hydro_du_dt := p.u_dt
  let u_0 := max (m.to_float (u_start + m.to_float (hydro_du_dt * dt_therm)))
    hydro_properties.minimal_internal_energy
  let u_start_cgs := u_start * cooling.internal_energy_scale
  let u_0_cgs := u_0 * cooling.internal_energy_scale
  let dt_cgs := dt * us.time_cgs
  let abundance_ratio := abundance_ratio_to_solar p cooling (fun _ => 0)
  let XH := p.smoothed_metal_mass_fraction chemistry_element_H
  let HeFrac := p.smoothed_metal_mass_fraction chemistry_element_He /
    (XH + p.smoothed_metal_mass_fraction chemistry_element_He)
  let n_h := p.rho * XH / phys.const_proton_mass * cooling.number_density_scale
  let ratefact := n_h * (XH / cooling.proton_mass_cgs)
  let LambdaTune := eagle_helium_reionization_extraheat m (cooling.z_index : F)
    (-dt * cosmo.H * cosmo.a_inv) cooling
  let He := get_index_1d cooling.HeFrac cooling.N_He HeFrac
  let nh := get_index_1d cooling.nH cooling.N_nH (m.log10 n_h)
  let He_i := He.1
  let d_He := He.2
  let n_h_i := nh.1
  let d_n_h := nh.2
  let LambdaNet := LambdaTune / (dt_cgs * ratefact) +
    (rate (m.log u_0_cgs) none n_h_i d_n_h He_i d_He abundance_ratio).1
  let solve := cooling_solve m rate cooling p phys n_h_i d_n_h He_i d_He abundance_ratio
    LambdaTune LambdaNet u_0_cgs dt_cgs ratefact
  let delta_u_cgs := solve.u_final_cgs - u_start_cgs
  let delta_u_raw := delta_u_cgs / cooling.internal_energy_scale
  let delta_u := cooling_clamp u_start hydro_properties.minimal_internal_energy delta_u_raw
  let cooling_du_dt := delta_u / dt_therm
  { u_start := u_start, hydro_du_dt := hydro_du_dt, u_0 := u_0, u_start_cgs := u_start_cgs
    u_0_cgs := u_0_cgs, dt_cgs := dt_cgs, ratefact := ratefact, LambdaTune := LambdaTune
    He_i := He_i, d_He := d_He, n_h_i := n_h_i, d_n_h := d_n_h
    abundance_ratio := abundance_ratio
    LambdaNet := LambdaNet, solve := solve, delta_u_cgs := delta_u_cgs
    delta_u_raw := delta_u_raw, delta_u := delta_u, cooling_du_dt := cooling_du_dt }

/-- What a call of `cooling_cool_part` leaves behind: the particle, the
extended particle, and counters of what the call did. -/
structure cool_out (F : Type) where
  p : part F
  xp : xpart F
  rate_evals : Nat
  newton_calls : Nat
  bisection_calls : Nat
  messages : Nat

/-- Source `cooling_cool_part` (lines 112-253). -/
def cooling_cool_part (m : Libm F) (get_index_1d : IndexFn F) (rate : RateEval F)
    (phys : phys_const F) (us : unit_system F) (cosmo : cosmology F)
    (hydro_properties : hydro_props F) (cooling : cooling_function_data F)
    (p : part F) (xp : xpart F) (dt dt_therm : F) : cool_out F :=
  if dt = 0 then
    { p := p, xp := xp, rate_evals := 0, newton_calls := 0, bisection_calls := 0, messages := 0 }
  else
    let L := cooling_locals m get_index_1d rate phys us cosmo hydro_properties cooling p dt dt_therm
    { p := { p with u_dt := L.cooling_du_dt }
      xp := { xp with radiated_energy := xp.radiated_energy - p.mass * L.cooling_du_dt * dt }
      rate_evals := 1 + L.solve.rate_evals
      newton_calls := L.solve.newton_calls
      bisection_calls := L.solve.bisection_calls
      messages := L.solve.messages }

/-! ## Concrete inputs

Small inputs on which the statements below are instantiated. -/

/-- A stand-in mathematics library over the rationals.  It is used only for
calls that end on the explicit path, where no value of `exp`, `log` or `erf`
enters the result.  Its `to_float` is the identity, a conversion without
rounding. -/
def ex_libm : Libm ℚ :=
  { exp := fun x => 1 + x + x ^ 2 / 2, log := fun x => x - 1, log10 := fun x => x - 1
    erf := fun x => x, M_SQRT2 := 14142 / 10000, M_LOG10E := 4343 / 10000
    M_LN10 := 23026 / 10000, to_float := fun x => x }

/-- The mathematics library over the reals: `m` is the real exponential,
natural and decimal logarithm, error function and the constants `sqrt 2`,
`log10 e` and `ln 10`. -/
def real_libm (m : Libm ℝ) : Prop :=
  m.exp = Real.exp ∧ m.log = Real.log ∧
  m.log10 = (fun x => Real.log x / Real.log 10) ∧
  m.erf = (fun x => 2 / Real.sqrt Real.pi * ∫ t in (0 : ℝ)..x, Real.exp (-(t ^ 2))) ∧
  m.M_SQRT2 = Real.sqrt 2 ∧ m.M_LOG10E = 1 / Real.log 10 ∧ m.M_LN10 = Real.log 10

/-- Cooling data with unit scale factors, no helium-reionization heating and a
thermal table spanning `Therm[0] = -100` to `Therm[1] = 100`. -/
def ex_cooling (F : Type) [LinearOrderedField F] (newton : Bool) : cooling_function_data F :=
  { internal_energy_scale := 1, number_density_scale := 1, proton_mass_cgs := 1
    he_reion_ev_pH := 0, he_reion_z_center := 0, he_reion_z_sigma := 1
    reionisation_redshift := 0, calcium_over_silicon_ratio := 1
    sulphur_over_silicon_ratio := 1, N_Temp := 2, N_nH := 2, N_He := 2
    Therm := fun k => if k = 0 then -100 else 100
    HeFrac := fun _ => 0, nH := fun _ => 0, SolarAbundances := fun _ => 1
    z_index := 0, dz := 0, newton_flag := newton
    N_Redshifts := 2, N_Elements := 9, Redshifts := fun _ => 0, Temp := fun k => (k : F)
    compton_rate_cgs := 0, T_CMB_0 := 0
    table := { H_plus_He_heating := fun _ => 0, H_plus_He_electron_abundance := fun _ => 0
               electron_abundance := fun _ => 1, metal_heating := fun _ => 0 } }

/-- A particle of unit mass and density with internal energy `u` and
hydrodynamic `du/dt` equal to `u_dt`; with `ex_cooling` its `ratefact` is 1. -/
def ex_part (F : Type) [LinearOrderedField F] (u u_dt : F) : part F :=
  { id := 0, u := u, u_dt := u_dt, rho := 1, mass := 1
    smoothed_metal_mass_fraction := fun _ => 1 }

/-- A rate evaluator returning the rate `lam` everywhere and adding `dlam` to
the derivative when one is requested. -/
def ex_rate (F : Type) [LinearOrderedField F] (lam dlam : F) : RateEval F :=
  fun _ d _ _ _ _ _ => (lam, d.map (fun x => x + dlam))

/-- A rate evaluator with rate `lam0` and derivative increment `d0` at the
log-energy `x0`, and rate `lam1` and derivative increment `d1` everywhere
else. -/
def ex_rate_at (F : Type) [LinearOrderedField F] (x0 lam0 lam1 d0 d1 : F) : RateEval F :=
  fun x d _ _ _ _ _ =>
    (if x = x0 then lam0 else lam1, d.map (fun y => y + (if x = x0 then d0 else d1)))

/-- An index resolver returning the first grid cell. -/
def ex_index (F : Type) [LinearOrderedField F] : IndexFn F :=
  fun _ _ _ => (0, 0)

/-- Rounding of a rational to the nearest integer, ties to the even one. -/
def round_half_even (q : ℚ) : Int :=
  if q - ⌊q⌋ < 1 / 2 then ⌊q⌋
  else if 1 / 2 < q - ⌊q⌋ then ⌊q⌋ + 1
  else if ⌊q⌋ % 2 = 0 then ⌊q⌋ else ⌊q⌋ + 1

/-- The conversion of a value to `float` over the rationals: rounding to 24
significant bits, to nearest with ties to even.  For `2^-126 ≤ |x| < 2^128`
this is the IEEE 754 binary32 value of `x`; the exponent range is not
limited here. -/
def binary32 (x : ℚ) : ℚ :=
  if x = 0 then 0
  else (round_half_even (x / 2 ^ (Int.log 2 |x| - 23)) : ℚ) * 2 ^ (Int.log 2 |x| - 23)

/-- The stand-in library `ex_libm` with the `float` conversion `binary32`. -/
def ex_libm_float : Libm ℚ :=
  { ex_libm with to_float := binary32 }

/-- The clamp stage as the specification words it: the piecewise function
with the decimal constants 1.5, 2.5 and 1e-4. -/
def clamp_piecewise (u_start u_min delta_u : F) : F :=
  let d1 := if u_start + (15 / 10) * delta_u < u_min then (u_min - u_start) / (15 / 10)
    else delta_u
  if u_start + (25 / 10) * d1 < 0 then -u_start / (25 / 10 + 1 / 10000) else d1

/-- The slot of the abundance-ratio array in which `abundance_ratio_to_solar`
stores the ratio of metal species `i` of the cooling tables, after the
orders documented at lines 656-659: table metals C, N, O, Ne, Mg, Si, S, Ca,
Fe; array H, He, C, N, O, Ne, Mg, Si, Fe, S, Ca. -/
def table_species_slot (i : Nat) : Nat :=
  if i = 6 then chemistry_element_count
  else if i = 7 then chemistry_element_count + 1
  else if i = 8 then chemistry_element_Fe
  else i + 2

/-! ## Further concrete inputs -/

/-- The example tables with a helium reionization energy of 1 per proton
mass, centred on redshift 0 with width 1. -/
def ex_cooling_he (F : Type) [LinearOrderedField F] : cooling_function_data F :=
  { ex_cooling F false with he_reion_ev_pH := 1 }

/-- A table query that ignores the offsets and returns the table entry of
the last axis index; the temperature is 0 in the first grid cell. -/
def ex_query (F : Type) [LinearOrderedField F] : TableQuery F :=
  { eagle_convert_u_to_temp := fun _ _ _ _ _ _ _ => (0, 0)
    get_index_1d := fun _ _ _ => (0, 0)
    interpolate_2d := fun t _ k _ _ _ _ => t k.toNat
    interpolate_3d := fun t _ _ k _ _ _ _ _ _ => t k.toNat
    interpolate_4d := fun t _ _ _ k _ _ _ _ _ _ _ _ => t k.toNat }

/-- Tables whose metal species `i` has the tabulated rate `i + 1`, with solar
abundances 1, sulphur over silicon 1/2 and calcium over silicon 1/4. -/
def ex_cooling_metal (F : Type) [LinearOrderedField F] : cooling_function_data F :=
  { ex_cooling F false with
    sulphur_over_silicon_ratio := 1 / 2
    calcium_over_silicon_ratio := 1 / 4
    table := { H_plus_He_heating := fun _ => 0, H_plus_He_electron_abundance := fun _ => 1
               electron_abundance := fun _ => 1, metal_heating := fun i => (i : F) + 1 } }

/-- A particle whose mass fraction of element `k` of the enum is `k + 1`. -/
def ex_part_metal (F : Type) [LinearOrderedField F] : part F :=
  { id := 0, u := 1, u_dt := 0, rho := 1, mass := 1
    smoothed_metal_mass_fraction := fun k => (k : F) + 1 }

/-! ## The parts of `bisection_iter` -/

/-- The local `ratefact` of `bisection_iter` (lines 823-828); `newton_iter`
computes the same expression (lines 737-743). -/
def bisection_ratefact (p : part F) (cooling : cooling_function_data F) (phys : phys_const F) :
    F :=
  let XH := p.smoothed_metal_mass_fraction chemistry_element_H
  let n_h := p.rho * XH / phys.const_proton_mass * cooling.number_density_scale
  n_h * (XH / cooling.proton_mass_cgs)

/-- The value `LambdaNet` that `bisection_iter` computes for the energy `u`
(lines 832-835, 842-845, 850-853, 864-867, 872-875 and 888-891). -/
def bisection_rate (m : Libm F) (rate : RateEval F)
    (n_h_i : Int) (d_n_h : F) (He_i : Int) (d_He : F)
    (He_reion_heat : F) (p : part F) (cooling : cooling_function_data F)
    (phys : phys_const F) (abundance_ratio : Nat → F) (dt : F) (u : F) : F :=
  He_reion_heat / (dt * bisection_ratefact p cooling phys) +
    (rate (m.log u) none n_h_i d_n_h He_i d_He abundance_ratio).1

/-- The residual `u - u_ini - LambdaNet * ratefact * dt` that the loops of
`bisection_iter` test (lines 846, 868 and 892), at the energy `u`. -/
def bisection_residual (m : Libm F) (rate : RateEval F)
    (u_ini : F) (n_h_i : Int) (d_n_h : F) (He_i : Int) (d_He : F)
    (He_reion_heat : F) (p : part F) (cooling : cooling_function_data F)
    (phys : phys_const F) (abundance_ratio : Nat → F) (dt : F) (u : F) : F :=
  u - u_ini -
    bisection_rate m rate n_h_i d_n_h He_i d_He He_reion_heat p cooling phys abundance_ratio dt u *
      bisection_ratefact p cooling phys * dt

/-- The bracket search of `bisection_iter` (lines 829-882) on its own: the
counter and the bracket when the `while` loop of the branch taken is left. -/
def bisection_bracket (m : Libm F) (rate : RateEval F)
    (logu_init u_ini : F) (n_h_i : Int) (d_n_h : F) (He_i : Int) (d_He : F)
    (He_reion_heat : F) (p : part F) (cooling : cooling_function_data F)
    (phys : phys_const F) (abundance_ratio : Nat → F) (dt : F) : bracket_out F :=
  let Lam : F → Option F → F × Option F :=
    fun x d => rate x d n_h_i d_n_h He_i d_He abundance_ratio
  let u_init := m.exp logu_init
  let XH := p.smoothed_metal_mass_fraction chemistry_element_H
  let n_h := p.rho * XH / phys.const_proton_mass * cooling.number_density_scale
  let ratefact := n_h * (XH / cooling.proton_mass_cgs)
  let u_lower := u_init
  let u_upper := u_init
  let LambdaNet := He_reion_heat / (dt * ratefact) + (Lam (m.log u_init) none).1
  if LambdaNet < 0 then
    let u_lower1 := u_lower / bracket_factor F
    let u_upper1 := u_upper * bracket_factor F
    let LambdaNet1 := He_reion_heat / (dt * ratefact) + (Lam (m.log u_lower1) none).1
    bracket_cool_loop m Lam u_ini He_reion_heat dt ratefact 0 u_lower1 u_upper1 LambdaNet1 2
  else
    let u_lower1 := u_lower / bracket_factor F
    let u_upper1 := u_upper * bracket_factor F
    let LambdaNet1 := He_reion_heat / (dt * ratefact) + (Lam (m.log u_upper1) none).1
    bracket_heat_loop m Lam u_ini He_reion_heat dt ratefact 0 u_lower1 u_upper1 LambdaNet1 2

/-- The bisection loop of `bisection_iter` (lines 884-900) run on the bracket
of `bisection_bracket`: the counter, the final pair and the last midpoint. -/
def bisection_final (m : Libm F) (rate : RateEval F)
    (logu_init u_ini : F) (n_h_i : Int) (d_n_h : F) (He_i : Int) (d_He : F)
    (He_reion_heat : F) (p : part F) (cooling : cooling_function_data F)
    (phys : phys_const F) (abundance_ratio : Nat → F) (dt : F) : bisect_out F :=
  let b := bisection_bracket m rate logu_init u_ini n_h_i d_n_h He_i d_He He_reion_heat p
    cooling phys abundance_ratio dt
  bisect_loop m (fun x d => rate x d n_h_i d_n_h He_i d_He abundance_ratio) u_ini He_reion_heat
    dt (bisection_ratefact p cooling phys) 0 b.u_lower b.u_upper b.rate_evals

/-! ## The Newton iterates -/

/-- The `float` local `log_table_bound_high` of `newton_iter`
(lines 732-733). -/
def newton_bound_high (m : Libm F) (cooling : cooling_function_data F) : F :=
  m.to_float ((cooling.Therm (cooling.N_Temp - 1) - 5 / 100) / m.M_LOG10E)

/-- The `float` local `log_table_bound_low` of `newton_iter`
(lines 734-735). -/
def newton_bound_low (m : Libm F) (cooling : cooling_function_data F) : F :=
  m.to_float ((cooling.Therm 0 + 5 / 100) / m.M_LOG10E)

/-- The locals `logu`, `LambdaNet` and `dLambdaNet_du` of `newton_iter` after
`k` passes of the loop body (lines 753-767), as long as no pass leaves the
loop: the start values of lines 745-751 for `k = 0`, and one more pass with
counter `i = k` for `k + 1`. -/
def newton_trace (m : Libm F) (rate : RateEval F)
    (logu_init u_ini : F) (n_h_i : Int) (d_n_h : F) (He_i : Int) (d_He : F)
    (He_reion_heat : F) (p : part F) (cooling : cooling_function_data F)
    (phys : phys_const F) (abundance_ratio : Nat → F) (dt : F) : Nat → F × F × F
  | 0 => (logu_init, 0, 0)
  | k + 1 =>
    newton_correction m (fun x d => rate x d n_h_i d_n_h He_i d_He abundance_ratio)
      u_ini He_reion_heat dt (bisection_ratefact p cooling phys) k
      (newton_trace m rate logu_init u_ini n_h_i d_n_h He_i d_He He_reion_heat p cooling phys
        abundance_ratio dt k).1
      (newton_trace m rate logu_init u_ini n_h_i d_n_h He_i d_He He_reion_heat p cooling phys
        abundance_ratio dt k).2.1
      (newton_trace m rate logu_init u_ini n_h_i d_n_h He_i d_He He_reion_heat p cooling phys
        abundance_ratio dt k).2.2

/-- The function whose root `newton_iter` looks for, as the numerator of
lines 763-764 computes it at the log-energy `x`:
`1 - u_ini exp(-x) - LambdaNet ratefact dt exp(-x)` with `LambdaNet` the
value of lines 756-759 at `x`. -/
def newton_f (m : Libm F) (Lam : F → Option F → F × Option F)
    (u_ini He_reion_heat dt ratefact : F) (x : F) : F :=
  1 - u_ini * m.exp (-x) -
    (He_reion_heat / (dt * ratefact) + (Lam x none).1) * ratefact * dt * m.exp (-x)

/-- A table query whose lookups grow with the temperature offset: the 4-D
lookup returns its last offset, the 3-D lookup one plus its last offset, the
2-D lookup 1; the temperature is 0 in the first grid cell with `dT/du = 1`. -/
def ex_query_slope (F : Type) [LinearOrderedField F] : TableQuery F :=
  { eagle_convert_u_to_temp := fun _ _ _ _ _ _ _ => (0, 1)
    get_index_1d := fun _ _ _ => (0, 0)
    interpolate_2d := fun _ _ _ _ _ _ _ => 1
    interpolate_3d := fun _ _ _ _ _ _ d3 _ _ _ => 1 + d3
    interpolate_4d := fun _ _ _ _ _ _ _ _ d4 _ _ _ _ => d4 }

/-- The value `temp_lambda` of lines 426-428 of `eagle_metal_cooling_rate`:
the Compton term, computed from the `temp` that `eagle_convert_u_to_temp`
returns and the H+He electron abundance of lines 358-360 or 386-389. -/
def eagle_compton_lambda (q : TableQuery F) (log_10_u : F)
    (n_h_i : Int) (d_n_h : F) (He_i : Int) (d_He : F)
    (p : part F) (cooling : cooling_function_data F) (cosmo : cosmology F)
    (phys : phys_const F) : F :=
  let z := cosmo.z
  let XH := p.smoothed_metal_mass_fraction chemistry_element_H
  let n_h := p.rho * XH / phys.const_proton_mass * cooling.number_density_scale
  let temp := (q.eagle_convert_u_to_temp log_10_u n_h_i He_i d_n_h d_He cooling cosmo).1
  let ti := q.get_index_1d cooling.Temp cooling.N_Temp temp
  let h_plus_he_electron_abundance :=
    (metal_free_lookups q cooling z false n_h_i d_n_h He_i d_He ti.1 ti.2).2.1
  let temp_lambda := -cooling.compton_rate_cgs * (temp - cooling.T_CMB_0 * (1 + z)) * (1 + z) *
    (1 + z) * (1 + z) * (1 + z) * h_plus_he_electron_abundance / n_h
  temp_lambda

/-- The Compton term as the specification words it, with the physical
temperature `T = 10^t = exp(M_LN10 t)` for the value `t` that the evaluator
looks up in the temperature grid. -/
def compton_lambda_physical (m : Libm F) (q : TableQuery F) (log_10_u : F)
    (n_h_i : Int) (d_n_h : F) (He_i : Int) (d_He : F)
    (p : part F) (cooling : cooling_function_data F) (cosmo : cosmology F)
    (phys : phys_const F) : F :=
  let z := cosmo.z
  let XH := p.smoothed_metal_mass_fraction chemistry_element_H
  let n_h := p.rho * XH / phys.const_proton_mass * cooling.number_density_scale
  let t := (q.eagle_convert_u_to_temp log_10_u n_h_i He_i d_n_h d_He cooling cosmo).1
  let ti := q.get_index_1d cooling.Temp cooling.N_Temp t
  let electron_abundance :=
    (metal_free_lookups q cooling z false n_h_i d_n_h He_i d_He ti.1 ti.2).2.1
  let lambda_compton := -cooling.compton_rate_cgs *
    (m.exp (m.M_LN10 * t) - cooling.T_CMB_0 * (1 + z)) * (1 + z) ^ 4 * (electron_abundance / n_h)
  lambda_compton

/-- A table query that ignores the offsets and returns the table entry of
the last axis index, with `temp = t` in the first grid cell. -/
def ex_query_temp (F : Type) [LinearOrderedField F] (t : F) : TableQuery F :=
  { eagle_convert_u_to_temp := fun _ _ _ _ _ _ _ => (t, 0)
    get_index_1d := fun _ _ _ => (0, 0)
    interpolate_2d := fun t _ k _ _ _ _ => t k.toNat
    interpolate_3d := fun t _ _ k _ _ _ _ _ _ => t k.toNat
    interpolate_4d := fun t _ _ _ k _ _ _ _ _ _ _ _ => t k.toNat }

/-- The example metal tables with Compton coefficient 1, a CMB temperature
of 2.725 and the reionisation redshift -1, so that at `z = 0` the Compton
term is active. -/
def ex_cooling_compton (F : Type) [LinearOrderedField F] : cooling_function_data F :=
  { ex_cooling_metal F with
    compton_rate_cgs := 1, T_CMB_0 := 2725 / 1000, reionisation_redshift := -1 }

/-- The net rate of steps 2-4 at the temperature offset `t`: the rate that
`eagle_metal_cooling_rate` returns when the offset `d_temp` found by
`get_index_1d` is replaced by `t` (same grid cell `temp_i`). -/
def eagle_rate_at_offset (m : Libm F) (q : TableQuery F) (log_10_u : F)
    (n_h_i : Int) (d_n_h : F) (He_i : Int) (d_He : F)
    (p : part F) (cooling : cooling_function_data F) (cosmo : cosmology F)
    (phys : phys_const F) (solar_ratio : Nat → F) (t : F) : F :=
  (eagle_metal_cooling_rate m
    { q with get_index_1d := fun g n x => ((q.get_index_1d g n x).1, t) }
    log_10_u none n_h_i d_n_h He_i d_He p cooling cosmo phys none solar_ratio).cooling_rate

/-- The Compton term inside `eagle_rate_at_offset`: the value of lines
426-428 at the temperature offset `t` when the test of lines 423-424 holds,
and 0 otherwise. -/
def eagle_compton_at_offset (q : TableQuery F) (log_10_u : F)
    (n_h_i : Int) (d_n_h : F) (He_i : Int) (d_He : F)
    (p : part F) (cooling : cooling_function_data F) (cosmo : cosmology F)
    (phys : phys_const F) (t : F) : F :=
  if cosmo.z > cooling.Redshifts (cooling.N_Redshifts - 1) ∨
      cosmo.z > cooling.reionisation_redshift then
    eagle_compton_lambda { q with get_index_1d := fun g n x => ((q.get_index_1d g n x).1, t) }
      log_10_u n_h_i d_n_h He_i d_He p cooling cosmo phys
  else 0

/-- A table query in the middle of the first grid cell (`temp = 1/2`,
`d_temp = 1/2`, `dT/du = 1`) whose 3-D lookups grow linearly with their last
offset. -/
def ex_query_offset (F : Type) [LinearOrderedField F] : TableQuery F :=
  { eagle_convert_u_to_temp := fun _ _ _ _ _ _ _ => (1 / 2, 1)
    get_index_1d := fun _ _ _ => (0, 1 / 2)
    interpolate_2d := fun _ _ _ _ _ _ _ => 1
    interpolate_3d := fun _ _ _ _ _ _ d3 _ _ _ => 1 + d3
    interpolate_4d := fun _ _ _ _ _ _ _ _ d4 _ _ _ _ => d4 }

/-- The example tables with Compton coefficient 1 and a CMB temperature
of 1. -/
def ex_cooling_cmb (F : Type) [LinearOrderedField F] : cooling_function_data F :=
  { ex_cooling F true with compton_rate_cgs := 1, T_CMB_0 := 1 }

/-- Modelled from the spec: `get_redshift_index` of interpolate.h (not part
of the sources) as `cooling_update` calls it: from the redshift, the values
behind the pointers `z_index` and `dz` on entry and the cooling data to the
values behind the two pointers afterwards. -/
def RedshiftIndexFn (F : Type) : Type :=
  F → Int → F → cooling_function_data F → Int × F

/-- Lines 79-93 of `cooling_update`: the redshift bracket is resolved and
stored in `cooling->z_index` and `cooling->dz`.  The local `redshift` is a
`float` (line 80), so `cosmo->z` is narrowed before the two tests and before
the call of `get_redshift_index`. -/
def cooling_update_bracket (m : Libm F) (get_redshift_index : RedshiftIndexFn F)
    (cosmo : cosmology F) (cooling : cooling_function_data F) : cooling_function_data F :=
  let redshift := m.to_float cosmo.z
  let z_index : Int := -1
  let dz : F := 0
  let r : Int × F :=
    if redshift > cooling.reionisation_redshift then (-2, dz)
    else if redshift > cooling.Redshifts (cooling.N_Redshifts - 1) then (-1, dz)
    else get_redshift_index redshift z_index dz cooling
  { cooling with z_index := r.1, dz := r.2 }

/-- Source `cooling_update` (lines 76-96).  Modelled from the spec:
`eagle_check_cooling_tables` of eagle_cool_tables.h (not part of the sources)
is the parameter of the same name, from the cooling data and the restart
flag to the cooling data afterwards. -/
def cooling_update (m : Libm F)
    (get_redshift_index : RedshiftIndexFn F)
    (eagle_check_cooling_tables : cooling_function_data F → Int → cooling_function_data F)
    (cosmo : cosmology F) (cooling : cooling_function_data F) (restart_flag : Int) :
    cooling_function_data F :=
  eagle_check_cooling_tables (cooling_update_bracket m get_redshift_index cosmo cooling)
    restart_flag

/-- A redshift index resolver that leaves both pointers as they are. -/
def ex_redshift_index (F : Type) [LinearOrderedField F] : RedshiftIndexFn F :=
  fun _ z_index dz _ => (z_index, dz)

/-- A table query whose 2-D and 3-D lookups return 1 and whose 4-D lookups
return `x`. -/
def ex_query_blend (F : Type) [LinearOrderedField F] (x : F) : TableQuery F :=
  { eagle_convert_u_to_temp := fun _ _ _ _ _ _ _ => (0, 0)
    get_index_1d := fun _ _ _ => (0, 0)
    interpolate_2d := fun _ _ _ _ _ _ _ => 1
    interpolate_3d := fun _ _ _ _ _ _ _ _ _ _ => 1
    interpolate_4d := fun _ _ _ _ _ _ _ _ _ _ _ _ _ => x }

/-- The example tables with the reionisation redshift 5 below a redshift
grid that ends at 9. -/
def ex_cooling_late_reion (F : Type) [LinearOrderedField F] : cooling_function_data F :=
  { ex_cooling F false with reionisation_redshift := 5, Redshifts := fun _ => 9 }

/-- Source `random_uniform` (tests/testPair.c, lines 30-32).  `rand` is the
value the call of `rand()` returns and `RAND_MAX` the constant of stdlib.h;
the conversion of both to `double` is the cast into `F`. -/
def random_uniform (rand RAND_MAX : Nat) (a b : F) : F :=
  ((rand : F) / (RAND_MAX : F)) * (a - b) + a

/-- Fields of `struct gpart` that the particle-particle gravity kernels of
gravity/Default/gravity_iact.h read and write; `a_grav` is an array of three
entries. -/
structure gpart (F : Type) where
  mass : F
  epsilon : F
  a_grav : Nat → F
  mass_interacted : F

/-- Source `runner_iact_grav_pp` (gravity_iact.h, lines 32-85): the two
particles after the call, for pointers to two different particles.  Every
variable of the function and every field it reads or writes is a `float`, so
each product, quotient, sum and difference is rounded by `to_float`.
`sqrtf` is the C library's; `kernel_grav_eval u` is the value that
`kernel_grav_eval(u, &W)` of kernel_gravity.h (not part of the sources)
stores in `W`. -/
def runner_iact_grav_pp (to_float sqrtf kernel_grav_eval : F → F) (r2 : F) (dx : Nat → F)
    (gpi gpj : gpart F) : gpart F × gpart F :=
  let r := sqrtf r2
  let ir := to_float (1 / r)
  let mi := gpi.mass
  let mj := gpj.mass
  let hi := gpi.epsilon
  let hi_inv := to_float (1 / hi)
  let hi_inv3 := to_float (to_float (hi_inv * hi_inv) * hi_inv)
  let hj := gpj.epsilon
  let hj_inv := to_float (1 / hj)
  let hj_inv3 := to_float (to_float (hj_inv * hj_inv) * hj_inv)
  let ui := to_float (r * hi_inv)
  let uj := to_float (r * hj_inv)
  let fi :=
    if r ≥ hi then to_float (to_float (to_float (mj * ir) * ir) * ir)
    else to_float (to_float (mj * hi_inv3) * kernel_grav_eval ui)
  let fj :=
    if r ≥ hj then to_float (to_float (to_float (mi * ir) * ir) * ir)
    else to_float (to_float (mi * hj_inv3) * kernel_grav_eval uj)
  let fidx : Nat → F := fun k => to_float (fi * dx k)
  let ai0 := Function.update gpi.a_grav 0 (to_float (gpi.a_grav 0 - fidx 0))
  let ai1 := Function.update ai0 1 (to_float (ai0 1 - fidx 1))
  let ai2 := Function.update ai1 2 (to_float (ai1 2 - fidx 2))
  let fjdx : Nat → F := fun k => to_float (fj * dx k)
  let aj0 := Function.update gpj.a_grav 0 (to_float (gpj.a_grav 0 + fjdx 0))
  let aj1 := Function.update aj0 1 (to_float (aj0 1 + fjdx 1))
  let aj2 := Function.update aj1 2 (to_float (aj1 2 + fjdx 2))
  ({ gpi with a_grav := ai2, mass_interacted := to_float (gpi.mass_interacted + mj) },
    { gpj with a_grav := aj2, mass_interacted := to_float (gpj.mass_interacted + mi) })

/-- Source `runner_iact_grav_pp_nonsym` (gravity_iact.h, lines 90-121): the
two particles after the call; `gpj` is a pointer to `const` and is returned
as it came. -/
def runner_iact_grav_pp_nonsym (to_float sqrtf kernel_grav_eval : F → F) (r2 : F)
    (dx : Nat → F) (gpi gpj : gpart F) : gpart F × gpart F :=
  let r := sqrtf r2
  let ir := to_float (1 / r)
  let mj := gpj.mass
  let hi := gpi.epsilon
  let hi_inv := to_float (1 / hi)
  let hi_inv3 := to_float (to_float (hi_inv * hi_inv) * hi_inv)
  let ui := to_float (r * hi_inv)
  let f :=
    if r ≥ hi then to_float (to_float (to_float (mj * ir) * ir) * ir)
    else to_float (to_float (mj * hi_inv3) * kernel_grav_eval ui)
  let fdx : Nat → F := fun k => to_float (f * dx k)
  let a0 := Function.update gpi.a_grav 0 (to_float (gpi.a_grav 0 - fdx 0))
  let a1 := Function.update a0 1 (to_float (a0 1 - fdx 1))
  let a2 := Function.update a1 2 (to_float (a1 2 - fdx 2))
  ({ gpi with a_grav := a2, mass_interacted := to_float (gpi.mass_interacted + mj) }, gpj)

/-- The rate evaluator with the edge case of the specification: a
temperature bin of zero width (`Temp[temp_i + 1] = Temp[temp_i]`) is a fatal
error, here `none`; every other call is `eagle_metal_cooling_rate`. -/
def eagle_metal_cooling_rate_guarded (m : Libm F) (q : TableQuery F) (log_10_u : F)
    (dlambda_du : Option F) (n_h_i : Int) (d_n_h : F) (He_i : Int) (d_He : F)
    (p : part F) (cooling : cooling_function_data F) (cosmo : cosmology F)
    (phys : phys_const F) (element_lambda : Option (Nat → F)) (solar_ratio : Nat → F) :
    Option (metal_rate_out F) :=
  let temp := (q.eagle_convert_u_to_temp log_10_u n_h_i He_i d_n_h d_He cooling cosmo).1
  let temp_i := (q.get_index_1d cooling.Temp cooling.N_Temp temp).1
  if cooling.Temp (temp_i + 1).toNat = cooling.Temp temp_i.toNat then none
  else some (eagle_metal_cooling_rate m q log_10_u dlambda_du n_h_i d_n_h He_i d_He p cooling
    cosmo phys element_lambda solar_ratio)

/-- The example tables with a temperature grid whose entries are all 0. -/
def ex_cooling_flat (F : Type) [LinearOrderedField F] : cooling_function_data F :=
  { ex_cooling F true with Temp := fun _ => 0 }

/-! ## The two limits on `delta_u` -/

theorem clamp_first (u_start u_min : F) :
    (u_min - u_start) / (3 / 2) = (2 / 3) * (u_min - u_start) := by
  ring

theorem clamp_second (u_start : F) :
    -u_start / (5 / 2 + rounding_tolerance F) = -(10000 / 25001) * u_start := by
  unfold rounding_tolerance
  ring

/-! ## The conversion to `float` -/

theorem round_half_even_error (q : ℚ) : |(round_half_even q : ℚ) - q| ≤ 1 / 2 := by
  have h1 := Int.floor_le q
  have h2 := Int.lt_floor_add_one q
  unfold round_half_even
  split_ifs with a b c
  · rw [abs_le]; constructor <;> linarith
  · push_cast
    rw [abs_le]; constructor <;> linarith
  · rw [abs_le]; constructor <;> linarith
  · push_cast
    rw [abs_le]; constructor <;> linarith

theorem round_half_even_eq (q : ℚ) (k : Int) (h : |q - k| < 1 / 2) : round_half_even q = k := by
  have h0 := round_half_even_error q
  rw [abs_lt] at h
  rw [abs_le] at h0
  have h3 : |((round_half_even q - k : Int) : ℚ)| < 1 := by
    push_cast
    rw [abs_lt]
    constructor <;> linarith [h.1, h.2, h0.1, h0.2]
  have h4 : |round_half_even q - k| < 1 := by exact_mod_cast h3
  have h5 := Int.abs_lt_one_iff.mp h4
  omega

theorem binary32_error (x : ℚ) : |binary32 x - x| ≤ |x| / 2 ^ 24 := by
  unfold binary32
  split_ifs with h0
  · simp [h0]
  · have hx : 0 < |x| := abs_pos.mpr h0
    have hp : (0 : ℚ) < 2 ^ (Int.log 2 |x| - 23) := zpow_pos (by norm_num) _
    have hle : (2 : ℚ) ^ (Int.log 2 |x|) ≤ |x| := by
      have := Int.zpow_log_le_self (b := 2) (r := |x|) (by norm_num) hx
      exact_mod_cast this
    have he := round_half_even_error (x / 2 ^ (Int.log 2 |x| - 23))
    have e1 : (round_half_even (x / 2 ^ (Int.log 2 |x| - 23)) : ℚ) * 2 ^ (Int.log 2 |x| - 23) - x =
        ((round_half_even (x / 2 ^ (Int.log 2 |x| - 23)) : ℚ) - x / 2 ^ (Int.log 2 |x| - 23)) *
          2 ^ (Int.log 2 |x| - 23) := by
      field_simp
    rw [e1, abs_mul, abs_of_pos hp]
    have e2 : (2 : ℚ) ^ (Int.log 2 |x| - 23) = 2 ^ (Int.log 2 |x|) / 2 ^ 23 := by
      rw [zpow_sub₀ (by norm_num)]
      norm_num
    calc |(round_half_even (x / 2 ^ (Int.log 2 |x| - 23)) : ℚ) - x / 2 ^ (Int.log 2 |x| - 23)| *
          2 ^ (Int.log 2 |x| - 23)
        ≤ 1 / 2 * 2 ^ (Int.log 2 |x| - 23) := mul_le_mul_of_nonneg_right he hp.le
      _ = 2 ^ (Int.log 2 |x|) / 2 ^ 24 := by rw [e2]; ring
      _ ≤ |x| / 2 ^ 24 := div_le_div_of_nonneg_right hle (by norm_num)

/-- Evaluation of `binary32`: a value between `2^e` and `2^(e+1)` that lies
closer than half a unit in the last place to `k 2^(e-23)` is rounded to it. -/
theorem binary32_eq (x : ℚ) (e k : Int) (h1 : (2 : ℚ) ^ e ≤ |x|) (h2 : |x| < 2 ^ (e + 1))
    (hk : |x / 2 ^ (e - 23) - k| < 1 / 2) : binary32 x = k * 2 ^ (e - 23) := by
  have hx : 0 < |x| := lt_of_lt_of_le (zpow_pos (by norm_num) _) h1
  have h0 : x ≠ 0 := abs_pos.mp hx
  have hlog : Int.log 2 |x| = e := by
    have a1 : e ≤ Int.log 2 |x| := (Int.zpow_le_iff_le_log (b := 2) (by norm_num) hx).mp
      (by exact_mod_cast h1)
    have a2 : Int.log 2 |x| < e + 1 := (Int.lt_zpow_iff_log_lt (b := 2) (by norm_num) hx).mp
      (by exact_mod_cast h2)
    omega
  unfold binary32
  rw [if_neg h0, hlog, round_half_even_eq _ k hk]

theorem binary32_five_plus : binary32 (5 + 1 / 2 ^ 30) = 5 := by
  have h := binary32_eq (5 + 1 / 2 ^ 30) 2 (5 * 2 ^ 21) (by norm_num [abs_of_pos])
    (by norm_num [abs_of_pos]) (by norm_num [abs_of_pos])
  rw [h]
  norm_num

theorem binary32_third : binary32 (1 / 3) = 11184811 / 2 ^ 25 := by
  have h := binary32_eq (1 / 3) (-2) 11184811 (by norm_num [abs_of_pos])
    (by norm_num [abs_of_pos]) (by norm_num [abs_of_pos])
  rw [h]
  norm_num

theorem cooling_solve_explicit (m : Libm F) (rate : RateEval F)
    (cooling : cooling_function_data F) (p : part F) (phys : phys_const F)
    (n_h_i : Int) (d_n_h : F) (He_i : Int) (d_He : F) (abundance_ratio : Nat → F)
    (LambdaTune LambdaNet u_0_cgs dt_cgs ratefact : F)
    (h : |ratefact * LambdaNet * dt_cgs| < explicit_tolerance F * u_0_cgs) :
    cooling_solve m rate cooling p phys n_h_i d_n_h He_i d_He abundance_ratio
      LambdaTune LambdaNet u_0_cgs dt_cgs ratefact =
    { u_final_cgs := u_0_cgs + ratefact * LambdaNet * dt_cgs
      explicit_path := true, bisection_flag := false
      newton_calls := 0, bisection_calls := 0, rate_evals := 0, messages := 0 } := by
  rw [cooling_solve, if_pos h]

theorem cooling_solve_explicit_path (m : Libm F) (rate : RateEval F)
    (cooling : cooling_function_data F) (p : part F) (phys : phys_const F)
    (n_h_i : Int) (d_n_h : F) (He_i : Int) (d_He : F) (abundance_ratio : Nat → F)
    (LambdaTune LambdaNet u_0_cgs dt_cgs ratefact : F) :
    (cooling_solve m rate cooling p phys n_h_i d_n_h He_i d_He abundance_ratio
      LambdaTune LambdaNet u_0_cgs dt_cgs ratefact).explicit_path = true ↔
    |ratefact * LambdaNet * dt_cgs| < explicit_tolerance F * u_0_cgs := by
  unfold cooling_solve
  simp only
  split_ifs with h1 h2 h3 <;> simp [h1]

theorem cooling_solve_flag (m : Libm F) (rate : RateEval F)
    (cooling : cooling_function_data F) (p : part F) (phys : phys_const F)
    (n_h_i : Int) (d_n_h : F) (He_i : Int) (d_He : F) (abundance_ratio : Nat → F)
    (LambdaTune LambdaNet u_0_cgs dt_cgs ratefact : F)
    (h : ¬ |ratefact * LambdaNet * dt_cgs| < explicit_tolerance F * u_0_cgs) :
    (cooling_solve m rate cooling p phys n_h_i d_n_h He_i d_He abundance_ratio
      LambdaTune LambdaNet u_0_cgs dt_cgs ratefact).bisection_flag =
    (cooling_newton_stage m rate cooling p phys n_h_i d_n_h He_i d_He abundance_ratio
      LambdaTune LambdaNet u_0_cgs dt_cgs).bisection_flag := by
  rw [cooling_solve, if_neg h]
  simp only
  split_ifs <;> rfl

theorem cooling_solve_newton_calls (m : Libm F) (rate : RateEval F)
    (cooling : cooling_function_data F) (p : part F) (phys : phys_const F)
    (n_h_i : Int) (d_n_h : F) (He_i : Int) (d_He : F) (abundance_ratio : Nat → F)
    (LambdaTune LambdaNet u_0_cgs dt_cgs ratefact : F)
    (h : ¬ |ratefact * LambdaNet * dt_cgs| < explicit_tolerance F * u_0_cgs) :
    (cooling_solve m rate cooling p phys n_h_i d_n_h He_i d_He abundance_ratio
      LambdaTune LambdaNet u_0_cgs dt_cgs ratefact).newton_calls =
    (cooling_newton_stage m rate cooling p phys n_h_i d_n_h He_i d_He abundance_ratio
      LambdaTune LambdaNet u_0_cgs dt_cgs).newton_calls := by
  rw [cooling_solve, if_neg h]
  simp only
  split_ifs <;> rfl

theorem cooling_solve_bisection (m : Libm F) (rate : RateEval F)
    (cooling : cooling_function_data F) (p : part F) (phys : phys_const F)
    (n_h_i : Int) (d_n_h : F) (He_i : Int) (d_He : F) (abundance_ratio : Nat → F)
    (LambdaTune LambdaNet u_0_cgs dt_cgs ratefact : F)
    (h : ¬ |ratefact * LambdaNet * dt_cgs| < explicit_tolerance F * u_0_cgs)
    (hrun : (cooling_newton_stage m rate cooling p phys n_h_i d_n_h He_i d_He abundance_ratio
      LambdaTune LambdaNet u_0_cgs dt_cgs).bisection_flag = true ∨ cooling.newton_flag = false) :
    (cooling_solve m rate cooling p phys n_h_i d_n_h He_i d_He abundance_ratio
      LambdaTune LambdaNet u_0_cgs dt_cgs ratefact).u_final_cgs =
      (if (bisection_iter m rate (m.to_float (m.log u_0_cgs)) u_0_cgs n_h_i d_n_h He_i d_He (m.to_float LambdaTune)
          p cooling phys abundance_ratio (m.to_float dt_cgs)).value = bisection_failure F
       then m.exp (m.log u_0_cgs)
       else m.exp (bisection_iter m rate (m.to_float (m.log u_0_cgs)) u_0_cgs n_h_i d_n_h He_i d_He
          (m.to_float LambdaTune) p cooling phys abundance_ratio (m.to_float dt_cgs)).value) ∧
    (cooling_solve m rate cooling p phys n_h_i d_n_h He_i d_He abundance_ratio
      LambdaTune LambdaNet u_0_cgs dt_cgs ratefact).bisection_calls = 1 := by
  have hc : (cooling_newton_stage m rate cooling p phys n_h_i d_n_h He_i d_He abundance_ratio
      LambdaTune LambdaNet u_0_cgs dt_cgs).bisection_flag = true ∨ ¬ cooling.newton_flag = true := by
    rcases hrun with h1 | h1
    · exact Or.inl h1
    · exact Or.inr (by simp [h1])
  rw [cooling_solve, if_neg h]
  simp only
  rw [if_pos hc]
  split_ifs <;> exact ⟨rfl, rfl⟩

theorem cooling_solve_no_bisection (m : Libm F) (rate : RateEval F)
    (cooling : cooling_function_data F) (p : part F) (phys : phys_const F)
    (n_h_i : Int) (d_n_h : F) (He_i : Int) (d_He : F) (abundance_ratio : Nat → F)
    (LambdaTune LambdaNet u_0_cgs dt_cgs ratefact : F)
    (h : ¬ |ratefact * LambdaNet * dt_cgs| < explicit_tolerance F * u_0_cgs)
    (hrun : ¬ ((cooling_newton_stage m rate cooling p phys n_h_i d_n_h He_i d_He abundance_ratio
      LambdaTune LambdaNet u_0_cgs dt_cgs).bisection_flag = true ∨ cooling.newton_flag = false)) :
    (cooling_solve m rate cooling p phys n_h_i d_n_h He_i d_He abundance_ratio
      LambdaTune LambdaNet u_0_cgs dt_cgs ratefact).u_final_cgs =
      m.exp (cooling_newton_stage m rate cooling p phys n_h_i d_n_h He_i d_He abundance_ratio
        LambdaTune LambdaNet u_0_cgs dt_cgs).log_u_final_cgs ∧
    (cooling_solve m rate cooling p phys n_h_i d_n_h He_i d_He abundance_ratio
      LambdaTune LambdaNet u_0_cgs dt_cgs ratefact).bisection_calls = 0 := by
  have hc : ¬ ((cooling_newton_stage m rate cooling p phys n_h_i d_n_h He_i d_He abundance_ratio
      LambdaTune LambdaNet u_0_cgs dt_cgs).bisection_flag = true ∨ ¬ cooling.newton_flag = true) := by
    intro h1
    apply hrun
    rcases h1 with h1 | h1
    · exact Or.inl h1
    · exact Or.inr (by simpa using h1)
  rw [cooling_solve, if_neg h]
  simp only
  rw [if_neg hc]
  exact ⟨rfl, rfl⟩

theorem cooling_solve_bisection_failed (m : Libm F) (rate : RateEval F)
    (cooling : cooling_function_data F) (p : part F) (phys : phys_const F)
    (n_h_i : Int) (d_n_h : F) (He_i : Int) (d_He : F) (abundance_ratio : Nat → F)
    (LambdaTune LambdaNet u_0_cgs dt_cgs ratefact : F)
    (h : ¬ |ratefact * LambdaNet * dt_cgs| < explicit_tolerance F * u_0_cgs)
    (hrun : (cooling_newton_stage m rate cooling p phys n_h_i d_n_h He_i d_He abundance_ratio
      LambdaTune LambdaNet u_0_cgs dt_cgs).bisection_flag = true ∨ cooling.newton_flag = false)
    (hfail : (bisection_iter m rate (m.to_float (m.log u_0_cgs)) u_0_cgs n_h_i d_n_h He_i d_He (m.to_float LambdaTune)
      p cooling phys abundance_ratio (m.to_float dt_cgs)).value = bisection_failure F) :
    (cooling_solve m rate cooling p phys n_h_i d_n_h He_i d_He abundance_ratio
      LambdaTune LambdaNet u_0_cgs dt_cgs ratefact).u_final_cgs = m.exp (m.log u_0_cgs) ∧
    1 ≤ (cooling_solve m rate cooling p phys n_h_i d_n_h He_i d_He abundance_ratio
      LambdaTune LambdaNet u_0_cgs dt_cgs ratefact).messages := by
  have hc : (cooling_newton_stage m rate cooling p phys n_h_i d_n_h He_i d_He abundance_ratio
      LambdaTune LambdaNet u_0_cgs dt_cgs).bisection_flag = true ∨ ¬ cooling.newton_flag = true := by
    rcases hrun with h1 | h1
    · exact Or.inl h1
    · exact Or.inr (by simp [h1])
  rw [cooling_solve, if_neg h]
  simp only
  rw [if_pos hc, if_pos hfail]
  exact ⟨rfl, Nat.le_add_left 1 _⟩

theorem cooling_solve_calls (m : Libm F) (rate : RateEval F)
    (cooling : cooling_function_data F) (p : part F) (phys : phys_const F)
    (n_h_i : Int) (d_n_h : F) (He_i : Int) (d_He : F) (abundance_ratio : Nat → F)
    (LambdaTune LambdaNet u_0_cgs dt_cgs ratefact : F) :
    ((cooling_solve m rate cooling p phys n_h_i d_n_h He_i d_He abundance_ratio
        LambdaTune LambdaNet u_0_cgs dt_cgs ratefact).explicit_path = false →
      ((cooling_solve m rate cooling p phys n_h_i d_n_h He_i d_He abundance_ratio
        LambdaTune LambdaNet u_0_cgs dt_cgs ratefact).bisection_calls = 1 ↔
        (cooling.newton_flag = false ∨
         (cooling_solve m rate cooling p phys n_h_i d_n_h He_i d_He abundance_ratio
          LambdaTune LambdaNet u_0_cgs dt_cgs ratefact).bisection_flag = true))) ∧
    ((cooling_solve m rate cooling p phys n_h_i d_n_h He_i d_He abundance_ratio
        LambdaTune LambdaNet u_0_cgs dt_cgs ratefact).explicit_path = true →
      (cooling_solve m rate cooling p phys n_h_i d_n_h He_i d_He abundance_ratio
        LambdaTune LambdaNet u_0_cgs dt_cgs ratefact).bisection_calls = 0) := by
  by_cases h : |ratefact * LambdaNet * dt_cgs| < explicit_tolerance F * u_0_cgs
  · rw [cooling_solve_explicit _ _ _ _ _ _ _ _ _ _ _ _ _ _ _ h]
    simp
  · have hex : (cooling_solve m rate cooling p phys n_h_i d_n_h He_i d_He abundance_ratio
        LambdaTune LambdaNet u_0_cgs dt_cgs ratefact).explicit_path ≠ true := fun h2 =>
      h ((cooling_solve_explicit_path _ _ _ _ _ _ _ _ _ _ _ _ _ _ _).1 h2)
    refine ⟨fun _ => ?_, fun h2 => absurd h2 hex⟩
    rw [cooling_solve_flag _ _ _ _ _ _ _ _ _ _ _ _ _ _ _ h]
    constructor
    · intro hb
      by_contra hc
      have := (cooling_solve_no_bisection _ _ _ _ _ _ _ _ _ _ _ _ _ _ _ h
        (fun h3 => hc (Or.symm h3))).2
      omega
    · intro hb
      exact (cooling_solve_bisection _ _ _ _ _ _ _ _ _ _ _ _ _ _ _ h (Or.symm hb)).2

theorem bisection_iter_newton_flag (m : Libm F) (rate : RateEval F)
    (logu_init u_ini : F) (n_h_i : Int) (d_n_h : F) (He_i : Int) (d_He : F)
    (He_reion_heat : F) (p : part F) (cooling : cooling_function_data F)
    (phys : phys_const F) (abundance_ratio : Nat → F) (dt : F) (b : Bool) :
    bisection_iter m rate logu_init u_ini n_h_i d_n_h He_i d_He He_reion_heat p
      { cooling with newton_flag := b } phys abundance_ratio dt =
    bisection_iter m rate logu_init u_ini n_h_i d_n_h He_i d_He He_reion_heat p
      cooling phys abundance_ratio dt := rfl

theorem cooling_solve_newton_flag (m : Libm F) (rate : RateEval F)
    (cooling : cooling_function_data F) (p : part F) (phys : phys_const F)
    (n_h_i : Int) (d_n_h : F) (He_i : Int) (d_He : F) (abundance_ratio : Nat → F)
    (LambdaTune LambdaNet u_0_cgs dt_cgs ratefact : F)
    (hflag : (cooling_solve m rate { cooling with newton_flag := true } p phys n_h_i d_n_h
      He_i d_He abundance_ratio LambdaTune LambdaNet u_0_cgs dt_cgs ratefact).bisection_flag
        = true) :
    (cooling_solve m rate { cooling with newton_flag := true } p phys n_h_i d_n_h
      He_i d_He abundance_ratio LambdaTune LambdaNet u_0_cgs dt_cgs ratefact).u_final_cgs =
    (cooling_solve m rate { cooling with newton_flag := false } p phys n_h_i d_n_h
      He_i d_He abundance_ratio LambdaTune LambdaNet u_0_cgs dt_cgs ratefact).u_final_cgs := by
  by_cases h : |ratefact * LambdaNet * dt_cgs| < explicit_tolerance F * u_0_cgs
  · rw [cooling_solve_explicit _ _ _ _ _ _ _ _ _ _ _ _ _ _ _ h] at hflag
    simp at hflag
  · rw [cooling_solve_flag _ _ _ _ _ _ _ _ _ _ _ _ _ _ _ h] at hflag
    rw [(cooling_solve_bisection _ _ _ _ _ _ _ _ _ _ _ _ _ _ _ h (Or.inl hflag)).1,
      (cooling_solve_bisection m rate { cooling with newton_flag := false } _ _ _ _ _ _ _ _ _ _
        _ _ h (Or.inr rfl)).1]
    simp only [bisection_iter_newton_flag]

theorem cooling_newton_stage_first (m : Libm F) (rate : RateEval F)
    (cooling : cooling_function_data F) (p : part F) (phys : phys_const F)
    (n_h_i : Int) (d_n_h : F) (He_i : Int) (d_He : F) (abundance_ratio : Nat → F)
    (LambdaTune LambdaNet u_0_cgs dt_cgs : F)
    (hcool : LambdaNet < 0)
    (h1 : (cooling_newton_stage m rate cooling p phys n_h_i d_n_h He_i d_He abundance_ratio
      LambdaTune LambdaNet u_0_cgs dt_cgs).newton_calls = 1) :
    (cooling_newton_stage m rate cooling p phys n_h_i d_n_h He_i d_He abundance_ratio
      LambdaTune LambdaNet u_0_cgs dt_cgs).log_u_final_cgs ≤ m.log u_0_cgs := by
  unfold cooling_newton_stage at h1 ⊢
  simp only at h1 ⊢
  by_cases hn : cooling.newton_flag = true
  · rw [if_pos hn] at h1 ⊢
    by_cases hr : LambdaNet < 0 ∧
        (newton_iter m rate (m.to_float (m.log u_0_cgs)) u_0_cgs n_h_i d_n_h He_i d_He (m.to_float LambdaTune)
          p cooling phys abundance_ratio (m.to_float dt_cgs) false).value > m.log u_0_cgs
    · rw [if_pos hr] at h1
      simp at h1
    · rw [if_neg hr]
      by_contra hc
      exact hr ⟨hcool, lt_of_not_le hc⟩
  · rw [if_neg hn] at h1
    simp at h1

theorem cooling_solve_first_newton (m : Libm F) (rate : RateEval F)
    (cooling : cooling_function_data F) (p : part F) (phys : phys_const F)
    (n_h_i : Int) (d_n_h : F) (He_i : Int) (d_He : F) (abundance_ratio : Nat → F)
    (LambdaTune LambdaNet u_0_cgs dt_cgs ratefact : F)
    (hmono : ∀ x y, x ≤ y → m.exp x ≤ m.exp y)
    (hcool : LambdaNet < 0)
    (h1 : (cooling_solve m rate cooling p phys n_h_i d_n_h He_i d_He abundance_ratio
      LambdaTune LambdaNet u_0_cgs dt_cgs ratefact).newton_calls = 1)
    (h0 : (cooling_solve m rate cooling p phys n_h_i d_n_h He_i d_He abundance_ratio
      LambdaTune LambdaNet u_0_cgs dt_cgs ratefact).bisection_calls = 0) :
    (cooling_solve m rate cooling p phys n_h_i d_n_h He_i d_He abundance_ratio
      LambdaTune LambdaNet u_0_cgs dt_cgs ratefact).u_final_cgs ≤ m.exp (m.log u_0_cgs) := by
  by_cases h : |ratefact * LambdaNet * dt_cgs| < explicit_tolerance F * u_0_cgs
  · rw [cooling_solve_explicit _ _ _ _ _ _ _ _ _ _ _ _ _ _ _ h] at h1
    simp at h1
  · by_cases hrun : (cooling_newton_stage m rate cooling p phys n_h_i d_n_h He_i d_He
        abundance_ratio LambdaTune LambdaNet u_0_cgs dt_cgs).bisection_flag = true ∨
        cooling.newton_flag = false
    · rw [(cooling_solve_bisection _ _ _ _ _ _ _ _ _ _ _ _ _ _ _ h hrun).2] at h0
      simp at h0
    · rw [cooling_solve_newton_calls _ _ _ _ _ _ _ _ _ _ _ _ _ _ _ h] at h1
      rw [(cooling_solve_no_bisection _ _ _ _ _ _ _ _ _ _ _ _ _ _ _ h hrun).1]
      exact hmono _ _ (cooling_newton_stage_first _ _ _ _ _ _ _ _ _ _ _ _ _ _ hcool h1)

theorem cooling_solve_explicit_direction (m : Libm F) (rate : RateEval F)
    (cooling : cooling_function_data F) (p : part F) (phys : phys_const F)
    (n_h_i : Int) (d_n_h : F) (He_i : Int) (d_He : F) (abundance_ratio : Nat → F)
    (LambdaTune LambdaNet u_0_cgs dt_cgs ratefact : F)
    (hex : (cooling_solve m rate cooling p phys n_h_i d_n_h He_i d_He abundance_ratio
      LambdaTune LambdaNet u_0_cgs dt_cgs ratefact).explicit_path = true)
    (hpos : 0 ≤ ratefact * dt_cgs) :
    (LambdaNet < 0 →
      (cooling_solve m rate cooling p phys n_h_i d_n_h He_i d_He abundance_ratio
        LambdaTune LambdaNet u_0_cgs dt_cgs ratefact).u_final_cgs ≤ u_0_cgs) ∧
    (0 < LambdaNet →
      u_0_cgs ≤ (cooling_solve m rate cooling p phys n_h_i d_n_h He_i d_He abundance_ratio
        LambdaTune LambdaNet u_0_cgs dt_cgs ratefact).u_final_cgs) := by
  have h := (cooling_solve_explicit_path _ _ _ _ _ _ _ _ _ _ _ _ _ _ _).1 hex
  rw [cooling_solve_explicit _ _ _ _ _ _ _ _ _ _ _ _ _ _ _ h]
  simp only
  have e : ratefact * LambdaNet * dt_cgs = (ratefact * dt_cgs) * LambdaNet := by ring
  rw [e]
  constructor
  · intro hl
    have := mul_nonpos_of_nonneg_of_nonpos hpos hl.le
    linarith
  · intro hl
    have := mul_nonneg hpos hl.le
    linarith

/-! ## Iteration caps -/

theorem newton_loop_evals (m : Libm F) (Lam : F → Option F → F × Option F)
    (u_ini He_reion_heat dt ratefact hi lo : F) (n : Nat) :
    ∀ (i : Nat) (logu LambdaNet dL : F) (e : Nat), i + n = newton_max_iterations → 0 < n →
      (newton_loop m Lam u_ini He_reion_heat dt ratefact hi lo i logu LambdaNet dL e).rate_evals
        ≤ e + n := by
  induction n with
  | zero => intro i logu LambdaNet dL e _ h; omega
  | succ k ih =>
    intro i logu LambdaNet dL e hi' _
    rw [newton_loop]
    split_ifs with h1 h2 h3
    · exact Nat.add_le_add_left (Nat.succ_le_succ (Nat.zero_le k)) e
    · exact Nat.add_le_add_left (Nat.succ_le_succ (Nat.zero_le k)) e
    · have h4 := h3.2
      refine le_trans (ih (i + 1) _ _ _ (e + 1) (by omega) (by omega)) ?_
      omega
    · exact Nat.add_le_add_left (Nat.succ_le_succ (Nat.zero_le k)) e

theorem bracket_cool_loop_evals (m : Libm F) (Lam : F → Option F → F × Option F)
    (u_ini He_reion_heat dt ratefact : F) (n : Nat) :
    ∀ (i : Nat) (u_lower u_upper LambdaNet : F) (e : Nat), i + n = bisection_max_iterations →
      (bracket_cool_loop m Lam u_ini He_reion_heat dt ratefact i u_lower u_upper LambdaNet e).rate_evals
        ≤ e + n := by
  induction n with
  | zero =>
    intro i u_lower u_upper LambdaNet e h
    rw [bracket_cool_loop]
    have : ¬ i < bisection_max_iterations := by omega
    simp [this]
  | succ k ih =>
    intro i u_lower u_upper LambdaNet e hi'
    rw [bracket_cool_loop]
    split_ifs with h1
    · have := ih (i + 1) (u_lower / bracket_factor F) (u_upper / bracket_factor F)
        (He_reion_heat / (dt * ratefact) + (Lam (m.log (u_lower / bracket_factor F)) none).1)
        (e + 1) (by omega)
      refine le_trans this ?_
      omega
    · simp only; omega

theorem bracket_heat_loop_evals (m : Libm F) (Lam : F → Option F → F × Option F)
    (u_ini He_reion_heat dt ratefact : F) (n : Nat) :
    ∀ (i : Nat) (u_lower u_upper LambdaNet : F) (e : Nat), i + n = bisection_max_iterations →
      (bracket_heat_loop m Lam u_ini He_reion_heat dt ratefact i u_lower u_upper LambdaNet e).rate_evals
        ≤ e + n := by
  induction n with
  | zero =>
    intro i u_lower u_upper LambdaNet e h
    rw [bracket_heat_loop]
    have : ¬ i < bisection_max_iterations := by omega
    simp [this]
  | succ k ih =>
    intro i u_lower u_upper LambdaNet e hi'
    rw [bracket_heat_loop]
    split_ifs with h1
    · have := ih (i + 1) (u_lower * bracket_factor F) (u_upper * bracket_factor F)
        (He_reion_heat / (dt * ratefact) + (Lam (m.log (u_upper * bracket_factor F)) none).1)
        (e + 1) (by omega)
      refine le_trans this ?_
      omega
    · simp only; omega

theorem bisect_loop_evals (m : Libm F) (Lam : F → Option F → F × Option F)
    (u_ini He_reion_heat dt ratefact : F) (n : Nat) :
    ∀ (i : Nat) (u_lower u_upper : F) (e : Nat), i + n = bisection_max_iterations → 0 < n →
      (bisect_loop m Lam u_ini He_reion_heat dt ratefact i u_lower u_upper e).rate_evals
        ≤ e + n := by
  induction n with
  | zero => intro i u_lower u_upper e _ h; omega
  | succ k ih =>
    intro i u_lower u_upper e hi' _
    rw [bisect_loop]
    split_ifs with h1
    · have h2 := h1.2
      refine le_trans (ih (i + 1) _ _ (e + 1) (by omega) (by omega)) ?_
      omega
    · exact Nat.add_le_add_left (Nat.succ_le_succ (Nat.zero_le k)) e

theorem newton_iter_evals (m : Libm F) (rate : RateEval F)
    (logu_init u_ini : F) (n_h_i : Int) (d_n_h : F) (He_i : Int) (d_He : F)
    (He_reion_heat : F) (p : part F) (cooling : cooling_function_data F)
    (phys : phys_const F) (abundance_ratio : Nat → F) (dt : F) (flag : Bool) :
    (newton_iter m rate logu_init u_ini n_h_i d_n_h He_i d_He He_reion_heat p cooling phys
      abundance_ratio dt flag).rate_evals ≤ newton_max_iterations := by
  unfold newton_iter
  simp only
  have := newton_loop_evals m (fun x d => rate x d n_h_i d_n_h He_i d_He abundance_ratio)
    u_ini He_reion_heat dt
    (p.rho * p.smoothed_metal_mass_fraction chemistry_element_H / phys.const_proton_mass *
      cooling.number_density_scale *
      (p.smoothed_metal_mass_fraction chemistry_element_H / cooling.proton_mass_cgs))
    (m.to_float ((cooling.Therm (cooling.N_Temp - 1) - 5 / 100) / m.M_LOG10E))
    (m.to_float ((cooling.Therm 0 + 5 / 100) / m.M_LOG10E)) newton_max_iterations 0 logu_init
    0 0 0 (by simp) (by decide)
  simpa using this

theorem bisection_iter_evals (m : Libm F) (rate : RateEval F)
    (logu_init u_ini : F) (n_h_i : Int) (d_n_h : F) (He_i : Int) (d_He : F)
    (He_reion_heat : F) (p : part F) (cooling : cooling_function_data F)
    (phys : phys_const F) (abundance_ratio : Nat → F) (dt : F) :
    (bisection_iter m rate logu_init u_ini n_h_i d_n_h He_i d_He He_reion_heat p cooling phys
      abundance_ratio dt).rate_evals ≤ 2 + bisection_max_iterations + bisection_max_iterations := by
  unfold bisection_iter
  simp only
  split_ifs with h1 h2 h3 h4 h5
  all_goals simp only
  all_goals first
    | exact le_trans (bracket_cool_loop_evals m _ _ _ _ _ bisection_max_iterations 0 _ _ _ 2
        (by simp)) (by omega)
    | exact le_trans (bracket_heat_loop_evals m _ _ _ _ _ bisection_max_iterations 0 _ _ _ 2
        (by simp)) (by omega)
    | exact le_trans (bisect_loop_evals m _ _ _ _ _ bisection_max_iterations 0 _ _ _
        (by simp) (by decide)) (Nat.add_le_add_right (le_trans (bracket_cool_loop_evals m _ _ _ _ _ bisection_max_iterations 0 _ _ _ 2
        (by simp)) (by omega)) _)
    | exact le_trans (bisect_loop_evals m _ _ _ _ _ bisection_max_iterations 0 _ _ _
        (by simp) (by decide)) (Nat.add_le_add_right (le_trans (bracket_heat_loop_evals m _ _ _ _ _ bisection_max_iterations 0 _ _ _ 2
        (by simp)) (by omega)) _)

theorem cooling_newton_stage_evals (m : Libm F) (rate : RateEval F)
    (cooling : cooling_function_data F) (p : part F) (phys : phys_const F)
    (n_h_i : Int) (d_n_h : F) (He_i : Int) (d_He : F) (abundance_ratio : Nat → F)
    (LambdaTune LambdaNet u_0_cgs dt_cgs : F) :
    (cooling_newton_stage m rate cooling p phys n_h_i d_n_h He_i d_He abundance_ratio
      LambdaTune LambdaNet u_0_cgs dt_cgs).rate_evals ≤ 2 * newton_max_iterations := by
  have h1 := newton_iter_evals m rate (m.to_float (m.log u_0_cgs)) u_0_cgs n_h_i d_n_h He_i d_He
    (m.to_float LambdaTune) p cooling phys abundance_ratio (m.to_float dt_cgs) false
  have h2 := newton_iter_evals m rate (m.to_float (newton_log_u_guess_cgs F)) u_0_cgs n_h_i d_n_h
    He_i d_He (m.to_float LambdaTune) p cooling phys abundance_ratio (m.to_float dt_cgs) false
  unfold cooling_newton_stage
  simp only
  split_ifs
  · simp only; omega
  · simp only; omega
  · simp

theorem cooling_solve_evals (m : Libm F) (rate : RateEval F)
    (cooling : cooling_function_data F) (p : part F) (phys : phys_const F)
    (n_h_i : Int) (d_n_h : F) (He_i : Int) (d_He : F) (abundance_ratio : Nat → F)
    (LambdaTune LambdaNet u_0_cgs dt_cgs ratefact : F) :
    (cooling_solve m rate cooling p phys n_h_i d_n_h He_i d_He abundance_ratio
      LambdaTune LambdaNet u_0_cgs dt_cgs ratefact).rate_evals ≤
      2 * newton_max_iterations + (2 + bisection_max_iterations + bisection_max_iterations) := by
  have h1 := cooling_newton_stage_evals m rate cooling p phys n_h_i d_n_h He_i d_He
    abundance_ratio LambdaTune LambdaNet u_0_cgs dt_cgs
  have h2 := bisection_iter_evals m rate (m.to_float (m.log u_0_cgs)) u_0_cgs n_h_i d_n_h He_i
    d_He (m.to_float LambdaTune) p cooling phys abundance_ratio (m.to_float dt_cgs)
  unfold cooling_solve
  simp only
  split_ifs
  · simp
  · simp only; omega
  · simp only; omega
  · simp only; omega

/-! ## Single runs of the loops -/

theorem newton_iter_first_pass (m : Libm F) (rate : RateEval F)
    (logu_init u_ini : F) (n_h_i : Int) (d_n_h : F) (He_i : Int) (d_He : F)
    (He_reion_heat : F) (p : part F) (cooling : cooling_function_data F)
    (phys : phys_const F) (abundance_ratio : Nat → F) (dt : F) (flag : Bool)
    (ratefact hi lo : F) (s : F × F × F)
    (hr : ratefact = p.rho * p.smoothed_metal_mass_fraction chemistry_element_H /
      phys.const_proton_mass * cooling.number_density_scale *
      (p.smoothed_metal_mass_fraction chemistry_element_H / cooling.proton_mass_cgs))
    (hhi : hi = m.to_float ((cooling.Therm (cooling.N_Temp - 1) - 5 / 100) / m.M_LOG10E))
    (hlo : lo = m.to_float ((cooling.Therm 0 + 5 / 100) / m.M_LOG10E))
    (hs : s = newton_correction m (fun x d => rate x d n_h_i d_n_h He_i d_He abundance_ratio)
      u_ini He_reion_heat dt ratefact 0 logu_init 0 0) :
    (s.1 > hi →
      newton_iter m rate logu_init u_ini n_h_i d_n_h He_i d_He He_reion_heat p cooling phys
        abundance_ratio dt flag =
        { value := m.to_float s.1, bisection_flag := true, rate_evals := 1 }) ∧
    (¬ s.1 > hi → ¬ s.1 < lo → ¬ |s.1 - logu_init| > newton_tolerance F →
      newton_iter m rate logu_init u_ini n_h_i d_n_h He_i d_He He_reion_heat p cooling phys
        abundance_ratio dt flag =
        { value := m.to_float s.1, bisection_flag := flag, rate_evals := 1 }) := by
  subst hr hhi hlo hs
  constructor
  · intro h1
    unfold newton_iter
    simp only
    rw [newton_loop, if_pos h1]
    simp [newton_max_iterations]
  · intro h1 h2 h3
    unfold newton_iter
    simp only
    rw [newton_loop, if_neg h1, if_neg h2, dif_neg (fun h => h3 h.1)]
    simp [newton_max_iterations]

theorem bracket_factor_pos : 0 < bracket_factor F := by
  unfold bracket_factor
  norm_num

theorem bracket_cool_loop_fails (m : Libm F) (Lam : F → Option F → F × Option F)
    (u_ini He_reion_heat dt ratefact c : F) (hLam : ∀ x, (Lam x none).1 = c)
    (hres : ∀ u, 0 < u → u - u_ini - (He_reion_heat / (dt * ratefact) + c) * ratefact * dt > 0)
    (n : Nat) :
    ∀ (i : Nat) (u_lower u_upper : F) (e : Nat), i + n = bisection_max_iterations →
      0 < u_lower →
      (bracket_cool_loop m Lam u_ini He_reion_heat dt ratefact i u_lower u_upper
        (He_reion_heat / (dt * ratefact) + c) e).i = bisection_max_iterations := by
  induction n with
  | zero =>
    intro i u_lower u_upper e h _
    rw [bracket_cool_loop]
    have h2 : ¬ i < bisection_max_iterations := by omega
    simp only [h2, and_false, dite_false]
    omega
  | succ k ih =>
    intro i u_lower u_upper e h hpos
    rw [bracket_cool_loop]
    have h2 : u_lower - u_ini - (He_reion_heat / (dt * ratefact) + c) * ratefact * dt > 0 ∧
        i < bisection_max_iterations := ⟨hres u_lower hpos, by omega⟩
    rw [dif_pos h2]
    simp only [hLam]
    exact ih (i + 1) _ _ _ (by omega) (div_pos hpos bracket_factor_pos)

theorem bisection_iter_fails_of_constant_cooling (m : Libm F) (rate : RateEval F)
    (logu_init u_ini : F) (n_h_i : Int) (d_n_h : F) (He_i : Int) (d_He : F)
    (He_reion_heat : F) (p : part F) (cooling : cooling_function_data F)
    (phys : phys_const F) (abundance_ratio : Nat → F) (dt c ratefact : F)
    (hr : ratefact = p.rho * p.smoothed_metal_mass_fraction chemistry_element_H /
      phys.const_proton_mass * cooling.number_density_scale *
      (p.smoothed_metal_mass_fraction chemistry_element_H / cooling.proton_mass_cgs))
    (hrate : ∀ x, (rate x none n_h_i d_n_h He_i d_He abundance_ratio).1 = c)
    (hcool : He_reion_heat / (dt * ratefact) + c < 0)
    (hres : ∀ u, 0 < u → u - u_ini - (He_reion_heat / (dt * ratefact) + c) * ratefact * dt > 0)
    (hpos : 0 < m.exp logu_init) :
    (bisection_iter m rate logu_init u_ini n_h_i d_n_h He_i d_He He_reion_heat p cooling phys
      abundance_ratio dt).value = bisection_failure F := by
  have h := bracket_cool_loop_fails m
    (fun x d => rate x d n_h_i d_n_h He_i d_He abundance_ratio) u_ini He_reion_heat dt ratefact c
    hrate hres bisection_max_iterations 0
    (m.exp logu_init / bracket_factor F) (m.exp logu_init * bracket_factor F) 2 (by simp)
    (div_pos hpos bracket_factor_pos)
  subst hr
  unfold bisection_iter
  simp only [hrate]
  rw [if_pos hcool, if_pos (le_of_eq h.symm)]

theorem bisect_step_lower (m : Libm F) (Lam : F → Option F → F × Option F)
    (u_ini He_reion_heat dt ratefact u_lower u_upper : F)
    (h : ¬ ((1 / 2) * (u_lower + u_upper) - u_ini -
      (He_reion_heat / (dt * ratefact) + (Lam (m.log ((1 / 2) * (u_lower + u_upper))) none).1) *
        ratefact * dt > 0)) :
    bisect_step m Lam u_ini He_reion_heat dt ratefact u_lower u_upper =
      ((1 / 2) * (u_lower + u_upper), u_upper, (1 / 2) * (u_lower + u_upper)) := by
  unfold bisect_step
  simp only
  rw [if_neg h]

theorem bisect_loop_keeps_upper (m : Libm F) (Lam : F → Option F → F × Option F)
    (u_ini He_reion_heat dt ratefact c up : F) (hc : 0 < c)
    (hres : ∀ u, c < u → u < up → ¬ (u - u_ini -
      (He_reion_heat / (dt * ratefact) + (Lam (m.log u) none).1) * ratefact * dt > 0))
    (k : Nat) :
    ∀ (i : Nat) (lo : F) (e : Nat), i + k + 1 < bisection_max_iterations →
      c < (1 / 2) * (lo + up) → lo < up →
      up - lo ≤ 2 ^ (k + 1) * (bisection_tolerance F * c) →
      (bisect_loop m Lam u_ini He_reion_heat dt ratefact i lo up e).u_upper = up ∧
      (bisect_loop m Lam u_ini He_reion_heat dt ratefact i lo up e).i ≤ i + k + 1 := by
  have htol : (0 : F) < bisection_tolerance F := by
    unfold bisection_tolerance
    norm_num
  induction k with
  | zero =>
    intro i lo e _ hmid hlt hw
    have hlt2 : (1 / 2) * (lo + up) < up := by linarith
    rw [bisect_loop, bisect_step_lower m Lam u_ini He_reion_heat dt ratefact lo up
      (hres _ hmid hlt2)]
    have hpos : 0 < (1 / 2) * (lo + up) := lt_trans hc hmid
    have hconv : ¬ (|up - (1 / 2) * (lo + up)| / ((1 / 2) * (lo + up)) > bisection_tolerance F ∧
        i + 1 < bisection_max_iterations) := by
      intro h
      have h1 := h.1
      rw [gt_iff_lt, lt_div_iff₀ hpos, abs_of_pos (by linarith)] at h1
      have h2 : bisection_tolerance F * c < bisection_tolerance F * ((1 / 2) * (lo + up)) :=
        mul_lt_mul_of_pos_left hmid htol
      simp only [zero_add, pow_one] at hw
      linarith
    simp only
    rw [dif_neg hconv]
    exact ⟨rfl, le_refl _⟩
  | succ k ih =>
    intro i lo e hi hmid hlt hw
    have hlt2 : (1 / 2) * (lo + up) < up := by linarith
    rw [bisect_loop, bisect_step_lower m Lam u_ini He_reion_heat dt ratefact lo up
      (hres _ hmid hlt2)]
    simp only
    split_ifs with h
    · have := ih (i + 1) ((1 / 2) * (lo + up)) (e + 1) (by omega) (by linarith) hlt2
        (by
          have e2 : (2 : F) ^ (k + 1 + 1) = 2 * 2 ^ (k + 1) := by ring
          rw [e2] at hw
          linarith)
      exact ⟨this.1, by omega⟩
    · exact ⟨rfl, by simp only; omega⟩

theorem bisection_iter_keeps_upper (m : Libm F) (rate : RateEval F)
    (logu_init u_ini : F) (n_h_i : Int) (d_n_h : F) (He_i : Int) (d_He : F)
    (He_reion_heat : F) (p : part F) (cooling : cooling_function_data F)
    (phys : phys_const F) (abundance_ratio : Nat → F) (dt ratefact c : F)
    (hr : ratefact = p.rho * p.smoothed_metal_mass_fraction chemistry_element_H /
      phys.const_proton_mass * cooling.number_density_scale *
      (p.smoothed_metal_mass_fraction chemistry_element_H / cooling.proton_mass_cgs))
    (hcool : He_reion_heat / (dt * ratefact) +
      (rate (m.log (m.exp logu_init)) none n_h_i d_n_h He_i d_He abundance_ratio).1 < 0)
    (hbr : ¬ (m.exp logu_init / bracket_factor F - u_ini -
      (He_reion_heat / (dt * ratefact) +
        (rate (m.log (m.exp logu_init / bracket_factor F)) none n_h_i d_n_h He_i d_He
          abundance_ratio).1) * ratefact * dt > 0))
    (hc : 0 < c)
    (hres : ∀ u, c < u → u < m.exp logu_init * bracket_factor F → ¬ (u - u_ini -
      (He_reion_heat / (dt * ratefact) +
        (rate (m.log u) none n_h_i d_n_h He_i d_He abundance_ratio).1) * ratefact * dt > 0))
    (hmid : c < (1 / 2) * (m.exp logu_init / bracket_factor F +
      m.exp logu_init * bracket_factor F))
    (hlt : m.exp logu_init / bracket_factor F < m.exp logu_init * bracket_factor F)
    (hw : m.exp logu_init * bracket_factor F - m.exp logu_init / bracket_factor F ≤
      2 ^ (16 + 1) * (bisection_tolerance F * c)) :
    (bisection_iter m rate logu_init u_ini n_h_i d_n_h He_i d_He He_reion_heat p cooling phys
      abundance_ratio dt).value = m.to_float (m.log (m.exp logu_init * bracket_factor F)) := by
  subst hr
  obtain ⟨h1, h2⟩ := bisect_loop_keeps_upper m
    (fun x d => rate x d n_h_i d_n_h He_i d_He abundance_ratio) u_ini He_reion_heat dt _ c
    (m.exp logu_init * bracket_factor F) hc hres 16 0 (m.exp logu_init / bracket_factor F) 2
    (by decide) hmid hlt hw
  unfold bisection_iter
  simp only
  rw [if_pos hcool, bracket_cool_loop, dif_neg (fun h => hbr h.1)]
  simp only
  rw [if_neg (by decide), if_neg (by simp only [bisection_max_iterations]; omega), h1]

/-! ## The concrete inputs evaluated -/

theorem ex_locals_explicit :
    (cooling_locals ex_libm (ex_index ℚ) (ex_rate ℚ (1 / 100) 0) ⟨1⟩ ⟨1⟩ ⟨0, 0, 0⟩ ⟨0⟩
      (ex_cooling ℚ false) (ex_part ℚ 1 0) 1 1).u_0_cgs = 1 ∧
    (cooling_locals ex_libm (ex_index ℚ) (ex_rate ℚ (1 / 100) 0) ⟨1⟩ ⟨1⟩ ⟨0, 0, 0⟩ ⟨0⟩
      (ex_cooling ℚ false) (ex_part ℚ 1 0) 1 1).ratefact = 1 ∧
    (cooling_locals ex_libm (ex_index ℚ) (ex_rate ℚ (1 / 100) 0) ⟨1⟩ ⟨1⟩ ⟨0, 0, 0⟩ ⟨0⟩
      (ex_cooling ℚ false) (ex_part ℚ 1 0) 1 1).LambdaNet = 1 / 100 ∧
    (cooling_locals ex_libm (ex_index ℚ) (ex_rate ℚ (1 / 100) 0) ⟨1⟩ ⟨1⟩ ⟨0, 0, 0⟩ ⟨0⟩
      (ex_cooling ℚ false) (ex_part ℚ 1 0) 1 1).dt_cgs = 1 := by
  simp [cooling_locals, ex_cooling, ex_part, ex_rate, ex_index, ex_libm,
    eagle_helium_reionization_extraheat, chemistry_element_H]

theorem ex_locals_hydro_cooling :
    (cooling_locals ex_libm (ex_index ℚ) (ex_rate ℚ 0 0) ⟨1⟩ ⟨1⟩ ⟨0, 0, 0⟩ ⟨1⟩
      (ex_cooling ℚ false) (ex_part ℚ 10 (-8)) 1 1).delta_u_raw = -8 ∧
    (cooling_locals ex_libm (ex_index ℚ) (ex_rate ℚ 0 0) ⟨1⟩ ⟨1⟩ ⟨0, 0, 0⟩ ⟨1⟩
      (ex_cooling ℚ false) (ex_part ℚ 10 (-8)) 1 1).delta_u = -100000 / 25001 := by
  have e1 : (cooling_locals ex_libm (ex_index ℚ) (ex_rate ℚ 0 0) ⟨1⟩ ⟨1⟩ ⟨0, 0, 0⟩ ⟨1⟩
      (ex_cooling ℚ false) (ex_part ℚ 10 (-8)) 1 1).delta_u_raw = -8 := by
    simp [cooling_locals, cooling_solve, ex_cooling, ex_part, ex_rate, ex_index, ex_libm,
      eagle_helium_reionization_extraheat, chemistry_element_H, explicit_tolerance]
    norm_num
  have e2 : (cooling_locals ex_libm (ex_index ℚ) (ex_rate ℚ 0 0) ⟨1⟩ ⟨1⟩ ⟨0, 0, 0⟩ ⟨1⟩
      (ex_cooling ℚ false) (ex_part ℚ 10 (-8)) 1 1).delta_u =
      cooling_clamp 10 1 (cooling_locals ex_libm (ex_index ℚ) (ex_rate ℚ 0 0) ⟨1⟩ ⟨1⟩
      ⟨0, 0, 0⟩ ⟨1⟩ (ex_cooling ℚ false) (ex_part ℚ 10 (-8)) 1 1).delta_u_raw := rfl
  refine ⟨e1, ?_⟩
  rw [e2, e1]
  unfold cooling_clamp rounding_tolerance
  norm_num

theorem ex_locals_values (m : Libm F) (hfl : ∀ x, m.to_float x = x) (rate : RateEval F)
    (newton : Bool) :
    (cooling_locals m (ex_index F) rate ⟨1⟩ ⟨1⟩ ⟨0, 0, 0⟩ ⟨0⟩
      (ex_cooling F newton) (ex_part F 1 0) 1 1).u_0_cgs = 1 ∧
    (cooling_locals m (ex_index F) rate ⟨1⟩ ⟨1⟩ ⟨0, 0, 0⟩ ⟨0⟩
      (ex_cooling F newton) (ex_part F 1 0) 1 1).ratefact = 1 ∧
    (cooling_locals m (ex_index F) rate ⟨1⟩ ⟨1⟩ ⟨0, 0, 0⟩ ⟨0⟩
      (ex_cooling F newton) (ex_part F 1 0) 1 1).dt_cgs = 1 ∧
    (cooling_locals m (ex_index F) rate ⟨1⟩ ⟨1⟩ ⟨0, 0, 0⟩ ⟨0⟩
      (ex_cooling F newton) (ex_part F 1 0) 1 1).LambdaTune = 0 := by
  simp [cooling_locals, ex_cooling, ex_part, ex_index, hfl,
    eagle_helium_reionization_extraheat, chemistry_element_H]

theorem ex_locals_solve (m : Libm F) (get_index_1d : IndexFn F) (rate : RateEval F)
    (phys : phys_const F) (us : unit_system F) (cosmo : cosmology F)
    (hydro_properties : hydro_props F) (cooling : cooling_function_data F)
    (p : part F) (dt dt_therm : F) (L : cool_locals F)
    (hL : L = cooling_locals m get_index_1d rate phys us cosmo hydro_properties cooling p
      dt dt_therm) :
    L.solve = cooling_solve m rate cooling p phys L.n_h_i L.d_n_h L.He_i L.d_He
      L.abundance_ratio L.LambdaTune L.LambdaNet L.u_0_cgs L.dt_cgs L.ratefact ∧
    L.LambdaNet = L.LambdaTune / (L.dt_cgs * L.ratefact) +
      (rate (m.log L.u_0_cgs) none L.n_h_i L.d_n_h L.He_i L.d_He L.abundance_ratio).1 := by
  subst hL
  exact ⟨rfl, rfl⟩

theorem ex_locals_reduce (m : Libm F) (hfl : ∀ x, m.to_float x = x) (rate : RateEval F)
    (newton : Bool) (lam : F) (hlog : m.log 1 = 0) (hlam : ∀ a b c d e, (rate 0 none a b c d e).1 = lam) :
    (cooling_locals m (ex_index F) rate ⟨1⟩ ⟨1⟩ ⟨0, 0, 0⟩ ⟨0⟩
      (ex_cooling F newton) (ex_part F 1 0) 1 1).u_0_cgs = 1 ∧
    (cooling_locals m (ex_index F) rate ⟨1⟩ ⟨1⟩ ⟨0, 0, 0⟩ ⟨0⟩
      (ex_cooling F newton) (ex_part F 1 0) 1 1).LambdaNet = lam ∧
    ∃ n_h_i d_n_h He_i d_He ar,
      (cooling_locals m (ex_index F) rate ⟨1⟩ ⟨1⟩ ⟨0, 0, 0⟩ ⟨0⟩
        (ex_cooling F newton) (ex_part F 1 0) 1 1).solve =
      cooling_solve m rate (ex_cooling F newton) (ex_part F 1 0) ⟨1⟩
        n_h_i d_n_h He_i d_He ar 0 lam 1 1 1 := by
  obtain ⟨v1, v2, v3, v4⟩ := ex_locals_values m hfl rate newton
  obtain ⟨s1, s2⟩ := ex_locals_solve m (ex_index F) rate ⟨1⟩ ⟨1⟩ ⟨0, 0, 0⟩ ⟨0⟩
    (ex_cooling F newton) (ex_part F 1 0) 1 1 _ rfl
  rw [v1, v2, v3, v4, hlog, hlam] at s2
  have s3 : (cooling_locals m (ex_index F) rate ⟨1⟩ ⟨1⟩ ⟨0, 0, 0⟩ ⟨0⟩
      (ex_cooling F newton) (ex_part F 1 0) 1 1).LambdaNet = lam := by
    rw [s2]
    norm_num
  rw [s3, v1, v2, v3, v4] at s1
  exact ⟨v1, s3, _, _, _, _, _, s1⟩

theorem real_log_ten_bounds : 9 / 10 ≤ Real.log 10 ∧ Real.log 10 ≤ 9 := by
  have h1 := Real.log_le_sub_one_of_pos (x := 10) (by norm_num)
  have h2 := Real.log_le_sub_one_of_pos (x := 10⁻¹) (by norm_num)
  rw [Real.log_inv] at h2
  constructor
  · linarith
  · linarith

theorem ex_solve_newton_heating (m : Libm F) (hfl : ∀ x, m.to_float x = x)
    (hlog : m.log 1 = 0) (hexp : m.exp 0 = 1)
    (hlo : (-100 + 5 / 100) / m.M_LOG10E ≤ -1 / 20000)
    (hhi : -1 / 20000 ≤ (100 - 5 / 100) / m.M_LOG10E)
    (n_h_i : Int) (d_n_h : F) (He_i : Int) (d_He : F) (ar : Nat → F) :
    cooling_solve m (ex_rate F 1 20001) (ex_cooling F true) (ex_part F 1 0) ⟨1⟩
      n_h_i d_n_h He_i d_He ar 0 1 1 1 1 =
    { u_final_cgs := m.exp (-1 / 20000), explicit_path := false, bisection_flag := false
      newton_calls := 1, bisection_calls := 0, rate_evals := 1, messages := 0 } := by
  have hc : newton_correction m (fun x d => ex_rate F 1 20001 x d n_h_i d_n_h He_i d_He ar)
      1 0 1 1 0 0 0 0 = (-1 / 20000, 1, 20001) := by
    simp only [newton_correction, ex_rate]
    norm_num [hexp]
  have hn := (newton_iter_first_pass m (ex_rate F 1 20001) 0 1 n_h_i d_n_h He_i d_He 0
    (ex_part F 1 0) (ex_cooling F true) ⟨1⟩ ar 1 false 1
    ((100 - 5 / 100) / m.M_LOG10E) ((-100 + 5 / 100) / m.M_LOG10E) _
    (by norm_num [ex_part, ex_cooling, chemistry_element_H])
    (by rw [hfl]; norm_num [ex_cooling]) (by rw [hfl]; norm_num [ex_cooling]) hc.symm).2
    (by simpa using hhi) (by simpa using hlo)
    (by norm_num [newton_tolerance, abs_of_neg])
  rw [hfl] at hn
  rw [cooling_solve, if_neg (by norm_num [explicit_tolerance])]
  simp only [cooling_newton_stage, hfl, hlog, hn]
  norm_num [ex_cooling]

theorem ex_solve_newton_retry (m : Libm F) (hfl : ∀ x, m.to_float x = x)
    (hlog : m.log 1 = 0) (hexp : m.exp 0 = 1)
    (hhi1 : (100 - 5 / 100) / m.M_LOG10E < 1000)
    (hhi2 : newton_log_u_guess_cgs F - 1 / 20000 ≤ (100 - 5 / 100) / m.M_LOG10E)
    (hlo2 : (-100 + 5 / 100) / m.M_LOG10E ≤ newton_log_u_guess_cgs F - 1 / 20000)
    (n_h_i : Int) (d_n_h : F) (He_i : Int) (d_He : F) (ar : Nat → F) :
    cooling_solve m (ex_rate_at F 0 (-1) (-1) (1001 / 1000) (-19999)) (ex_cooling F true)
      (ex_part F 1 0) ⟨1⟩ n_h_i d_n_h He_i d_He ar 0 (-1) 1 1 1 =
    { u_final_cgs := m.exp (newton_log_u_guess_cgs F - 1 / 20000), explicit_path := false
      bisection_flag := false, newton_calls := 2, bisection_calls := 0, rate_evals := 2
      messages := 0 } := by
  have hg : newton_log_u_guess_cgs F ≠ 0 := by
    unfold newton_log_u_guess_cgs
    norm_num
  have hc1 : newton_correction m
      (fun x d => ex_rate_at F 0 (-1) (-1) (1001 / 1000) (-19999) x d n_h_i d_n_h He_i d_He ar)
      1 0 1 1 0 0 0 0 = (1000, -1, 1001 / 1000) := by
    simp only [newton_correction, ex_rate_at]
    norm_num [hexp]
  have hc2 : newton_correction m
      (fun x d => ex_rate_at F 0 (-1) (-1) (1001 / 1000) (-19999) x d n_h_i d_n_h He_i d_He ar)
      1 0 1 1 0 (newton_log_u_guess_cgs F) 0 0 =
      (newton_log_u_guess_cgs F - 1 / 20000, -1, -19999) := by
    simp only [newton_correction, ex_rate_at, if_neg hg]
    norm_num
  have hn1 := (newton_iter_first_pass m (ex_rate_at F 0 (-1) (-1) (1001 / 1000) (-19999))
    0 1 n_h_i d_n_h He_i d_He 0
    (ex_part F 1 0) (ex_cooling F true) ⟨1⟩ ar 1 false 1
    ((100 - 5 / 100) / m.M_LOG10E) ((-100 + 5 / 100) / m.M_LOG10E) _
    (by norm_num [ex_part, ex_cooling, chemistry_element_H])
    (by rw [hfl]; norm_num [ex_cooling]) (by rw [hfl]; norm_num [ex_cooling]) hc1.symm).1 hhi1
  have hn2 := (newton_iter_first_pass m (ex_rate_at F 0 (-1) (-1) (1001 / 1000) (-19999))
    (newton_log_u_guess_cgs F) 1 n_h_i d_n_h He_i d_He 0
    (ex_part F 1 0) (ex_cooling F true) ⟨1⟩ ar 1 false 1
    ((100 - 5 / 100) / m.M_LOG10E) ((-100 + 5 / 100) / m.M_LOG10E) _
    (by norm_num [ex_part, ex_cooling, chemistry_element_H])
    (by rw [hfl]; norm_num [ex_cooling]) (by rw [hfl]; norm_num [ex_cooling]) hc2.symm).2
    (not_lt.mpr hhi2) (not_lt.mpr hlo2)
    (by norm_num [newton_tolerance, abs_of_neg])
  rw [hfl] at hn1 hn2
  rw [cooling_solve, if_neg (by norm_num [explicit_tolerance])]
  simp only [cooling_newton_stage, hfl, hlog, hn1, hn2]
  norm_num [ex_cooling]

theorem ex_solve_bisection_upper (m : Libm F) (hfl : ∀ x, m.to_float x = x)
    (hlog : m.log 1 = 0) (hexp : m.exp 0 = 1)
    (hne : ∀ u, 1 < u → m.log u ≠ 0) (hlo : m.log (1 / bracket_factor F) ≠ 0)
    (hup : m.log (1 * bracket_factor F) ≠ bisection_failure F)
    (n_h_i : Int) (d_n_h : F) (He_i : Int) (d_He : F) (ar : Nat → F) :
    (cooling_solve m (ex_rate_at F 0 (-1) 1 0 0) (ex_cooling F false)
      (ex_part F 1 0) ⟨1⟩ n_h_i d_n_h He_i d_He ar 0 (-1) 1 1 1).u_final_cgs =
      m.exp (m.log (1 * bracket_factor F)) ∧
    (cooling_solve m (ex_rate_at F 0 (-1) 1 0 0) (ex_cooling F false)
      (ex_part F 1 0) ⟨1⟩ n_h_i d_n_h He_i d_He ar 0 (-1) 1 1 1).bisection_calls = 1 := by
  have hb : (bisection_iter m (ex_rate_at F 0 (-1) 1 0 0) (m.log 1) 1 n_h_i d_n_h He_i d_He 0
      (ex_part F 1 0) (ex_cooling F false) ⟨1⟩ ar 1).value = m.to_float (m.log (1 * bracket_factor F)) := by
    have h := bisection_iter_keeps_upper m (ex_rate_at F 0 (-1) 1 0 0) (m.log 1) 1
      n_h_i d_n_h He_i d_He 0 (ex_part F 1 0) (ex_cooling F false) ⟨1⟩ ar 1 1 1
      (by norm_num [ex_part, ex_cooling, chemistry_element_H])
      (by rw [hlog, hexp, hlog]; norm_num [ex_rate_at])
      (by
        rw [hlog, hexp]
        simp only [ex_rate_at, if_neg hlo]
        norm_num [bracket_factor])
      one_pos
      (by
        intro u hu1 hu2
        rw [hlog, hexp] at hu2
        simp only [ex_rate_at, if_neg (hne u hu1)]
        unfold bracket_factor at hu2
        norm_num
        linarith)
      (by rw [hlog, hexp]; norm_num [bracket_factor])
      (by rw [hlog, hexp]; norm_num [bracket_factor])
      (by rw [hlog, hexp]; norm_num [bracket_factor, bisection_tolerance])
    rw [hlog, hexp] at h
    rw [hlog]
    exact h
  obtain ⟨h1, h2⟩ := cooling_solve_bisection m (ex_rate_at F 0 (-1) 1 0 0) (ex_cooling F false)
    (ex_part F 1 0) ⟨1⟩ n_h_i d_n_h He_i d_He ar 0 (-1) 1 1 1
    (by norm_num [explicit_tolerance]) (Or.inr rfl)
  simp only [hfl] at h1 hb
  rw [hb, if_neg hup] at h1
  exact ⟨h1, h2⟩

theorem ex_solve_newton_leaves_table (m : Libm F) (hfl : ∀ x, m.to_float x = x)
    (hlog : m.log 1 = 0) (hexp : m.exp 0 = 1)
    (hhi : (100 - 5 / 100) / m.M_LOG10E < 1000)
    (n_h_i : Int) (d_n_h : F) (He_i : Int) (d_He : F) (ar : Nat → F) :
    (cooling_solve m (ex_rate F (1 / 2) (1999 / 2000)) (ex_cooling F true) (ex_part F 1 0) ⟨1⟩
      n_h_i d_n_h He_i d_He ar 0 (1 / 2) 1 1 1).bisection_flag = true := by
  have hc : newton_correction m
      (fun x d => ex_rate F (1 / 2) (1999 / 2000) x d n_h_i d_n_h He_i d_He ar)
      1 0 1 1 0 0 0 0 = (1000, 1 / 2, 1999 / 2000) := by
    simp only [newton_correction, ex_rate]
    norm_num [hexp]
  have hn := (newton_iter_first_pass m (ex_rate F (1 / 2) (1999 / 2000)) 0 1
    n_h_i d_n_h He_i d_He 0
    (ex_part F 1 0) (ex_cooling F true) ⟨1⟩ ar 1 false 1
    ((100 - 5 / 100) / m.M_LOG10E) ((-100 + 5 / 100) / m.M_LOG10E) _
    (by norm_num [ex_part, ex_cooling, chemistry_element_H])
    (by rw [hfl]; norm_num [ex_cooling]) (by rw [hfl]; norm_num [ex_cooling]) hc.symm).1 hhi
  rw [cooling_solve_flag _ _ _ _ _ _ _ _ _ _ _ _ _ _ _
    (by norm_num [explicit_tolerance, abs_of_pos])]
  simp only [cooling_newton_stage, hfl, hlog, hn]
  norm_num [ex_cooling]

theorem ex_locals_bisection_fails (m : Libm F) (hfl : ∀ x, m.to_float x = x)
    (hlog : m.log 1 = 0) (hexp : m.exp 0 = 1) (L : cool_locals F)
    (hL : L = cooling_locals m (ex_index F) (ex_rate F (-2) 0) ⟨1⟩ ⟨1⟩ ⟨0, 0, 0⟩ ⟨0⟩
      (ex_cooling F false) (ex_part F 1 0) 1 1) :
    L.solve.explicit_path = false ∧
    (bisection_iter m (ex_rate F (-2) 0) (m.to_float (m.log L.u_0_cgs)) L.u_0_cgs L.n_h_i
      L.d_n_h L.He_i L.d_He (m.to_float L.LambdaTune) (ex_part F 1 0) (ex_cooling F false) ⟨1⟩
      L.abundance_ratio (m.to_float L.dt_cgs)).value = bisection_failure F ∧
    m.exp (m.log L.u_0_cgs) = L.u_0_cgs := by
  subst hL
  obtain ⟨v1, v2, v3, v4⟩ := ex_locals_values m hfl (ex_rate F (-2) 0) false
  obtain ⟨w1, w2, _, _, _, _, _, w3⟩ := ex_locals_reduce m hfl (ex_rate F (-2) 0) false (-2) hlog
    (fun _ _ _ _ _ => by simp [ex_rate])
  refine ⟨?_, ?_, ?_⟩
  · rw [Bool.eq_false_iff, w3]
    intro h
    have h2 := (cooling_solve_explicit_path _ _ _ _ _ _ _ _ _ _ _ _ _ _ _).1 h
    norm_num [explicit_tolerance] at h2
  · rw [v1, v3, v4, hlog]
    simp only [hfl]
    refine bisection_iter_fails_of_constant_cooling _ _ _ _ _ _ _ _ _ _ _ _ _ _ (-2) 1 ?_
      (fun _ => rfl) ?_ ?_ ?_
    · norm_num [ex_part, ex_cooling, chemistry_element_H]
    · norm_num
    · intro u hu
      norm_num
      linarith
    · rw [hexp]
      exact one_pos
  · rw [v1, hlog, hexp]

/-! ## Properties of the step driver -/

/-- C1: a call of `cooling_cool_part` with `dt = 0` returns the particle and
the extended particle as they were (in particular `du/dt` and
`radiated_energy`), evaluates no cooling rate and calls no solver. -/
theorem cooling_cool_part_zero_dt (m : Libm F) (get_index_1d : IndexFn F) (rate : RateEval F)
    (phys : phys_const F) (us : unit_system F) (cosmo : cosmology F)
    (hydro_properties : hydro_props F) (cooling : cooling_function_data F)
    (p : part F) (xp : xpart F) (dt_therm : F) :
    cooling_cool_part m get_index_1d rate phys us cosmo hydro_properties cooling p xp 0 dt_therm =
      { p := p, xp := xp, rate_evals := 0, newton_calls := 0, bisection_calls := 0,
        messages := 0 } := by
  simp [cooling_cool_part]

/-- C2: in a call with `dt ≠ 0`, if `|ratefact * LambdaNet * dt| < 0.05 * u_0`
(CGS values, `LambdaNet` the single rate evaluation at `u_0` plus the helium
reionization term) then `u_final = u_0 + ratefact * LambdaNet * dt`, the rate
is evaluated exactly once and neither `newton_iter` nor `bisection_iter` is
called; in particular `u_0 = 1` with `ratefact * LambdaNet * dt = 0.01` gives
`u_final = 1.01`. -/
theorem cooling_cool_part_explicit (m : Libm F) (get_index_1d : IndexFn F) (rate : RateEval F)
    (phys : phys_const F) (us : unit_system F) (cosmo : cosmology F)
    (hydro_properties : hydro_props F) (cooling : cooling_function_data F)
    (p : part F) (xp : xpart F) (dt dt_therm : F) (L : cool_locals F) (o : cool_out F)
    (hL : L = cooling_locals m get_index_1d rate phys us cosmo hydro_properties cooling p
      dt dt_therm)
    (ho : o = cooling_cool_part m get_index_1d rate phys us cosmo hydro_properties cooling p xp
      dt dt_therm)
    (hdt : dt ≠ 0) :
    (|L.ratefact * L.LambdaNet * L.dt_cgs| < explicit_tolerance F * L.u_0_cgs →
      L.solve.u_final_cgs = L.u_0_cgs + L.ratefact * L.LambdaNet * L.dt_cgs ∧
      o.rate_evals = 1 ∧ o.newton_calls = 0 ∧ o.bisection_calls = 0) ∧
    (L.u_0_cgs = 1 → L.ratefact * L.LambdaNet * L.dt_cgs = 1 / 100 →
      L.solve.u_final_cgs = 101 / 100 ∧
      o.rate_evals = 1 ∧ o.newton_calls = 0 ∧ o.bisection_calls = 0) := by
  have key : |L.ratefact * L.LambdaNet * L.dt_cgs| < explicit_tolerance F * L.u_0_cgs →
      L.solve.u_final_cgs = L.u_0_cgs + L.ratefact * L.LambdaNet * L.dt_cgs ∧
      o.rate_evals = 1 ∧ o.newton_calls = 0 ∧ o.bisection_calls = 0 := by
    intro h
    subst hL ho
    simp only [cooling_locals] at h
    simp only [cooling_cool_part, if_neg hdt, cooling_locals]
    rw [cooling_solve_explicit _ _ _ _ _ _ _ _ _ _ _ _ _ _ _ h]
    simp
  refine ⟨key, ?_⟩
  intro h1 h2
  have h : |L.ratefact * L.LambdaNet * L.dt_cgs| < explicit_tolerance F * L.u_0_cgs := by
    rw [h1, h2]
    unfold explicit_tolerance
    norm_num [abs_of_pos]
  obtain ⟨k1, k2⟩ := key h
  refine ⟨?_, k2⟩
  rw [k1, h1, h2]
  norm_num

/-- Instance of C2: unit particle, `u_0 = 1`, constant rate `0.01`,
`ratefact = dt = 1`: the call ends with `u_final = 1.01` after one rate
evaluation and no solver call. -/
theorem cooling_cool_part_explicit_witness :
    (cooling_locals ex_libm (ex_index ℚ) (ex_rate ℚ (1 / 100) 0) ⟨1⟩ ⟨1⟩ ⟨0, 0, 0⟩ ⟨0⟩
      (ex_cooling ℚ false) (ex_part ℚ 1 0) 1 1).solve.u_final_cgs = 101 / 100 ∧
    (cooling_cool_part ex_libm (ex_index ℚ) (ex_rate ℚ (1 / 100) 0) ⟨1⟩ ⟨1⟩ ⟨0, 0, 0⟩ ⟨0⟩
      (ex_cooling ℚ false) (ex_part ℚ 1 0) ⟨0⟩ 1 1).rate_evals = 1 ∧
    (cooling_cool_part ex_libm (ex_index ℚ) (ex_rate ℚ (1 / 100) 0) ⟨1⟩ ⟨1⟩ ⟨0, 0, 0⟩ ⟨0⟩
      (ex_cooling ℚ false) (ex_part ℚ 1 0) ⟨0⟩ 1 1).newton_calls = 0 ∧
    (cooling_cool_part ex_libm (ex_index ℚ) (ex_rate ℚ (1 / 100) 0) ⟨1⟩ ⟨1⟩ ⟨0, 0, 0⟩ ⟨0⟩
      (ex_cooling ℚ false) (ex_part ℚ 1 0) ⟨0⟩ 1 1).bisection_calls = 0 :=
  (cooling_cool_part_explicit ex_libm (ex_index ℚ) (ex_rate ℚ (1 / 100) 0) ⟨1⟩ ⟨1⟩ ⟨0, 0, 0⟩ ⟨0⟩
      (ex_cooling ℚ false) (ex_part ℚ 1 0) ⟨0⟩ 1 1 _ _ rfl rfl one_ne_zero).2
    ex_locals_explicit.1
    (by rw [ex_locals_explicit.2.1, ex_locals_explicit.2.2.1, ex_locals_explicit.2.2.2]
        norm_num)

/-- C5, as the code has it: when `u_start + 1.5 * delta_u < u_min` and
`u_start ≤ 2.5 * u_min` (so that the second, non-negativity limit does not
fire after the first), the `delta_u` finally used satisfies
`u_start + 1.5 * delta_u = u_min` exactly. -/
theorem cooling_clamp_hits_minimum (u_start u_min delta_u : F)
    (h : u_start + (3 / 2) * delta_u < u_min) (h2 : u_start ≤ (5 / 2) * u_min) :
    u_start + (3 / 2) * cooling_clamp u_start u_min delta_u = u_min := by
  unfold cooling_clamp
  simp only [clamp_first, clamp_second, if_pos h]
  split_ifs with b
  · linarith
  · ring

/-- Instance of the amended C5: `u_start = 2`, `u_min = 1`, raw
`delta_u = -1`. -/
theorem cooling_clamp_hits_minimum_witness :
    (2 : ℚ) + (3 / 2) * cooling_clamp 2 1 (-1) = 1 :=
  cooling_clamp_hits_minimum 2 1 (-1) (by norm_num) (by norm_num)

/-- C5 fails as stated: a particle with `u_start = 10`, hydrodynamic
`du/dt = -8`, `dt_therm = 1`, zero cooling rate and `u_min = 1` has raw
`delta_u = -8`, so `u_start + 1.5 * delta_u = -2 < u_min`; the first limit
gives `-6`, the second limit then replaces it by `-10 / 2.5001`, and the
driver ends with `u_start + 1.5 * delta_u' = 100010 / 25001`, not `u_min`. -/
theorem cooling_clamp_minimum_counterexample :
    (10 : ℚ) + (3 / 2) *
      (cooling_locals ex_libm (ex_index ℚ) (ex_rate ℚ 0 0) ⟨1⟩ ⟨1⟩ ⟨0, 0, 0⟩ ⟨1⟩
      (ex_cooling ℚ false) (ex_part ℚ 10 (-8)) 1 1).delta_u_raw < 1 ∧
    (cooling_locals ex_libm (ex_index ℚ) (ex_rate ℚ 0 0) ⟨1⟩ ⟨1⟩ ⟨0, 0, 0⟩ ⟨1⟩
      (ex_cooling ℚ false) (ex_part ℚ 10 (-8)) 1 1).delta_u = -100000 / 25001 ∧
    (10 : ℚ) + (3 / 2) *
      (cooling_locals ex_libm (ex_index ℚ) (ex_rate ℚ 0 0) ⟨1⟩ ⟨1⟩ ⟨0, 0, 0⟩ ⟨1⟩
      (ex_cooling ℚ false) (ex_part ℚ 10 (-8)) 1 1).delta_u ≠ 1 := by
  rw [ex_locals_hydro_cooling.1, ex_locals_hydro_cooling.2]
  norm_num

/-- C7, as the code has it: (a) on the explicit path, for `ratefact * dt ≥ 0`,
a negative `LambdaNet` at `u_0` gives `u_final ≤ u_0` and a positive one
`u_final ≥ u_0`; (b) in the cooling case, a first Newton result that is
accepted (one `newton_iter` call, no bisection) gives `u_final ≤ u_0`, for a
monotone `exp` with `exp (log u_0) = u_0`.  Nothing is claimed for Newton in
the heating case, for the retry from the fixed guess, or for bisection. -/
theorem cooling_solve_direction (m : Libm F) (get_index_1d : IndexFn F)
    (rate : RateEval F) (phys : phys_const F) (us : unit_system F) (cosmo : cosmology F)
    (hydro_properties : hydro_props F) (cooling : cooling_function_data F)
    (p : part F) (dt dt_therm : F) (L : cool_locals F)
    (hL : L = cooling_locals m get_index_1d rate phys us cosmo hydro_properties cooling p
      dt dt_therm)
    (hmono : ∀ x y, x ≤ y → m.exp x ≤ m.exp y)
    (hlog : m.exp (m.log L.u_0_cgs) = L.u_0_cgs) :
    (L.solve.explicit_path = true → 0 ≤ L.ratefact * L.dt_cgs →
      (L.LambdaNet < 0 → L.solve.u_final_cgs ≤ L.u_0_cgs) ∧
      (0 < L.LambdaNet → L.u_0_cgs ≤ L.solve.u_final_cgs)) ∧
    (L.LambdaNet < 0 → L.solve.newton_calls = 1 → L.solve.bisection_calls = 0 →
      L.solve.u_final_cgs ≤ L.u_0_cgs) := by
  subst hL
  refine ⟨fun hex hpos =>
    cooling_solve_explicit_direction m rate cooling p phys _ _ _ _ _ _ _ _ _ _ hex hpos, ?_⟩
  intro hcool h1 h0
  have key : (cooling_locals m get_index_1d rate phys us cosmo hydro_properties cooling p
      dt dt_therm).solve.u_final_cgs ≤
      m.exp (m.log (cooling_locals m get_index_1d rate phys us cosmo hydro_properties cooling p
      dt dt_therm).u_0_cgs) :=
    cooling_solve_first_newton m rate cooling p phys _ _ _ _ _ _ _ _ _ _ hmono hcool h1 h0
  rw [hlog] at key
  exact key

/-- Instance of the amended C7 with the real exponential and logarithm: unit
particle, `u_0 = 1`, constant rate `-1/100` (cooling): the explicit path is
taken and `u_final = 0.99 ≤ u_0`. -/
theorem cooling_solve_direction_witness :
    ∃ m : Libm ℝ, real_libm m ∧
      (cooling_locals m (ex_index ℝ) (ex_rate ℝ (-1 / 100) 0) ⟨1⟩ ⟨1⟩ ⟨0, 0, 0⟩ ⟨0⟩
        (ex_cooling ℝ false) (ex_part ℝ 1 0) 1 1).solve.explicit_path = true ∧
      (cooling_locals m (ex_index ℝ) (ex_rate ℝ (-1 / 100) 0) ⟨1⟩ ⟨1⟩ ⟨0, 0, 0⟩ ⟨0⟩
        (ex_cooling ℝ false) (ex_part ℝ 1 0) 1 1).LambdaNet < 0 ∧
      (cooling_locals m (ex_index ℝ) (ex_rate ℝ (-1 / 100) 0) ⟨1⟩ ⟨1⟩ ⟨0, 0, 0⟩ ⟨0⟩
        (ex_cooling ℝ false) (ex_part ℝ 1 0) 1 1).solve.u_final_cgs ≤
      (cooling_locals m (ex_index ℝ) (ex_rate ℝ (-1 / 100) 0) ⟨1⟩ ⟨1⟩ ⟨0, 0, 0⟩ ⟨0⟩
        (ex_cooling ℝ false) (ex_part ℝ 1 0) 1 1).u_0_cgs := by
  refine ⟨{ exp := Real.exp, log := Real.log, log10 := fun x => Real.log x / Real.log 10
            erf := fun x => 2 / Real.sqrt Real.pi * ∫ t in (0 : ℝ)..x, Real.exp (-(t ^ 2))
            M_SQRT2 := Real.sqrt 2, M_LOG10E := 1 / Real.log 10, M_LN10 := Real.log 10, to_float := fun x => x },
    ⟨rfl, rfl, rfl, rfl, rfl, rfl, rfl⟩, ?_⟩
  obtain ⟨v1, v2, n_h_i, d_n_h, He_i, d_He, ar, v3⟩ := ex_locals_reduce
    ({ exp := Real.exp, log := Real.log, log10 := fun x => Real.log x / Real.log 10
       erf := fun x => 2 / Real.sqrt Real.pi * ∫ t in (0 : ℝ)..x, Real.exp (-(t ^ 2))
       M_SQRT2 := Real.sqrt 2, M_LOG10E := 1 / Real.log 10, M_LN10 := Real.log 10, to_float := fun x => x } : Libm ℝ) (fun _ => rfl)
    (ex_rate ℝ (-1 / 100) 0) false (-1 / 100) Real.log_one (fun _ _ _ _ _ => by simp [ex_rate])
  obtain ⟨_, w2, w3, _⟩ := ex_locals_values
    ({ exp := Real.exp, log := Real.log, log10 := fun x => Real.log x / Real.log 10
       erf := fun x => 2 / Real.sqrt Real.pi * ∫ t in (0 : ℝ)..x, Real.exp (-(t ^ 2))
       M_SQRT2 := Real.sqrt 2, M_LOG10E := 1 / Real.log 10, M_LN10 := Real.log 10, to_float := fun x => x } : Libm ℝ) (fun _ => rfl)
    (ex_rate ℝ (-1 / 100) 0) false
  have hex : (cooling_locals
      ({ exp := Real.exp, log := Real.log, log10 := fun x => Real.log x / Real.log 10
         erf := fun x => 2 / Real.sqrt Real.pi * ∫ t in (0 : ℝ)..x, Real.exp (-(t ^ 2))
         M_SQRT2 := Real.sqrt 2, M_LOG10E := 1 / Real.log 10, M_LN10 := Real.log 10, to_float := fun x => x } : Libm ℝ)
      (ex_index ℝ) (ex_rate ℝ (-1 / 100) 0) ⟨1⟩ ⟨1⟩ ⟨0, 0, 0⟩ ⟨0⟩
      (ex_cooling ℝ false) (ex_part ℝ 1 0) 1 1).solve.explicit_path = true := by
    rw [v3]
    exact (cooling_solve_explicit_path _ _ _ _ _ _ _ _ _ _ _ _ _ _ _).2
      (by norm_num [explicit_tolerance, abs_of_pos])
  have hneg : (cooling_locals
      ({ exp := Real.exp, log := Real.log, log10 := fun x => Real.log x / Real.log 10
         erf := fun x => 2 / Real.sqrt Real.pi * ∫ t in (0 : ℝ)..x, Real.exp (-(t ^ 2))
         M_SQRT2 := Real.sqrt 2, M_LOG10E := 1 / Real.log 10, M_LN10 := Real.log 10, to_float := fun x => x } : Libm ℝ)
      (ex_index ℝ) (ex_rate ℝ (-1 / 100) 0) ⟨1⟩ ⟨1⟩ ⟨0, 0, 0⟩ ⟨0⟩
      (ex_cooling ℝ false) (ex_part ℝ 1 0) 1 1).LambdaNet < 0 := by
    rw [v2]
    norm_num
  exact ⟨hex, hneg, ((cooling_solve_direction _ _ _ _ _ _ _ _ _ _ _ _ rfl
    (fun _ _ h => Real.exp_le_exp.2 h)
    (by rw [v1]; exact Real.exp_log one_pos)).1 hex (by rw [w2, w3]; norm_num)).1 hneg⟩

/-- C7 fails as stated, with the real exponential and logarithm, unit
particle, `u_0 = 1`, `ratefact = dt = 1`, table bounds `Therm = -100 .. 100`:
(a) cooling (`LambdaNet = -1`), Newton enabled: the first run leaves the
table at `1000`, the retry from `ln(2e12)` meets the tolerance after one
correction (derivative `-19999`) and is accepted with
`u_final = exp(28.3241683 - 1/20000) > u_0`;
(b) heating (`LambdaNet = 1`, derivative `20001`): Newton meets the tolerance
after one correction and is accepted with `u_final = exp(-1/20000) < u_0`;
(c) cooling at `u_0` only (`LambdaNet = -1` at `u_0`, `+1` elsewhere), Newton
disabled: the bracket `[u_0 / 1.0488.., u_0 * 1.0488..]` is accepted at once
and bisection ends at its upper end, `u_final = 1.0488088481701 > u_0`. -/
theorem cooling_solve_direction_counterexample :
    ∃ m : Libm ℝ, real_libm m ∧
    ((cooling_locals m (ex_index ℝ) (ex_rate_at ℝ 0 (-1) (-1) (1001 / 1000) (-19999))
        ⟨1⟩ ⟨1⟩ ⟨0, 0, 0⟩ ⟨0⟩ (ex_cooling ℝ true) (ex_part ℝ 1 0) 1 1).LambdaNet < 0 ∧
      (cooling_locals m (ex_index ℝ) (ex_rate_at ℝ 0 (-1) (-1) (1001 / 1000) (-19999))
        ⟨1⟩ ⟨1⟩ ⟨0, 0, 0⟩ ⟨0⟩ (ex_cooling ℝ true) (ex_part ℝ 1 0) 1 1).solve.newton_calls = 2 ∧
      (cooling_locals m (ex_index ℝ) (ex_rate_at ℝ 0 (-1) (-1) (1001 / 1000) (-19999))
        ⟨1⟩ ⟨1⟩ ⟨0, 0, 0⟩ ⟨0⟩ (ex_cooling ℝ true) (ex_part ℝ 1 0) 1 1).solve.bisection_calls
        = 0 ∧
      (cooling_locals m (ex_index ℝ) (ex_rate_at ℝ 0 (-1) (-1) (1001 / 1000) (-19999))
        ⟨1⟩ ⟨1⟩ ⟨0, 0, 0⟩ ⟨0⟩ (ex_cooling ℝ true) (ex_part ℝ 1 0) 1 1).u_0_cgs <
      (cooling_locals m (ex_index ℝ) (ex_rate_at ℝ 0 (-1) (-1) (1001 / 1000) (-19999))
        ⟨1⟩ ⟨1⟩ ⟨0, 0, 0⟩ ⟨0⟩ (ex_cooling ℝ true) (ex_part ℝ 1 0) 1 1).solve.u_final_cgs) ∧
    (0 < (cooling_locals m (ex_index ℝ) (ex_rate ℝ 1 20001)
        ⟨1⟩ ⟨1⟩ ⟨0, 0, 0⟩ ⟨0⟩ (ex_cooling ℝ true) (ex_part ℝ 1 0) 1 1).LambdaNet ∧
      (cooling_locals m (ex_index ℝ) (ex_rate ℝ 1 20001)
        ⟨1⟩ ⟨1⟩ ⟨0, 0, 0⟩ ⟨0⟩ (ex_cooling ℝ true) (ex_part ℝ 1 0) 1 1).solve.newton_calls = 1 ∧
      (cooling_locals m (ex_index ℝ) (ex_rate ℝ 1 20001)
        ⟨1⟩ ⟨1⟩ ⟨0, 0, 0⟩ ⟨0⟩ (ex_cooling ℝ true) (ex_part ℝ 1 0) 1 1).solve.bisection_calls
        = 0 ∧
      (cooling_locals m (ex_index ℝ) (ex_rate ℝ 1 20001)
        ⟨1⟩ ⟨1⟩ ⟨0, 0, 0⟩ ⟨0⟩ (ex_cooling ℝ true) (ex_part ℝ 1 0) 1 1).solve.u_final_cgs <
      (cooling_locals m (ex_index ℝ) (ex_rate ℝ 1 20001)
        ⟨1⟩ ⟨1⟩ ⟨0, 0, 0⟩ ⟨0⟩ (ex_cooling ℝ true) (ex_part ℝ 1 0) 1 1).u_0_cgs) ∧
    ((cooling_locals m (ex_index ℝ) (ex_rate_at ℝ 0 (-1) 1 0 0)
        ⟨1⟩ ⟨1⟩ ⟨0, 0, 0⟩ ⟨0⟩ (ex_cooling ℝ false) (ex_part ℝ 1 0) 1 1).LambdaNet < 0 ∧
      (cooling_locals m (ex_index ℝ) (ex_rate_at ℝ 0 (-1) 1 0 0)
        ⟨1⟩ ⟨1⟩ ⟨0, 0, 0⟩ ⟨0⟩ (ex_cooling ℝ false) (ex_part ℝ 1 0) 1 1).solve.bisection_calls
        = 1 ∧
      (cooling_locals m (ex_index ℝ) (ex_rate_at ℝ 0 (-1) 1 0 0)
        ⟨1⟩ ⟨1⟩ ⟨0, 0, 0⟩ ⟨0⟩ (ex_cooling ℝ false) (ex_part ℝ 1 0) 1 1).solve.u_final_cgs
        = bracket_factor ℝ ∧
      (cooling_locals m (ex_index ℝ) (ex_rate_at ℝ 0 (-1) 1 0 0)
        ⟨1⟩ ⟨1⟩ ⟨0, 0, 0⟩ ⟨0⟩ (ex_cooling ℝ false) (ex_part ℝ 1 0) 1 1).u_0_cgs <
      (cooling_locals m (ex_index ℝ) (ex_rate_at ℝ 0 (-1) 1 0 0)
        ⟨1⟩ ⟨1⟩ ⟨0, 0, 0⟩ ⟨0⟩ (ex_cooling ℝ false) (ex_part ℝ 1 0) 1 1).solve.u_final_cgs) := by
  obtain ⟨b1, b2⟩ := real_log_ten_bounds
  have hbf : (1 : ℝ) < 1 * bracket_factor ℝ := by
    unfold bracket_factor
    norm_num
  have hg : (0 : ℝ) < newton_log_u_guess_cgs ℝ - 1 / 20000 := by
    unfold newton_log_u_guess_cgs
    norm_num
  have hg2 : newton_log_u_guess_cgs ℝ - 1 / 20000 < 29 := by
    unfold newton_log_u_guess_cgs
    norm_num
  refine ⟨{ exp := Real.exp, log := Real.log, log10 := fun x => Real.log x / Real.log 10
            erf := fun x => 2 / Real.sqrt Real.pi * ∫ t in (0 : ℝ)..x, Real.exp (-(t ^ 2))
            M_SQRT2 := Real.sqrt 2, M_LOG10E := 1 / Real.log 10, M_LN10 := Real.log 10, to_float := fun x => x },
    ⟨rfl, rfl, rfl, rfl, rfl, rfl, rfl⟩, ?_, ?_, ?_⟩
  · obtain ⟨v1, v2, n_h_i, d_n_h, He_i, d_He, ar, v3⟩ := ex_locals_reduce
      ({ exp := Real.exp, log := Real.log, log10 := fun x => Real.log x / Real.log 10
         erf := fun x => 2 / Real.sqrt Real.pi * ∫ t in (0 : ℝ)..x, Real.exp (-(t ^ 2))
         M_SQRT2 := Real.sqrt 2, M_LOG10E := 1 / Real.log 10, M_LN10 := Real.log 10, to_float := fun x => x } : Libm ℝ) (fun _ => rfl)
      (ex_rate_at ℝ 0 (-1) (-1) (1001 / 1000) (-19999)) true (-1) Real.log_one
      (fun _ _ _ _ _ => by simp [ex_rate_at])
    rw [v1, v2, v3, ex_solve_newton_retry _ (fun _ => rfl) Real.log_one Real.exp_zero
      (by simp only [one_div, div_inv_eq_mul]; nlinarith)
      (by simp only [one_div, div_inv_eq_mul]; nlinarith)
      (by simp only [one_div, div_inv_eq_mul]; nlinarith)]
    refine ⟨by norm_num, rfl, rfl, ?_⟩
    simp only
    rw [Real.one_lt_exp_iff]
    exact hg
  · obtain ⟨v1, v2, n_h_i, d_n_h, He_i, d_He, ar, v3⟩ := ex_locals_reduce
      ({ exp := Real.exp, log := Real.log, log10 := fun x => Real.log x / Real.log 10
         erf := fun x => 2 / Real.sqrt Real.pi * ∫ t in (0 : ℝ)..x, Real.exp (-(t ^ 2))
         M_SQRT2 := Real.sqrt 2, M_LOG10E := 1 / Real.log 10, M_LN10 := Real.log 10, to_float := fun x => x } : Libm ℝ) (fun _ => rfl)
      (ex_rate ℝ 1 20001) true 1 Real.log_one (fun _ _ _ _ _ => by simp [ex_rate])
    rw [v1, v2, v3, ex_solve_newton_heating _ (fun _ => rfl) Real.log_one Real.exp_zero
      (by simp only [one_div, div_inv_eq_mul]; nlinarith)
      (by simp only [one_div, div_inv_eq_mul]; nlinarith)]
    refine ⟨one_pos, rfl, rfl, ?_⟩
    simp only
    rw [Real.exp_lt_one_iff]
    norm_num
  · obtain ⟨v1, v2, n_h_i, d_n_h, He_i, d_He, ar, v3⟩ := ex_locals_reduce
      ({ exp := Real.exp, log := Real.log, log10 := fun x => Real.log x / Real.log 10
         erf := fun x => 2 / Real.sqrt Real.pi * ∫ t in (0 : ℝ)..x, Real.exp (-(t ^ 2))
         M_SQRT2 := Real.sqrt 2, M_LOG10E := 1 / Real.log 10, M_LN10 := Real.log 10, to_float := fun x => x } : Libm ℝ) (fun _ => rfl)
      (ex_rate_at ℝ 0 (-1) 1 0 0) false (-1) Real.log_one
      (fun _ _ _ _ _ => by simp [ex_rate_at])
    obtain ⟨w1, w2⟩ := ex_solve_bisection_upper
      ({ exp := Real.exp, log := Real.log, log10 := fun x => Real.log x / Real.log 10
         erf := fun x => 2 / Real.sqrt Real.pi * ∫ t in (0 : ℝ)..x, Real.exp (-(t ^ 2))
         M_SQRT2 := Real.sqrt 2, M_LOG10E := 1 / Real.log 10, M_LN10 := Real.log 10, to_float := fun x => x } : Libm ℝ) (fun _ => rfl)
      Real.log_one Real.exp_zero
      (fun u hu => (Real.log_pos hu).ne')
      (Real.log_ne_zero_of_pos_of_ne_one (by norm_num [bracket_factor])
        (by norm_num [bracket_factor]))
      (by
        have := Real.log_pos hbf
        unfold bisection_failure
        intro h
        simp only at h
        linarith)
      n_h_i d_n_h He_i d_He ar
    simp only at w1
    rw [Real.exp_log (lt_trans one_pos hbf), one_mul] at w1
    rw [v1, v2, v3, w1, w2]
    refine ⟨by norm_num, rfl, rfl, ?_⟩
    unfold bracket_factor
    norm_num

/-- C8: whenever the `bisection_iter` call made by `cooling_cool_part` returns
its failure value -100, the call completes with `u_final = u_0` (CGS), so the
raw `delta_u` is `u_0 - u_start`, the stored `du/dt` is its limited value over
`dt_therm`, and a diagnostic message is printed.  `exp (log u_0) = u_0` is
what the C library gives for `u_0 > 0`; the energy scale is non-zero. -/
theorem cooling_bisection_failure_fallback (m : Libm F) (get_index_1d : IndexFn F)
    (rate : RateEval F) (phys : phys_const F) (us : unit_system F) (cosmo : cosmology F)
    (hydro_properties : hydro_props F) (cooling : cooling_function_data F)
    (p : part F) (xp : xpart F) (dt dt_therm : F) (L : cool_locals F) (o : cool_out F)
    (hL : L = cooling_locals m get_index_1d rate phys us cosmo hydro_properties cooling p
      dt dt_therm)
    (ho : o = cooling_cool_part m get_index_1d rate phys us cosmo hydro_properties cooling p xp
      dt dt_therm)
    (hdt : dt ≠ 0)
    (himp : L.solve.explicit_path = false)
    (hrun : cooling.newton_flag = false ∨ L.solve.bisection_flag = true)
    (hfail : (bisection_iter m rate (m.to_float (m.log L.u_0_cgs)) L.u_0_cgs L.n_h_i L.d_n_h L.He_i L.d_He
      (m.to_float L.LambdaTune) p cooling phys L.abundance_ratio (m.to_float L.dt_cgs)).value = bisection_failure F)
    (hlog : m.exp (m.log L.u_0_cgs) = L.u_0_cgs)
    (hscale : cooling.internal_energy_scale ≠ 0) :
    L.solve.u_final_cgs = L.u_0_cgs ∧
    L.delta_u_raw = L.u_0 - L.u_start ∧
    o.p.u_dt = cooling_clamp L.u_start hydro_properties.minimal_internal_energy
      (L.u_0 - L.u_start) / dt_therm ∧
    1 ≤ o.messages := by
  subst hL ho
  have hne : ¬ |(cooling_locals m get_index_1d rate phys us cosmo hydro_properties cooling p
      dt dt_therm).ratefact *
      (cooling_locals m get_index_1d rate phys us cosmo hydro_properties cooling p
      dt dt_therm).LambdaNet *
      (cooling_locals m get_index_1d rate phys us cosmo hydro_properties cooling p
      dt dt_therm).dt_cgs| < explicit_tolerance F *
      (cooling_locals m get_index_1d rate phys us cosmo hydro_properties cooling p
      dt dt_therm).u_0_cgs := fun h => by
    have h2 : (cooling_locals m get_index_1d rate phys us cosmo hydro_properties cooling p
      dt dt_therm).solve.explicit_path = true :=
      (cooling_solve_explicit_path m rate cooling p phys _ _ _ _ _ _ _ _ _ _).2 h
    rw [himp] at h2
    exact Bool.noConfusion h2
  have hflag : (cooling_locals m get_index_1d rate phys us cosmo hydro_properties cooling p
      dt dt_therm).solve.bisection_flag = _ :=
    cooling_solve_flag m rate cooling p phys _ _ _ _ _ _ _ _ _ _ hne
  rw [hflag] at hrun
  have key : (cooling_locals m get_index_1d rate phys us cosmo hydro_properties cooling p
      dt dt_therm).solve.u_final_cgs =
      m.exp (m.log (cooling_locals m get_index_1d rate phys us cosmo hydro_properties cooling p
      dt dt_therm).u_0_cgs) ∧
      1 ≤ (cooling_locals m get_index_1d rate phys us cosmo hydro_properties cooling p
      dt dt_therm).solve.messages :=
    cooling_solve_bisection_failed m rate cooling p phys _ _ _ _ _ _ _ _ _ _ hne
      (Or.symm hrun) hfail
  obtain ⟨k1, k2⟩ := key
  rw [hlog] at k1
  have e : (cooling_locals m get_index_1d rate phys us cosmo hydro_properties cooling p
      dt dt_therm).delta_u_raw =
      (cooling_locals m get_index_1d rate phys us cosmo hydro_properties cooling p
      dt dt_therm).u_0 -
      (cooling_locals m get_index_1d rate phys us cosmo hydro_properties cooling p
      dt dt_therm).u_start := by
    have e1 : (cooling_locals m get_index_1d rate phys us cosmo hydro_properties cooling p
      dt dt_therm).delta_u_raw =
      ((cooling_locals m get_index_1d rate phys us cosmo hydro_properties cooling p
      dt dt_therm).solve.u_final_cgs -
      (cooling_locals m get_index_1d rate phys us cosmo hydro_properties cooling p
      dt dt_therm).u_start * cooling.internal_energy_scale) / cooling.internal_energy_scale :=
      rfl
    have e2 : (cooling_locals m get_index_1d rate phys us cosmo hydro_properties cooling p
      dt dt_therm).u_0_cgs =
      (cooling_locals m get_index_1d rate phys us cosmo hydro_properties cooling p
      dt dt_therm).u_0 * cooling.internal_energy_scale := rfl
    rw [e1, k1, e2]
    field_simp
    ring
  refine ⟨k1, e, ?_, ?_⟩
  · have e3 : (cooling_cool_part m get_index_1d rate phys us cosmo hydro_properties cooling p xp
        dt dt_therm).p.u_dt =
        cooling_clamp (cooling_locals m get_index_1d rate phys us cosmo hydro_properties cooling p
          dt dt_therm).u_start hydro_properties.minimal_internal_energy
        (cooling_locals m get_index_1d rate phys us cosmo hydro_properties cooling p
          dt dt_therm).delta_u_raw / dt_therm := by
      rw [cooling_cool_part, if_neg hdt]
      rfl
    rw [e3, e]
  · rw [cooling_cool_part, if_neg hdt]
    exact k2

/-- Instance of C8 with the real exponential and logarithm: unit particle with
`u_0 = 1` and constant rate `-2`, Newton disabled: the residual `u_lower + 1`
never becomes non-positive, the bracket search gives up after 150 expansions,
`bisection_iter` returns -100 and the call ends with `u_final = u_0`, raw
`delta_u = u_0 - u_start` and a message. -/
theorem cooling_bisection_failure_fallback_witness :
    ∃ m : Libm ℝ, real_libm m ∧
      (cooling_locals m (ex_index ℝ) (ex_rate ℝ (-2) 0) ⟨1⟩ ⟨1⟩ ⟨0, 0, 0⟩ ⟨0⟩
        (ex_cooling ℝ false) (ex_part ℝ 1 0) 1 1).solve.u_final_cgs =
      (cooling_locals m (ex_index ℝ) (ex_rate ℝ (-2) 0) ⟨1⟩ ⟨1⟩ ⟨0, 0, 0⟩ ⟨0⟩
        (ex_cooling ℝ false) (ex_part ℝ 1 0) 1 1).u_0_cgs ∧
      (cooling_locals m (ex_index ℝ) (ex_rate ℝ (-2) 0) ⟨1⟩ ⟨1⟩ ⟨0, 0, 0⟩ ⟨0⟩
        (ex_cooling ℝ false) (ex_part ℝ 1 0) 1 1).delta_u_raw =
      (cooling_locals m (ex_index ℝ) (ex_rate ℝ (-2) 0) ⟨1⟩ ⟨1⟩ ⟨0, 0, 0⟩ ⟨0⟩
        (ex_cooling ℝ false) (ex_part ℝ 1 0) 1 1).u_0 -
      (cooling_locals m (ex_index ℝ) (ex_rate ℝ (-2) 0) ⟨1⟩ ⟨1⟩ ⟨0, 0, 0⟩ ⟨0⟩
        (ex_cooling ℝ false) (ex_part ℝ 1 0) 1 1).u_start ∧
      1 ≤ (cooling_cool_part m (ex_index ℝ) (ex_rate ℝ (-2) 0) ⟨1⟩ ⟨1⟩ ⟨0, 0, 0⟩ ⟨0⟩
        (ex_cooling ℝ false) (ex_part ℝ 1 0) ⟨0⟩ 1 1).messages := by
  refine ⟨{ exp := Real.exp, log := Real.log, log10 := fun x => Real.log x / Real.log 10
            erf := fun x => 2 / Real.sqrt Real.pi * ∫ t in (0 : ℝ)..x, Real.exp (-(t ^ 2))
            M_SQRT2 := Real.sqrt 2, M_LOG10E := 1 / Real.log 10, M_LN10 := Real.log 10, to_float := fun x => x },
    ⟨rfl, rfl, rfl, rfl, rfl, rfl, rfl⟩, ?_⟩
  obtain ⟨e1, e2, e3⟩ := ex_locals_bisection_fails
    ({ exp := Real.exp, log := Real.log, log10 := fun x => Real.log x / Real.log 10
       erf := fun x => 2 / Real.sqrt Real.pi * ∫ t in (0 : ℝ)..x, Real.exp (-(t ^ 2))
       M_SQRT2 := Real.sqrt 2, M_LOG10E := 1 / Real.log 10, M_LN10 := Real.log 10, to_float := fun x => x } : Libm ℝ) (fun _ => rfl)
    Real.log_one Real.exp_zero _ rfl
  obtain ⟨h1, h2, _, h4⟩ := cooling_bisection_failure_fallback _ (ex_index ℝ)
    (ex_rate ℝ (-2) 0) ⟨1⟩ ⟨1⟩ ⟨0, 0, 0⟩ ⟨0⟩ (ex_cooling ℝ false) (ex_part ℝ 1 0) ⟨0⟩ 1 1 _ _
    rfl rfl one_ne_zero e1 (Or.inl rfl) e2 e3 (by norm_num [ex_cooling])
  exact ⟨h1, h2, h4⟩

/-- C9: for identical inputs, whenever the call with Newton enabled ends with
the bisection flag set, its `u_final_cgs` (and the `du/dt` it emits) equals
that of the Newton-disabled configuration; and on the implicit branch
`bisection_iter` is run exactly when Newton is disabled or the final
bisection flag is set (on the explicit branch it is never run). -/
theorem cooling_newton_fallback_is_bisection (m : Libm F) (get_index_1d : IndexFn F)
    (rate : RateEval F) (phys : phys_const F) (us : unit_system F) (cosmo : cosmology F)
    (hydro_properties : hydro_props F) (cooling : cooling_function_data F)
    (p : part F) (dt dt_therm : F) (L1 L0 L : cool_locals F)
    (h1 : L1 = cooling_locals m get_index_1d rate phys us cosmo hydro_properties
      { cooling with newton_flag := true } p dt dt_therm)
    (h0 : L0 = cooling_locals m get_index_1d rate phys us cosmo hydro_properties
      { cooling with newton_flag := false } p dt dt_therm)
    (hL : L = cooling_locals m get_index_1d rate phys us cosmo hydro_properties
      cooling p dt dt_therm) :
    (L1.solve.bisection_flag = true →
      L1.solve.u_final_cgs = L0.solve.u_final_cgs ∧ L1.cooling_du_dt = L0.cooling_du_dt) ∧
    (L.solve.explicit_path = false →
      (L.solve.bisection_calls = 1 ↔
        (cooling.newton_flag = false ∨ L.solve.bisection_flag = true))) ∧
    (L.solve.explicit_path = true → L.solve.bisection_calls = 0) := by
  subst h1 h0 hL
  refine ⟨?_, cooling_solve_calls m rate cooling p phys _ _ _ _ _ _ _ _ _ _⟩
  intro hflag
  have e : (cooling_locals m get_index_1d rate phys us cosmo hydro_properties
      { cooling with newton_flag := true } p dt dt_therm).solve.u_final_cgs =
      (cooling_locals m get_index_1d rate phys us cosmo hydro_properties
      { cooling with newton_flag := false } p dt dt_therm).solve.u_final_cgs :=
    cooling_solve_newton_flag m rate cooling p phys _ _ _ _ _ _ _ _ _ _ hflag
  refine ⟨e, ?_⟩
  simp only [cooling_locals] at e ⊢
  rw [e]

/-- Instance of C9 with the real exponential and logarithm: unit particle
with `u_0 = 1`, rate `1/2` and derivative `0.9995`: the first Newton iterate is
`1000`, above the table bound, so the flag is set and the result is that of
the bisection-only configuration. -/
theorem cooling_newton_fallback_is_bisection_witness :
    ∃ m : Libm ℝ, real_libm m ∧
      (cooling_locals m (ex_index ℝ) (ex_rate ℝ (1 / 2) (1999 / 2000)) ⟨1⟩ ⟨1⟩ ⟨0, 0, 0⟩ ⟨0⟩
        (ex_cooling ℝ true) (ex_part ℝ 1 0) 1 1).solve.bisection_flag = true ∧
      (cooling_locals m (ex_index ℝ) (ex_rate ℝ (1 / 2) (1999 / 2000)) ⟨1⟩ ⟨1⟩ ⟨0, 0, 0⟩ ⟨0⟩
        (ex_cooling ℝ true) (ex_part ℝ 1 0) 1 1).solve.u_final_cgs =
      (cooling_locals m (ex_index ℝ) (ex_rate ℝ (1 / 2) (1999 / 2000)) ⟨1⟩ ⟨1⟩ ⟨0, 0, 0⟩ ⟨0⟩
        (ex_cooling ℝ false) (ex_part ℝ 1 0) 1 1).solve.u_final_cgs := by
  refine ⟨{ exp := Real.exp, log := Real.log, log10 := fun x => Real.log x / Real.log 10
            erf := fun x => 2 / Real.sqrt Real.pi * ∫ t in (0 : ℝ)..x, Real.exp (-(t ^ 2))
            M_SQRT2 := Real.sqrt 2, M_LOG10E := 1 / Real.log 10, M_LN10 := Real.log 10, to_float := fun x => x },
    ⟨rfl, rfl, rfl, rfl, rfl, rfl, rfl⟩, ?_⟩
  obtain ⟨_, b2⟩ := real_log_ten_bounds
  obtain ⟨_, _, n_h_i, d_n_h, He_i, d_He, ar, v3⟩ := ex_locals_reduce
    ({ exp := Real.exp, log := Real.log, log10 := fun x => Real.log x / Real.log 10
       erf := fun x => 2 / Real.sqrt Real.pi * ∫ t in (0 : ℝ)..x, Real.exp (-(t ^ 2))
       M_SQRT2 := Real.sqrt 2, M_LOG10E := 1 / Real.log 10, M_LN10 := Real.log 10, to_float := fun x => x } : Libm ℝ) (fun _ => rfl)
    (ex_rate ℝ (1 / 2) (1999 / 2000)) true (1 / 2) Real.log_one
    (fun _ _ _ _ _ => by simp [ex_rate])
  have hf : (cooling_locals
      ({ exp := Real.exp, log := Real.log, log10 := fun x => Real.log x / Real.log 10
         erf := fun x => 2 / Real.sqrt Real.pi * ∫ t in (0 : ℝ)..x, Real.exp (-(t ^ 2))
         M_SQRT2 := Real.sqrt 2, M_LOG10E := 1 / Real.log 10, M_LN10 := Real.log 10, to_float := fun x => x } : Libm ℝ)
      (ex_index ℝ) (ex_rate ℝ (1 / 2) (1999 / 2000)) ⟨1⟩ ⟨1⟩ ⟨0, 0, 0⟩ ⟨0⟩
      (ex_cooling ℝ true) (ex_part ℝ 1 0) 1 1).solve.bisection_flag = true := by
    rw [v3]
    exact ex_solve_newton_leaves_table _ (fun _ => rfl) Real.log_one Real.exp_zero
      (by simp only [one_div, div_inv_eq_mul]; nlinarith) _ _ _ _ _
  exact ⟨hf, ((cooling_newton_fallback_is_bisection _ (ex_index ℝ)
    (ex_rate ℝ (1 / 2) (1999 / 2000)) ⟨1⟩ ⟨1⟩ ⟨0, 0, 0⟩ ⟨0⟩ (ex_cooling ℝ true)
    (ex_part ℝ 1 0) 1 1 _ _ _ rfl rfl rfl).1 hf).1⟩

/-- C10: the solve is bounded by the fixed iteration caps alone, for every
rate function and every input.  All loops are total functions whose only
stopping reason is the loop condition of the source; one `newton_iter` call
evaluates the rate at most 15 times, one `bisection_iter` call at most
`2 + 150 + 150` times, and one `cooling_cool_part` call at most
`1 + 2 * 15 + (2 + 150 + 150) = 333` times. -/
theorem cooling_rate_evaluations_bounded (m : Libm F) (get_index_1d : IndexFn F)
    (rate : RateEval F) (phys : phys_const F) (us : unit_system F) (cosmo : cosmology F)
    (hydro_properties : hydro_props F) (cooling : cooling_function_data F)
    (p : part F) (xp : xpart F) (dt dt_therm : F)
    (logu_init u_ini : F) (n_h_i : Int) (d_n_h : F) (He_i : Int) (d_He : F)
    (He_reion_heat : F) (abundance_ratio : Nat → F) (dt_cgs : F) (flag : Bool) :
    (newton_iter m rate logu_init u_ini n_h_i d_n_h He_i d_He He_reion_heat p cooling phys
      abundance_ratio dt_cgs flag).rate_evals ≤ 15 ∧
    (bisection_iter m rate logu_init u_ini n_h_i d_n_h He_i d_He He_reion_heat p cooling phys
      abundance_ratio dt_cgs).rate_evals ≤ 2 + 150 + 150 ∧
    (cooling_cool_part m get_index_1d rate phys us cosmo hydro_properties cooling p xp
      dt dt_therm).rate_evals ≤ 333 := by
  refine ⟨newton_iter_evals _ _ _ _ _ _ _ _ _ _ _ _ _ _ _,
    bisection_iter_evals _ _ _ _ _ _ _ _ _ _ _ _ _ _, ?_⟩
  unfold cooling_cool_part
  split_ifs with h
  · simp
  · have h1 : (cooling_locals m get_index_1d rate phys us cosmo hydro_properties cooling p
        dt dt_therm).solve.rate_evals ≤
        2 * newton_max_iterations + (2 + bisection_max_iterations + bisection_max_iterations) :=
      cooling_solve_evals _ _ _ _ _ _ _ _ _ _ _ _ _ _ _
    simp only [newton_max_iterations, bisection_max_iterations] at h1
    simp only
    omega

/-! ## Frame, accumulator and clamp formula (C11, C12, C16) -/

/-- C11: a call of `cooling_cool_part` returns the particle with at most its
`u_dt` replaced (`id`, `u`, `rho`, `mass` and the metal mass fractions are the
caller's) and the extended particle with at most its `radiated_energy`
replaced.  The cooling data are a `const` argument and not among the outputs:
the call cannot change `z_index`, `dz` or any table. -/
theorem cooling_cool_part_frame (m : Libm F) (get_index_1d : IndexFn F) (rate : RateEval F)
    (phys : phys_const F) (us : unit_system F) (cosmo : cosmology F)
    (hydro_properties : hydro_props F) (cooling : cooling_function_data F)
    (p : part F) (xp : xpart F) (dt dt_therm : F) :
    (cooling_cool_part m get_index_1d rate phys us cosmo hydro_properties cooling p xp
      dt dt_therm).p =
      { p with u_dt := (cooling_cool_part m get_index_1d rate phys us cosmo hydro_properties
          cooling p xp dt dt_therm).p.u_dt } ∧
    (cooling_cool_part m get_index_1d rate phys us cosmo hydro_properties cooling p xp
      dt dt_therm).xp =
      { xp with radiated_energy := (cooling_cool_part m get_index_1d rate phys us cosmo
          hydro_properties cooling p xp dt dt_therm).xp.radiated_energy } := by
  unfold cooling_cool_part
  split_ifs with h
  · exact ⟨rfl, rfl⟩
  · exact ⟨rfl, rfl⟩

/-- C16: the clamp stage is the piecewise function of the specification, and
it returns `delta_u` unchanged when `u_start + 1.5 delta_u ≥ u_min` and
`u_start + 2.5 delta_u ≥ 0`. -/
theorem cooling_clamp_piecewise (u_start u_min delta_u : F) :
    cooling_clamp u_start u_min delta_u = clamp_piecewise u_start u_min delta_u ∧
    (u_start + (15 / 10) * delta_u ≥ u_min → u_start + (25 / 10) * delta_u ≥ 0 →
      cooling_clamp u_start u_min delta_u = delta_u) := by
  have e1 : (15 / 10 : F) = 3 / 2 := by norm_num
  have e2 : (25 / 10 : F) = 5 / 2 := by norm_num
  constructor
  · unfold cooling_clamp clamp_piecewise rounding_tolerance
    simp only [e1, e2]
  · intro h1 h2
    rw [e1] at h1
    rw [e2] at h2
    unfold cooling_clamp
    simp only
    rw [if_neg (not_lt.mpr h1), if_neg (not_lt.mpr h2)]

/-! ## Helium reionization heating (C13) -/

/-- The Gaussian integral between two points, bounded by the width times
the integrand at either end of an interval of non-negative numbers. -/
theorem gauss_integral_bounds (a b : ℝ) (ha : 0 ≤ a) (hab : a ≤ b) :
    (b - a) * Real.exp (-(b ^ 2)) ≤
      (∫ t in (0 : ℝ)..b, Real.exp (-(t ^ 2))) - ∫ t in (0 : ℝ)..a, Real.exp (-(t ^ 2)) ∧
    (∫ t in (0 : ℝ)..b, Real.exp (-(t ^ 2))) - (∫ t in (0 : ℝ)..a, Real.exp (-(t ^ 2))) ≤
      (b - a) * Real.exp (-(a ^ 2)) := by
  have hc : Continuous (fun t : ℝ => Real.exp (-(t ^ 2))) := by continuity
  have hi : ∀ x y : ℝ, IntervalIntegrable (fun t : ℝ => Real.exp (-(t ^ 2))) MeasureTheory.volume
      x y := fun x y => hc.intervalIntegrable x y
  rw [intervalIntegral.integral_interval_sub_left (hi 0 b) (hi 0 a)]
  constructor
  · have h := intervalIntegral.integral_mono_on hab
      (intervalIntegrable_const : IntervalIntegrable (fun _ : ℝ => Real.exp (-(b ^ 2)))
        MeasureTheory.volume a b) (hi a b)
      (fun x hx => by
        apply Real.exp_le_exp.mpr
        have h1 : x ^ 2 ≤ b ^ 2 := by nlinarith [hx.1, hx.2]
        linarith)
    rw [intervalIntegral.integral_const, smul_eq_mul] at h
    exact h
  · have h := intervalIntegral.integral_mono_on hab (hi a b)
      (intervalIntegrable_const : IntervalIntegrable (fun _ : ℝ => Real.exp (-(a ^ 2)))
        MeasureTheory.volume a b)
      (fun x hx => by
        apply Real.exp_le_exp.mpr
        have h1 : a ^ 2 ≤ x ^ 2 := by nlinarith [hx.1, hx.2]
        linarith)
    rw [intervalIntegral.integral_const, smul_eq_mul] at h
    exact h

/-- C13: the redshift argument that `cooling_cool_part` hands to
`eagle_helium_reionization_extraheat` is the table index `cooling->z_index`,
not the redshift `cosmo->z` the callee documents; the heating term is the
error-function difference taken at `z_index`, whatever `cosmo->z` is.  With
the exact error function, `z_index = 0`, a redshift of 3 and a redshift step
of 1 the term differs from the value at the redshift: `erf(1/√2)/2` against
`(erf(4/√2) - erf(3/√2))/2`. -/
theorem cooling_helium_heat_uses_z_index :
    (∀ (m : Libm F) (get_index_1d : IndexFn F) (rate : RateEval F)
      (phys : phys_const F) (us : unit_system F) (cosmo : cosmology F)
      (hydro_properties : hydro_props F) (cooling : cooling_function_data F)
      (p : part F) (dt dt_therm : F),
      (cooling_locals m get_index_1d rate phys us cosmo hydro_properties cooling p
        dt dt_therm).LambdaTune =
      eagle_helium_reionization_extraheat m (cooling.z_index : F)
        (-dt * cosmo.H * cosmo.a_inv) cooling) ∧
    ∃ m : Libm ℝ, real_libm m ∧
      (cooling_locals m (ex_index ℝ) (ex_rate ℝ 0 0) ⟨1⟩ ⟨1⟩ ⟨3, 1, 1⟩ ⟨0⟩ (ex_cooling_he ℝ)
        (ex_part ℝ 1 0) 1 1).LambdaTune ≠
      eagle_helium_reionization_extraheat m 3 (-1 * 1 * 1) (ex_cooling_he ℝ) := by
  refine ⟨fun m get_index_1d rate phys us cosmo hydro_properties cooling p dt dt_therm => rfl,
    { exp := Real.exp, log := Real.log, log10 := fun x => Real.log x / Real.log 10
      erf := fun x => 2 / Real.sqrt Real.pi * ∫ t in (0 : ℝ)..x, Real.exp (-(t ^ 2))
      M_SQRT2 := Real.sqrt 2, M_LOG10E := 1 / Real.log 10, M_LN10 := Real.log 10, to_float := fun x => x },
    ⟨rfl, rfl, rfl, rfl, rfl, rfl, rfl⟩, ?_⟩
  simp only [cooling_locals, eagle_helium_reionization_extraheat, ex_cooling_he, ex_cooling]
  norm_num
  intro h
  have hs : (0 : ℝ) < (Real.sqrt 2)⁻¹ := inv_pos.mpr (Real.sqrt_pos.mpr (by norm_num))
  have hpi : (0 : ℝ) < 2 / Real.sqrt Real.pi :=
    div_pos (by norm_num) (Real.sqrt_pos.mpr Real.pi_pos)
  have h1 := (gauss_integral_bounds 0 (Real.sqrt 2)⁻¹ le_rfl hs.le).1
  have h2 := (gauss_integral_bounds (3 / Real.sqrt 2) (4 / Real.sqrt 2)
    (by positivity) (by gcongr; norm_num)).2
  rw [intervalIntegral.integral_same, sub_zero, sub_zero] at h1
  have e3 : (4 / Real.sqrt 2 - 3 / Real.sqrt 2 : ℝ) = (Real.sqrt 2)⁻¹ := by ring
  rw [e3] at h2
  have hexp : Real.exp (-((3 / Real.sqrt 2) ^ 2)) < Real.exp (-(((Real.sqrt 2)⁻¹) ^ 2)) := by
    apply Real.exp_lt_exp.mpr
    have : (Real.sqrt 2) ^ 2 = 2 := Real.sq_sqrt (by norm_num)
    rw [div_pow, inv_pow, this]
    norm_num
  have h3 : (Real.sqrt 2)⁻¹ * Real.exp (-((3 / Real.sqrt 2) ^ 2)) <
      (Real.sqrt 2)⁻¹ * Real.exp (-(((Real.sqrt 2)⁻¹) ^ 2)) := mul_lt_mul_of_pos_left hexp hs
  have h4 : (∫ t in (0 : ℝ)..4 / Real.sqrt 2, Real.exp (-(t ^ 2))) -
      (∫ t in (0 : ℝ)..3 / Real.sqrt 2, Real.exp (-(t ^ 2))) <
      ∫ t in (0 : ℝ)..(Real.sqrt 2)⁻¹, Real.exp (-(t ^ 2)) := by linarith
  have h5 := mul_lt_mul_of_pos_left h4 hpi
  linarith

/-! ## Abundance ratios in the rate evaluator (C14) -/

theorem abundance_ratio_to_solar_slots (p : part F) (cooling : cooling_function_data F)
    (r0 : Nat → F) :
    (∀ k, k < 8 → abundance_ratio_to_solar p cooling r0 k =
      p.smoothed_metal_mass_fraction k / cooling.SolarAbundances k) ∧
    abundance_ratio_to_solar p cooling r0 8 =
      p.smoothed_metal_mass_fraction chemistry_element_Fe / cooling.SolarAbundances 10 ∧
    abundance_ratio_to_solar p cooling r0 9 =
      p.smoothed_metal_mass_fraction chemistry_element_Si * cooling.sulphur_over_silicon_ratio /
        cooling.SolarAbundances 8 ∧
    abundance_ratio_to_solar p cooling r0 10 =
      p.smoothed_metal_mass_fraction chemistry_element_Si * cooling.calcium_over_silicon_ratio /
        cooling.SolarAbundances 9 := by
  refine ⟨?_, ?_, ?_, ?_⟩
  · intro k hk
    interval_cases k <;>
      simp [abundance_ratio_to_solar, abundance_ratio_elem, chemistry_element_count,
        chemistry_element_Fe, chemistry_element_Si, List.range_succ, Function.update]
  all_goals
    simp [abundance_ratio_to_solar, abundance_ratio_elem, chemistry_element_count,
      chemistry_element_Fe, chemistry_element_Si, List.range_succ, Function.update]

/-- C14: the metal loops of the rate evaluator multiply the tabulated rate of
table species `i` by entry `i + 2` of the abundance-ratio array.  For the
first six metals (C to Si) that is the species' own ratio.  For the last
three it is not: the array holds iron, sulphur, calcium at 8, 9, 10 while the
tables hold sulphur, calcium, iron at 6, 7, 8, so the sulphur rate is scaled
by the iron ratio, the calcium rate by the sulphur ratio and the iron rate by
the calcium ratio, in both loops.  On the example (rates 7, 8, 9 and ratios
4, 2, 9 for S, Ca, Fe) the evaluator's contributions are 63, 32, 18 and its
rate 246, where the species' own ratios give 28, 16, 81 and 258. -/
theorem metal_rate_species_mismatch :
    (∀ (q : TableQuery F) (cooling : cooling_function_data F) (n_h_i : Int) (d_n_h : F)
      (v : metal_rate_locals F) (solar_ratio : Nat → F) (i : Nat), i < 6 →
      metal_lambda_highz q cooling n_h_i d_n_h v solar_ratio i =
        q.interpolate_3d cooling.table.metal_heating n_h_i v.temp_i (i : Int) d_n_h v.d_temp 0
            cooling.N_nH cooling.N_Temp cooling.N_Elements *
          (v.h_plus_he_electron_abundance / v.solar_electron_abundance) *
          solar_ratio (table_species_slot i) ∧
      metal_lambda_lowz q cooling n_h_i d_n_h v solar_ratio i =
        q.interpolate_4d cooling.table.metal_heating 0 n_h_i v.temp_i (i : Int) cooling.dz
            d_n_h v.d_temp 0 2 cooling.N_nH cooling.N_Temp cooling.N_Elements *
          (v.h_plus_he_electron_abundance / v.solar_electron_abundance) *
          solar_ratio (table_species_slot i)) ∧
    (∀ (q : TableQuery F) (cooling : cooling_function_data F) (n_h_i : Int) (d_n_h : F)
      (v : metal_rate_locals F) (p : part F) (r0 : Nat → F),
      metal_lambda_highz q cooling n_h_i d_n_h v (abundance_ratio_to_solar p cooling r0) 6 =
        q.interpolate_3d cooling.table.metal_heating n_h_i v.temp_i 6 d_n_h v.d_temp 0
            cooling.N_nH cooling.N_Temp cooling.N_Elements *
          (v.h_plus_he_electron_abundance / v.solar_electron_abundance) *
          (p.smoothed_metal_mass_fraction chemistry_element_Fe / cooling.SolarAbundances 10) ∧
      metal_lambda_highz q cooling n_h_i d_n_h v (abundance_ratio_to_solar p cooling r0) 7 =
        q.interpolate_3d cooling.table.metal_heating n_h_i v.temp_i 7 d_n_h v.d_temp 0
            cooling.N_nH cooling.N_Temp cooling.N_Elements *
          (v.h_plus_he_electron_abundance / v.solar_electron_abundance) *
          (p.smoothed_metal_mass_fraction chemistry_element_Si *
            cooling.sulphur_over_silicon_ratio / cooling.SolarAbundances 8) ∧
      metal_lambda_highz q cooling n_h_i d_n_h v (abundance_ratio_to_solar p cooling r0) 8 =
        q.interpolate_3d cooling.table.metal_heating n_h_i v.temp_i 8 d_n_h v.d_temp 0
            cooling.N_nH cooling.N_Temp cooling.N_Elements *
          (v.h_plus_he_electron_abundance / v.solar_electron_abundance) *
          (p.smoothed_metal_mass_fraction chemistry_element_Si *
            cooling.calcium_over_silicon_ratio / cooling.SolarAbundances 9) ∧
      metal_lambda_lowz q cooling n_h_i d_n_h v (abundance_ratio_to_solar p cooling r0) 6 =
        q.interpolate_4d cooling.table.metal_heating 0 n_h_i v.temp_i 6 cooling.dz
            d_n_h v.d_temp 0 2 cooling.N_nH cooling.N_Temp cooling.N_Elements *
          (v.h_plus_he_electron_abundance / v.solar_electron_abundance) *
          (p.smoothed_metal_mass_fraction chemistry_element_Fe / cooling.SolarAbundances 10) ∧
      metal_lambda_lowz q cooling n_h_i d_n_h v (abundance_ratio_to_solar p cooling r0) 7 =
        q.interpolate_4d cooling.table.metal_heating 0 n_h_i v.temp_i 7 cooling.dz
            d_n_h v.d_temp 0 2 cooling.N_nH cooling.N_Temp cooling.N_Elements *
          (v.h_plus_he_electron_abundance / v.solar_electron_abundance) *
          (p.smoothed_metal_mass_fraction chemistry_element_Si *
            cooling.sulphur_over_silicon_ratio / cooling.SolarAbundances 8) ∧
      metal_lambda_lowz q cooling n_h_i d_n_h v (abundance_ratio_to_solar p cooling r0) 8 =
        q.interpolate_4d cooling.table.metal_heating 0 n_h_i v.temp_i 8 cooling.dz
            d_n_h v.d_temp 0 2 cooling.N_nH cooling.N_Temp cooling.N_Elements *
          (v.h_plus_he_electron_abundance / v.solar_electron_abundance) *
          (p.smoothed_metal_mass_fraction chemistry_element_Si *
            cooling.calcium_over_silicon_ratio / cooling.SolarAbundances 9)) ∧
    (eagle_metal_cooling_rate ex_libm (ex_query ℚ) 0 none 0 0 0 0 (ex_part_metal ℚ)
      (ex_cooling_metal ℚ) ⟨0, 0, 0⟩ ⟨1⟩ (some (fun _ => 0))
      (abundance_ratio_to_solar (ex_part_metal ℚ) (ex_cooling_metal ℚ)
        (fun _ => 0))).element_lambda.map (fun a => (a 8, a 9, a 10)) = some (63, 32, 18) ∧
    (eagle_metal_cooling_rate ex_libm (ex_query ℚ) 0 none 0 0 0 0 (ex_part_metal ℚ)
      (ex_cooling_metal ℚ) ⟨0, 0, 0⟩ ⟨1⟩ (some (fun _ => 0))
      (abundance_ratio_to_solar (ex_part_metal ℚ) (ex_cooling_metal ℚ)
        (fun _ => 0))).cooling_rate = 246 ∧
    ((ex_cooling_metal ℚ).table.metal_heating 6 *
        abundance_ratio_to_solar (ex_part_metal ℚ) (ex_cooling_metal ℚ) (fun _ => 0)
          (table_species_slot 6),
      (ex_cooling_metal ℚ).table.metal_heating 7 *
        abundance_ratio_to_solar (ex_part_metal ℚ) (ex_cooling_metal ℚ) (fun _ => 0)
          (table_species_slot 7),
      (ex_cooling_metal ℚ).table.metal_heating 8 *
        abundance_ratio_to_solar (ex_part_metal ℚ) (ex_cooling_metal ℚ) (fun _ => 0)
          (table_species_slot 8)) = ((28 : ℚ), (16 : ℚ), (81 : ℚ)) := by
  refine ⟨?_, ?_, ?_, ?_, ?_⟩
  · intro q cooling n_h_i d_n_h v solar_ratio i hi
    have e : table_species_slot i = i + 2 := by
      unfold table_species_slot
      rw [if_neg (by omega), if_neg (by omega), if_neg (by omega)]
    rw [e]
    exact ⟨rfl, rfl⟩
  · intro q cooling n_h_i d_n_h v p r0
    obtain ⟨-, h8, h9, h10⟩ := abundance_ratio_to_solar_slots p cooling r0
    unfold metal_lambda_highz metal_lambda_lowz
    simp only [h8, h9, h10, Nat.cast_ofNat]
    simp
  · simp [eagle_metal_cooling_rate, metal_free_lookups, solar_electron_lookups, metal_step_lowz,
      metal_lambda_lowz, ex_query, ex_cooling_metal, ex_cooling, ex_part_metal,
      abundance_ratio_to_solar, abundance_ratio_elem, chemistry_element_count,
      chemistry_element_Fe, chemistry_element_Si, List.range_succ, Function.update]
    norm_num
  · simp [eagle_metal_cooling_rate, metal_free_lookups, solar_electron_lookups, metal_step_lowz,
      metal_lambda_lowz, ex_query, ex_cooling_metal, ex_cooling, ex_part_metal,
      abundance_ratio_to_solar, abundance_ratio_elem, chemistry_element_count,
      chemistry_element_Fe, chemistry_element_Si, List.range_succ, Function.update]
    norm_num
  · simp [table_species_slot, ex_cooling_metal, ex_cooling, ex_part_metal,
      abundance_ratio_to_solar, abundance_ratio_elem, chemistry_element_count,
      chemistry_element_Fe, chemistry_element_Si, List.range_succ, Function.update]
    norm_num

/-! ## The derivative request and the returned rate (C15) -/

theorem metal_free_lookups_rate (q : TableQuery F) (cooling : cooling_function_data F) (z : F)
    (n_h_i : Int) (d_n_h : F) (He_i : Int) (d_He : F) (temp_i : Int) (d_temp : F) :
    (metal_free_lookups q cooling z true n_h_i d_n_h He_i d_He temp_i d_temp).1 =
      (metal_free_lookups q cooling z false n_h_i d_n_h He_i d_He temp_i d_temp).1 ∧
    (metal_free_lookups q cooling z true n_h_i d_n_h He_i d_He temp_i d_temp).2.1 =
      (metal_free_lookups q cooling z false n_h_i d_n_h He_i d_He temp_i d_temp).2.1 ∧
    (metal_free_lookups q cooling z true n_h_i d_n_h He_i d_He temp_i d_temp).2.2.2.2 = 6 ∧
    (metal_free_lookups q cooling z false n_h_i d_n_h He_i d_He temp_i d_temp).2.2.2.2 = 2 := by
  unfold metal_free_lookups
  by_cases h : z > cooling.Redshifts (cooling.N_Redshifts - 1)
  · simp [h]
  · simp [h]

theorem solar_electron_lookups_rate (q : TableQuery F) (cooling : cooling_function_data F)
    (z : F) (n_h_i : Int) (d_n_h : F) (temp_i : Int) (d_temp : F) :
    (solar_electron_lookups q cooling z true n_h_i d_n_h temp_i d_temp).1 =
      (solar_electron_lookups q cooling z false n_h_i d_n_h temp_i d_temp).1 ∧
    (solar_electron_lookups q cooling z true n_h_i d_n_h temp_i d_temp).2.2 = 3 ∧
    (solar_electron_lookups q cooling z false n_h_i d_n_h temp_i d_temp).2.2 = 1 := by
  unfold solar_electron_lookups
  by_cases h : z > cooling.Redshifts (cooling.N_Redshifts - 1)
  · simp [h]
  · simp [h]

theorem metal_fold_highz (q : TableQuery F) (cooling : cooling_function_data F)
    (n_h_i : Int) (d_n_h : F) (v w : metal_rate_locals F) (solar_ratio : Nat → F)
    (h1 : v.temp_i = w.temp_i) (h2 : v.d_temp = w.d_temp)
    (h3 : v.h_plus_he_electron_abundance = w.h_plus_he_electron_abundance)
    (h4 : v.solar_electron_abundance = w.solar_electron_abundance) (l : List Nat) :
    ∀ (s t : metal_rate_out F), s.cooling_rate = t.cooling_rate →
      s.element_lambda = t.element_lambda → s.dlambda_du.isSome = true → t.dlambda_du = none →
      (l.foldl (metal_step_highz q cooling n_h_i d_n_h v solar_ratio) s).cooling_rate =
        (l.foldl (metal_step_highz q cooling n_h_i d_n_h w solar_ratio) t).cooling_rate ∧
      (l.foldl (metal_step_highz q cooling n_h_i d_n_h v solar_ratio) s).element_lambda =
        (l.foldl (metal_step_highz q cooling n_h_i d_n_h w solar_ratio) t).element_lambda ∧
      (l.foldl (metal_step_highz q cooling n_h_i d_n_h v solar_ratio) s).lookups =
        s.lookups + 3 * l.length ∧
      (l.foldl (metal_step_highz q cooling n_h_i d_n_h w solar_ratio) t).lookups =
        t.lookups + l.length ∧
      (l.foldl (metal_step_highz q cooling n_h_i d_n_h w solar_ratio) t).dlambda_du = none := by
  induction l with
  | nil =>
    intro s t hr he _ ht
    simp [hr, he, ht]
  | cons i l ih =>
    intro s t hr he hs ht
    obtain ⟨d, hd⟩ := Option.isSome_iff_exists.mp hs
    have hl : metal_lambda_highz q cooling n_h_i d_n_h v solar_ratio i =
        metal_lambda_highz q cooling n_h_i d_n_h w solar_ratio i := by
      unfold metal_lambda_highz
      rw [h1, h2, h3, h4]
    rw [List.foldl_cons, List.foldl_cons]
    have hs1 : (metal_step_highz q cooling n_h_i d_n_h v solar_ratio s i).cooling_rate =
          s.cooling_rate + metal_lambda_highz q cooling n_h_i d_n_h v solar_ratio i ∧
        (metal_step_highz q cooling n_h_i d_n_h v solar_ratio s i).element_lambda =
          s.element_lambda.map (fun a => Function.update a (i + 2)
            (metal_lambda_highz q cooling n_h_i d_n_h v solar_ratio i)) ∧
        (metal_step_highz q cooling n_h_i d_n_h v solar_ratio s i).lookups = s.lookups + 3 ∧
        (metal_step_highz q cooling n_h_i d_n_h v solar_ratio s i).dlambda_du.isSome = true := by
      unfold metal_step_highz
      simp [hd]
    have ht1 : (metal_step_highz q cooling n_h_i d_n_h w solar_ratio t i).cooling_rate =
          t.cooling_rate + metal_lambda_highz q cooling n_h_i d_n_h w solar_ratio i ∧
        (metal_step_highz q cooling n_h_i d_n_h w solar_ratio t i).element_lambda =
          t.element_lambda.map (fun a => Function.update a (i + 2)
            (metal_lambda_highz q cooling n_h_i d_n_h w solar_ratio i)) ∧
        (metal_step_highz q cooling n_h_i d_n_h w solar_ratio t i).lookups = t.lookups + 1 ∧
        (metal_step_highz q cooling n_h_i d_n_h w solar_ratio t i).dlambda_du = none := by
      unfold metal_step_highz
      simp [ht]
    have := ih (metal_step_highz q cooling n_h_i d_n_h v solar_ratio s i)
      (metal_step_highz q cooling n_h_i d_n_h w solar_ratio t i)
      (by rw [hs1.1, ht1.1, hr, hl])
      (by rw [hs1.2.1, ht1.2.1, he, hl]) hs1.2.2.2 ht1.2.2.2
    refine ⟨this.1, this.2.1, ?_, ?_, this.2.2.2.2⟩
    · rw [this.2.2.1, hs1.2.2.1]
      simp only [List.length_cons]
      ring
    · rw [this.2.2.2.1, ht1.2.2.1]
      simp only [List.length_cons]
      ring

theorem metal_loop_highz (q : TableQuery F) (cooling : cooling_function_data F)
    (n_h_i : Int) (d_n_h : F) (v w : metal_rate_locals F) (solar_ratio : Nat → F) (n : Nat)
    (s t : metal_rate_out F) (a b : Nat)
    (h1 : v.temp_i = w.temp_i) (h2 : v.d_temp = w.d_temp)
    (h3 : v.h_plus_he_electron_abundance = w.h_plus_he_electron_abundance)
    (h4 : v.solar_electron_abundance = w.solar_electron_abundance)
    (hr : s.cooling_rate = t.cooling_rate) (he : s.element_lambda = t.element_lambda)
    (hs : s.dlambda_du.isSome = true) (ht : t.dlambda_du = none)
    (ha : s.lookups = a) (hb : t.lookups = b) :
    ((List.range n).foldl (metal_step_highz q cooling n_h_i d_n_h v solar_ratio) s).cooling_rate =
      ((List.range n).foldl (metal_step_highz q cooling n_h_i d_n_h w solar_ratio)
        t).cooling_rate ∧
    ((List.range n).foldl (metal_step_highz q cooling n_h_i d_n_h v solar_ratio)
        s).element_lambda =
      ((List.range n).foldl (metal_step_highz q cooling n_h_i d_n_h w solar_ratio)
        t).element_lambda ∧
    ((List.range n).foldl (metal_step_highz q cooling n_h_i d_n_h v solar_ratio) s).lookups =
      a + 3 * n ∧
    ((List.range n).foldl (metal_step_highz q cooling n_h_i d_n_h w solar_ratio) t).lookups =
      b + n ∧
    ((List.range n).foldl (metal_step_highz q cooling n_h_i d_n_h w solar_ratio)
      t).dlambda_du = none := by
  have := metal_fold_highz q cooling n_h_i d_n_h v w solar_ratio h1 h2 h3 h4 (List.range n)
    s t hr he hs ht
  rw [List.length_range, ha, hb] at this
  exact this

theorem metal_fold_lowz (q : TableQuery F) (cooling : cooling_function_data F)
    (n_h_i : Int) (d_n_h : F) (v w : metal_rate_locals F) (solar_ratio : Nat → F)
    (h1 : v.temp_i = w.temp_i) (h2 : v.d_temp = w.d_temp)
    (h3 : v.h_plus_he_electron_abundance = w.h_plus_he_electron_abundance)
    (h4 : v.solar_electron_abundance = w.solar_electron_abundance) (l : List Nat) :
    ∀ (s t : metal_rate_out F), s.cooling_rate = t.cooling_rate →
      s.element_lambda = t.element_lambda → s.dlambda_du.isSome = true → t.dlambda_du = none →
      (l.foldl (metal_step_lowz q cooling n_h_i d_n_h v solar_ratio) s).cooling_rate =
        (l.foldl (metal_step_lowz q cooling n_h_i d_n_h w solar_ratio) t).cooling_rate ∧
      (l.foldl (metal_step_lowz q cooling n_h_i d_n_h v solar_ratio) s).element_lambda =
        (l.foldl (metal_step_lowz q cooling n_h_i d_n_h w solar_ratio) t).element_lambda ∧
      (l.foldl (metal_step_lowz q cooling n_h_i d_n_h v solar_ratio) s).lookups =
        s.lookups + 3 * l.length ∧
      (l.foldl (metal_step_lowz q cooling n_h_i d_n_h w solar_ratio) t).lookups =
        t.lookups + l.length ∧
      (l.foldl (metal_step_lowz q cooling n_h_i d_n_h w solar_ratio) t).dlambda_du = none := by
  induction l with
  | nil =>
    intro s t hr he _ ht
    simp [hr, he, ht]
  | cons i l ih =>
    intro s t hr he hs ht
    obtain ⟨d, hd⟩ := Option.isSome_iff_exists.mp hs
    have hl : metal_lambda_lowz q cooling n_h_i d_n_h v solar_ratio i =
        metal_lambda_lowz q cooling n_h_i d_n_h w solar_ratio i := by
      unfold metal_lambda_lowz
      rw [h1, h2, h3, h4]
    rw [List.foldl_cons, List.foldl_cons]
    have hs1 : (metal_step_lowz q cooling n_h_i d_n_h v solar_ratio s i).cooling_rate =
          s.cooling_rate + metal_lambda_lowz q cooling n_h_i d_n_h v solar_ratio i ∧
        (metal_step_lowz q cooling n_h_i d_n_h v solar_ratio s i).element_lambda =
          s.element_lambda.map (fun a => Function.update a (i + 2)
            (metal_lambda_lowz q cooling n_h_i d_n_h v solar_ratio i)) ∧
        (metal_step_lowz q cooling n_h_i d_n_h v solar_ratio s i).lookups = s.lookups + 3 ∧
        (metal_step_lowz q cooling n_h_i d_n_h v solar_ratio s i).dlambda_du.isSome = true := by
      unfold metal_step_lowz
      simp [hd]
    have ht1 : (metal_step_lowz q cooling n_h_i d_n_h w solar_ratio t i).cooling_rate =
          t.cooling_rate + metal_lambda_lowz q cooling n_h_i d_n_h w solar_ratio i ∧
        (metal_step_lowz q cooling n_h_i d_n_h w solar_ratio t i).element_lambda =
          t.element_lambda.map (fun a => Function.update a (i + 2)
            (metal_lambda_lowz q cooling n_h_i d_n_h w solar_ratio i)) ∧
        (metal_step_lowz q cooling n_h_i d_n_h w solar_ratio t i).lookups = t.lookups + 1 ∧
        (metal_step_lowz q cooling n_h_i d_n_h w solar_ratio t i).dlambda_du = none := by
      unfold metal_step_lowz
      simp [ht]
    have := ih (metal_step_lowz q cooling n_h_i d_n_h v solar_ratio s i)
      (metal_step_lowz q cooling n_h_i d_n_h w solar_ratio t i)
      (by rw [hs1.1, ht1.1, hr, hl])
      (by rw [hs1.2.1, ht1.2.1, he, hl]) hs1.2.2.2 ht1.2.2.2
    refine ⟨this.1, this.2.1, ?_, ?_, this.2.2.2.2⟩
    · rw [this.2.2.1, hs1.2.2.1]
      simp only [List.length_cons]
      ring
    · rw [this.2.2.2.1, ht1.2.2.1]
      simp only [List.length_cons]
      ring

theorem metal_loop_lowz (q : TableQuery F) (cooling : cooling_function_data F)
    (n_h_i : Int) (d_n_h : F) (v w : metal_rate_locals F) (solar_ratio : Nat → F) (n : Nat)
    (s t : metal_rate_out F) (a b : Nat)
    (h1 : v.temp_i = w.temp_i) (h2 : v.d_temp = w.d_temp)
    (h3 : v.h_plus_he_electron_abundance = w.h_plus_he_electron_abundance)
    (h4 : v.solar_electron_abundance = w.solar_electron_abundance)
    (hr : s.cooling_rate = t.cooling_rate) (he : s.element_lambda = t.element_lambda)
    (hs : s.dlambda_du.isSome = true) (ht : t.dlambda_du = none)
    (ha : s.lookups = a) (hb : t.lookups = b) :
    ((List.range n).foldl (metal_step_lowz q cooling n_h_i d_n_h v solar_ratio) s).cooling_rate =
      ((List.range n).foldl (metal_step_lowz q cooling n_h_i d_n_h w solar_ratio)
        t).cooling_rate ∧
    ((List.range n).foldl (metal_step_lowz q cooling n_h_i d_n_h v solar_ratio)
        s).element_lambda =
      ((List.range n).foldl (metal_step_lowz q cooling n_h_i d_n_h w solar_ratio)
        t).element_lambda ∧
    ((List.range n).foldl (metal_step_lowz q cooling n_h_i d_n_h v solar_ratio) s).lookups =
      a + 3 * n ∧
    ((List.range n).foldl (metal_step_lowz q cooling n_h_i d_n_h w solar_ratio) t).lookups =
      b + n ∧
    ((List.range n).foldl (metal_step_lowz q cooling n_h_i d_n_h w solar_ratio)
      t).dlambda_du = none := by
  have := metal_fold_lowz q cooling n_h_i d_n_h v w solar_ratio h1 h2 h3 h4 (List.range n)
    s t hr he hs ht
  rw [List.length_range, ha, hb] at this
  exact this

/-- C15: the rate returned by `eagle_metal_cooling_rate`, and by
`eagle_cooling_rate` on top of it, is the same whether `dlambda_du` points to
a value or is `NULL`, and so is what is written to `element_lambda`.  With
`NULL` the derivative stays absent and the call makes `3 + N_Elements` table
lookups; with a pointer it makes `9 + 3 N_Elements`, the extra ones being the
endpoint lookups at temperature offsets 1 and 0. -/
theorem eagle_rate_independent_of_derivative (m : Libm F) (q : TableQuery F)
    (log_10_u d : F) (n_h_i : Int) (d_n_h : F) (He_i : Int) (d_He : F) (p : part F)
    (cooling : cooling_function_data F) (cosmo : cosmology F) (phys : phys_const F)
    (element_lambda : Option (Nat → F)) (solar_ratio : Nat → F) :
    (eagle_metal_cooling_rate m q log_10_u (some d) n_h_i d_n_h He_i d_He p cooling cosmo phys
      element_lambda solar_ratio).cooling_rate =
      (eagle_metal_cooling_rate m q log_10_u none n_h_i d_n_h He_i d_He p cooling cosmo phys
        element_lambda solar_ratio).cooling_rate ∧
    (eagle_metal_cooling_rate m q log_10_u (some d) n_h_i d_n_h He_i d_He p cooling cosmo phys
      element_lambda solar_ratio).element_lambda =
      (eagle_metal_cooling_rate m q log_10_u none n_h_i d_n_h He_i d_He p cooling cosmo phys
        element_lambda solar_ratio).element_lambda ∧
    (eagle_metal_cooling_rate m q log_10_u none n_h_i d_n_h He_i d_He p cooling cosmo phys
      element_lambda solar_ratio).dlambda_du = none ∧
    (eagle_metal_cooling_rate m q log_10_u (some d) n_h_i d_n_h He_i d_He p cooling cosmo phys
      element_lambda solar_ratio).lookups = 9 + 3 * cooling.N_Elements ∧
    (eagle_metal_cooling_rate m q log_10_u none n_h_i d_n_h He_i d_He p cooling cosmo phys
      element_lambda solar_ratio).lookups = 3 + cooling.N_Elements ∧
    (eagle_cooling_rate m q log_10_u (some d) n_h_i d_n_h He_i d_He p cooling cosmo phys
      solar_ratio).1 =
      (eagle_cooling_rate m q log_10_u none n_h_i d_n_h He_i d_He p cooling cosmo phys
        solar_ratio).1 ∧
    (eagle_cooling_rate m q log_10_u none n_h_i d_n_h He_i d_He p cooling cosmo phys
      solar_ratio).2 = none := by
  have key : ∀ (x : F) (el : Option (Nat → F)),
      (eagle_metal_cooling_rate m q x (some d) n_h_i d_n_h He_i d_He p cooling cosmo phys
        el solar_ratio).cooling_rate =
        (eagle_metal_cooling_rate m q x none n_h_i d_n_h He_i d_He p cooling cosmo phys
          el solar_ratio).cooling_rate ∧
      (eagle_metal_cooling_rate m q x (some d) n_h_i d_n_h He_i d_He p cooling cosmo phys
        el solar_ratio).element_lambda =
        (eagle_metal_cooling_rate m q x none n_h_i d_n_h He_i d_He p cooling cosmo phys
          el solar_ratio).element_lambda ∧
      (eagle_metal_cooling_rate m q x (some d) n_h_i d_n_h He_i d_He p cooling cosmo phys
        el solar_ratio).lookups = 9 + 3 * cooling.N_Elements ∧
      (eagle_metal_cooling_rate m q x none n_h_i d_n_h He_i d_He p cooling cosmo phys
        el solar_ratio).lookups = 3 + cooling.N_Elements ∧
      (eagle_metal_cooling_rate m q x none n_h_i d_n_h He_i d_He p cooling cosmo phys
        el solar_ratio).dlambda_du = none := by
    intro x el
    unfold eagle_metal_cooling_rate
    simp only [Option.isSome_some, Option.isSome_none]
    obtain ⟨f1, f2, f3, f4⟩ := metal_free_lookups_rate q cooling cosmo.z n_h_i d_n_h He_i d_He
      (q.get_index_1d cooling.Temp cooling.N_Temp
        (q.eagle_convert_u_to_temp x n_h_i He_i d_n_h d_He cooling cosmo).1).1
      (q.get_index_1d cooling.Temp cooling.N_Temp
        (q.eagle_convert_u_to_temp x n_h_i He_i d_n_h d_He cooling cosmo).1).2
    obtain ⟨s1, s2, s3⟩ := solar_electron_lookups_rate q cooling cosmo.z n_h_i d_n_h
      (q.get_index_1d cooling.Temp cooling.N_Temp
        (q.eagle_convert_u_to_temp x n_h_i He_i d_n_h d_He cooling cosmo).1).1
      (q.get_index_1d cooling.Temp cooling.N_Temp
        (q.eagle_convert_u_to_temp x n_h_i He_i d_n_h d_He cooling cosmo).1).2
    by_cases hz : cosmo.z > cooling.Redshifts (cooling.N_Redshifts - 1)
    · simp only [hz, if_true, true_or]
      refine metal_loop_highz q cooling n_h_i d_n_h _ _ solar_ratio _ _ _ 9 3 rfl rfl f2 s1
        ?_ ?_ rfl rfl ?_ ?_
      all_goals simp only [f1, f2, f3, f4, s2, s3]
    · simp only [hz, if_false, false_or]
      by_cases hr : cosmo.z > cooling.reionisation_redshift
      · simp only [hr, if_true]
        refine metal_loop_lowz q cooling n_h_i d_n_h _ _ solar_ratio _ _ _ 9 3 rfl rfl f2 s1
          ?_ ?_ rfl rfl ?_ ?_
        all_goals simp only [f1, f2, f3, f4, s2, s3]
      · simp only [hr, if_false]
        refine metal_loop_lowz q cooling n_h_i d_n_h _ _ solar_ratio _ _ _ 9 3 rfl rfl f2 s1
          ?_ ?_ rfl rfl ?_ ?_
        all_goals simp only [f1, f2, f3, f4, s2, s3]
  obtain ⟨k1, k2, k3, k4, k5⟩ := key log_10_u element_lambda
  refine ⟨k1, k2, k5, k3, k4, ?_, ?_⟩
  · exact (key (log_10_u / m.M_LN10) none).1
  · exact (key (log_10_u / m.M_LN10) none).2.2.2.2

/-! ## The bracket and the result of the bisection (C17, C19) -/

theorem bisection_iter_parts (m : Libm F) (rate : RateEval F)
    (logu_init u_ini : F) (n_h_i : Int) (d_n_h : F) (He_i : Int) (d_He : F)
    (He_reion_heat : F) (p : part F) (cooling : cooling_function_data F)
    (phys : phys_const F) (abundance_ratio : Nat → F) (dt : F) :
    bisection_iter m rate logu_init u_ini n_h_i d_n_h He_i d_He He_reion_heat p cooling phys
      abundance_ratio dt =
    if (bisection_bracket m rate logu_init u_ini n_h_i d_n_h He_i d_He He_reion_heat p cooling
        phys abundance_ratio dt).i ≥ bisection_max_iterations then
      { value := bisection_failure F
        rate_evals := (bisection_bracket m rate logu_init u_ini n_h_i d_n_h He_i d_He
          He_reion_heat p cooling phys abundance_ratio dt).rate_evals
        messages := 1 }
    else if (bisection_final m rate logu_init u_ini n_h_i d_n_h He_i d_He He_reion_heat p cooling
        phys abundance_ratio dt).i ≥ bisection_max_iterations then
      { value := bisection_failure F
        rate_evals := (bisection_final m rate logu_init u_ini n_h_i d_n_h He_i d_He
          He_reion_heat p cooling phys abundance_ratio dt).rate_evals
        messages := 0 }
    else
      { value := m.to_float (m.log (bisection_final m rate logu_init u_ini n_h_i d_n_h He_i d_He
          He_reion_heat p cooling phys abundance_ratio dt).u_upper)
        rate_evals := (bisection_final m rate logu_init u_ini n_h_i d_n_h He_i d_He
          He_reion_heat p cooling phys abundance_ratio dt).rate_evals
        messages := 0 } := rfl

theorem bracket_cool_loop_exit (m : Libm F) (Lam : F → Option F → F × Option F)
    (u_ini He_reion_heat dt ratefact : F) (n : Nat) :
    ∀ (i : Nat) (u_lower u_upper LambdaNet : F) (e : Nat) (out : bracket_out F),
      i + n = bisection_max_iterations →
      LambdaNet = He_reion_heat / (dt * ratefact) + (Lam (m.log u_lower) none).1 →
      out = bracket_cool_loop m Lam u_ini He_reion_heat dt ratefact i u_lower u_upper LambdaNet e →
      (out.i < bisection_max_iterations →
        out.u_lower - u_ini -
          (He_reion_heat / (dt * ratefact) + (Lam (m.log out.u_lower) none).1) * ratefact * dt
            ≤ 0) ∧
      (u_lower ≤ u_upper → out.u_lower ≤ out.u_upper) := by
  induction n with
  | zero =>
    intro i u_lower u_upper LambdaNet e out hi _ hout
    rw [bracket_cool_loop] at hout
    have h2 : ¬ i < bisection_max_iterations := by omega
    simp only [h2, and_false, dite_false] at hout
    subst hout
    exact ⟨fun h => absurd h h2, fun hle => hle⟩
  | succ k ih =>
    intro i u_lower u_upper LambdaNet e out hi hL hout
    rw [bracket_cool_loop] at hout
    split_ifs at hout with h1
    · have h2 := ih (i + 1) _ _ _ (e + 1) out (by omega) rfl hout
      exact ⟨h2.1, fun hle => h2.2 (div_le_div_of_nonneg_right hle bracket_factor_pos.le)⟩
    · subst hout
      refine ⟨fun h => ?_, fun hle => hle⟩
      have h3 : ¬ (u_lower - u_ini - LambdaNet * ratefact * dt > 0) := fun h4 => h1 ⟨h4, h⟩
      rw [hL] at h3
      exact not_lt.mp h3

theorem bracket_heat_loop_exit (m : Libm F) (Lam : F → Option F → F × Option F)
    (u_ini He_reion_heat dt ratefact : F) (n : Nat) :
    ∀ (i : Nat) (u_lower u_upper LambdaNet : F) (e : Nat) (out : bracket_out F),
      i + n = bisection_max_iterations →
      LambdaNet = He_reion_heat / (dt * ratefact) + (Lam (m.log u_upper) none).1 →
      out = bracket_heat_loop m Lam u_ini He_reion_heat dt ratefact i u_lower u_upper LambdaNet e →
      (out.i < bisection_max_iterations →
        0 ≤ out.u_upper - u_ini -
          (He_reion_heat / (dt * ratefact) + (Lam (m.log out.u_upper) none).1) * ratefact * dt) ∧
      (u_lower ≤ u_upper → out.u_lower ≤ out.u_upper) := by
  induction n with
  | zero =>
    intro i u_lower u_upper LambdaNet e out hi _ hout
    rw [bracket_heat_loop] at hout
    have h2 : ¬ i < bisection_max_iterations := by omega
    simp only [h2, and_false, dite_false] at hout
    subst hout
    exact ⟨fun h => absurd h h2, fun hle => hle⟩
  | succ k ih =>
    intro i u_lower u_upper LambdaNet e out hi hL hout
    rw [bracket_heat_loop] at hout
    split_ifs at hout with h1
    · have h2 := ih (i + 1) _ _ _ (e + 1) out (by omega) rfl hout
      exact ⟨h2.1, fun hle => h2.2 (mul_le_mul_of_nonneg_right hle bracket_factor_pos.le)⟩
    · subst hout
      refine ⟨fun h => ?_, fun hle => hle⟩
      have h3 : ¬ (u_upper - u_ini - LambdaNet * ratefact * dt < 0) := fun h4 => h1 ⟨h4, h⟩
      rw [hL] at h3
      exact not_lt.mp h3

theorem bisection_bracket_immediate (m : Libm F) (rate : RateEval F)
    (logu_init u_ini : F) (n_h_i : Int) (d_n_h : F) (He_i : Int) (d_He : F)
    (He_reion_heat : F) (p : part F) (cooling : cooling_function_data F)
    (phys : phys_const F) (abundance_ratio : Nat → F) (dt : F) :
    (bisection_rate m rate n_h_i d_n_h He_i d_He He_reion_heat p cooling phys abundance_ratio dt
        (m.exp logu_init) < 0 →
      bisection_residual m rate u_ini n_h_i d_n_h He_i d_He He_reion_heat p cooling phys
        abundance_ratio dt (m.exp logu_init / bracket_factor F) ≤ 0 →
      bisection_bracket m rate logu_init u_ini n_h_i d_n_h He_i d_He He_reion_heat p cooling phys
        abundance_ratio dt =
        { i := 0, u_lower := m.exp logu_init / bracket_factor F
          u_upper := m.exp logu_init * bracket_factor F, rate_evals := 2 }) ∧
    (¬ bisection_rate m rate n_h_i d_n_h He_i d_He He_reion_heat p cooling phys abundance_ratio dt
        (m.exp logu_init) < 0 →
      0 ≤ bisection_residual m rate u_ini n_h_i d_n_h He_i d_He He_reion_heat p cooling phys
        abundance_ratio dt (m.exp logu_init * bracket_factor F) →
      bisection_bracket m rate logu_init u_ini n_h_i d_n_h He_i d_He He_reion_heat p cooling phys
        abundance_ratio dt =
        { i := 0, u_lower := m.exp logu_init / bracket_factor F
          u_upper := m.exp logu_init * bracket_factor F, rate_evals := 2 }) := by
  constructor
  · intro h1 h2
    unfold bisection_rate bisection_ratefact at h1
    unfold bisection_residual bisection_rate bisection_ratefact at h2
    unfold bisection_bracket
    simp only
    rw [if_pos h1, bracket_cool_loop, dif_neg (fun h => absurd h.1 (not_lt.mpr h2))]
  · intro h1 h2
    unfold bisection_rate bisection_ratefact at h1
    unfold bisection_residual bisection_rate bisection_ratefact at h2
    unfold bisection_bracket
    simp only
    rw [if_neg h1, bracket_heat_loop, dif_neg (fun h => absurd h.1 (not_lt.mpr h2))]

/-- C17 (amended): when the bracket search succeeds, the residual has the
required sign at the end the search moved to find it: `r(u_lower) ≤ 0` in the
cooling case and `r(u_upper) ≥ 0` in the heating case.  The other end is the
first end scaled by the square of the bracket factor and is not tested. -/
theorem bisection_bracket_tested_end (m : Libm F) (rate : RateEval F)
    (logu_init u_ini : F) (n_h_i : Int) (d_n_h : F) (He_i : Int) (d_He : F)
    (He_reion_heat : F) (p : part F) (cooling : cooling_function_data F)
    (phys : phys_const F) (abundance_ratio : Nat → F) (dt : F)
    (hb : (bisection_bracket m rate logu_init u_ini n_h_i d_n_h He_i d_He He_reion_heat p
      cooling phys abundance_ratio dt).i < bisection_max_iterations) :
    (bisection_rate m rate n_h_i d_n_h He_i d_He He_reion_heat p cooling phys abundance_ratio dt
        (m.exp logu_init) < 0 →
      bisection_residual m rate u_ini n_h_i d_n_h He_i d_He He_reion_heat p cooling phys
        abundance_ratio dt
        (bisection_bracket m rate logu_init u_ini n_h_i d_n_h He_i d_He He_reion_heat p cooling
          phys abundance_ratio dt).u_lower ≤ 0) ∧
    (¬ bisection_rate m rate n_h_i d_n_h He_i d_He He_reion_heat p cooling phys abundance_ratio
        dt (m.exp logu_init) < 0 →
      0 ≤ bisection_residual m rate u_ini n_h_i d_n_h He_i d_He He_reion_heat p cooling phys
        abundance_ratio dt
        (bisection_bracket m rate logu_init u_ini n_h_i d_n_h He_i d_He He_reion_heat p cooling
          phys abundance_ratio dt).u_upper) := by
  constructor
  · intro h1
    have e : bisection_bracket m rate logu_init u_ini n_h_i d_n_h He_i d_He He_reion_heat p
        cooling phys abundance_ratio dt =
        bracket_cool_loop m (fun x d => rate x d n_h_i d_n_h He_i d_He abundance_ratio) u_ini
          He_reion_heat dt (bisection_ratefact p cooling phys) 0
          (m.exp logu_init / bracket_factor F) (m.exp logu_init * bracket_factor F)
          (He_reion_heat / (dt * bisection_ratefact p cooling phys) +
            (rate (m.log (m.exp logu_init / bracket_factor F)) none n_h_i d_n_h He_i d_He
              abundance_ratio).1) 2 := by
      unfold bisection_rate bisection_ratefact at h1
      unfold bisection_bracket bisection_ratefact
      simp only
      rw [if_pos h1]
    exact (bracket_cool_loop_exit m _ u_ini He_reion_heat dt _ bisection_max_iterations 0 _ _ _ 2
      _ (by simp) rfl e).1 hb
  · intro h1
    have e : bisection_bracket m rate logu_init u_ini n_h_i d_n_h He_i d_He He_reion_heat p
        cooling phys abundance_ratio dt =
        bracket_heat_loop m (fun x d => rate x d n_h_i d_n_h He_i d_He abundance_ratio) u_ini
          He_reion_heat dt (bisection_ratefact p cooling phys) 0
          (m.exp logu_init / bracket_factor F) (m.exp logu_init * bracket_factor F)
          (He_reion_heat / (dt * bisection_ratefact p cooling phys) +
            (rate (m.log (m.exp logu_init * bracket_factor F)) none n_h_i d_n_h He_i d_He
              abundance_ratio).1) 2 := by
      unfold bisection_rate bisection_ratefact at h1
      unfold bisection_bracket bisection_ratefact
      simp only
      rw [if_neg h1]
    exact (bracket_heat_loop_exit m _ u_ini He_reion_heat dt _ bisection_max_iterations 0 _ _ _ 2
      _ (by simp) rfl e).1 hb

theorem ex_bracket_zero_rate :
    bisection_bracket ex_libm (ex_rate ℚ 0 0) 0 1 0 0 0 0 0 (ex_part ℚ 1 0) (ex_cooling ℚ false)
      ⟨1⟩ (fun _ => 0) 1 =
      { i := 0, u_lower := 1 / bracket_factor ℚ, u_upper := 1 * bracket_factor ℚ
        rate_evals := 2 } := by
  have h := (bisection_bracket_immediate ex_libm (ex_rate ℚ 0 0) 0 1 0 0 0 0 0 (ex_part ℚ 1 0)
    (ex_cooling ℚ false) ⟨1⟩ (fun _ => 0) 1).2
    (by simp [bisection_rate, bisection_ratefact, ex_rate, ex_part, ex_cooling, ex_libm])
    (by
      simp [bisection_residual, bisection_rate, bisection_ratefact, ex_rate, ex_part,
        ex_cooling, ex_libm, bracket_factor]
      norm_num)
  have e : ex_libm.exp 0 = 1 := by simp [ex_libm]
  rw [e] at h
  exact h

/-- C17 witness: with a zero rate, `u_ini = 1` and a start at `exp 0 = 1`
the heating branch accepts its first bracket; the residual at its upper end
is `bracket_factor - 1`. -/
theorem bisection_bracket_tested_end_witness :
    (bisection_bracket ex_libm (ex_rate ℚ 0 0) 0 1 0 0 0 0 0 (ex_part ℚ 1 0)
      (ex_cooling ℚ false) ⟨1⟩ (fun _ => 0) 1).i < bisection_max_iterations ∧
    ((bisection_rate ex_libm (ex_rate ℚ 0 0) 0 0 0 0 0 (ex_part ℚ 1 0) (ex_cooling ℚ false)
        ⟨1⟩ (fun _ => 0) 1 (ex_libm.exp 0) < 0 →
      bisection_residual ex_libm (ex_rate ℚ 0 0) 1 0 0 0 0 0 (ex_part ℚ 1 0)
        (ex_cooling ℚ false) ⟨1⟩ (fun _ => 0) 1
        (bisection_bracket ex_libm (ex_rate ℚ 0 0) 0 1 0 0 0 0 0 (ex_part ℚ 1 0)
          (ex_cooling ℚ false) ⟨1⟩ (fun _ => 0) 1).u_lower ≤ 0) ∧
    (¬ bisection_rate ex_libm (ex_rate ℚ 0 0) 0 0 0 0 0 (ex_part ℚ 1 0) (ex_cooling ℚ false)
        ⟨1⟩ (fun _ => 0) 1 (ex_libm.exp 0) < 0 →
      0 ≤ bisection_residual ex_libm (ex_rate ℚ 0 0) 1 0 0 0 0 0 (ex_part ℚ 1 0)
        (ex_cooling ℚ false) ⟨1⟩ (fun _ => 0) 1
        (bisection_bracket ex_libm (ex_rate ℚ 0 0) 0 1 0 0 0 0 0 (ex_part ℚ 1 0)
          (ex_cooling ℚ false) ⟨1⟩ (fun _ => 0) 1).u_upper)) :=
  ⟨by rw [ex_bracket_zero_rate]; decide,
    bisection_bracket_tested_end ex_libm (ex_rate ℚ 0 0) 0 1 0 0 0 0 0 (ex_part ℚ 1 0)
      (ex_cooling ℚ false) ⟨1⟩ (fun _ => 0) 1 (by rw [ex_bracket_zero_rate]; decide)⟩

theorem real_log_bracket_factor :
    Real.log (1 / bracket_factor ℝ) ≠ 0 ∧ Real.log (1 * bracket_factor ℝ) ≠ 0 := by
  have h1 : (1 : ℝ) < bracket_factor ℝ := by
    unfold bracket_factor
    norm_num
  constructor
  · apply ne_of_lt
    apply Real.log_neg
    · unfold bracket_factor
      norm_num
    · unfold bracket_factor
      norm_num
  · rw [one_mul]
    exact ne_of_gt (Real.log_pos h1)

/-- C17 counterexample: a rate that cools (`-1`) at the starting energy and
heats (`+1`) at every other energy, `u_ini = 1`, `ratefact = dt = 1`, start at
`exp 0 = 1`.  The cooling branch accepts its first bracket
`[1 / bracket_factor, bracket_factor]` because the residual at the lower end is
`1 / bracket_factor - 2 ≤ 0`; the residual at the upper end is
`bracket_factor - 2 < 0`, so there is no sign change across the bracket. -/
theorem bisection_bracket_sign_counterexample :
    ∃ m : Libm ℝ, real_libm m ∧
      (bisection_bracket m (ex_rate_at ℝ 0 (-1) 1 0 0) 0 1 0 0 0 0 0 (ex_part ℝ 1 0)
        (ex_cooling ℝ false) ⟨1⟩ (fun _ => 0) 1).i < bisection_max_iterations ∧
      bisection_residual m (ex_rate_at ℝ 0 (-1) 1 0 0) 1 0 0 0 0 0 (ex_part ℝ 1 0)
        (ex_cooling ℝ false) ⟨1⟩ (fun _ => 0) 1
        (bisection_bracket m (ex_rate_at ℝ 0 (-1) 1 0 0) 0 1 0 0 0 0 0 (ex_part ℝ 1 0)
          (ex_cooling ℝ false) ⟨1⟩ (fun _ => 0) 1).u_lower ≤ 0 ∧
      bisection_residual m (ex_rate_at ℝ 0 (-1) 1 0 0) 1 0 0 0 0 0 (ex_part ℝ 1 0)
        (ex_cooling ℝ false) ⟨1⟩ (fun _ => 0) 1
        (bisection_bracket m (ex_rate_at ℝ 0 (-1) 1 0 0) 0 1 0 0 0 0 0 (ex_part ℝ 1 0)
          (ex_cooling ℝ false) ⟨1⟩ (fun _ => 0) 1).u_upper < 0 := by
  refine ⟨{ exp := Real.exp, log := Real.log, log10 := fun x => Real.log x / Real.log 10
            erf := fun x => 2 / Real.sqrt Real.pi * ∫ t in (0 : ℝ)..x, Real.exp (-(t ^ 2))
            M_SQRT2 := Real.sqrt 2, M_LOG10E := 1 / Real.log 10, M_LN10 := Real.log 10, to_float := fun x => x },
    ⟨rfl, rfl, rfl, rfl, rfl, rfl, rfl⟩, ?_⟩
  obtain ⟨hl1, hl2⟩ := real_log_bracket_factor
  have h := (bisection_bracket_immediate
    ({ exp := Real.exp, log := Real.log, log10 := fun x => Real.log x / Real.log 10
       erf := fun x => 2 / Real.sqrt Real.pi * ∫ t in (0 : ℝ)..x, Real.exp (-(t ^ 2))
       M_SQRT2 := Real.sqrt 2, M_LOG10E := 1 / Real.log 10, M_LN10 := Real.log 10, to_float := fun x => x } : Libm ℝ)
    (ex_rate_at ℝ 0 (-1) 1 0 0) 0 1 0 0 0 0 0 (ex_part ℝ 1 0)
    (ex_cooling ℝ false) ⟨1⟩ (fun _ => 0) 1).1
    (by simp [bisection_rate, bisection_ratefact, ex_rate_at, ex_part, ex_cooling])
    (by
      simp only [bisection_residual, bisection_rate, bisection_ratefact, ex_rate_at, ex_part,
        ex_cooling, Real.exp_zero, if_neg hl1]
      unfold bracket_factor
      norm_num)
  simp only [Real.exp_zero] at h
  rw [h]
  refine ⟨by decide, ?_, ?_⟩
  · simp only [bisection_residual, bisection_rate, bisection_ratefact, ex_rate_at, ex_part,
      ex_cooling, if_neg hl1]
    unfold bracket_factor
    norm_num
  · simp only [bisection_residual, bisection_rate, bisection_ratefact, ex_rate_at, ex_part,
      ex_cooling, if_neg hl2]
    unfold bracket_factor
    norm_num

theorem bisect_step_cases (m : Libm F) (Lam : F → Option F → F × Option F)
    (u_ini He_reion_heat dt ratefact lo up : F) (s : F × F × F)
    (hs : s = bisect_step m Lam u_ini He_reion_heat dt ratefact lo up) :
    (lo ≤ up → s.1 ≤ s.2.1) ∧
    (s.1 = lo ∨ s.1 - u_ini -
      (He_reion_heat / (dt * ratefact) + (Lam (m.log s.1) none).1) * ratefact * dt ≤ 0) ∧
    (s.2.1 = up ∨ 0 < s.2.1 - u_ini -
      (He_reion_heat / (dt * ratefact) + (Lam (m.log s.2.1) none).1) * ratefact * dt) := by
  unfold bisect_step at hs
  simp only at hs
  split_ifs at hs with h
  · subst hs
    exact ⟨fun hle => by simp only; linarith, Or.inl rfl, Or.inr h⟩
  · subst hs
    exact ⟨fun hle => by simp only; linarith, Or.inr (not_lt.mp h), Or.inl rfl⟩

theorem bisect_loop_exit (m : Libm F) (Lam : F → Option F → F × Option F)
    (u_ini He_reion_heat dt ratefact : F) (n : Nat) :
    ∀ (i : Nat) (lo up : F) (e : Nat) (out : bisect_out F),
      i + n = bisection_max_iterations → 0 < n →
      out = bisect_loop m Lam u_ini He_reion_heat dt ratefact i lo up e →
      (out.i < bisection_max_iterations →
        |out.u_upper - out.u_lower| / out.u_next ≤ bisection_tolerance F) ∧
      (lo ≤ up → out.u_lower ≤ out.u_upper) ∧
      (out.u_lower = lo ∨ out.u_lower - u_ini -
        (He_reion_heat / (dt * ratefact) + (Lam (m.log out.u_lower) none).1) * ratefact * dt
          ≤ 0) ∧
      (out.u_upper = up ∨ 0 < out.u_upper - u_ini -
        (He_reion_heat / (dt * ratefact) + (Lam (m.log out.u_upper) none).1) * ratefact * dt) := by
  induction n with
  | zero => intro i lo up e out _ h; omega
  | succ k ih =>
    intro i lo up e out hi _ hout
    obtain ⟨c1, c2, c3⟩ := bisect_step_cases m Lam u_ini He_reion_heat dt ratefact lo up _ rfl
    rw [bisect_loop] at hout
    split_ifs at hout with h1
    · have h2 := h1.2
      obtain ⟨d1, d2, d3, d4⟩ := ih (i + 1) _ _ (e + 1) out (by omega) (by omega) hout
      refine ⟨d1, fun hle => d2 (c1 hle), ?_, ?_⟩
      · rcases d3 with d3 | d3
        · rw [d3]
          exact c2
        · exact Or.inr d3
      · rcases d4 with d4 | d4
        · rw [d4]
          exact c3
        · exact Or.inr d4
    · subst hout
      refine ⟨fun h => ?_, c1, c2, c3⟩
      simp only at h
      have h3 : ¬ (|(bisect_step m Lam u_ini He_reion_heat dt ratefact lo up).2.1 -
          (bisect_step m Lam u_ini He_reion_heat dt ratefact lo up).1| /
          (bisect_step m Lam u_ini He_reion_heat dt ratefact lo up).2.2 >
          bisection_tolerance F) := fun h4 => h1 ⟨h4, h⟩
      exact not_lt.mp h3

theorem bisect_step_upper (m : Libm F) (Lam : F → Option F → F × Option F)
    (u_ini He_reion_heat dt ratefact u_lower u_upper : F)
    (h : (1 / 2) * (u_lower + u_upper) - u_ini -
      (He_reion_heat / (dt * ratefact) + (Lam (m.log ((1 / 2) * (u_lower + u_upper))) none).1) *
        ratefact * dt > 0) :
    bisect_step m Lam u_ini He_reion_heat dt ratefact u_lower u_upper =
      (u_lower, (1 / 2) * (u_lower + u_upper), (1 / 2) * (u_lower + u_upper)) := by
  unfold bisect_step
  simp only
  rw [if_pos h]

theorem bisect_loop_keeps_lower (m : Libm F) (Lam : F → Option F → F × Option F)
    (u_ini He_reion_heat dt ratefact lo c : F) (hlo : 0 < lo)
    (hres : ∀ u, lo < u → u < c → u - u_ini -
      (He_reion_heat / (dt * ratefact) + (Lam (m.log u) none).1) * ratefact * dt > 0)
    (k : Nat) :
    ∀ (i : Nat) (up : F) (e : Nat), i + k + 1 < bisection_max_iterations →
      (1 / 2) * (lo + up) < c → lo < up →
      up - lo ≤ 2 ^ (k + 1) * (bisection_tolerance F * lo) →
      (bisect_loop m Lam u_ini He_reion_heat dt ratefact i lo up e).u_lower = lo ∧
      (bisect_loop m Lam u_ini He_reion_heat dt ratefact i lo up e).i ≤ i + k + 1 := by
  have htol : (0 : F) < bisection_tolerance F := by
    unfold bisection_tolerance
    norm_num
  induction k with
  | zero =>
    intro i up e _ hmid hlt hw
    have hlt2 : lo < (1 / 2) * (lo + up) := by linarith
    rw [bisect_loop, bisect_step_upper m Lam u_ini He_reion_heat dt ratefact lo up
      (hres _ hlt2 hmid)]
    have hpos : 0 < (1 / 2) * (lo + up) := lt_trans hlo hlt2
    have hconv : ¬ (|(1 / 2) * (lo + up) - lo| / ((1 / 2) * (lo + up)) > bisection_tolerance F ∧
        i + 1 < bisection_max_iterations) := by
      intro h
      have h1 := h.1
      rw [gt_iff_lt, lt_div_iff₀ hpos, abs_of_pos (by linarith)] at h1
      have h2 : bisection_tolerance F * lo < bisection_tolerance F * ((1 / 2) * (lo + up)) :=
        mul_lt_mul_of_pos_left hlt2 htol
      simp only [zero_add, pow_one] at hw
      linarith
    simp only
    rw [dif_neg hconv]
    exact ⟨rfl, le_refl _⟩
  | succ k ih =>
    intro i up e hi hmid hlt hw
    have hlt2 : lo < (1 / 2) * (lo + up) := by linarith
    rw [bisect_loop, bisect_step_upper m Lam u_ini He_reion_heat dt ratefact lo up
      (hres _ hlt2 hmid)]
    simp only
    split_ifs with h
    · have := ih (i + 1) ((1 / 2) * (lo + up)) (e + 1) (by omega) (by linarith) hlt2
        (by
          have e2 : (2 : F) ^ (k + 1 + 1) = 2 * 2 ^ (k + 1) := by ring
          rw [e2] at hw
          linarith)
      exact ⟨this.1, by omega⟩
    · exact ⟨rfl, by simp only; omega⟩

theorem bisection_bracket_exit (m : Libm F) (rate : RateEval F)
    (logu_init u_ini : F) (n_h_i : Int) (d_n_h : F) (He_i : Int) (d_He : F)
    (He_reion_heat : F) (p : part F) (cooling : cooling_function_data F)
    (phys : phys_const F) (abundance_ratio : Nat → F) (dt : F) :
    ((bisection_bracket m rate logu_init u_ini n_h_i d_n_h He_i d_He He_reion_heat p
        cooling phys abundance_ratio dt).i < bisection_max_iterations →
      bisection_rate m rate n_h_i d_n_h He_i d_He He_reion_heat p cooling phys abundance_ratio dt
        (m.exp logu_init) < 0 →
      bisection_residual m rate u_ini n_h_i d_n_h He_i d_He He_reion_heat p cooling phys
        abundance_ratio dt
        (bisection_bracket m rate logu_init u_ini n_h_i d_n_h He_i d_He He_reion_heat p cooling
          phys abundance_ratio dt).u_lower ≤ 0) ∧
    ((bisection_bracket m rate logu_init u_ini n_h_i d_n_h He_i d_He He_reion_heat p
        cooling phys abundance_ratio dt).i < bisection_max_iterations →
      ¬ bisection_rate m rate n_h_i d_n_h He_i d_He He_reion_heat p cooling phys abundance_ratio
        dt (m.exp logu_init) < 0 →
      0 ≤ bisection_residual m rate u_ini n_h_i d_n_h He_i d_He He_reion_heat p cooling phys
        abundance_ratio dt
        (bisection_bracket m rate logu_init u_ini n_h_i d_n_h He_i d_He He_reion_heat p cooling
          phys abundance_ratio dt).u_upper) ∧
    (0 ≤ m.exp logu_init →
      (bisection_bracket m rate logu_init u_ini n_h_i d_n_h He_i d_He He_reion_heat p cooling
        phys abundance_ratio dt).u_lower ≤
      (bisection_bracket m rate logu_init u_ini n_h_i d_n_h He_i d_He He_reion_heat p cooling
        phys abundance_ratio dt).u_upper) := by
  have hbf : (1 : F) ≤ bracket_factor F := by
    unfold bracket_factor
    norm_num
  have hle : 0 ≤ m.exp logu_init →
      m.exp logu_init / bracket_factor F ≤ m.exp logu_init * bracket_factor F := by
    intro h0
    have h1 : m.exp logu_init / bracket_factor F ≤ m.exp logu_init :=
      div_le_self h0 hbf
    have h2 : m.exp logu_init ≤ m.exp logu_init * bracket_factor F :=
      le_mul_of_one_le_right h0 hbf
    exact le_trans h1 h2
  by_cases h1 : bisection_rate m rate n_h_i d_n_h He_i d_He He_reion_heat p cooling phys
      abundance_ratio dt (m.exp logu_init) < 0
  · have e : bisection_bracket m rate logu_init u_ini n_h_i d_n_h He_i d_He He_reion_heat p
        cooling phys abundance_ratio dt =
        bracket_cool_loop m (fun x d => rate x d n_h_i d_n_h He_i d_He abundance_ratio) u_ini
          He_reion_heat dt (bisection_ratefact p cooling phys) 0
          (m.exp logu_init / bracket_factor F) (m.exp logu_init * bracket_factor F)
          (He_reion_heat / (dt * bisection_ratefact p cooling phys) +
            (rate (m.log (m.exp logu_init / bracket_factor F)) none n_h_i d_n_h He_i d_He
              abundance_ratio).1) 2 := by
      unfold bisection_rate bisection_ratefact at h1
      unfold bisection_bracket bisection_ratefact
      simp only
      rw [if_pos h1]
    have h := bracket_cool_loop_exit m _ u_ini He_reion_heat dt _ bisection_max_iterations 0 _ _
      _ 2 _ (by simp) rfl e
    exact ⟨fun hb _ => h.1 hb, fun _ h2 => absurd h1 h2, fun h0 => h.2 (hle h0)⟩
  · have e : bisection_bracket m rate logu_init u_ini n_h_i d_n_h He_i d_He He_reion_heat p
        cooling phys abundance_ratio dt =
        bracket_heat_loop m (fun x d => rate x d n_h_i d_n_h He_i d_He abundance_ratio) u_ini
          He_reion_heat dt (bisection_ratefact p cooling phys) 0
          (m.exp logu_init / bracket_factor F) (m.exp logu_init * bracket_factor F)
          (He_reion_heat / (dt * bisection_ratefact p cooling phys) +
            (rate (m.log (m.exp logu_init * bracket_factor F)) none n_h_i d_n_h He_i d_He
              abundance_ratio).1) 2 := by
      unfold bisection_rate bisection_ratefact at h1
      unfold bisection_bracket bisection_ratefact
      simp only
      rw [if_neg h1]
    have h := bracket_heat_loop_exit m _ u_ini He_reion_heat dt _ bisection_max_iterations 0 _ _
      _ 2 _ (by simp) rfl e
    exact ⟨fun _ h2 => absurd h2 h1, fun hb _ => h.1 hb, fun h0 => h.2 (hle h0)⟩

/-- C19 (amended): a call of `bisection_iter` that does not fail returns
`log(u_upper)` of the final pair, narrowed to `float` by the return type of
the function; with a non-negative `exp` the pair is
ordered, `u_lower ≤ u_upper`, and it meets the tolerance,
`|u_upper - u_lower| / u_next ≤ 1e-6` for the last midpoint `u_next`.  The
residual is `≤ 0` at the final `u_lower` in the cooling case, and in the
heating case once the bisection has moved the lower end; it is `> 0` at the
final `u_upper` once the bisection has moved the upper end. -/
theorem bisection_iter_result (m : Libm F) (rate : RateEval F)
    (logu_init u_ini : F) (n_h_i : Int) (d_n_h : F) (He_i : Int) (d_He : F)
    (He_reion_heat : F) (p : part F) (cooling : cooling_function_data F)
    (phys : phys_const F) (abundance_ratio : Nat → F) (dt : F)
    (hexp : 0 ≤ m.exp logu_init)
    (hb : (bisection_bracket m rate logu_init u_ini n_h_i d_n_h He_i d_He He_reion_heat p
      cooling phys abundance_ratio dt).i < bisection_max_iterations)
    (hs : (bisection_final m rate logu_init u_ini n_h_i d_n_h He_i d_He He_reion_heat p
      cooling phys abundance_ratio dt).i < bisection_max_iterations) :
    (bisection_iter m rate logu_init u_ini n_h_i d_n_h He_i d_He He_reion_heat p cooling phys
      abundance_ratio dt).value =
      m.to_float (m.log (bisection_final m rate logu_init u_ini n_h_i d_n_h He_i d_He He_reion_heat p
        cooling phys abundance_ratio dt).u_upper) ∧
    (bisection_final m rate logu_init u_ini n_h_i d_n_h He_i d_He He_reion_heat p
      cooling phys abundance_ratio dt).u_lower ≤
      (bisection_final m rate logu_init u_ini n_h_i d_n_h He_i d_He He_reion_heat p
        cooling phys abundance_ratio dt).u_upper ∧
    |(bisection_final m rate logu_init u_ini n_h_i d_n_h He_i d_He He_reion_heat p
        cooling phys abundance_ratio dt).u_upper -
      (bisection_final m rate logu_init u_ini n_h_i d_n_h He_i d_He He_reion_heat p
        cooling phys abundance_ratio dt).u_lower| /
      (bisection_final m rate logu_init u_ini n_h_i d_n_h He_i d_He He_reion_heat p
        cooling phys abundance_ratio dt).u_next ≤ bisection_tolerance F ∧
    ((bisection_rate m rate n_h_i d_n_h He_i d_He He_reion_heat p cooling phys abundance_ratio dt
        (m.exp logu_init) < 0 ∨
      (bisection_final m rate logu_init u_ini n_h_i d_n_h He_i d_He He_reion_heat p
        cooling phys abundance_ratio dt).u_lower ≠
      (bisection_bracket m rate logu_init u_ini n_h_i d_n_h He_i d_He He_reion_heat p
        cooling phys abundance_ratio dt).u_lower) →
      bisection_residual m rate u_ini n_h_i d_n_h He_i d_He He_reion_heat p cooling phys
        abundance_ratio dt
        (bisection_final m rate logu_init u_ini n_h_i d_n_h He_i d_He He_reion_heat p
          cooling phys abundance_ratio dt).u_lower ≤ 0) ∧
    ((bisection_final m rate logu_init u_ini n_h_i d_n_h He_i d_He He_reion_heat p
        cooling phys abundance_ratio dt).u_upper ≠
      (bisection_bracket m rate logu_init u_ini n_h_i d_n_h He_i d_He He_reion_heat p
        cooling phys abundance_ratio dt).u_upper →
      0 < bisection_residual m rate u_ini n_h_i d_n_h He_i d_He He_reion_heat p cooling phys
        abundance_ratio dt
        (bisection_final m rate logu_init u_ini n_h_i d_n_h He_i d_He He_reion_heat p
          cooling phys abundance_ratio dt).u_upper) := by
  obtain ⟨b1, -, b3⟩ := bisection_bracket_exit m rate logu_init u_ini n_h_i d_n_h He_i d_He
    He_reion_heat p cooling phys abundance_ratio dt
  obtain ⟨d1, d2, d3, d4⟩ := bisect_loop_exit m
    (fun x d => rate x d n_h_i d_n_h He_i d_He abundance_ratio) u_ini He_reion_heat dt
    (bisection_ratefact p cooling phys) bisection_max_iterations 0
    (bisection_bracket m rate logu_init u_ini n_h_i d_n_h He_i d_He He_reion_heat p
      cooling phys abundance_ratio dt).u_lower
    (bisection_bracket m rate logu_init u_ini n_h_i d_n_h He_i d_He He_reion_heat p
      cooling phys abundance_ratio dt).u_upper
    (bisection_bracket m rate logu_init u_ini n_h_i d_n_h He_i d_He He_reion_heat p
      cooling phys abundance_ratio dt).rate_evals
    (bisection_final m rate logu_init u_ini n_h_i d_n_h He_i d_He He_reion_heat p
      cooling phys abundance_ratio dt) (by simp) (by decide) rfl
  refine ⟨?_, d2 (b3 hexp), d1 hs, ?_, ?_⟩
  · rw [bisection_iter_parts, if_neg (not_le.mpr hb), if_neg (not_le.mpr hs)]
  · intro h
    rcases d3 with d3 | d3
    · rcases h with h | h
      · rw [d3]
        exact b1 hb h
      · exact absurd d3 h
    · exact d3
  · intro h
    rcases d4 with d4 | d4
    · exact absurd d4 h
    · exact d4

theorem ex_ratefact_one : bisection_ratefact (ex_part F 1 0) (ex_cooling F false) ⟨1⟩ = 1 := by
  simp [bisection_ratefact, ex_part, ex_cooling, chemistry_element_H]

theorem ex_cool_spike_bisection (m : Libm F) (hlog : m.log 1 = 0) (hexp : m.exp 0 = 1)
    (hne : ∀ u, 1 < u → m.log u ≠ 0) (hlo : m.log (1 / bracket_factor F) ≠ 0) :
    bisection_bracket m (ex_rate_at F 0 (-1) 1 0 0) 0 1 0 0 0 0 0 (ex_part F 1 0)
      (ex_cooling F false) ⟨1⟩ (fun _ => 0) 1 =
      { i := 0, u_lower := 1 / bracket_factor F, u_upper := 1 * bracket_factor F
        rate_evals := 2 } ∧
    (bisection_final m (ex_rate_at F 0 (-1) 1 0 0) 0 1 0 0 0 0 0 (ex_part F 1 0)
      (ex_cooling F false) ⟨1⟩ (fun _ => 0) 1).i ≤ 17 ∧
    (bisection_final m (ex_rate_at F 0 (-1) 1 0 0) 0 1 0 0 0 0 0 (ex_part F 1 0)
      (ex_cooling F false) ⟨1⟩ (fun _ => 0) 1).u_upper = 1 * bracket_factor F := by
  have hb : bisection_bracket m (ex_rate_at F 0 (-1) 1 0 0) 0 1 0 0 0 0 0 (ex_part F 1 0)
      (ex_cooling F false) ⟨1⟩ (fun _ => 0) 1 =
      { i := 0, u_lower := 1 / bracket_factor F, u_upper := 1 * bracket_factor F
        rate_evals := 2 } := by
    have h := (bisection_bracket_immediate m (ex_rate_at F 0 (-1) 1 0 0) 0 1 0 0 0 0 0
      (ex_part F 1 0) (ex_cooling F false) ⟨1⟩ (fun _ => 0) 1).1
      (by
        rw [hexp]
        simp only [bisection_rate, ex_ratefact_one, ex_rate_at, hlog]
        norm_num)
      (by
        rw [hexp]
        simp only [bisection_residual, bisection_rate, ex_ratefact_one, ex_rate_at, if_neg hlo]
        norm_num [bracket_factor])
    rw [hexp] at h
    exact h
  obtain ⟨h1, h2⟩ := bisect_loop_keeps_upper m
    (fun x d => ex_rate_at F 0 (-1) 1 0 0 x d 0 0 0 0 (fun _ => 0)) 1 0 1 1 1
    (1 * bracket_factor F) one_pos
    (by
      intro u hu1 hu2
      simp only [ex_rate_at, if_neg (hne u hu1)]
      unfold bracket_factor at hu2
      norm_num
      linarith)
    16 0 (1 / bracket_factor F) 2 (by decide)
    (by norm_num [bracket_factor]) (by norm_num [bracket_factor])
    (by norm_num [bracket_factor, bisection_tolerance])
  refine ⟨hb, ?_, ?_⟩
  · unfold bisection_final
    simp only [hb, ex_ratefact_one]
    exact h2
  · unfold bisection_final
    simp only [hb, ex_ratefact_one]
    exact h1

theorem ex_heat_spike_bisection (m : Libm F) (hlog : m.log 1 = 0) (hexp : m.exp 0 = 1)
    (hne : ∀ u, 0 < u → u ≠ 1 → m.log u ≠ 0) :
    bisection_bracket m (ex_rate_at F 0 1 (-1) 0 0) 0 1 0 0 0 0 0 (ex_part F 1 0)
      (ex_cooling F false) ⟨1⟩ (fun _ => 0) 1 =
      { i := 0, u_lower := 1 / bracket_factor F, u_upper := 1 * bracket_factor F
        rate_evals := 2 } ∧
    (bisection_final m (ex_rate_at F 0 1 (-1) 0 0) 0 1 0 0 0 0 0 (ex_part F 1 0)
      (ex_cooling F false) ⟨1⟩ (fun _ => 0) 1).i ≤ 17 ∧
    (bisection_final m (ex_rate_at F 0 1 (-1) 0 0) 0 1 0 0 0 0 0 (ex_part F 1 0)
      (ex_cooling F false) ⟨1⟩ (fun _ => 0) 1).u_lower = 1 / bracket_factor F ∧
    bisection_residual m (ex_rate_at F 0 1 (-1) 0 0) 1 0 0 0 0 0 (ex_part F 1 0)
      (ex_cooling F false) ⟨1⟩ (fun _ => 0) 1 (1 / bracket_factor F) = 1 / bracket_factor F := by
  have hlo : m.log (1 / bracket_factor F) ≠ 0 :=
    hne _ (by norm_num [bracket_factor]) (by norm_num [bracket_factor])
  have hup : m.log (1 * bracket_factor F) ≠ 0 :=
    hne _ (by norm_num [bracket_factor]) (by norm_num [bracket_factor])
  have hb : bisection_bracket m (ex_rate_at F 0 1 (-1) 0 0) 0 1 0 0 0 0 0 (ex_part F 1 0)
      (ex_cooling F false) ⟨1⟩ (fun _ => 0) 1 =
      { i := 0, u_lower := 1 / bracket_factor F, u_upper := 1 * bracket_factor F
        rate_evals := 2 } := by
    have h := (bisection_bracket_immediate m (ex_rate_at F 0 1 (-1) 0 0) 0 1 0 0 0 0 0
      (ex_part F 1 0) (ex_cooling F false) ⟨1⟩ (fun _ => 0) 1).2
      (by
        rw [hexp]
        simp only [bisection_rate, ex_ratefact_one, ex_rate_at, hlog]
        norm_num)
      (by
        rw [hexp]
        simp only [bisection_residual, bisection_rate, ex_ratefact_one, ex_rate_at, if_neg hup]
        norm_num [bracket_factor])
    rw [hexp] at h
    exact h
  have hres : ∀ u : F, 1 / bracket_factor F < u → u ≠ 1 → u - 1 -
      (0 / (1 * 1) + ((fun x d => ex_rate_at F 0 1 (-1) 0 0 x d 0 0 0 0 (fun _ => 0))
        (m.log u) none).1) * 1 * 1 > 0 := by
    intro u hu1 hu2
    have hpos : 0 < u := lt_trans (by norm_num [bracket_factor]) hu1
    simp only [ex_rate_at, if_neg (hne u hpos hu2)]
    norm_num
    exact hpos
  have hm1 : (1 : F) < (1 / 2) * (1 / bracket_factor F + 1 * bracket_factor F) := by
    norm_num [bracket_factor]
  obtain ⟨h1, h2⟩ := bisect_loop_keeps_lower m
    (fun x d => ex_rate_at F 0 1 (-1) 0 0 x d 0 0 0 0 (fun _ => 0)) 1 0 1 1
    (1 / bracket_factor F) 1 (by norm_num [bracket_factor])
    (fun u hu1 hu2 => hres u hu1 (ne_of_lt hu2))
    15 1 ((1 / 2) * (1 / bracket_factor F + 1 * bracket_factor F)) 3 (by decide)
    (by norm_num [bracket_factor]) (by norm_num [bracket_factor])
    (by norm_num [bracket_factor, bisection_tolerance])
  have hstep : bisect_loop m (fun x d => ex_rate_at F 0 1 (-1) 0 0 x d 0 0 0 0 (fun _ => 0))
      1 0 1 1 0 (1 / bracket_factor F) (1 * bracket_factor F) 2 =
      bisect_loop m (fun x d => ex_rate_at F 0 1 (-1) 0 0 x d 0 0 0 0 (fun _ => 0))
      1 0 1 1 1 (1 / bracket_factor F)
        ((1 / 2) * (1 / bracket_factor F + 1 * bracket_factor F)) 3 := by
    rw [bisect_loop, bisect_step_upper m _ 1 0 1 1 _ _
      (hres _ (by norm_num [bracket_factor]) (ne_of_gt hm1))]
    simp only
    rw [dif_pos ⟨by norm_num [bracket_factor, bisection_tolerance, abs_of_pos], by decide⟩]
  refine ⟨hb, ?_, ?_, ?_⟩
  · unfold bisection_final
    simp only [hb, ex_ratefact_one]
    rw [hstep]
    exact h2
  · unfold bisection_final
    simp only [hb, ex_ratefact_one]
    rw [hstep]
    exact h1
  · simp only [bisection_residual, bisection_rate, ex_ratefact_one, ex_rate_at, if_neg hlo]
    norm_num

/-- C19 witness: the rate that cools at the starting energy 1 and heats
elsewhere, `u_ini = 1`, `ratefact = dt = 1`.  The bracket is accepted at once,
the bisection ends within 17 passes, and the statement applies. -/
theorem bisection_iter_result_witness :
    ∃ m : Libm ℝ, real_libm m ∧ 0 ≤ m.exp 0 ∧
      (bisection_bracket m (ex_rate_at ℝ 0 (-1) 1 0 0) 0 1 0 0 0 0 0 (ex_part ℝ 1 0)
        (ex_cooling ℝ false) ⟨1⟩ (fun _ => 0) 1).i < bisection_max_iterations ∧
      (bisection_final m (ex_rate_at ℝ 0 (-1) 1 0 0) 0 1 0 0 0 0 0 (ex_part ℝ 1 0)
        (ex_cooling ℝ false) ⟨1⟩ (fun _ => 0) 1).i < bisection_max_iterations ∧
      (bisection_iter m (ex_rate_at ℝ 0 (-1) 1 0 0) 0 1 0 0 0 0 0 (ex_part ℝ 1 0)
        (ex_cooling ℝ false) ⟨1⟩ (fun _ => 0) 1).value =
        m.to_float (m.log (bisection_final m (ex_rate_at ℝ 0 (-1) 1 0 0) 0 1 0 0 0 0 0 (ex_part ℝ 1 0)
        (ex_cooling ℝ false) ⟨1⟩ (fun _ => 0) 1).u_upper) ∧
      (bisection_final m (ex_rate_at ℝ 0 (-1) 1 0 0) 0 1 0 0 0 0 0 (ex_part ℝ 1 0)
        (ex_cooling ℝ false) ⟨1⟩ (fun _ => 0) 1).u_lower ≤
        (bisection_final m (ex_rate_at ℝ 0 (-1) 1 0 0) 0 1 0 0 0 0 0 (ex_part ℝ 1 0)
        (ex_cooling ℝ false) ⟨1⟩ (fun _ => 0) 1).u_upper ∧
      bisection_residual m (ex_rate_at ℝ 0 (-1) 1 0 0) 1 0 0 0 0 0 (ex_part ℝ 1 0)
        (ex_cooling ℝ false) ⟨1⟩ (fun _ => 0) 1
        (bisection_final m (ex_rate_at ℝ 0 (-1) 1 0 0) 0 1 0 0 0 0 0 (ex_part ℝ 1 0)
        (ex_cooling ℝ false) ⟨1⟩ (fun _ => 0) 1).u_lower ≤ 0 := by
  obtain ⟨e1, e2, -⟩ := ex_cool_spike_bisection
    ({ exp := Real.exp, log := Real.log, log10 := fun x => Real.log x / Real.log 10,
       erf := fun x => 2 / Real.sqrt Real.pi * ∫ t in (0 : ℝ)..x, Real.exp (-(t ^ 2)),
       M_SQRT2 := Real.sqrt 2, M_LOG10E := 1 / Real.log 10, M_LN10 := Real.log 10, to_float := fun x => x } : Libm ℝ)
    Real.log_one Real.exp_zero (fun u hu => ne_of_gt (Real.log_pos hu))
    real_log_bracket_factor.1
  have hexp : (0 : ℝ) ≤ Real.exp 0 := (Real.exp_pos 0).le
  have hrate : bisection_rate
      ({ exp := Real.exp, log := Real.log, log10 := fun x => Real.log x / Real.log 10,
         erf := fun x => 2 / Real.sqrt Real.pi * ∫ t in (0 : ℝ)..x, Real.exp (-(t ^ 2)),
         M_SQRT2 := Real.sqrt 2, M_LOG10E := 1 / Real.log 10, M_LN10 := Real.log 10, to_float := fun x => x } : Libm ℝ)
      (ex_rate_at ℝ 0 (-1) 1 0 0) 0 0 0 0 0 (ex_part ℝ 1 0) (ex_cooling ℝ false) ⟨1⟩
      (fun _ => 0) 1 (Real.exp 0) < 0 := by
    rw [Real.exp_zero]
    simp only [bisection_rate, ex_ratefact_one, ex_rate_at, Real.log_one]
    norm_num
  have h := bisection_iter_result
    ({ exp := Real.exp, log := Real.log, log10 := fun x => Real.log x / Real.log 10,
       erf := fun x => 2 / Real.sqrt Real.pi * ∫ t in (0 : ℝ)..x, Real.exp (-(t ^ 2)),
       M_SQRT2 := Real.sqrt 2, M_LOG10E := 1 / Real.log 10, M_LN10 := Real.log 10, to_float := fun x => x } : Libm ℝ)
    (ex_rate_at ℝ 0 (-1) 1 0 0) 0 1 0 0 0 0 0 (ex_part ℝ 1 0) (ex_cooling ℝ false) ⟨1⟩
    (fun _ => 0) 1 hexp (by rw [e1]; decide)
    (lt_of_le_of_lt e2 (by decide))
  exact ⟨_, ⟨rfl, rfl, rfl, rfl, rfl, rfl, rfl⟩, hexp, by rw [e1]; decide,
    lt_of_le_of_lt e2 (by decide), h.1, h.2.1, h.2.2.2.1 (Or.inl hrate)⟩

/-- C19 counterexample: the rate that heats (`+1`) at the starting energy 1
and cools (`-1`) elsewhere, `u_ini = 1`, `ratefact = dt = 1`.  The heating
branch accepts the bracket `[1 / bracket_factor, bracket_factor]` at once; every
midpoint has a positive residual, so only the upper end moves and the call
returns within 17 passes.  The final `u_lower` is the untested
`1 / bracket_factor`, where the residual is `1 / bracket_factor > 0`. -/
theorem bisection_iter_lower_counterexample :
    ∃ m : Libm ℝ, real_libm m ∧
      (bisection_bracket m (ex_rate_at ℝ 0 1 (-1) 0 0) 0 1 0 0 0 0 0 (ex_part ℝ 1 0)
        (ex_cooling ℝ false) ⟨1⟩ (fun _ => 0) 1).i < bisection_max_iterations ∧
      (bisection_final m (ex_rate_at ℝ 0 1 (-1) 0 0) 0 1 0 0 0 0 0 (ex_part ℝ 1 0)
        (ex_cooling ℝ false) ⟨1⟩ (fun _ => 0) 1).i < bisection_max_iterations ∧
      (bisection_iter m (ex_rate_at ℝ 0 1 (-1) 0 0) 0 1 0 0 0 0 0 (ex_part ℝ 1 0)
        (ex_cooling ℝ false) ⟨1⟩ (fun _ => 0) 1).value =
        m.to_float (m.log (bisection_final m (ex_rate_at ℝ 0 1 (-1) 0 0) 0 1 0 0 0 0 0 (ex_part ℝ 1 0)
        (ex_cooling ℝ false) ⟨1⟩ (fun _ => 0) 1).u_upper) ∧
      0 < bisection_residual m (ex_rate_at ℝ 0 1 (-1) 0 0) 1 0 0 0 0 0 (ex_part ℝ 1 0)
        (ex_cooling ℝ false) ⟨1⟩ (fun _ => 0) 1
        (bisection_final m (ex_rate_at ℝ 0 1 (-1) 0 0) 0 1 0 0 0 0 0 (ex_part ℝ 1 0)
        (ex_cooling ℝ false) ⟨1⟩ (fun _ => 0) 1).u_lower := by
  obtain ⟨e1, e2, e3, e4⟩ := ex_heat_spike_bisection
    ({ exp := Real.exp, log := Real.log, log10 := fun x => Real.log x / Real.log 10,
       erf := fun x => 2 / Real.sqrt Real.pi * ∫ t in (0 : ℝ)..x, Real.exp (-(t ^ 2)),
       M_SQRT2 := Real.sqrt 2, M_LOG10E := 1 / Real.log 10, M_LN10 := Real.log 10, to_float := fun x => x } : Libm ℝ)
    Real.log_one Real.exp_zero
    (fun u hu hu1 => Real.log_ne_zero_of_pos_of_ne_one hu hu1)
  refine ⟨_, ⟨rfl, rfl, rfl, rfl, rfl, rfl, rfl⟩, by rw [e1]; decide,
    lt_of_le_of_lt e2 (by decide), ?_, ?_⟩
  · rw [bisection_iter_parts, if_neg (by rw [e1]; decide),
      if_neg (not_le.mpr (lt_of_le_of_lt e2 (by decide)))]
  · rw [e3, e4]
    norm_num [bracket_factor]

/-! ## The cap of the bracket search (C18) -/

theorem bracket_cool_loop_last_pass (m : Libm F) (Lam : F → Option F → F × Option F)
    (u_ini He_reion_heat dt ratefact thr : F)
    (hres : ∀ k : Nat, 1 ≤ k → k ≤ bisection_max_iterations →
      thr * bracket_factor F ^ k - u_ini -
        (He_reion_heat / (dt * ratefact) + (Lam (m.log (thr * bracket_factor F ^ k)) none).1) *
          ratefact * dt > 0)
    (n : Nat) :
    ∀ (i : Nat) (u_lower u_upper : F) (e : Nat), i + n = bisection_max_iterations →
      u_lower = thr * bracket_factor F ^ n →
      (bracket_cool_loop m Lam u_ini He_reion_heat dt ratefact i u_lower u_upper
        (He_reion_heat / (dt * ratefact) + (Lam (m.log u_lower) none).1) e).i =
        bisection_max_iterations ∧
      (bracket_cool_loop m Lam u_ini He_reion_heat dt ratefact i u_lower u_upper
        (He_reion_heat / (dt * ratefact) + (Lam (m.log u_lower) none).1) e).u_lower = thr ∧
      (bracket_cool_loop m Lam u_ini He_reion_heat dt ratefact i u_lower u_upper
        (He_reion_heat / (dt * ratefact) + (Lam (m.log u_lower) none).1) e).rate_evals =
        e + n := by
  induction n with
  | zero =>
    intro i u_lower u_upper e hi hu
    rw [bracket_cool_loop]
    have h2 : ¬ i < bisection_max_iterations := by omega
    simp only [h2, and_false, dite_false]
    refine ⟨by omega, ?_, rfl⟩
    rw [hu, pow_zero, mul_one]
  | succ k ih =>
    intro i u_lower u_upper e hi hu
    have hk := hres (k + 1) (by omega) (by omega)
    rw [← hu] at hk
    rw [bracket_cool_loop, dif_pos ⟨hk, by omega⟩]
    simp only
    have hu2 : u_lower / bracket_factor F = thr * bracket_factor F ^ k := by
      rw [hu, pow_succ, ← mul_assoc]
      exact mul_div_cancel_right₀ _ (ne_of_gt bracket_factor_pos)
    obtain ⟨a1, a2, a3⟩ := ih (i + 1) (u_lower / bracket_factor F) (u_upper / bracket_factor F)
      (e + 1) (by omega) hu2
    exact ⟨a1, a2, by rw [a3]; omega⟩

theorem bisection_bracket_cases (m : Libm F) (rate : RateEval F)
    (logu_init u_ini : F) (n_h_i : Int) (d_n_h : F) (He_i : Int) (d_He : F)
    (He_reion_heat : F) (p : part F) (cooling : cooling_function_data F)
    (phys : phys_const F) (abundance_ratio : Nat → F) (dt : F) :
    (bisection_rate m rate n_h_i d_n_h He_i d_He He_reion_heat p cooling phys abundance_ratio dt
        (m.exp logu_init) < 0 →
      bisection_bracket m rate logu_init u_ini n_h_i d_n_h He_i d_He He_reion_heat p
        cooling phys abundance_ratio dt =
        bracket_cool_loop m (fun x d => rate x d n_h_i d_n_h He_i d_He abundance_ratio) u_ini
          He_reion_heat dt (bisection_ratefact p cooling phys) 0
          (m.exp logu_init / bracket_factor F) (m.exp logu_init * bracket_factor F)
          (He_reion_heat / (dt * bisection_ratefact p cooling phys) +
            (rate (m.log (m.exp logu_init / bracket_factor F)) none n_h_i d_n_h He_i d_He
              abundance_ratio).1) 2) ∧
    (¬ bisection_rate m rate n_h_i d_n_h He_i d_He He_reion_heat p cooling phys abundance_ratio
        dt (m.exp logu_init) < 0 →
      bisection_bracket m rate logu_init u_ini n_h_i d_n_h He_i d_He He_reion_heat p
        cooling phys abundance_ratio dt =
        bracket_heat_loop m (fun x d => rate x d n_h_i d_n_h He_i d_He abundance_ratio) u_ini
          He_reion_heat dt (bisection_ratefact p cooling phys) 0
          (m.exp logu_init / bracket_factor F) (m.exp logu_init * bracket_factor F)
          (He_reion_heat / (dt * bisection_ratefact p cooling phys) +
            (rate (m.log (m.exp logu_init * bracket_factor F)) none n_h_i d_n_h He_i d_He
              abundance_ratio).1) 2) := by
  constructor
  · intro h1
    unfold bisection_rate bisection_ratefact at h1
    unfold bisection_bracket bisection_ratefact
    simp only
    rw [if_pos h1]
  · intro h1
    unfold bisection_rate bisection_ratefact at h1
    unfold bisection_bracket bisection_ratefact
    simp only
    rw [if_neg h1]

theorem ex_last_pass_bracket (m : Libm F) (hlog : m.log 1 = 0) (hexp : m.exp 0 = 1)
    (hinj : ∀ u v, 0 < u → 0 < v → m.log u = m.log v → u = v) :
    (bisection_bracket m (ex_rate_at F (m.log (1 / bracket_factor F ^ 151)) 0 (-2) 0 0)
      0 1 0 0 0 0 0 (ex_part F 1 0) (ex_cooling F false) ⟨1⟩ (fun _ => 0) 1).i =
      bisection_max_iterations ∧
    (bisection_bracket m (ex_rate_at F (m.log (1 / bracket_factor F ^ 151)) 0 (-2) 0 0)
      0 1 0 0 0 0 0 (ex_part F 1 0) (ex_cooling F false) ⟨1⟩ (fun _ => 0) 1).u_lower =
      1 / bracket_factor F ^ 151 ∧
    (bisection_bracket m (ex_rate_at F (m.log (1 / bracket_factor F ^ 151)) 0 (-2) 0 0)
      0 1 0 0 0 0 0 (ex_part F 1 0) (ex_cooling F false) ⟨1⟩ (fun _ => 0) 1).rate_evals = 152 ∧
    bisection_residual m (ex_rate_at F (m.log (1 / bracket_factor F ^ 151)) 0 (-2) 0 0)
      1 0 0 0 0 0 (ex_part F 1 0) (ex_cooling F false) ⟨1⟩ (fun _ => 0) 1
      (1 / bracket_factor F ^ 151) < 0 := by
  have hbf : (1 : F) < bracket_factor F := by
    unfold bracket_factor
    norm_num
  have hbf0 : (0 : F) < bracket_factor F := bracket_factor_pos
  have hthr : (0 : F) < 1 / bracket_factor F ^ 151 := by positivity
  have hthr1 : 1 / bracket_factor F ^ 151 < (1 : F) := by
    rw [div_lt_one (by positivity)]
    exact one_lt_pow₀ hbf (by decide)
  have hne : ∀ k : Nat, 1 / bracket_factor F ^ 151 * bracket_factor F ^ k ≠
      1 / bracket_factor F ^ 151 → m.log (1 / bracket_factor F ^ 151 * bracket_factor F ^ k) ≠
      m.log (1 / bracket_factor F ^ 151) := by
    intro k hk h
    exact hk (hinj _ _ (by positivity) hthr h)
  have h0 : (0 : F) ≠ m.log (1 / bracket_factor F ^ 151) := by
    intro h
    rw [← hlog] at h
    exact absurd (hinj _ _ one_pos hthr h) (ne_of_gt hthr1)
  have hrate : bisection_rate m (ex_rate_at F (m.log (1 / bracket_factor F ^ 151)) 0 (-2) 0 0)
      0 0 0 0 0 (ex_part F 1 0) (ex_cooling F false) ⟨1⟩ (fun _ => 0) 1 (m.exp 0) < 0 := by
    rw [hexp]
    simp only [bisection_rate, ex_ratefact_one, ex_rate_at, hlog, if_neg h0]
    norm_num
  have hstart : (1 : F) / bracket_factor F = 1 / bracket_factor F ^ 151 *
      bracket_factor F ^ bisection_max_iterations := by
    have e : bracket_factor F ^ 151 = bracket_factor F ^ bisection_max_iterations *
        bracket_factor F := by
      rw [← pow_succ]
      rfl
    rw [e]
    field_simp
  have hloop := bracket_cool_loop_last_pass m
    (fun x d => ex_rate_at F (m.log (1 / bracket_factor F ^ 151)) 0 (-2) 0 0 x d 0 0 0 0
      (fun _ => 0)) 1 0 1 1 (1 / bracket_factor F ^ 151)
    (by
      intro k hk1 _
      have hk : 1 / bracket_factor F ^ 151 * bracket_factor F ^ k ≠
          1 / bracket_factor F ^ 151 := by
        have h1 : (1 : F) < bracket_factor F ^ k := one_lt_pow₀ hbf (by omega)
        exact ne_of_gt (lt_mul_of_one_lt_right hthr h1)
      have hp : (0 : F) < 1 / bracket_factor F ^ 151 * bracket_factor F ^ k := by positivity
      simp only [ex_rate_at, if_neg (hne k hk)]
      norm_num
      rw [one_div] at hp
      linarith)
    bisection_max_iterations 0 (1 / bracket_factor F) (1 * bracket_factor F) 2 (by simp) hstart
  have hb := (bisection_bracket_cases m
    (ex_rate_at F (m.log (1 / bracket_factor F ^ 151)) 0 (-2) 0 0) 0 1 0 0 0 0 0
    (ex_part F 1 0) (ex_cooling F false) ⟨1⟩ (fun _ => 0) 1).1 hrate
  rw [hexp, ex_ratefact_one] at hb
  rw [hb]
  refine ⟨hloop.1, hloop.2.1, hloop.2.2, ?_⟩
  simp only [bisection_residual, bisection_rate, ex_ratefact_one, ex_rate_at, if_pos]
  norm_num
  rw [one_div] at hthr1
  linarith

/-- C18: the bracket search makes its first expansion before the loop and up
to 150 more inside it, and it reports a failure whenever the loop counter
reaches 150; the residual computed after the 150th pass of the loop is not
tested.  Here the rate cools (`-2`) except at the energy
`1 / bracket_factor ^ 151`, where it is 0; `u_ini = 1`, start at `exp 0 = 1`.
The loop ends after 150 passes (151 expansions, 152 rate evaluations) at
`u_lower = 1 / bracket_factor ^ 151`, where the residual is negative, the
sign the cooling search looks for; the call still returns the failure value
with the message. -/
theorem bisection_bracket_last_pass_fails :
    ∃ m : Libm ℝ, real_libm m ∧
      (bisection_bracket m (ex_rate_at ℝ (m.log (1 / bracket_factor ℝ ^ 151)) 0 (-2) 0 0)
        0 1 0 0 0 0 0 (ex_part ℝ 1 0) (ex_cooling ℝ false) ⟨1⟩ (fun _ => 0) 1).i = 150 ∧
      (bisection_bracket m (ex_rate_at ℝ (m.log (1 / bracket_factor ℝ ^ 151)) 0 (-2) 0 0)
        0 1 0 0 0 0 0 (ex_part ℝ 1 0) (ex_cooling ℝ false) ⟨1⟩ (fun _ => 0) 1).u_lower =
        1 / bracket_factor ℝ ^ 151 ∧
      (bisection_bracket m (ex_rate_at ℝ (m.log (1 / bracket_factor ℝ ^ 151)) 0 (-2) 0 0)
        0 1 0 0 0 0 0 (ex_part ℝ 1 0) (ex_cooling ℝ false) ⟨1⟩ (fun _ => 0) 1).rate_evals =
        152 ∧
      bisection_residual m (ex_rate_at ℝ (m.log (1 / bracket_factor ℝ ^ 151)) 0 (-2) 0 0)
        1 0 0 0 0 0 (ex_part ℝ 1 0) (ex_cooling ℝ false) ⟨1⟩ (fun _ => 0) 1
        (bisection_bracket m (ex_rate_at ℝ (m.log (1 / bracket_factor ℝ ^ 151)) 0 (-2) 0 0)
          0 1 0 0 0 0 0 (ex_part ℝ 1 0) (ex_cooling ℝ false) ⟨1⟩ (fun _ => 0) 1).u_lower < 0 ∧
      (bisection_iter m (ex_rate_at ℝ (m.log (1 / bracket_factor ℝ ^ 151)) 0 (-2) 0 0)
        0 1 0 0 0 0 0 (ex_part ℝ 1 0) (ex_cooling ℝ false) ⟨1⟩ (fun _ => 0) 1).value =
        bisection_failure ℝ ∧
      (bisection_iter m (ex_rate_at ℝ (m.log (1 / bracket_factor ℝ ^ 151)) 0 (-2) 0 0)
        0 1 0 0 0 0 0 (ex_part ℝ 1 0) (ex_cooling ℝ false) ⟨1⟩ (fun _ => 0) 1).messages =
        1 := by
  obtain ⟨e1, e2, e3, e4⟩ := ex_last_pass_bracket
    ({ exp := Real.exp, log := Real.log, log10 := fun x => Real.log x / Real.log 10,
       erf := fun x => 2 / Real.sqrt Real.pi * ∫ t in (0 : ℝ)..x, Real.exp (-(t ^ 2)),
       M_SQRT2 := Real.sqrt 2, M_LOG10E := 1 / Real.log 10, M_LN10 := Real.log 10, to_float := fun x => x } : Libm ℝ)
    Real.log_one Real.exp_zero
    (fun u v hu hv h => Real.log_injOn_pos (Set.mem_Ioi.mpr hu) (Set.mem_Ioi.mpr hv) h)
  refine ⟨_, ⟨rfl, rfl, rfl, rfl, rfl, rfl, rfl⟩, e1, e2, e3, ?_, ?_, ?_⟩
  · rw [e2]
    exact e4
  · rw [bisection_iter_parts, if_pos (ge_of_eq e1)]
  · rw [bisection_iter_parts, if_pos (ge_of_eq e1)]

/-! ## The iteration cap of the Newton scheme (C20) -/

theorem newton_loop_last_pass (m : Libm F) (Lam : F → Option F → F × Option F)
    (u_ini He_reion_heat dt ratefact hi lo logu LambdaNet dLambdaNet_du : F) (e : Nat) :
    (newton_loop m Lam u_ini He_reion_heat dt ratefact hi lo 14 logu LambdaNet dLambdaNet_du
      e).i = newton_max_iterations ∧
    (newton_loop m Lam u_ini He_reion_heat dt ratefact hi lo 14 logu LambdaNet dLambdaNet_du
      e).logu =
      (newton_correction m Lam u_ini He_reion_heat dt ratefact 14 logu LambdaNet
        dLambdaNet_du).1 ∧
    (newton_loop m Lam u_ini He_reion_heat dt ratefact hi lo 14 logu LambdaNet dLambdaNet_du
      e).rate_evals = e + 1 := by
  rw [newton_loop]
  split_ifs with h1 h2 h3
  · exact ⟨rfl, rfl, rfl⟩
  · exact ⟨rfl, rfl, rfl⟩
  · exact absurd h3.2 (by decide)
  · exact ⟨rfl, rfl, rfl⟩

theorem newton_loop_follows_trace (m : Libm F) (Lam : F → Option F → F × Option F)
    (u_ini He_reion_heat dt ratefact hi lo : F) (tr : Nat → F × F × F)
    (hstep : ∀ k, tr (k + 1) =
      newton_correction m Lam u_ini He_reion_heat dt ratefact k (tr k).1 (tr k).2.1 (tr k).2.2)
    (k : Nat) (hk : k ≤ 14)
    (hrun : ∀ j, j < k → ¬ (tr (j + 1)).1 > hi ∧ ¬ (tr (j + 1)).1 < lo ∧
      |(tr (j + 1)).1 - (tr j).1| > newton_tolerance F) :
    newton_loop m Lam u_ini He_reion_heat dt ratefact hi lo 0 (tr 0).1 (tr 0).2.1 (tr 0).2.2 0 =
      newton_loop m Lam u_ini He_reion_heat dt ratefact hi lo k (tr k).1 (tr k).2.1 (tr k).2.2
        k := by
  induction k with
  | zero => rfl
  | succ k ih =>
    rw [ih (by omega) (fun j hj => hrun j (by omega))]
    obtain ⟨h1, h2, h3⟩ := hrun k (by omega)
    rw [hstep k] at h1 h2 h3
    rw [newton_loop, hstep k]
    rw [if_neg h1, if_neg h2, dif_pos ⟨h3, by simp only [newton_max_iterations]; omega⟩]

/-- C20: `newton_iter` sets the bisection flag whenever its loop counter
reaches 15, and the counter reaches 15 as soon as the first 14 passes stay
inside the table bounds without meeting the tolerance: the 15th pass then ends
the loop with `i = 15` whatever its step is, also when it is the first to meet
`|logu - logu_old| ≤ 1e-4` inside the bounds.  The value returned is the 15th
iterate as a `float`. -/
theorem newton_iter_fifteenth_pass_flags (m : Libm F) (rate : RateEval F)
    (logu_init u_ini : F) (n_h_i : Int) (d_n_h : F) (He_i : Int) (d_He : F)
    (He_reion_heat : F) (p : part F) (cooling : cooling_function_data F)
    (phys : phys_const F) (abundance_ratio : Nat → F) (dt : F) (flag : Bool)
    (hrun : ∀ j, j < 14 →
      ¬ (newton_trace m rate logu_init u_ini n_h_i d_n_h He_i d_He He_reion_heat p cooling phys
        abundance_ratio dt (j + 1)).1 > newton_bound_high m cooling ∧
      ¬ (newton_trace m rate logu_init u_ini n_h_i d_n_h He_i d_He He_reion_heat p cooling phys
        abundance_ratio dt (j + 1)).1 < newton_bound_low m cooling ∧
      |(newton_trace m rate logu_init u_ini n_h_i d_n_h He_i d_He He_reion_heat p cooling phys
          abundance_ratio dt (j + 1)).1 -
        (newton_trace m rate logu_init u_ini n_h_i d_n_h He_i d_He He_reion_heat p cooling phys
          abundance_ratio dt j).1| > newton_tolerance F) :
    (newton_iter m rate logu_init u_ini n_h_i d_n_h He_i d_He He_reion_heat p cooling phys
      abundance_ratio dt flag).bisection_flag = true ∧
    (newton_iter m rate logu_init u_ini n_h_i d_n_h He_i d_He He_reion_heat p cooling phys
      abundance_ratio dt flag).value =
      m.to_float ((newton_trace m rate logu_init u_ini n_h_i d_n_h He_i d_He He_reion_heat p cooling phys
        abundance_ratio dt 15).1) ∧
    (newton_iter m rate logu_init u_ini n_h_i d_n_h He_i d_He He_reion_heat p cooling phys
      abundance_ratio dt flag).rate_evals = 15 := by
  have h : newton_loop m (fun x d => rate x d n_h_i d_n_h He_i d_He abundance_ratio)
      u_ini He_reion_heat dt (bisection_ratefact p cooling phys) (newton_bound_high m cooling)
      (newton_bound_low m cooling) 0 logu_init 0 0 0 =
      newton_loop m (fun x d => rate x d n_h_i d_n_h He_i d_He abundance_ratio)
      u_ini He_reion_heat dt (bisection_ratefact p cooling phys) (newton_bound_high m cooling)
      (newton_bound_low m cooling) 14
      (newton_trace m rate logu_init u_ini n_h_i d_n_h He_i d_He He_reion_heat p cooling phys
        abundance_ratio dt 14).1
      (newton_trace m rate logu_init u_ini n_h_i d_n_h He_i d_He He_reion_heat p cooling phys
        abundance_ratio dt 14).2.1
      (newton_trace m rate logu_init u_ini n_h_i d_n_h He_i d_He He_reion_heat p cooling phys
        abundance_ratio dt 14).2.2 14 :=
    newton_loop_follows_trace m
      (fun x d => rate x d n_h_i d_n_h He_i d_He abundance_ratio) u_ini He_reion_heat dt
      (bisection_ratefact p cooling phys) (newton_bound_high m cooling)
      (newton_bound_low m cooling)
      (newton_trace m rate logu_init u_ini n_h_i d_n_h He_i d_He He_reion_heat p cooling phys
        abundance_ratio dt) (fun k => rfl) 14 le_rfl hrun
  obtain ⟨a1, a2, a3⟩ := newton_loop_last_pass m
    (fun x d => rate x d n_h_i d_n_h He_i d_He abundance_ratio) u_ini He_reion_heat dt
    (bisection_ratefact p cooling phys) (newton_bound_high m cooling) (newton_bound_low m cooling)
    (newton_trace m rate logu_init u_ini n_h_i d_n_h He_i d_He He_reion_heat p cooling phys
      abundance_ratio dt 14).1
    (newton_trace m rate logu_init u_ini n_h_i d_n_h He_i d_He He_reion_heat p cooling phys
      abundance_ratio dt 14).2.1
    (newton_trace m rate logu_init u_ini n_h_i d_n_h He_i d_He He_reion_heat p cooling phys
      abundance_ratio dt 14).2.2 14
  rw [← h] at a1 a2 a3
  have e : newton_iter m rate logu_init u_ini n_h_i d_n_h He_i d_He He_reion_heat p cooling phys
      abundance_ratio dt flag =
      { value := m.to_float ((newton_loop m (fun x d => rate x d n_h_i d_n_h He_i d_He abundance_ratio)
          u_ini He_reion_heat dt (bisection_ratefact p cooling phys) (newton_bound_high m cooling)
          (newton_bound_low m cooling) 0 logu_init 0 0 0).logu)
        bisection_flag :=
          if (newton_loop m (fun x d => rate x d n_h_i d_n_h He_i d_He abundance_ratio)
            u_ini He_reion_heat dt (bisection_ratefact p cooling phys) (newton_bound_high m cooling)
            (newton_bound_low m cooling) 0 logu_init 0 0 0).i ≥ newton_max_iterations then true
          else flag
        rate_evals := (newton_loop m (fun x d => rate x d n_h_i d_n_h He_i d_He abundance_ratio)
          u_ini He_reion_heat dt (bisection_ratefact p cooling phys) (newton_bound_high m cooling)
          (newton_bound_low m cooling) 0 logu_init 0 0 0).rate_evals } := rfl
  rw [e]
  exact ⟨by simp only; rw [if_pos (ge_of_eq a1)], congrArg m.to_float a2, a3⟩

theorem ex_ratefact_newton : bisection_ratefact (ex_part F 1 0) (ex_cooling F true) ⟨1⟩ = 1 := by
  simp [bisection_ratefact, ex_part, ex_cooling, chemistry_element_H]

theorem ex_newton_trace_step (m : Libm F) (hfl : ∀ x, m.to_float x = x) (k : Nat) :
    (newton_trace m (ex_rate F (-1) (-700)) 0 1 0 0 0 0 0 (ex_part F 1 0) (ex_cooling F true)
      ⟨1⟩ (fun _ => 0) 1 (k + 1)).2.1 = -1 ∧
    (newton_trace m (ex_rate F (-1) (-700)) 0 1 0 0 0 0 0 (ex_part F 1 0) (ex_cooling F true)
      ⟨1⟩ (fun _ => 0) 1 (k + 1)).2.2 = -700 * ((k : F) + 1) ∧
    (newton_trace m (ex_rate F (-1) (-700)) 0 1 0 0 0 0 0 (ex_part F 1 0) (ex_cooling F true)
      ⟨1⟩ (fun _ => 0) 1 (k + 1)).1 =
      (newton_trace m (ex_rate F (-1) (-700)) 0 1 0 0 0 0 0 (ex_part F 1 0) (ex_cooling F true)
      ⟨1⟩ (fun _ => 0) 1 k).1 - 1 / (1 + 700 * ((k : F) + 1)) := by
  induction k with
  | zero =>
    simp only [newton_trace, newton_correction, ex_rate, ex_ratefact_newton]
    norm_num
  | succ k ih =>
    obtain ⟨h1, h2, -⟩ := ih
    have hpos : (0 : F) < 1 + 700 * ((k : F) + 1 + 1) := by positivity
    have e : newton_trace m (ex_rate F (-1) (-700)) 0 1 0 0 0 0 0 (ex_part F 1 0) (ex_cooling F true)
      ⟨1⟩ (fun _ => 0) 1 (k + 1 + 1) =
        newton_correction m (fun x d => ex_rate F (-1) (-700) x d 0 0 0 0 (fun _ => 0)) 1 0 1
          (bisection_ratefact (ex_part F 1 0) (ex_cooling F true) ⟨1⟩) (k + 1)
          (newton_trace m (ex_rate F (-1) (-700)) 0 1 0 0 0 0 0 (ex_part F 1 0) (ex_cooling F true)
      ⟨1⟩ (fun _ => 0) 1 (k + 1)).1
          (newton_trace m (ex_rate F (-1) (-700)) 0 1 0 0 0 0 0 (ex_part F 1 0) (ex_cooling F true)
      ⟨1⟩ (fun _ => 0) 1 (k + 1)).2.1
          (newton_trace m (ex_rate F (-1) (-700)) 0 1 0 0 0 0 0 (ex_part F 1 0) (ex_cooling F true)
      ⟨1⟩ (fun _ => 0) 1 (k + 1)).2.2 := rfl
    rw [e, h1, h2]
    simp only [newton_correction, ex_rate, ex_ratefact_newton, Option.map_some', Option.getD_some,
      hfl]
    have hg : ¬ (k + 1 = 1 ∧ (-1 : F) * (0 / (1 * 1) + -1) < 0) := by
      intro h
      have := h.2
      norm_num at this
    rw [if_neg hg]
    refine ⟨by norm_num, by push_cast; ring, ?_⟩
    have e2 : (1 : F) - (-700 * ((k : F) + 1) + -700) * 1 * 1 =
        1 + 700 * (((k + 1 : Nat) : F) + 1) := by
      push_cast
      ring
    rw [e2]
    congr 1
    push_cast
    field_simp

theorem ex_newton_trace_bounds (m : Libm F) (hfl : ∀ x, m.to_float x = x) (k : Nat) :
    -((k : F) / 701) ≤ (newton_trace m (ex_rate F (-1) (-700)) 0 1 0 0 0 0 0 (ex_part F 1 0) (ex_cooling F true)
      ⟨1⟩ (fun _ => 0) 1 k).1 ∧
    (newton_trace m (ex_rate F (-1) (-700)) 0 1 0 0 0 0 0 (ex_part F 1 0) (ex_cooling F true)
      ⟨1⟩ (fun _ => 0) 1 k).1 ≤ 0 := by
  induction k with
  | zero => simp [newton_trace]
  | succ k ih =>
    obtain ⟨-, -, h3⟩ := ex_newton_trace_step m hfl k
    rw [h3]
    have hk : (0 : F) ≤ (k : F) := Nat.cast_nonneg k
    have h4 : (0 : F) < 1 / (1 + 700 * ((k : F) + 1)) := by positivity
    have h5 : 1 / (1 + 700 * ((k : F) + 1)) ≤ (1 : F) / 701 := by
      apply one_div_le_one_div_of_le (by norm_num)
      linarith
    constructor
    · push_cast
      linarith [ih.1]
    · linarith [ih.2]

/-- C20 witness: constant rate `-1` with a derivative that grows by `-700` at
each evaluation, `u_ini = 1`, `ratefact = dt = 1`, start at `logu = 0`.  Pass
`k` moves `logu` by `-1 / (1 + 700 k)`: more than `1e-4` for `k ≤ 14`, less for
`k = 15`, all inside the table bounds.  The 15th pass is the first to meet the
tolerance, and the call still sets the bisection flag. -/
theorem newton_iter_fifteenth_pass_flags_witness :
    (∀ j, j < 14 →
      ¬ (newton_trace ex_libm (ex_rate ℚ (-1) (-700)) 0 1 0 0 0 0 0 (ex_part ℚ 1 0)
      (ex_cooling ℚ true) ⟨1⟩ (fun _ => 0) 1 (j + 1)).1 > newton_bound_high ex_libm (ex_cooling ℚ true) ∧
      ¬ (newton_trace ex_libm (ex_rate ℚ (-1) (-700)) 0 1 0 0 0 0 0 (ex_part ℚ 1 0)
      (ex_cooling ℚ true) ⟨1⟩ (fun _ => 0) 1 (j + 1)).1 < newton_bound_low ex_libm (ex_cooling ℚ true) ∧
      |(newton_trace ex_libm (ex_rate ℚ (-1) (-700)) 0 1 0 0 0 0 0 (ex_part ℚ 1 0)
      (ex_cooling ℚ true) ⟨1⟩ (fun _ => 0) 1 (j + 1)).1 -
        (newton_trace ex_libm (ex_rate ℚ (-1) (-700)) 0 1 0 0 0 0 0 (ex_part ℚ 1 0)
      (ex_cooling ℚ true) ⟨1⟩ (fun _ => 0) 1 j).1| > newton_tolerance ℚ) ∧
    (¬ (newton_trace ex_libm (ex_rate ℚ (-1) (-700)) 0 1 0 0 0 0 0 (ex_part ℚ 1 0)
      (ex_cooling ℚ true) ⟨1⟩ (fun _ => 0) 1 15).1 > newton_bound_high ex_libm (ex_cooling ℚ true) ∧
      ¬ (newton_trace ex_libm (ex_rate ℚ (-1) (-700)) 0 1 0 0 0 0 0 (ex_part ℚ 1 0)
      (ex_cooling ℚ true) ⟨1⟩ (fun _ => 0) 1 15).1 < newton_bound_low ex_libm (ex_cooling ℚ true) ∧
      |(newton_trace ex_libm (ex_rate ℚ (-1) (-700)) 0 1 0 0 0 0 0 (ex_part ℚ 1 0)
      (ex_cooling ℚ true) ⟨1⟩ (fun _ => 0) 1 15).1 -
        (newton_trace ex_libm (ex_rate ℚ (-1) (-700)) 0 1 0 0 0 0 0 (ex_part ℚ 1 0)
      (ex_cooling ℚ true) ⟨1⟩ (fun _ => 0) 1 14).1| ≤ newton_tolerance ℚ) ∧
    (newton_iter ex_libm (ex_rate ℚ (-1) (-700)) 0 1 0 0 0 0 0 (ex_part ℚ 1 0)
      (ex_cooling ℚ true) ⟨1⟩ (fun _ => 0) 1 false).bisection_flag = true ∧
    (newton_iter ex_libm (ex_rate ℚ (-1) (-700)) 0 1 0 0 0 0 0 (ex_part ℚ 1 0)
      (ex_cooling ℚ true) ⟨1⟩ (fun _ => 0) 1 false).value =
      ex_libm.to_float ((newton_trace ex_libm (ex_rate ℚ (-1) (-700)) 0 1 0 0 0 0 0 (ex_part ℚ 1 0)
      (ex_cooling ℚ true) ⟨1⟩ (fun _ => 0) 1 15).1) ∧
    (newton_iter ex_libm (ex_rate ℚ (-1) (-700)) 0 1 0 0 0 0 0 (ex_part ℚ 1 0)
      (ex_cooling ℚ true) ⟨1⟩ (fun _ => 0) 1 false).rate_evals = 15 := by
  have hhi : (0 : ℚ) < newton_bound_high ex_libm (ex_cooling ℚ true) := by
    norm_num [newton_bound_high, ex_libm, ex_cooling]
  have hlo : newton_bound_low ex_libm (ex_cooling ℚ true) < -1 := by
    norm_num [newton_bound_low, ex_libm, ex_cooling]
  have hb : ∀ k : Nat, k ≤ 15 →
      ¬ (newton_trace ex_libm (ex_rate ℚ (-1) (-700)) 0 1 0 0 0 0 0 (ex_part ℚ 1 0)
      (ex_cooling ℚ true) ⟨1⟩ (fun _ => 0) 1 k).1 > newton_bound_high ex_libm (ex_cooling ℚ true) ∧
      ¬ (newton_trace ex_libm (ex_rate ℚ (-1) (-700)) 0 1 0 0 0 0 0 (ex_part ℚ 1 0)
      (ex_cooling ℚ true) ⟨1⟩ (fun _ => 0) 1 k).1 < newton_bound_low ex_libm (ex_cooling ℚ true) := by
    intro k hk
    obtain ⟨b1, b2⟩ := ex_newton_trace_bounds ex_libm (fun _ => rfl) k
    have hk2 : (k : ℚ) ≤ 15 := by exact_mod_cast hk
    constructor
    · linarith
    · have : (k : ℚ) / 701 ≤ 1 := by
        rw [div_le_one (by norm_num)]
        linarith
      linarith
  have hrun : ∀ j, j < 14 →
      ¬ (newton_trace ex_libm (ex_rate ℚ (-1) (-700)) 0 1 0 0 0 0 0 (ex_part ℚ 1 0)
      (ex_cooling ℚ true) ⟨1⟩ (fun _ => 0) 1 (j + 1)).1 > newton_bound_high ex_libm (ex_cooling ℚ true) ∧
      ¬ (newton_trace ex_libm (ex_rate ℚ (-1) (-700)) 0 1 0 0 0 0 0 (ex_part ℚ 1 0)
      (ex_cooling ℚ true) ⟨1⟩ (fun _ => 0) 1 (j + 1)).1 < newton_bound_low ex_libm (ex_cooling ℚ true) ∧
      |(newton_trace ex_libm (ex_rate ℚ (-1) (-700)) 0 1 0 0 0 0 0 (ex_part ℚ 1 0)
      (ex_cooling ℚ true) ⟨1⟩ (fun _ => 0) 1 (j + 1)).1 -
        (newton_trace ex_libm (ex_rate ℚ (-1) (-700)) 0 1 0 0 0 0 0 (ex_part ℚ 1 0)
      (ex_cooling ℚ true) ⟨1⟩ (fun _ => 0) 1 j).1| > newton_tolerance ℚ := by
    intro j hj
    refine ⟨(hb (j + 1) (by omega)).1, (hb (j + 1) (by omega)).2, ?_⟩
    obtain ⟨-, -, h3⟩ := ex_newton_trace_step ex_libm (fun _ => rfl) j
    rw [h3]
    have hj2 : (j : ℚ) ≤ 13 := by exact_mod_cast Nat.le_of_lt_succ hj
    have hj0 : (0 : ℚ) ≤ (j : ℚ) := Nat.cast_nonneg j
    have hpos : (0 : ℚ) < 1 + 700 * ((j : ℚ) + 1) := by positivity
    have e : (newton_trace ex_libm (ex_rate ℚ (-1) (-700)) 0 1 0 0 0 0 0 (ex_part ℚ 1 0)
      (ex_cooling ℚ true) ⟨1⟩ (fun _ => 0) 1 j).1 - 1 / (1 + 700 * ((j : ℚ) + 1)) -
        (newton_trace ex_libm (ex_rate ℚ (-1) (-700)) 0 1 0 0 0 0 0 (ex_part ℚ 1 0)
      (ex_cooling ℚ true) ⟨1⟩ (fun _ => 0) 1 j).1 = -(1 / (1 + 700 * ((j : ℚ) + 1))) := by ring
    rw [e, abs_neg, abs_of_pos (by positivity)]
    unfold newton_tolerance
    rw [gt_iff_lt, div_lt_div_iff₀ (by norm_num) hpos]
    linarith
  refine ⟨hrun, ⟨(hb 15 le_rfl).1, (hb 15 le_rfl).2, ?_⟩,
    newton_iter_fifteenth_pass_flags ex_libm (ex_rate ℚ (-1) (-700)) 0 1 0 0 0 0 0
      (ex_part ℚ 1 0) (ex_cooling ℚ true) ⟨1⟩ (fun _ => 0) 1 false hrun⟩
  obtain ⟨-, -, h3⟩ := ex_newton_trace_step ex_libm (fun _ => rfl) 14
  rw [h3]
  have e : (newton_trace ex_libm (ex_rate ℚ (-1) (-700)) 0 1 0 0 0 0 0 (ex_part ℚ 1 0)
      (ex_cooling ℚ true) ⟨1⟩ (fun _ => 0) 1 14).1 - 1 / (1 + 700 * (((14 : Nat) : ℚ) + 1)) -
      (newton_trace ex_libm (ex_rate ℚ (-1) (-700)) 0 1 0 0 0 0 0 (ex_part ℚ 1 0)
      (ex_cooling ℚ true) ⟨1⟩ (fun _ => 0) 1 14).1 = -(1 / 10501) := by
    push_cast
    ring
  rw [e]
  norm_num [newton_tolerance, abs_of_pos]

/-! ## Leaving the table bounds and the retry (C21, C22) -/

theorem newton_loop_leaves_bounds (m : Libm F) (Lam : F → Option F → F × Option F)
    (u_ini He_reion_heat dt ratefact hi lo : F) (i : Nat) (logu LambdaNet dLambdaNet_du : F)
    (e : Nat)
    (h : (newton_correction m Lam u_ini He_reion_heat dt ratefact i logu LambdaNet
        dLambdaNet_du).1 > hi ∨
      (newton_correction m Lam u_ini He_reion_heat dt ratefact i logu LambdaNet
        dLambdaNet_du).1 < lo) :
    newton_loop m Lam u_ini He_reion_heat dt ratefact hi lo i logu LambdaNet dLambdaNet_du e =
      { logu := (newton_correction m Lam u_ini He_reion_heat dt ratefact i logu LambdaNet
          dLambdaNet_du).1
        i := newton_max_iterations, rate_evals := e + 1 } := by
  rw [newton_loop]
  split_ifs with h1 h2 h3
  · rfl
  · rfl
  · rcases h with h | h
    · exact absurd h h1
    · exact absurd h h2
  · rcases h with h | h
    · exact absurd h h1
    · exact absurd h h2

/-- C21: if the iterate computed by pass `k + 1` of `newton_iter` (the first
`k` passes staying inside the bounds without meeting the tolerance, `k ≤ 14`)
exceeds `(Therm[N_Temp-1] - 0.05) / M_LOG10E` or falls below
`(Therm[0] + 0.05) / M_LOG10E` (both bounds are `float` locals), the call
returns that iterate, as a `float`, after exactly `k + 1` rate evaluations
with the bisection flag set. -/
theorem newton_iter_leaves_table (m : Libm F) (rate : RateEval F)
    (logu_init u_ini : F) (n_h_i : Int) (d_n_h : F) (He_i : Int) (d_He : F)
    (He_reion_heat : F) (p : part F) (cooling : cooling_function_data F)
    (phys : phys_const F) (abundance_ratio : Nat → F) (dt : F) (flag : Bool)
    (k : Nat) (hk : k ≤ 14)
    (hrun : ∀ j, j < k →
      ¬ (newton_trace m rate logu_init u_ini n_h_i d_n_h He_i d_He He_reion_heat p cooling phys
        abundance_ratio dt (j + 1)).1 > newton_bound_high m cooling ∧
      ¬ (newton_trace m rate logu_init u_ini n_h_i d_n_h He_i d_He He_reion_heat p cooling phys
        abundance_ratio dt (j + 1)).1 < newton_bound_low m cooling ∧
      |(newton_trace m rate logu_init u_ini n_h_i d_n_h He_i d_He He_reion_heat p cooling phys
          abundance_ratio dt (j + 1)).1 -
        (newton_trace m rate logu_init u_ini n_h_i d_n_h He_i d_He He_reion_heat p cooling phys
          abundance_ratio dt j).1| > newton_tolerance F)
    (hout : (newton_trace m rate logu_init u_ini n_h_i d_n_h He_i d_He He_reion_heat p cooling
        phys abundance_ratio dt (k + 1)).1 > newton_bound_high m cooling ∨
      (newton_trace m rate logu_init u_ini n_h_i d_n_h He_i d_He He_reion_heat p cooling
        phys abundance_ratio dt (k + 1)).1 < newton_bound_low m cooling) :
    newton_iter m rate logu_init u_ini n_h_i d_n_h He_i d_He He_reion_heat p cooling phys
      abundance_ratio dt flag =
      { value := m.to_float ((newton_trace m rate logu_init u_ini n_h_i d_n_h He_i d_He He_reion_heat p
          cooling phys abundance_ratio dt (k + 1)).1)
        bisection_flag := true, rate_evals := k + 1 } := by
  have h : newton_loop m (fun x d => rate x d n_h_i d_n_h He_i d_He abundance_ratio)
      u_ini He_reion_heat dt (bisection_ratefact p cooling phys) (newton_bound_high m cooling)
      (newton_bound_low m cooling) 0 logu_init 0 0 0 =
      newton_loop m (fun x d => rate x d n_h_i d_n_h He_i d_He abundance_ratio)
      u_ini He_reion_heat dt (bisection_ratefact p cooling phys) (newton_bound_high m cooling)
      (newton_bound_low m cooling) k
      (newton_trace m rate logu_init u_ini n_h_i d_n_h He_i d_He He_reion_heat p cooling phys
        abundance_ratio dt k).1
      (newton_trace m rate logu_init u_ini n_h_i d_n_h He_i d_He He_reion_heat p cooling phys
        abundance_ratio dt k).2.1
      (newton_trace m rate logu_init u_ini n_h_i d_n_h He_i d_He He_reion_heat p cooling phys
        abundance_ratio dt k).2.2 k :=
    newton_loop_follows_trace m
      (fun x d => rate x d n_h_i d_n_h He_i d_He abundance_ratio) u_ini He_reion_heat dt
      (bisection_ratefact p cooling phys) (newton_bound_high m cooling)
      (newton_bound_low m cooling)
      (newton_trace m rate logu_init u_ini n_h_i d_n_h He_i d_He He_reion_heat p cooling phys
        abundance_ratio dt) (fun k => rfl) k hk hrun
  have h2 := newton_loop_leaves_bounds m
    (fun x d => rate x d n_h_i d_n_h He_i d_He abundance_ratio) u_ini He_reion_heat dt
    (bisection_ratefact p cooling phys) (newton_bound_high m cooling) (newton_bound_low m cooling)
    k
    (newton_trace m rate logu_init u_ini n_h_i d_n_h He_i d_He He_reion_heat p cooling phys
      abundance_ratio dt k).1
    (newton_trace m rate logu_init u_ini n_h_i d_n_h He_i d_He He_reion_heat p cooling phys
      abundance_ratio dt k).2.1
    (newton_trace m rate logu_init u_ini n_h_i d_n_h He_i d_He He_reion_heat p cooling phys
      abundance_ratio dt k).2.2 k hout
  have e : newton_iter m rate logu_init u_ini n_h_i d_n_h He_i d_He He_reion_heat p cooling phys
      abundance_ratio dt flag =
      { value := m.to_float ((newton_loop m (fun x d => rate x d n_h_i d_n_h He_i d_He abundance_ratio)
          u_ini He_reion_heat dt (bisection_ratefact p cooling phys) (newton_bound_high m cooling)
          (newton_bound_low m cooling) 0 logu_init 0 0 0).logu)
        bisection_flag :=
          if (newton_loop m (fun x d => rate x d n_h_i d_n_h He_i d_He abundance_ratio)
            u_ini He_reion_heat dt (bisection_ratefact p cooling phys) (newton_bound_high m cooling)
            (newton_bound_low m cooling) 0 logu_init 0 0 0).i ≥ newton_max_iterations then true
          else flag
        rate_evals := (newton_loop m (fun x d => rate x d n_h_i d_n_h He_i d_He abundance_ratio)
          u_ini He_reion_heat dt (bisection_ratefact p cooling phys) (newton_bound_high m cooling)
          (newton_bound_low m cooling) 0 logu_init 0 0 0).rate_evals } := rfl
  rw [e, h, h2]
  simp only [ge_iff_le, le_refl, if_true]
  rfl

theorem ex_newton_trace_leaves :
    newton_trace ex_libm (ex_rate ℚ (1 / 2) (1999 / 2000)) 0 1 0 0 0 0 0 (ex_part ℚ 1 0)
      (ex_cooling ℚ true) ⟨1⟩ (fun _ => 0) 1 1 = (1000, 1 / 2, 1999 / 2000) := by
  simp only [newton_trace, newton_correction, ex_rate, ex_ratefact_newton, ex_libm]
  norm_num

/-- C21 witness: rate `1/2` with derivative `1999/2000`, `u_ini = 1`,
`ratefact = dt = 1`, start at `logu = 0`.  The first pass gives
`logu = 1000`, above the upper bound `99.95 / 0.4343`; the call returns it
after one rate evaluation with the flag set. -/
theorem newton_iter_leaves_table_witness :
    (∀ j, j < 0 →
      ¬ (newton_trace ex_libm (ex_rate ℚ (1 / 2) (1999 / 2000)) 0 1 0 0 0 0 0 (ex_part ℚ 1 0)
      (ex_cooling ℚ true) ⟨1⟩ (fun _ => 0) 1 (j + 1)).1 > newton_bound_high ex_libm (ex_cooling ℚ true) ∧
      ¬ (newton_trace ex_libm (ex_rate ℚ (1 / 2) (1999 / 2000)) 0 1 0 0 0 0 0 (ex_part ℚ 1 0)
      (ex_cooling ℚ true) ⟨1⟩ (fun _ => 0) 1 (j + 1)).1 < newton_bound_low ex_libm (ex_cooling ℚ true) ∧
      |(newton_trace ex_libm (ex_rate ℚ (1 / 2) (1999 / 2000)) 0 1 0 0 0 0 0 (ex_part ℚ 1 0)
      (ex_cooling ℚ true) ⟨1⟩ (fun _ => 0) 1 (j + 1)).1 -
        (newton_trace ex_libm (ex_rate ℚ (1 / 2) (1999 / 2000)) 0 1 0 0 0 0 0 (ex_part ℚ 1 0)
      (ex_cooling ℚ true) ⟨1⟩ (fun _ => 0) 1 j).1| > newton_tolerance ℚ) ∧
    ((newton_trace ex_libm (ex_rate ℚ (1 / 2) (1999 / 2000)) 0 1 0 0 0 0 0 (ex_part ℚ 1 0)
      (ex_cooling ℚ true) ⟨1⟩ (fun _ => 0) 1 (0 + 1)).1 > newton_bound_high ex_libm (ex_cooling ℚ true) ∨
      (newton_trace ex_libm (ex_rate ℚ (1 / 2) (1999 / 2000)) 0 1 0 0 0 0 0 (ex_part ℚ 1 0)
      (ex_cooling ℚ true) ⟨1⟩ (fun _ => 0) 1 (0 + 1)).1 < newton_bound_low ex_libm (ex_cooling ℚ true)) ∧
    newton_iter ex_libm (ex_rate ℚ (1 / 2) (1999 / 2000)) 0 1 0 0 0 0 0 (ex_part ℚ 1 0)
      (ex_cooling ℚ true) ⟨1⟩ (fun _ => 0) 1 false =
      { value := ex_libm.to_float ((newton_trace ex_libm (ex_rate ℚ (1 / 2) (1999 / 2000)) 0 1 0 0 0 0 0 (ex_part ℚ 1 0)
      (ex_cooling ℚ true) ⟨1⟩ (fun _ => 0) 1 (0 + 1)).1)
        bisection_flag := true, rate_evals := 0 + 1 } := by
  have hout : (newton_trace ex_libm (ex_rate ℚ (1 / 2) (1999 / 2000)) 0 1 0 0 0 0 0 (ex_part ℚ 1 0)
      (ex_cooling ℚ true) ⟨1⟩ (fun _ => 0) 1 (0 + 1)).1 > newton_bound_high ex_libm (ex_cooling ℚ true) ∨
      (newton_trace ex_libm (ex_rate ℚ (1 / 2) (1999 / 2000)) 0 1 0 0 0 0 0 (ex_part ℚ 1 0)
      (ex_cooling ℚ true) ⟨1⟩ (fun _ => 0) 1 (0 + 1)).1 < newton_bound_low ex_libm (ex_cooling ℚ true) := by
    left
    rw [zero_add, ex_newton_trace_leaves]
    norm_num [newton_bound_high, ex_libm, ex_cooling]
  exact ⟨fun j hj => absurd hj (Nat.not_lt_zero j), hout,
    newton_iter_leaves_table ex_libm (ex_rate ℚ (1 / 2) (1999 / 2000)) 0 1 0 0 0 0 0
      (ex_part ℚ 1 0) (ex_cooling ℚ true) ⟨1⟩ (fun _ => 0) 1 false 0 (by decide)
      (fun j hj => absurd hj (Nat.not_lt_zero j)) hout⟩

/-- C22: with `newton_flag` set, `cooling_cool_part` calls `newton_iter` a
second time, from `newton_log_u_guess_cgs` and with the flag reset, exactly
when `LambdaNet < 0` and the first result is above `log(u_0_cgs)`; otherwise
it calls it once.  After a retry the result, the flag and the count of rate
evaluations are those of the second call added to the first; without one they
are those of the first call.  On the non-explicit branch the bisection runs
exactly when the flag left by the Newton stage is set. -/
theorem cooling_newton_retry (m : Libm F) (rate : RateEval F)
    (cooling : cooling_function_data F) (p : part F) (phys : phys_const F)
    (n_h_i : Int) (d_n_h : F) (He_i : Int) (d_He : F) (abundance_ratio : Nat → F)
    (LambdaTune LambdaNet u_0_cgs dt_cgs ratefact : F)
    (hflag : cooling.newton_flag = true) :
    ((cooling_newton_stage m rate cooling p phys n_h_i d_n_h He_i d_He abundance_ratio
      LambdaTune LambdaNet u_0_cgs dt_cgs).newton_calls = 2 ↔
      (LambdaNet < 0 ∧ (newton_iter m rate (m.to_float (m.log u_0_cgs)) u_0_cgs n_h_i d_n_h He_i d_He (m.to_float LambdaTune) p cooling
        phys abundance_ratio (m.to_float dt_cgs) false).value > m.log u_0_cgs)) ∧
    ((cooling_newton_stage m rate cooling p phys n_h_i d_n_h He_i d_He abundance_ratio
      LambdaTune LambdaNet u_0_cgs dt_cgs).newton_calls = 1 ↔
      ¬ (LambdaNet < 0 ∧ (newton_iter m rate (m.to_float (m.log u_0_cgs)) u_0_cgs n_h_i d_n_h He_i d_He (m.to_float LambdaTune) p cooling
        phys abundance_ratio (m.to_float dt_cgs) false).value > m.log u_0_cgs)) ∧
    ((LambdaNet < 0 ∧ (newton_iter m rate (m.to_float (m.log u_0_cgs)) u_0_cgs n_h_i d_n_h He_i d_He (m.to_float LambdaTune) p cooling
        phys abundance_ratio (m.to_float dt_cgs) false).value > m.log u_0_cgs) →
      (cooling_newton_stage m rate cooling p phys n_h_i d_n_h He_i d_He abundance_ratio
      LambdaTune LambdaNet u_0_cgs dt_cgs).log_u_final_cgs =
        (newton_iter m rate (m.to_float (newton_log_u_guess_cgs F)) u_0_cgs n_h_i d_n_h He_i d_He (m.to_float LambdaTune) p
        cooling phys abundance_ratio (m.to_float dt_cgs) false).value ∧
      (cooling_newton_stage m rate cooling p phys n_h_i d_n_h He_i d_He abundance_ratio
      LambdaTune LambdaNet u_0_cgs dt_cgs).bisection_flag =
        (newton_iter m rate (m.to_float (newton_log_u_guess_cgs F)) u_0_cgs n_h_i d_n_h He_i d_He (m.to_float LambdaTune) p
        cooling phys abundance_ratio (m.to_float dt_cgs) false).bisection_flag ∧
      (cooling_newton_stage m rate cooling p phys n_h_i d_n_h He_i d_He abundance_ratio
      LambdaTune LambdaNet u_0_cgs dt_cgs).rate_evals =
        (newton_iter m rate (m.to_float (m.log u_0_cgs)) u_0_cgs n_h_i d_n_h He_i d_He (m.to_float LambdaTune) p cooling
        phys abundance_ratio (m.to_float dt_cgs) false).rate_evals +
        (newton_iter m rate (m.to_float (newton_log_u_guess_cgs F)) u_0_cgs n_h_i d_n_h He_i d_He (m.to_float LambdaTune) p
        cooling phys abundance_ratio (m.to_float dt_cgs) false).rate_evals) ∧
    (¬ (LambdaNet < 0 ∧ (newton_iter m rate (m.to_float (m.log u_0_cgs)) u_0_cgs n_h_i d_n_h He_i d_He (m.to_float LambdaTune) p cooling
        phys abundance_ratio (m.to_float dt_cgs) false).value > m.log u_0_cgs) →
      (cooling_newton_stage m rate cooling p phys n_h_i d_n_h He_i d_He abundance_ratio
      LambdaTune LambdaNet u_0_cgs dt_cgs).log_u_final_cgs =
        (newton_iter m rate (m.to_float (m.log u_0_cgs)) u_0_cgs n_h_i d_n_h He_i d_He (m.to_float LambdaTune) p cooling
        phys abundance_ratio (m.to_float dt_cgs) false).value ∧
      (cooling_newton_stage m rate cooling p phys n_h_i d_n_h He_i d_He abundance_ratio
      LambdaTune LambdaNet u_0_cgs dt_cgs).bisection_flag =
        (newton_iter m rate (m.to_float (m.log u_0_cgs)) u_0_cgs n_h_i d_n_h He_i d_He (m.to_float LambdaTune) p cooling
        phys abundance_ratio (m.to_float dt_cgs) false).bisection_flag) ∧
    (¬ |ratefact * LambdaNet * dt_cgs| < explicit_tolerance F * u_0_cgs →
      ((cooling_solve m rate cooling p phys n_h_i d_n_h He_i d_He abundance_ratio
      LambdaTune LambdaNet u_0_cgs dt_cgs ratefact).bisection_calls = 1 ↔
        (cooling_newton_stage m rate cooling p phys n_h_i d_n_h He_i d_He abundance_ratio
      LambdaTune LambdaNet u_0_cgs dt_cgs).bisection_flag = true) ∧
      ((cooling_solve m rate cooling p phys n_h_i d_n_h He_i d_He abundance_ratio
      LambdaTune LambdaNet u_0_cgs dt_cgs ratefact).bisection_calls = 0 ↔
        (cooling_newton_stage m rate cooling p phys n_h_i d_n_h He_i d_He abundance_ratio
      LambdaTune LambdaNet u_0_cgs dt_cgs).bisection_flag = false) ∧
      (cooling_solve m rate cooling p phys n_h_i d_n_h He_i d_He abundance_ratio
      LambdaTune LambdaNet u_0_cgs dt_cgs ratefact).newton_calls =
        (cooling_newton_stage m rate cooling p phys n_h_i d_n_h He_i d_He abundance_ratio
      LambdaTune LambdaNet u_0_cgs dt_cgs).newton_calls) := by
  refine ⟨?_, ?_, ?_, ?_, ?_⟩
  · unfold cooling_newton_stage
    simp only [hflag, if_true]
    split_ifs with h
    · exact ⟨fun _ => h, fun _ => rfl⟩
    · exact ⟨fun h2 => by simp at h2, fun h2 => absurd h2 h⟩
  · unfold cooling_newton_stage
    simp only [hflag, if_true]
    split_ifs with h
    · exact ⟨fun h2 => by simp at h2, fun h2 => absurd h h2⟩
    · exact ⟨fun _ => h, fun _ => rfl⟩
  · intro h
    unfold cooling_newton_stage
    simp [hflag, if_pos h]
  · intro h
    unfold cooling_newton_stage
    simp [hflag, if_neg h]
  · intro hne
    refine ⟨?_, ?_, cooling_solve_newton_calls m rate cooling p phys n_h_i d_n_h He_i d_He
      abundance_ratio LambdaTune LambdaNet u_0_cgs dt_cgs ratefact hne⟩
    · by_cases hb : (cooling_newton_stage m rate cooling p phys n_h_i d_n_h He_i d_He abundance_ratio
      LambdaTune LambdaNet u_0_cgs dt_cgs).bisection_flag = true
      · exact ⟨fun _ => hb, fun _ => (cooling_solve_bisection m rate cooling p phys n_h_i d_n_h
          He_i d_He abundance_ratio LambdaTune LambdaNet u_0_cgs dt_cgs ratefact hne
          (Or.inl hb)).2⟩
      · have h0 := (cooling_solve_no_bisection m rate cooling p phys n_h_i d_n_h
          He_i d_He abundance_ratio LambdaTune LambdaNet u_0_cgs dt_cgs ratefact hne
          (by
            intro h
            rcases h with h | h
            · exact hb h
            · rw [hflag] at h
              exact absurd h (by decide))).2
        exact ⟨fun h => by rw [h0] at h; exact absurd h (by decide), fun h => absurd h hb⟩
    · by_cases hb : (cooling_newton_stage m rate cooling p phys n_h_i d_n_h He_i d_He abundance_ratio
      LambdaTune LambdaNet u_0_cgs dt_cgs).bisection_flag = true
      · have h1 := (cooling_solve_bisection m rate cooling p phys n_h_i d_n_h
          He_i d_He abundance_ratio LambdaTune LambdaNet u_0_cgs dt_cgs ratefact hne
          (Or.inl hb)).2
        exact ⟨fun h => by rw [h1] at h; exact absurd h (by decide),
          fun h => by rw [hb] at h; exact absurd h (by decide)⟩
      · have h0 := (cooling_solve_no_bisection m rate cooling p phys n_h_i d_n_h
          He_i d_He abundance_ratio LambdaTune LambdaNet u_0_cgs dt_cgs ratefact hne
          (by
            intro h
            rcases h with h | h
            · exact hb h
            · rw [hflag] at h
              exact absurd h (by decide))).2
        exact ⟨fun _ => by simpa using hb, fun _ => h0⟩

/-- C22 witness: the example tables with `newton_flag` set, `u_0 = 1`,
`ratefact = dt = 1`, and a rate that is `-1` at `logu = 0` and elsewhere, with
a derivative that sends the first call of `newton_iter` to `logu = 1000`,
above `log(u_0) = 0`: the retry condition holds, `newton_iter` is called a
second time from `newton_log_u_guess_cgs`, and the result is that of the
second call. -/
theorem cooling_newton_retry_witness :
    (ex_cooling ℚ true).newton_flag = true ∧
    ((-1 : ℚ) < 0 ∧ (newton_iter ex_libm (ex_rate_at ℚ 0 (-1) (-1) (1001 / 1000) (-19999))
      (ex_libm.to_float (ex_libm.log 1)) 1 0 0 0 0 (ex_libm.to_float 0) (ex_part ℚ 1 0)
      (ex_cooling ℚ true) ⟨1⟩ (fun _ => 0) (ex_libm.to_float 1) false).value >
        ex_libm.log 1) ∧
    (cooling_newton_stage ex_libm (ex_rate_at ℚ 0 (-1) (-1) (1001 / 1000) (-19999))
      (ex_cooling ℚ true) (ex_part ℚ 1 0) ⟨1⟩ 0 0 0 0 (fun _ => 0) 0 (-1) 1 1).newton_calls = 2 ∧
    (cooling_newton_stage ex_libm (ex_rate_at ℚ 0 (-1) (-1) (1001 / 1000) (-19999))
      (ex_cooling ℚ true) (ex_part ℚ 1 0) ⟨1⟩ 0 0 0 0 (fun _ => 0) 0 (-1) 1 1).log_u_final_cgs =
      (newton_iter ex_libm (ex_rate_at ℚ 0 (-1) (-1) (1001 / 1000) (-19999))
        (ex_libm.to_float (newton_log_u_guess_cgs ℚ)) 1 0 0 0 0 (ex_libm.to_float 0)
        (ex_part ℚ 1 0) (ex_cooling ℚ true) ⟨1⟩ (fun _ => 0) (ex_libm.to_float 1) false).value ∧
    (cooling_newton_stage ex_libm (ex_rate_at ℚ 0 (-1) (-1) (1001 / 1000) (-19999))
      (ex_cooling ℚ true) (ex_part ℚ 1 0) ⟨1⟩ 0 0 0 0 (fun _ => 0) 0 (-1) 1 1).rate_evals =
      (newton_iter ex_libm (ex_rate_at ℚ 0 (-1) (-1) (1001 / 1000) (-19999))
        (ex_libm.to_float (ex_libm.log 1)) 1 0 0 0 0 (ex_libm.to_float 0) (ex_part ℚ 1 0)
        (ex_cooling ℚ true) ⟨1⟩ (fun _ => 0) (ex_libm.to_float 1) false).rate_evals +
      (newton_iter ex_libm (ex_rate_at ℚ 0 (-1) (-1) (1001 / 1000) (-19999))
        (ex_libm.to_float (newton_log_u_guess_cgs ℚ)) 1 0 0 0 0 (ex_libm.to_float 0)
        (ex_part ℚ 1 0) (ex_cooling ℚ true) ⟨1⟩ (fun _ => 0) (ex_libm.to_float 1)
        false).rate_evals ∧
    (cooling_solve ex_libm (ex_rate_at ℚ 0 (-1) (-1) (1001 / 1000) (-19999))
      (ex_cooling ℚ true) (ex_part ℚ 1 0) ⟨1⟩ 0 0 0 0 (fun _ => 0) 0 (-1) 1 1 1).newton_calls =
      2 := by
  have hc1 : newton_correction ex_libm
      (fun x d => ex_rate_at ℚ 0 (-1) (-1) (1001 / 1000) (-19999) x d 0 0 0 0 (fun _ => 0))
      1 0 1 1 0 0 0 0 = (1000, -1, 1001 / 1000) := by
    simp only [newton_correction, ex_rate_at]
    norm_num [ex_libm]
  have hn1 := (newton_iter_first_pass ex_libm (ex_rate_at ℚ 0 (-1) (-1) (1001 / 1000) (-19999))
    0 1 0 0 0 0 0 (ex_part ℚ 1 0) (ex_cooling ℚ true) ⟨1⟩ (fun _ => 0) 1 false 1
    ((100 - 5 / 100) / ex_libm.M_LOG10E) ((-100 + 5 / 100) / ex_libm.M_LOG10E) _
    (by norm_num [ex_part, ex_cooling, chemistry_element_H])
    (by norm_num [ex_cooling, ex_libm]) (by norm_num [ex_cooling, ex_libm]) hc1.symm).1
    (by norm_num [ex_libm])
  have hcond : (-1 : ℚ) < 0 ∧
      (newton_iter ex_libm (ex_rate_at ℚ 0 (-1) (-1) (1001 / 1000) (-19999))
      (ex_libm.to_float (ex_libm.log 1)) 1 0 0 0 0 (ex_libm.to_float 0) (ex_part ℚ 1 0)
      (ex_cooling ℚ true) ⟨1⟩ (fun _ => 0) (ex_libm.to_float 1) false).value >
        ex_libm.log 1 := by
    have e1 : ex_libm.to_float (ex_libm.log 1) = 0 := by norm_num [ex_libm]
    have e2 : ex_libm.to_float 0 = 0 := rfl
    have e3 : ex_libm.to_float 1 = 1 := rfl
    rw [e1, e2, e3, hn1]
    norm_num [ex_libm]
  have T := cooling_newton_retry ex_libm (ex_rate_at ℚ 0 (-1) (-1) (1001 / 1000) (-19999))
    (ex_cooling ℚ true) (ex_part ℚ 1 0) ⟨1⟩ 0 0 0 0 (fun _ => 0) 0 (-1) 1 1 1 rfl
  have h2 := T.1.mpr hcond
  obtain ⟨a1, -, a3⟩ := T.2.2.1 hcond
  have h3 := (T.2.2.2.2 (by norm_num [explicit_tolerance])).2.2
  rw [h2] at h3
  exact ⟨rfl, hcond, h2, a1, a3, h3⟩

/-! ## The Newton correction and the derivative of its function (C23) -/

theorem newton_f_hasDerivAt (m : Libm ℝ) (hm : real_libm m)
    (Lam : ℝ → Option ℝ → ℝ × Option ℝ) (Λ dΛ : ℝ → ℝ)
    (hΛ : ∀ u, HasDerivAt Λ (dΛ u) u)
    (hrate : ∀ x d, (Lam x d).1 = Λ (Real.exp x))
    (u_ini He_reion_heat dt ratefact x : ℝ) :
    HasDerivAt (newton_f m Lam u_ini He_reion_heat dt ratefact)
      (1 - newton_f m Lam u_ini He_reion_heat dt ratefact x - dΛ (Real.exp x) * ratefact * dt)
      x := by
  have hexp : m.exp = Real.exp := hm.1
  have hf : newton_f m Lam u_ini He_reion_heat dt ratefact =
      fun y => 1 - u_ini * Real.exp (-y) -
        (He_reion_heat / (dt * ratefact) + Λ (Real.exp y)) * ratefact * dt * Real.exp (-y) := by
    funext y
    simp only [newton_f, hexp, hrate]
  rw [hf]
  have h1 : HasDerivAt (fun y : ℝ => Real.exp (-y)) (-Real.exp (-x)) x := by
    have := (Real.hasDerivAt_exp (-x)).comp x (hasDerivAt_neg x)
    simpa using this
  have h2 : HasDerivAt (fun y : ℝ => Λ (Real.exp y)) (dΛ (Real.exp x) * Real.exp x) x :=
    (hΛ (Real.exp x)).comp x (Real.hasDerivAt_exp x)
  have h3 := ((hasDerivAt_const x (1 : ℝ)).sub ((hasDerivAt_const x u_ini).mul h1)).sub
    (((((hasDerivAt_const x (He_reion_heat / (dt * ratefact))).add h2).mul
      (hasDerivAt_const x ratefact)).mul (hasDerivAt_const x dt)).mul h1)
  convert h3 using 1
  have h4 : Real.exp x * Real.exp (-x) = 1 := by
    rw [← Real.exp_add]
    simp
  simp only [Pi.add_apply]
  linear_combination (dΛ (Real.exp x) * ratefact * dt) * h4

/-- C23 (amended): one Newton correction is
`logu - f(logu) / (1 - dLambdaNet_du ratefact dt)` with `f` the function of the
claim and `dLambdaNet_du` the value the evaluator leaves: the value `d` it was
handed, left by the passes before, plus the derivative `dΛ/du` at the current
iterate (`d = 0` in the first pass).  With the exact exponential and a rate
`Λ(exp x)`, the derivative of `f` at `x` is `1 - f(x) - dΛ/du ratefact dt`: the
denominator of the code is `f'(x) + f(x) - d ratefact dt`, which is `f'(x)`
only where `f(x) = d ratefact dt`.  The two divisors `dt ratefact` and
`1 - dLambdaNet_du ratefact dt` are not zero. -/
theorem newton_correction_denominator (m : Libm ℝ) (hm : real_libm m)
    (Lam : ℝ → Option ℝ → ℝ × Option ℝ) (Λ dΛ : ℝ → ℝ)
    (hΛ : ∀ u, HasDerivAt Λ (dΛ u) u)
    (hrate : ∀ x d, (Lam x d).1 = Λ (Real.exp x))
    (u_ini He_reion_heat dt ratefact : ℝ) (i : Nat) (x LambdaNet d fp : ℝ) (hi : i ≠ 1)
    (hacc : (Lam x (some d)).2 = some (d + dΛ (Real.exp x)))
    (hfp : fp = 1 - newton_f m Lam u_ini He_reion_heat dt ratefact x -
      dΛ (Real.exp x) * ratefact * dt)
    (_hrd : dt * ratefact ≠ 0) (_hden : 1 - (d + dΛ (Real.exp x)) * ratefact * dt ≠ 0) :
    HasDerivAt (newton_f m Lam u_ini He_reion_heat dt ratefact) fp x ∧
    (newton_correction m Lam u_ini He_reion_heat dt ratefact i x LambdaNet d).1 =
      x - newton_f m Lam u_ini He_reion_heat dt ratefact x /
        (1 - (d + dΛ (Real.exp x)) * ratefact * dt) ∧
    1 - (d + dΛ (Real.exp x)) * ratefact * dt =
      fp + newton_f m Lam u_ini He_reion_heat dt ratefact x - d * ratefact * dt ∧
    (newton_correction m Lam u_ini He_reion_heat dt ratefact i x LambdaNet d).2.2 =
      d + dΛ (Real.exp x) := by
  subst hfp
  refine ⟨newton_f_hasDerivAt m hm Lam Λ dΛ hΛ hrate u_ini He_reion_heat dt ratefact x, ?_, ?_, ?_⟩
  · simp [newton_correction, newton_f, hi, hacc, hrate]
  · ring
  · simp [newton_correction, hacc]

theorem ex_newton_f_step :
    newton_f ({ exp := Real.exp, log := Real.log, log10 := fun x => Real.log x / Real.log 10,
                erf := fun x => 2 / Real.sqrt Real.pi * ∫ t in (0 : ℝ)..x, Real.exp (-(t ^ 2)),
                M_SQRT2 := Real.sqrt 2, M_LOG10E := 1 / Real.log 10, M_LN10 := Real.log 10, to_float := fun x => x } : Libm ℝ)
      (fun x d => ex_rate ℝ (-1) 0 x d 0 0 0 0 (fun _ => 0)) 3 0 1 1 0 = -1 ∧
    (newton_correction ({ exp := Real.exp, log := Real.log, log10 := fun x => Real.log x / Real.log 10,
                          erf := fun x => 2 / Real.sqrt Real.pi * ∫ t in (0 : ℝ)..x, Real.exp (-(t ^ 2)),
                          M_SQRT2 := Real.sqrt 2, M_LOG10E := 1 / Real.log 10, M_LN10 := Real.log 10, to_float := fun x => x } : Libm ℝ)
      (fun x d => ex_rate ℝ (-1) 0 x d 0 0 0 0 (fun _ => 0)) 3 0 1 1 0 0 0 0).1 = 1 := by
  constructor
  · simp [newton_f, ex_rate]
    norm_num
  · simp [newton_correction, ex_rate]
    norm_num

/-- C23 witness: the rate `Λ(u) = u` with an evaluator that adds `dΛ/du = 1`
to the derivative it is handed, `u_ini = 3`, `ratefact = 1`, `dt = 1/4`, at
`x = 0` in the pass with `i = 2`, handed `d = 2` by the passes before.  There
`f(0) = -9/4`, `f'(0) = 3`, the code divides by `1 - 3/4 = 1/4` and moves to
`logu = 9`. -/
theorem newton_correction_denominator_witness :
    ∃ m : Libm ℝ, real_libm m ∧
      newton_f m (fun x d => (Real.exp x, d.map (fun y => y + 1))) 3 0 (1 / 4) 1 0 = -9 / 4 ∧
      HasDerivAt (newton_f m (fun x d => (Real.exp x, d.map (fun y => y + 1))) 3 0 (1 / 4) 1)
        3 0 ∧
      (newton_correction m (fun x d => (Real.exp x, d.map (fun y => y + 1))) 3 0 (1 / 4) 1 2 0
        0 2).1 = 9 ∧
      (newton_correction m (fun x d => (Real.exp x, d.map (fun y => y + 1))) 3 0 (1 / 4) 1 2 0
        0 2).2.2 = 3 := by
  have hf : newton_f ({ exp := Real.exp, log := Real.log
                        log10 := fun x => Real.log x / Real.log 10
                        erf := fun x => 2 / Real.sqrt Real.pi * ∫ t in (0 : ℝ)..x, Real.exp (-(t ^ 2))
                        M_SQRT2 := Real.sqrt 2, M_LOG10E := 1 / Real.log 10
                        M_LN10 := Real.log 10, to_float := fun x => x } : Libm ℝ)
      (fun x d => (Real.exp x, d.map (fun y => y + 1))) 3 0 (1 / 4) 1 0 = -9 / 4 := by
    simp [newton_f]
    norm_num
  have h := newton_correction_denominator
    ({ exp := Real.exp, log := Real.log, log10 := fun x => Real.log x / Real.log 10
       erf := fun x => 2 / Real.sqrt Real.pi * ∫ t in (0 : ℝ)..x, Real.exp (-(t ^ 2))
       M_SQRT2 := Real.sqrt 2, M_LOG10E := 1 / Real.log 10, M_LN10 := Real.log 10
       to_float := fun x => x } : Libm ℝ)
    ⟨rfl, rfl, rfl, rfl, rfl, rfl, rfl⟩ (fun x d => (Real.exp x, d.map (fun y => y + 1)))
    (fun u => u) (fun _ => 1) (fun u => hasDerivAt_id u) (fun _ _ => rfl) 3 0 (1 / 4) 1 2 0 0 2
    3 (by decide) (by simp) (by rw [hf]; norm_num) (by norm_num) (by norm_num)
  obtain ⟨a1, a2, -, a4⟩ := h
  rw [hf] at a2
  refine ⟨_, ⟨rfl, rfl, rfl, rfl, rfl, rfl, rfl⟩, hf, a1, ?_, ?_⟩
  · rw [a2]
    norm_num
  · rw [a4]
    norm_num

/-- C23 counterexample: constant rate `-1`, `u_ini = 3`, `ratefact = dt = 1`,
iterate `x = 0`.  There `f(0) = -1` and `f'(0) = 2`, so the Newton step of
the claim leads to `0 - f(0) / f'(0) = 1/2`; the code divides by 1 and moves
to `logu = 1`. -/
theorem newton_correction_counterexample :
    ∃ m : Libm ℝ, real_libm m ∧
      HasDerivAt (newton_f m (fun x d => ex_rate ℝ (-1) 0 x d 0 0 0 0 (fun _ => 0)) 3 0 1 1) 2 0 ∧
      newton_f m (fun x d => ex_rate ℝ (-1) 0 x d 0 0 0 0 (fun _ => 0)) 3 0 1 1 0 = -1 ∧
      (newton_correction m (fun x d => ex_rate ℝ (-1) 0 x d 0 0 0 0 (fun _ => 0)) 3 0 1 1 0 0 0 0).1 = 1 ∧
      (0 : ℝ) - newton_f m (fun x d => ex_rate ℝ (-1) 0 x d 0 0 0 0 (fun _ => 0)) 3 0 1 1 0 / 2 = 1 / 2 := by
  obtain ⟨e1, e2⟩ := ex_newton_f_step
  have h := newton_f_hasDerivAt
    ({ exp := Real.exp, log := Real.log, log10 := fun x => Real.log x / Real.log 10,
       erf := fun x => 2 / Real.sqrt Real.pi * ∫ t in (0 : ℝ)..x, Real.exp (-(t ^ 2)),
       M_SQRT2 := Real.sqrt 2, M_LOG10E := 1 / Real.log 10, M_LN10 := Real.log 10, to_float := fun x => x } : Libm ℝ)
    ⟨rfl, rfl, rfl, rfl, rfl, rfl, rfl⟩ (fun x d => ex_rate ℝ (-1) 0 x d 0 0 0 0 (fun _ => 0)) (fun _ => -1) (fun _ => 0)
    (fun u => hasDerivAt_const u (-1 : ℝ)) (fun _ _ => rfl) 3 0 1 1 0
  rw [e1] at h
  have hd : (1 : ℝ) - -1 - (fun _ : ℝ => (0 : ℝ)) (Real.exp 0) * 1 * 1 = 2 := by norm_num
  rw [hd] at h
  refine ⟨_, ⟨rfl, rfl, rfl, rfl, rfl, rfl, rfl⟩, h, e1, e2, ?_⟩
  rw [e1]
  norm_num

/-! ## The derivative across Newton passes (C24) -/

theorem metal_fold_dlambda_highz (q : TableQuery F) (cooling : cooling_function_data F)
    (n_h_i : Int) (d_n_h : F) (v : metal_rate_locals F) (solar_ratio : Nat → F)
    (l : List Nat) :
    ∀ (s t : metal_rate_out F) (d b : F), s.dlambda_du = some (d + b) → t.dlambda_du = some b →
      (l.foldl (metal_step_highz q cooling n_h_i d_n_h v solar_ratio) s).dlambda_du =
        ((l.foldl (metal_step_highz q cooling n_h_i d_n_h v solar_ratio) t).dlambda_du).map
          (fun c => d + c) := by
  induction l with
  | nil =>
    intro s t d b hs ht
    simp [hs, ht]
  | cons i l ih =>
    intro s t d b hs ht
    rw [List.foldl_cons, List.foldl_cons]
    refine ih _ _ d
      (b + (q.interpolate_3d cooling.table.metal_heating n_h_i v.temp_i (i : Int)
            d_n_h 1 0 cooling.N_nH cooling.N_Temp cooling.N_Elements *
            v.h_plus_he_electron_abundance_high / v.solar_electron_abundance_high -
          q.interpolate_3d cooling.table.metal_heating n_h_i v.temp_i (i : Int)
            d_n_h 0 0 cooling.N_nH cooling.N_Temp cooling.N_Elements *
            v.h_plus_he_electron_abundance_low / v.solar_electron_abundance_low) /
          v.delta_T * v.dT_du * solar_ratio (i + 2)) ?_ ?_
    · unfold metal_step_highz
      simp only [hs]
      simp only [add_assoc]
    · unfold metal_step_highz
      simp only [ht]

theorem metal_fold_dlambda_lowz (q : TableQuery F) (cooling : cooling_function_data F)
    (n_h_i : Int) (d_n_h : F) (v : metal_rate_locals F) (solar_ratio : Nat → F)
    (l : List Nat) :
    ∀ (s t : metal_rate_out F) (d b : F), s.dlambda_du = some (d + b) → t.dlambda_du = some b →
      (l.foldl (metal_step_lowz q cooling n_h_i d_n_h v solar_ratio) s).dlambda_du =
        ((l.foldl (metal_step_lowz q cooling n_h_i d_n_h v solar_ratio) t).dlambda_du).map
          (fun c => d + c) := by
  induction l with
  | nil =>
    intro s t d b hs ht
    simp [hs, ht]
  | cons i l ih =>
    intro s t d b hs ht
    rw [List.foldl_cons, List.foldl_cons]
    refine ih _ _ d
      (b + (q.interpolate_4d cooling.table.metal_heating 0 n_h_i v.temp_i (i : Int)
            cooling.dz d_n_h 1 0 2 cooling.N_nH cooling.N_Temp cooling.N_Elements *
            v.h_plus_he_electron_abundance_high / v.solar_electron_abundance_high -
          q.interpolate_4d cooling.table.metal_heating 0 n_h_i v.temp_i (i : Int)
            cooling.dz d_n_h 0 0 2 cooling.N_nH cooling.N_Temp cooling.N_Elements *
            v.h_plus_he_electron_abundance_low / v.solar_electron_abundance_low) /
          v.delta_T * v.dT_du * solar_ratio (i + 2)) ?_ ?_
    · unfold metal_step_lowz
      simp only [hs]
      simp only [add_assoc]
    · unfold metal_step_lowz
      simp only [ht]

theorem eagle_metal_dlambda_shift (m : Libm F) (q : TableQuery F)
    (log_10_u d : F) (n_h_i : Int) (d_n_h : F) (He_i : Int) (d_He : F) (p : part F)
    (cooling : cooling_function_data F) (cosmo : cosmology F) (phys : phys_const F)
    (element_lambda : Option (Nat → F)) (solar_ratio : Nat → F) :
    (eagle_metal_cooling_rate m q log_10_u (some d) n_h_i d_n_h He_i d_He p cooling cosmo phys
      element_lambda solar_ratio).dlambda_du =
      ((eagle_metal_cooling_rate m q log_10_u (some 0) n_h_i d_n_h He_i d_He p cooling cosmo phys
        element_lambda solar_ratio).dlambda_du).map (fun c => d + c) := by
  unfold eagle_metal_cooling_rate
  simp only [Option.isSome_some, Option.map_some']
  by_cases hz : cosmo.z > cooling.Redshifts (cooling.N_Redshifts - 1)
  · simp only [hz, if_true, true_or]
    exact metal_fold_dlambda_highz q cooling n_h_i d_n_h _ solar_ratio _ _ _ d _
      (by simp only [zero_add]) rfl
  · simp only [hz, if_false, false_or]
    by_cases hr : cosmo.z > cooling.reionisation_redshift
    · simp only [hr, if_true]
      exact metal_fold_dlambda_lowz q cooling n_h_i d_n_h _ solar_ratio _ _ _ d _
        (by simp only [zero_add]) rfl
    · simp only [hr, if_false]
      exact metal_fold_dlambda_lowz q cooling n_h_i d_n_h _ solar_ratio _ _ _ d _
        (by simp only [zero_add]) rfl

theorem eagle_cooling_rate_derivative (m : Libm F) (q : TableQuery F)
    (logu d : F) (n_h_i : Int) (d_n_h : F) (He_i : Int) (d_He : F) (p : part F)
    (cooling : cooling_function_data F) (cosmo : cosmology F) (phys : phys_const F)
    (abundance_ratio : Nat → F) :
    (eagle_cooling_rate m q logu (some d) n_h_i d_n_h He_i d_He p cooling cosmo phys
      abundance_ratio).2.getD d =
      d + (eagle_cooling_rate m q logu (some 0) n_h_i d_n_h He_i d_He p cooling cosmo phys
        abundance_ratio).2.getD 0 := by
  unfold eagle_cooling_rate
  simp only
  rw [eagle_metal_dlambda_shift]
  cases (eagle_metal_cooling_rate m q (logu / m.M_LN10) (some 0) n_h_i d_n_h He_i d_He p cooling
    cosmo phys none abundance_ratio).dlambda_du with
  | none => simp
  | some c => simp

theorem ex_slope_rate (x d : ℚ) :
    eagle_cooling_rate ex_libm (ex_query_slope ℚ) x (some d) 0 0 0 0 (ex_part ℚ 1 0) (ex_cooling ℚ true) ⟨0, 0, 0⟩ ⟨1⟩
        (fun _ => 0) =
      (0, some (d + 50000000 / 247679169)) := by
  simp [eagle_cooling_rate, eagle_metal_cooling_rate, metal_free_lookups,
    solar_electron_lookups, metal_step_lowz, metal_lambda_lowz, ex_query_slope, ex_cooling,
    ex_part, ex_libm, List.range_succ]
  norm_num

theorem newton_trace_derivative (m : Libm F) (q : TableQuery F) (cosmo : cosmology F)
    (logu_init u_ini : F) (n_h_i : Int) (d_n_h : F) (He_i : Int) (d_He : F)
    (He_reion_heat : F) (p : part F) (cooling : cooling_function_data F)
    (phys : phys_const F) (abundance_ratio : Nat → F) (dt : F) (k : Nat) :
    (newton_trace m (eagle_rate_eval m q p cooling cosmo phys) logu_init u_ini n_h_i d_n_h
        He_i d_He He_reion_heat p cooling phys abundance_ratio dt (k + 1)).2.2 =
      (newton_trace m (eagle_rate_eval m q p cooling cosmo phys) logu_init u_ini n_h_i d_n_h
        He_i d_He He_reion_heat p cooling phys abundance_ratio dt k).2.2 +
        (eagle_cooling_rate m q
          (newton_trace m (eagle_rate_eval m q p cooling cosmo phys) logu_init u_ini n_h_i d_n_h
        He_i d_He He_reion_heat p cooling phys abundance_ratio dt k).1
          (some 0) n_h_i d_n_h He_i d_He p cooling cosmo phys abundance_ratio).2.getD 0 := by
  rw [← eagle_cooling_rate_derivative]
  rfl

theorem newton_loop_evals_ge (m : Libm F) (Lam : F → Option F → F × Option F)
    (u_ini He_reion_heat dt ratefact hi lo : F) (n : Nat) :
    ∀ (i : Nat) (logu LambdaNet dL : F) (e : Nat), i + n = newton_max_iterations →
      e + 1 ≤
        (newton_loop m Lam u_ini He_reion_heat dt ratefact hi lo i logu LambdaNet dL e).rate_evals
    := by
  induction n with
  | zero =>
    intro i logu LambdaNet dL e hi'
    rw [newton_loop]
    split_ifs with h1 h2 h3
    · exact le_refl _
    · exact le_refl _
    · have h4 := h3.2
      omega
    · exact le_refl _
  | succ k ih =>
    intro i logu LambdaNet dL e hi'
    rw [newton_loop]
    split_ifs with h1 h2 h3
    · exact le_refl _
    · exact le_refl _
    · exact le_trans (Nat.le_succ _) (ih (i + 1) _ _ _ (e + 1) (by omega))
    · exact le_refl _

theorem newton_iter_second_pass (m : Libm F) (rate : RateEval F)
    (logu_init u_ini : F) (n_h_i : Int) (d_n_h : F) (He_i : Int) (d_He : F)
    (He_reion_heat : F) (p : part F) (cooling : cooling_function_data F)
    (phys : phys_const F) (abundance_ratio : Nat → F) (dt : F) (flag : Bool)
    (h1 : ¬ (newton_trace m rate logu_init u_ini n_h_i d_n_h He_i d_He He_reion_heat p cooling
      phys abundance_ratio dt 1).1 > newton_bound_high m cooling)
    (h2 : ¬ (newton_trace m rate logu_init u_ini n_h_i d_n_h He_i d_He He_reion_heat p cooling
      phys abundance_ratio dt 1).1 < newton_bound_low m cooling)
    (h3 : |(newton_trace m rate logu_init u_ini n_h_i d_n_h He_i d_He He_reion_heat p cooling
      phys abundance_ratio dt 1).1 - logu_init| > newton_tolerance F) :
    2 ≤ (newton_iter m rate logu_init u_ini n_h_i d_n_h He_i d_He He_reion_heat p cooling phys
      abundance_ratio dt flag).rate_evals := by
  have h : newton_loop m (fun x d => rate x d n_h_i d_n_h He_i d_He abundance_ratio)
      u_ini He_reion_heat dt (bisection_ratefact p cooling phys) (newton_bound_high m cooling)
      (newton_bound_low m cooling) 0 logu_init 0 0 0 =
      newton_loop m (fun x d => rate x d n_h_i d_n_h He_i d_He abundance_ratio)
      u_ini He_reion_heat dt (bisection_ratefact p cooling phys) (newton_bound_high m cooling)
      (newton_bound_low m cooling) 1
      (newton_trace m rate logu_init u_ini n_h_i d_n_h He_i d_He He_reion_heat p cooling phys
        abundance_ratio dt 1).1
      (newton_trace m rate logu_init u_ini n_h_i d_n_h He_i d_He He_reion_heat p cooling phys
        abundance_ratio dt 1).2.1
      (newton_trace m rate logu_init u_ini n_h_i d_n_h He_i d_He He_reion_heat p cooling phys
        abundance_ratio dt 1).2.2 1 :=
    newton_loop_follows_trace m
      (fun x d => rate x d n_h_i d_n_h He_i d_He abundance_ratio) u_ini He_reion_heat dt
      (bisection_ratefact p cooling phys) (newton_bound_high m cooling)
      (newton_bound_low m cooling)
      (newton_trace m rate logu_init u_ini n_h_i d_n_h He_i d_He He_reion_heat p cooling phys
        abundance_ratio dt) (fun k => rfl) 1 (by omega)
      (fun j hj => by
        have hj0 : j = 0 := by omega
        subst hj0
        exact ⟨h1, h2, h3⟩)
  have e : (newton_iter m rate logu_init u_ini n_h_i d_n_h He_i d_He He_reion_heat p cooling phys
      abundance_ratio dt flag).rate_evals =
      (newton_loop m (fun x d => rate x d n_h_i d_n_h He_i d_He abundance_ratio)
          u_ini He_reion_heat dt (bisection_ratefact p cooling phys) (newton_bound_high m cooling)
          (newton_bound_low m cooling) 0 logu_init 0 0 0).rate_evals := rfl
  rw [e, h]
  exact newton_loop_evals_ge m _ u_ini He_reion_heat dt _ _ _ 14 1 _ _ _ 1 rfl

theorem ex_slope_trace :
    newton_trace ex_libm
      (eagle_rate_eval ex_libm (ex_query_slope ℚ) (ex_part ℚ 1 0) (ex_cooling ℚ true) ⟨0, 0, 0⟩
        ⟨1⟩)
      0 2 0 0 0 0 0 (ex_part ℚ 1 0) (ex_cooling ℚ true) ⟨1⟩ (fun _ => 0) 1 1 =
      (247679169 / 197679169, 0, 50000000 / 247679169) := by
  simp only [newton_trace, newton_correction, eagle_rate_eval, ex_slope_rate, ex_ratefact_newton]
  simp [ex_libm]
  norm_num

/-- C24: the value `dLambdaNet_du` that a pass of `newton_iter` uses is the
value left by the pass before plus what the evaluator adds at the current
iterate: `eagle_metal_cooling_rate` only ever adds to `*dlambda_du` and
`newton_iter` sets `dLambdaNet_du = 0` once, before the loop.  With tables
whose derivative is the same `D = 50000000/247679169` at every energy,
`u_ini = 2` and the start `logu = 0`, the first pass uses `D` and moves to
`logu = 247679169/197679169`, the loop goes on, and the second pass uses
`2 D`. -/
theorem newton_derivative_carries_over :
    (∀ (m : Libm F) (q : TableQuery F) (cosmo : cosmology F)
      (logu_init u_ini : F) (n_h_i : Int) (d_n_h : F) (He_i : Int) (d_He : F)
      (He_reion_heat : F) (p : part F) (cooling : cooling_function_data F)
      (phys : phys_const F) (abundance_ratio : Nat → F) (dt : F) (k : Nat),
      (newton_trace m (eagle_rate_eval m q p cooling cosmo phys) logu_init u_ini n_h_i d_n_h
        He_i d_He He_reion_heat p cooling phys abundance_ratio dt (k + 1)).2.2 =
      (newton_trace m (eagle_rate_eval m q p cooling cosmo phys) logu_init u_ini n_h_i d_n_h
        He_i d_He He_reion_heat p cooling phys abundance_ratio dt k).2.2 +
        (eagle_cooling_rate m q
          (newton_trace m (eagle_rate_eval m q p cooling cosmo phys) logu_init u_ini n_h_i d_n_h
            He_i d_He He_reion_heat p cooling phys abundance_ratio dt k).1
          (some 0) n_h_i d_n_h He_i d_He p cooling cosmo phys abundance_ratio).2.getD 0) ∧
    (∀ x : ℚ, (eagle_cooling_rate ex_libm (ex_query_slope ℚ) x (some 0) 0 0 0 0 (ex_part ℚ 1 0)
        (ex_cooling ℚ true) ⟨0, 0, 0⟩ ⟨1⟩ (fun _ => 0)).2.getD 0 =
      50000000 / 247679169) ∧
    (newton_trace ex_libm
        (eagle_rate_eval ex_libm (ex_query_slope ℚ) (ex_part ℚ 1 0) (ex_cooling ℚ true)
          ⟨0, 0, 0⟩ ⟨1⟩)
        0 2 0 0 0 0 0 (ex_part ℚ 1 0) (ex_cooling ℚ true) ⟨1⟩ (fun _ => 0) 1 1) =
      (247679169 / 197679169, 0, 50000000 / 247679169) ∧
    2 ≤ (newton_iter ex_libm
        (eagle_rate_eval ex_libm (ex_query_slope ℚ) (ex_part ℚ 1 0) (ex_cooling ℚ true)
          ⟨0, 0, 0⟩ ⟨1⟩)
        0 2 0 0 0 0 0 (ex_part ℚ 1 0) (ex_cooling ℚ true) ⟨1⟩ (fun _ => 0) 1
        false).rate_evals ∧
    (newton_trace ex_libm
        (eagle_rate_eval ex_libm (ex_query_slope ℚ) (ex_part ℚ 1 0) (ex_cooling ℚ true)
          ⟨0, 0, 0⟩ ⟨1⟩)
        0 2 0 0 0 0 0 (ex_part ℚ 1 0) (ex_cooling ℚ true) ⟨1⟩ (fun _ => 0) 1 2).2.2 =
      2 * (50000000 / 247679169) := by
  have hD : ∀ x : ℚ, (eagle_cooling_rate ex_libm (ex_query_slope ℚ) x (some 0) 0 0 0 0
      (ex_part ℚ 1 0) (ex_cooling ℚ true) ⟨0, 0, 0⟩ ⟨1⟩ (fun _ => 0)).2.getD 0 =
      50000000 / 247679169 := by
    intro x
    rw [ex_slope_rate]
    simp
  have h1 := ex_slope_trace
  have h2 : (newton_trace ex_libm
        (eagle_rate_eval ex_libm (ex_query_slope ℚ) (ex_part ℚ 1 0) (ex_cooling ℚ true)
          ⟨0, 0, 0⟩ ⟨1⟩)
        0 2 0 0 0 0 0 (ex_part ℚ 1 0) (ex_cooling ℚ true) ⟨1⟩ (fun _ => 0) 1 2).2.2 =
      2 * (50000000 / 247679169) := by
    have h := newton_trace_derivative ex_libm (ex_query_slope ℚ) ⟨0, 0, 0⟩ 0 2 0 0 0 0 0
      (ex_part ℚ 1 0) (ex_cooling ℚ true) ⟨1⟩ (fun _ => 0) 1 1
    rw [hD, h1] at h
    exact h.trans (by norm_num)
  refine ⟨fun m q cosmo logu_init u_ini n_h_i d_n_h He_i d_He He_reion_heat p cooling phys
    abundance_ratio dt k => newton_trace_derivative m q cosmo logu_init u_ini n_h_i d_n_h He_i
    d_He He_reion_heat p cooling phys abundance_ratio dt k, hD, h1, ?_, h2⟩
  refine newton_iter_second_pass ex_libm _ 0 2 0 0 0 0 0 (ex_part ℚ 1 0) (ex_cooling ℚ true)
    ⟨1⟩ (fun _ => 0) 1 false ?_ ?_ ?_
  · rw [h1]
    simp [newton_bound_high, ex_cooling, ex_libm]
    norm_num
  · rw [h1]
    simp [newton_bound_low, ex_cooling, ex_libm]
    norm_num
  · rw [h1]
    simp [newton_tolerance]
    norm_num [abs_of_pos]

/-! ## The guard of the second pass (C25) -/

theorem metal_fold_contributions (f : metal_rate_out F → Nat → metal_rate_out F)
    (g : Nat → F)
    (hrate : ∀ st i, (f st i).cooling_rate = st.cooling_rate + g i)
    (hel : ∀ st i, (f st i).element_lambda =
      st.element_lambda.map (fun a => Function.update a (i + 2) (g i)))
    (n : Nat) :
    ∀ (st : metal_rate_out F) (a : Nat → F), st.element_lambda = some a →
      (∀ j, 2 ≤ j → a j = 0) →
      ∃ b : Nat → F, ((List.range n).foldl f st).element_lambda = some b ∧
        b 0 = a 0 ∧ b 1 = a 1 ∧ (∀ j, n + 2 ≤ j → b j = 0) ∧
        ((List.range n).foldl f st).cooling_rate =
          st.cooling_rate + ∑ i in Finset.range n, b (i + 2) := by
  induction n with
  | zero =>
    intro st a ha h0
    exact ⟨a, by simpa using ha, rfl, rfl, fun j hj => h0 j (by omega), by simp⟩
  | succ n ih =>
    intro st a ha h0
    obtain ⟨b, hb, b0, b1, bz, br⟩ := ih st a ha h0
    rw [List.range_succ, List.foldl_append, List.foldl_cons, List.foldl_nil]
    refine ⟨Function.update b (n + 2) (g n), ?_, ?_, ?_, ?_, ?_⟩
    · rw [hel, hb]
      rfl
    · rw [Function.update_noteq (by omega)]
      exact b0
    · rw [Function.update_noteq (by omega)]
      exact b1
    · intro j hj
      rw [Function.update_noteq (by omega)]
      exact bz j (by omega)
    · rw [hrate, br, Finset.sum_range_succ, Function.update_same, add_assoc]
      congr 2
      apply Finset.sum_congr rfl
      intro i hi
      rw [Function.update_noteq]
      have := Finset.mem_range.mp hi
      omega

theorem metal_fold_decomposition (f : metal_rate_out F → Nat → metal_rate_out F)
    (g : Nat → F)
    (hrate : ∀ st i, (f st i).cooling_rate = st.cooling_rate + g i)
    (hel : ∀ st i, (f st i).element_lambda =
      st.element_lambda.map (fun a => Function.update a (i + 2) (g i)))
    (n : Nat) (st : metal_rate_out F) (a : Nat → F) (c0 c1 : F)
    (hst : st.element_lambda = some a) (ha : ∀ j, 2 ≤ j → a j = 0)
    (hr : st.cooling_rate = a 0 + a 1) (h0 : a 0 = c0) (h1 : a 1 = c1) :
    ∃ b : Nat → F, ((List.range n).foldl f st).element_lambda = some b ∧
      ((List.range n).foldl f st).cooling_rate =
        b 0 + b 1 + ∑ i in Finset.range n, b (i + 2) ∧
      b 0 = c0 ∧ b 1 = c1 := by
  obtain ⟨b, hb, b0, b1, -, br⟩ := metal_fold_contributions f g hrate hel n st a hst ha
  exact ⟨b, hb, by rw [br, hr, b0, b1], by rw [b0, h0], by rw [b1, h1]⟩

theorem metal_fold_rate (f : metal_rate_out F → Nat → metal_rate_out F) (g : Nat → F)
    (hrate : ∀ st i, (f st i).cooling_rate = st.cooling_rate + g i)
    (n : Nat) (st : metal_rate_out F) :
    ((List.range n).foldl f st).cooling_rate =
      st.cooling_rate + ∑ i in Finset.range n, g i := by
  induction n with
  | zero => simp
  | succ k ih =>
    rw [List.range_succ, List.foldl_append, List.foldl_cons, List.foldl_nil, hrate, ih,
      Finset.sum_range_succ]
    ring

theorem metal_step_highz_contribution (q : TableQuery F) (cooling : cooling_function_data F)
    (n_h_i : Int) (d_n_h : F) (v : metal_rate_locals F) (solar_ratio : Nat → F)
    (st : metal_rate_out F) (i : Nat) :
    (metal_step_highz q cooling n_h_i d_n_h v solar_ratio st i).cooling_rate =
      st.cooling_rate + metal_lambda_highz q cooling n_h_i d_n_h v solar_ratio i ∧
    (metal_step_highz q cooling n_h_i d_n_h v solar_ratio st i).element_lambda =
      st.element_lambda.map (fun a => Function.update a (i + 2)
        (metal_lambda_highz q cooling n_h_i d_n_h v solar_ratio i)) := by
  unfold metal_step_highz
  cases st.dlambda_du with
  | none => exact ⟨rfl, rfl⟩
  | some d => exact ⟨rfl, rfl⟩

theorem metal_step_lowz_contribution (q : TableQuery F) (cooling : cooling_function_data F)
    (n_h_i : Int) (d_n_h : F) (v : metal_rate_locals F) (solar_ratio : Nat → F)
    (st : metal_rate_out F) (i : Nat) :
    (metal_step_lowz q cooling n_h_i d_n_h v solar_ratio st i).cooling_rate =
      st.cooling_rate + metal_lambda_lowz q cooling n_h_i d_n_h v solar_ratio i ∧
    (metal_step_lowz q cooling n_h_i d_n_h v solar_ratio st i).element_lambda =
      st.element_lambda.map (fun a => Function.update a (i + 2)
        (metal_lambda_lowz q cooling n_h_i d_n_h v solar_ratio i)) := by
  unfold metal_step_lowz
  cases st.dlambda_du with
  | none => exact ⟨rfl, rfl⟩
  | some d => exact ⟨rfl, rfl⟩

theorem metal_free_lookups_isSome (q : TableQuery F) (cooling : cooling_function_data F) (z : F)
    (dlambda_du : Option F) (n_h_i : Int) (d_n_h : F) (He_i : Int) (d_He : F)
    (temp_i : Int) (d_temp : F) :
    (metal_free_lookups q cooling z dlambda_du.isSome n_h_i d_n_h He_i d_He temp_i d_temp).1 =
      (metal_free_lookups q cooling z false n_h_i d_n_h He_i d_He temp_i d_temp).1 ∧
    (metal_free_lookups q cooling z dlambda_du.isSome n_h_i d_n_h He_i d_He temp_i d_temp).2.1 =
      (metal_free_lookups q cooling z false n_h_i d_n_h He_i d_He temp_i d_temp).2.1 := by
  cases dlambda_du with
  | none => exact ⟨rfl, rfl⟩
  | some d =>
    exact ⟨(metal_free_lookups_rate q cooling z n_h_i d_n_h He_i d_He temp_i d_temp).1,
      (metal_free_lookups_rate q cooling z n_h_i d_n_h He_i d_He temp_i d_temp).2.1⟩

theorem eagle_rate_independent_of_contributions (m : Libm F) (q : TableQuery F)
    (log_10_u : F) (dlambda_du : Option F) (n_h_i : Int) (d_n_h : F) (He_i : Int) (d_He : F)
    (p : part F) (cooling : cooling_function_data F) (cosmo : cosmology F)
    (phys : phys_const F) (e1 e2 : Option (Nat → F)) (solar_ratio : Nat → F) :
    (eagle_metal_cooling_rate m q log_10_u dlambda_du n_h_i d_n_h He_i d_He p cooling cosmo
      phys e1 solar_ratio).cooling_rate =
    (eagle_metal_cooling_rate m q log_10_u dlambda_du n_h_i d_n_h He_i d_He p cooling cosmo
      phys e2 solar_ratio).cooling_rate := by
  unfold eagle_metal_cooling_rate
  simp only []
  by_cases hz : cosmo.z > cooling.Redshifts (cooling.N_Redshifts - 1)
  · simp only [hz, if_true, true_or]
    rw [metal_fold_rate _ _
        (fun st i => (metal_step_highz_contribution q cooling n_h_i d_n_h _ solar_ratio st i).1),
      metal_fold_rate _ _
        (fun st i => (metal_step_highz_contribution q cooling n_h_i d_n_h _ solar_ratio st i).1)]
  · simp only [hz, if_false, false_or]
    rw [metal_fold_rate _ _
        (fun st i => (metal_step_lowz_contribution q cooling n_h_i d_n_h _ solar_ratio st i).1),
      metal_fold_rate _ _
        (fun st i => (metal_step_lowz_contribution q cooling n_h_i d_n_h _ solar_ratio st i).1)]
    by_cases hr : cosmo.z > cooling.reionisation_redshift
    · simp only [hr, if_true]
    · simp only [hr, if_false]

theorem eagle_rate_contributions (m : Libm F) (q : TableQuery F)
    (log_10_u : F) (dlambda_du : Option F) (n_h_i : Int) (d_n_h : F) (He_i : Int) (d_He : F)
    (p : part F) (cooling : cooling_function_data F) (cosmo : cosmology F)
    (phys : phys_const F) (solar_ratio : Nat → F) :
    ∃ b : Nat → F,
      (eagle_metal_cooling_rate m q log_10_u dlambda_du n_h_i d_n_h He_i d_He p cooling cosmo
        phys (some (fun _ => 0)) solar_ratio).element_lambda = some b ∧
      (eagle_metal_cooling_rate m q log_10_u dlambda_du n_h_i d_n_h He_i d_He p cooling cosmo
        phys (some (fun _ => 0)) solar_ratio).cooling_rate =
        b 0 + b 1 + ∑ i in Finset.range cooling.N_Elements, b (i + 2) ∧
      b 0 = (metal_free_lookups q cooling cosmo.z false n_h_i d_n_h He_i d_He
        (q.get_index_1d cooling.Temp cooling.N_Temp
          (q.eagle_convert_u_to_temp log_10_u n_h_i He_i d_n_h d_He cooling cosmo).1).1
        (q.get_index_1d cooling.Temp cooling.N_Temp
          (q.eagle_convert_u_to_temp log_10_u n_h_i He_i d_n_h d_He cooling cosmo).1).2).1 ∧
      b 1 = (if cosmo.z > cooling.Redshifts (cooling.N_Redshifts - 1) ∨
          cosmo.z > cooling.reionisation_redshift then
        eagle_compton_lambda q log_10_u n_h_i d_n_h He_i d_He p cooling cosmo phys else 0) := by
  obtain ⟨f1, f2⟩ := metal_free_lookups_isSome q cooling cosmo.z dlambda_du n_h_i d_n_h He_i d_He
    (q.get_index_1d cooling.Temp cooling.N_Temp
      (q.eagle_convert_u_to_temp log_10_u n_h_i He_i d_n_h d_He cooling cosmo).1).1
    (q.get_index_1d cooling.Temp cooling.N_Temp
      (q.eagle_convert_u_to_temp log_10_u n_h_i He_i d_n_h d_He cooling cosmo).1).2
  unfold eagle_metal_cooling_rate eagle_compton_lambda
  simp only [f1, f2, Option.map_some']
  by_cases hz : cosmo.z > cooling.Redshifts (cooling.N_Redshifts - 1)
  · simp only [hz, if_true, true_or]
    refine metal_fold_decomposition _ (metal_lambda_highz q cooling n_h_i d_n_h _ solar_ratio)
      (fun st i => (metal_step_highz_contribution q cooling n_h_i d_n_h _ solar_ratio st i).1)
      (fun st i => (metal_step_highz_contribution q cooling n_h_i d_n_h _ solar_ratio st i).2)
      _ _ _ _ _ rfl ?_ ?_ ?_ ?_
    · intro j hj
      rw [Function.update_noteq (by omega), Function.update_noteq (by omega)]
    · simp
    · simp
    · simp
  · simp only [hz, if_false, false_or]
    by_cases hr : cosmo.z > cooling.reionisation_redshift
    · simp only [hr, if_true]
      refine metal_fold_decomposition _ (metal_lambda_lowz q cooling n_h_i d_n_h _ solar_ratio)
        (fun st i => (metal_step_lowz_contribution q cooling n_h_i d_n_h _ solar_ratio st i).1)
        (fun st i => (metal_step_lowz_contribution q cooling n_h_i d_n_h _ solar_ratio st i).2)
        _ _ _ _ _ rfl ?_ ?_ ?_ ?_
      · intro j hj
        rw [Function.update_noteq (by omega), Function.update_noteq (by omega)]
      · simp
      · simp
      · simp
    · simp only [hr, if_false]
      refine metal_fold_decomposition _ (metal_lambda_lowz q cooling n_h_i d_n_h _ solar_ratio)
        (fun st i => (metal_step_lowz_contribution q cooling n_h_i d_n_h _ solar_ratio st i).1)
        (fun st i => (metal_step_lowz_contribution q cooling n_h_i d_n_h _ solar_ratio st i).2)
        _ _ _ _ _ rfl ?_ ?_ ?_ ?_
      · intro j hj
        rw [Function.update_noteq (by omega)]
      · simp
      · simp
      · simp

/-- C27: the rate that `eagle_metal_cooling_rate` returns is the sum of the
entries it writes into a contribution array that is all zeros on entry: entry 0
the H+He term, entry 1 the Compton term, entries `i + 2` the metal terms.
Entry 1 is the Compton term of lines 426-428 when
`z > Redshifts[N_Redshifts - 1]` or `z > reionisation_redshift`, and it stays 0
for every other `z`. -/
theorem eagle_rate_compton_contribution (m : Libm F) (q : TableQuery F)
    (log_10_u : F) (dlambda_du : Option F) (n_h_i : Int) (d_n_h : F) (He_i : Int) (d_He : F)
    (p : part F) (cooling : cooling_function_data F) (cosmo : cosmology F)
    (phys : phys_const F) (element_lambda : Option (Nat → F)) (solar_ratio : Nat → F) :
    ∃ b : Nat → F,
      (eagle_metal_cooling_rate m q log_10_u dlambda_du n_h_i d_n_h He_i d_He p cooling cosmo
        phys (some (fun _ => 0)) solar_ratio).element_lambda = some b ∧
      (eagle_metal_cooling_rate m q log_10_u dlambda_du n_h_i d_n_h He_i d_He p cooling cosmo
        phys element_lambda solar_ratio).cooling_rate =
        b 0 + b 1 + ∑ i in Finset.range cooling.N_Elements, b (i + 2) ∧
      b 0 = (metal_free_lookups q cooling cosmo.z false n_h_i d_n_h He_i d_He
        (q.get_index_1d cooling.Temp cooling.N_Temp
          (q.eagle_convert_u_to_temp log_10_u n_h_i He_i d_n_h d_He cooling cosmo).1).1
        (q.get_index_1d cooling.Temp cooling.N_Temp
          (q.eagle_convert_u_to_temp log_10_u n_h_i He_i d_n_h d_He cooling cosmo).1).2).1 ∧
      b 1 = (if cosmo.z > cooling.Redshifts (cooling.N_Redshifts - 1) ∨
          cosmo.z > cooling.reionisation_redshift then
        eagle_compton_lambda q log_10_u n_h_i d_n_h He_i d_He p cooling cosmo phys else 0) := by
  rw [eagle_rate_independent_of_contributions m q log_10_u dlambda_du n_h_i d_n_h He_i d_He p
    cooling cosmo phys element_lambda (some (fun _ => 0)) solar_ratio]
  exact eagle_rate_contributions m q log_10_u dlambda_du n_h_i d_n_h He_i d_He p cooling cosmo
    phys solar_ratio

theorem ten_pow_gt (t : ℝ) : t < Real.exp (Real.log 10 * t) := by
  have hl : (1 : ℝ) < Real.log 10 := by
    rw [Real.lt_log_iff_exp_lt (by norm_num)]
    exact lt_trans Real.exp_one_lt_d9 (by norm_num)
  rcases le_or_lt t 0 with h | h
  · exact lt_of_le_of_lt h (Real.exp_pos _)
  · have h1 := Real.add_one_le_exp (Real.log 10 * t)
    nlinarith

theorem compton_lambda_formulas (m : Libm ℝ) (hm : real_libm m)
    (q : TableQuery ℝ) (log_10_u : ℝ) (n_h_i : Int) (d_n_h : ℝ) (He_i : Int) (d_He : ℝ)
    (p : part ℝ) (cooling : cooling_function_data ℝ) (cosmo : cosmology ℝ)
    (phys : phys_const ℝ) (t hpe n_h : ℝ)
    (ht : t = (q.eagle_convert_u_to_temp log_10_u n_h_i He_i d_n_h d_He cooling cosmo).1)
    (hh : hpe = (metal_free_lookups q cooling cosmo.z false n_h_i d_n_h He_i d_He
      (q.get_index_1d cooling.Temp cooling.N_Temp t).1
      (q.get_index_1d cooling.Temp cooling.N_Temp t).2).2.1)
    (hn : n_h = p.rho * p.smoothed_metal_mass_fraction chemistry_element_H /
      phys.const_proton_mass * cooling.number_density_scale) :
    eagle_compton_lambda q log_10_u n_h_i d_n_h He_i d_He p cooling cosmo phys =
      -cooling.compton_rate_cgs * (t - cooling.T_CMB_0 * (1 + cosmo.z)) *
        (1 + cosmo.z) ^ 4 * (hpe / n_h) ∧
    compton_lambda_physical m q log_10_u n_h_i d_n_h He_i d_He p cooling cosmo phys =
      -cooling.compton_rate_cgs * ((10 : ℝ) ^ t - cooling.T_CMB_0 * (1 + cosmo.z)) *
        (1 + cosmo.z) ^ 4 * (hpe / n_h) ∧
    (cooling.compton_rate_cgs * (1 + cosmo.z) ^ 4 * (hpe / n_h) ≠ 0 →
      eagle_compton_lambda q log_10_u n_h_i d_n_h He_i d_He p cooling cosmo phys ≠
        compton_lambda_physical m q log_10_u n_h_i d_n_h He_i d_He p cooling cosmo phys) := by
  obtain ⟨hexp, -, -, -, -, -, hln⟩ := hm
  have hpow : (10 : ℝ) ^ t = Real.exp (Real.log 10 * t) :=
    Real.rpow_def_of_pos (by norm_num) t
  have e1 : eagle_compton_lambda q log_10_u n_h_i d_n_h He_i d_He p cooling cosmo phys =
      -cooling.compton_rate_cgs * (t - cooling.T_CMB_0 * (1 + cosmo.z)) *
        (1 + cosmo.z) ^ 4 * (hpe / n_h) := by
    unfold eagle_compton_lambda
    simp only [← ht, ← hh, ← hn]
    ring
  have e2 : compton_lambda_physical m q log_10_u n_h_i d_n_h He_i d_He p cooling cosmo phys =
      -cooling.compton_rate_cgs * ((10 : ℝ) ^ t - cooling.T_CMB_0 * (1 + cosmo.z)) *
        (1 + cosmo.z) ^ 4 * (hpe / n_h) := by
    unfold compton_lambda_physical
    simp only [← ht, ← hh, ← hn, hpow, hexp, hln]
  refine ⟨e1, e2, ?_⟩
  intro hne heq
  rw [e1, e2, hpow] at heq
  have hlt := ten_pow_gt t
  have : cooling.compton_rate_cgs * (1 + cosmo.z) ^ 4 * (hpe / n_h) *
      (Real.exp (Real.log 10 * t) - t) = 0 := by linear_combination heq
  rcases mul_eq_zero.mp this with h | h
  · exact hne h
  · linarith

/-- C28: the Compton term of lines 426-428 is
`-C (t - T_CMB0 (1+z)) (1+z)^4 (electron_abundance / n_H)` with `t` the very
value that line 343 looks up in the grid `Temp`, whose entries line 344
treats as base-10 logarithms; with `T = 10^t` in its place the value differs
whenever `C (1+z)^4 (electron_abundance / n_H)` is not zero.  At `t = 4`,
`z = 0`, `C = 1`, `T_CMB0 = 2.725`, electron abundance 1 and `n_H = 1` the
evaluator writes `-(4 - 2.725)` into the Compton entry, and the term with the
physical temperature is `-(10000 - 2.725)`. -/
theorem compton_temperature_is_grid_coordinate :
    ∃ m : Libm ℝ, real_libm m ∧
      (∀ (q : TableQuery ℝ) (log_10_u : ℝ) (n_h_i : Int) (d_n_h : ℝ) (He_i : Int) (d_He : ℝ)
        (p : part ℝ) (cooling : cooling_function_data ℝ) (cosmo : cosmology ℝ)
        (phys : phys_const ℝ) (t hpe n_h : ℝ),
        t = (q.eagle_convert_u_to_temp log_10_u n_h_i He_i d_n_h d_He cooling cosmo).1 →
        hpe = (metal_free_lookups q cooling cosmo.z false n_h_i d_n_h He_i d_He
          (q.get_index_1d cooling.Temp cooling.N_Temp t).1
          (q.get_index_1d cooling.Temp cooling.N_Temp t).2).2.1 →
        n_h = p.rho * p.smoothed_metal_mass_fraction chemistry_element_H /
          phys.const_proton_mass * cooling.number_density_scale →
        eagle_compton_lambda q log_10_u n_h_i d_n_h He_i d_He p cooling cosmo phys =
          -cooling.compton_rate_cgs * (t - cooling.T_CMB_0 * (1 + cosmo.z)) *
            (1 + cosmo.z) ^ 4 * (hpe / n_h) ∧
        compton_lambda_physical m q log_10_u n_h_i d_n_h He_i d_He p cooling cosmo phys =
          -cooling.compton_rate_cgs * ((10 : ℝ) ^ t - cooling.T_CMB_0 * (1 + cosmo.z)) *
            (1 + cosmo.z) ^ 4 * (hpe / n_h) ∧
        (cooling.compton_rate_cgs * (1 + cosmo.z) ^ 4 * (hpe / n_h) ≠ 0 →
          eagle_compton_lambda q log_10_u n_h_i d_n_h He_i d_He p cooling cosmo phys ≠
            compton_lambda_physical m q log_10_u n_h_i d_n_h He_i d_He p cooling cosmo phys)) ∧
      (∃ b : Nat → ℝ,
        (eagle_metal_cooling_rate m (ex_query_temp ℝ 4) 0 none 0 0 0 0 (ex_part ℝ 1 0)
          (ex_cooling_compton ℝ) ⟨0, 0, 0⟩ ⟨1⟩ (some (fun _ => 0))
          (fun _ => 0)).element_lambda = some b ∧
        b 1 = -(4 - 2725 / 1000) ∧
        compton_lambda_physical m (ex_query_temp ℝ 4) 0 0 0 0 0 (ex_part ℝ 1 0)
          (ex_cooling_compton ℝ) ⟨0, 0, 0⟩ ⟨1⟩ = -(10000 - 2725 / 1000)) := by
  refine ⟨{ exp := Real.exp, log := Real.log, log10 := fun x => Real.log x / Real.log 10,
            erf := fun x => 2 / Real.sqrt Real.pi * ∫ t in (0 : ℝ)..x, Real.exp (-(t ^ 2)),
            M_SQRT2 := Real.sqrt 2, M_LOG10E := 1 / Real.log 10, M_LN10 := Real.log 10, to_float := fun x => x },
    ⟨rfl, rfl, rfl, rfl, rfl, rfl, rfl⟩, ?_, ?_⟩
  · intro q log_10_u n_h_i d_n_h He_i d_He p cooling cosmo phys t hpe n_h ht hh hn
    exact compton_lambda_formulas _ ⟨rfl, rfl, rfl, rfl, rfl, rfl, rfl⟩ q log_10_u n_h_i d_n_h
      He_i d_He p cooling cosmo phys t hpe n_h ht hh hn
  · obtain ⟨b, hb, -, -, h1⟩ := eagle_rate_contributions
      ({ exp := Real.exp, log := Real.log, log10 := fun x => Real.log x / Real.log 10,
         erf := fun x => 2 / Real.sqrt Real.pi * ∫ t in (0 : ℝ)..x, Real.exp (-(t ^ 2)),
         M_SQRT2 := Real.sqrt 2, M_LOG10E := 1 / Real.log 10, M_LN10 := Real.log 10, to_float := fun x => x } : Libm ℝ)
      (ex_query_temp ℝ 4) 0 none 0 0 0 0 (ex_part ℝ 1 0)
      (ex_cooling_compton ℝ) ⟨0, 0, 0⟩ ⟨1⟩ (fun _ => 0)
    refine ⟨b, hb, ?_, ?_⟩
    · rw [h1]
      simp only [eagle_compton_lambda, metal_free_lookups, ex_query_temp, ex_cooling_compton,
        ex_cooling_metal, ex_cooling, ex_part]
      norm_num
    · simp only [compton_lambda_physical, metal_free_lookups, ex_query_temp, ex_cooling_compton,
        ex_cooling_metal, ex_cooling, ex_part]
      have hp : Real.exp (Real.log 10 * 4) = 10000 := by
        rw [← Real.rpow_def_of_pos (by norm_num) 4]
        norm_num
      norm_num [hp]

/-! ## The finite-difference derivative (C26) -/

theorem metal_fold_dlambda_sum (f : metal_rate_out F → Nat → metal_rate_out F) (h : Nat → F)
    (hd : ∀ st i d, st.dlambda_du = some d → (f st i).dlambda_du = some (d + h i))
    (n : Nat) (st : metal_rate_out F) (d : F) (hs : st.dlambda_du = some d) :
    ((List.range n).foldl f st).dlambda_du = some (d + ∑ i in Finset.range n, h i) := by
  induction n with
  | zero => simpa using hs
  | succ k ih =>
    rw [List.range_succ, List.foldl_append, List.foldl_cons, List.foldl_nil, hd _ _ _ ih,
      Finset.sum_range_succ, add_assoc]

theorem metal_step_highz_derivative (q : TableQuery F) (cooling : cooling_function_data F)
    (n_h_i : Int) (d_n_h : F) (v : metal_rate_locals F) (solar_ratio : Nat → F)
    (st : metal_rate_out F) (i : Nat) (d : F) (hs : st.dlambda_du = some d) :
    (metal_step_highz q cooling n_h_i d_n_h v solar_ratio st i).dlambda_du =
      some (d + (metal_lambda_highz q cooling n_h_i d_n_h
          { v with d_temp := 1
                   h_plus_he_electron_abundance := v.h_plus_he_electron_abundance_high
                   solar_electron_abundance := v.solar_electron_abundance_high }
          solar_ratio i -
        metal_lambda_highz q cooling n_h_i d_n_h
          { v with d_temp := 0
                   h_plus_he_electron_abundance := v.h_plus_he_electron_abundance_low
                   solar_electron_abundance := v.solar_electron_abundance_low }
          solar_ratio i) / v.delta_T * v.dT_du) := by
  unfold metal_step_highz metal_lambda_highz
  simp only [hs]
  congr 2
  ring

theorem metal_step_lowz_derivative (q : TableQuery F) (cooling : cooling_function_data F)
    (n_h_i : Int) (d_n_h : F) (v : metal_rate_locals F) (solar_ratio : Nat → F)
    (st : metal_rate_out F) (i : Nat) (d : F) (hs : st.dlambda_du = some d) :
    (metal_step_lowz q cooling n_h_i d_n_h v solar_ratio st i).dlambda_du =
      some (d + (metal_lambda_lowz q cooling n_h_i d_n_h
          { v with d_temp := 1
                   h_plus_he_electron_abundance := v.h_plus_he_electron_abundance_high
                   solar_electron_abundance := v.solar_electron_abundance_high }
          solar_ratio i -
        metal_lambda_lowz q cooling n_h_i d_n_h
          { v with d_temp := 0
                   h_plus_he_electron_abundance := v.h_plus_he_electron_abundance_low
                   solar_electron_abundance := v.solar_electron_abundance_low }
          solar_ratio i) / v.delta_T * v.dT_du) := by
  unfold metal_step_lowz metal_lambda_lowz
  simp only [hs]
  congr 2
  ring

theorem finite_difference_sum (n : Nat) (a b : Nat → F) (x y c0 c1 dT k r s : F)
    (hr : r = x + c1 + ∑ i in Finset.range n, a i)
    (hs : s = y + c0 + ∑ i in Finset.range n, b i) :
    0 + (x - y) / dT * k + ∑ i in Finset.range n, (a i - b i) / dT * k =
      ((r - c1) - (s - c0)) / dT * k := by
  rw [hr, hs, ← Finset.sum_mul, ← Finset.sum_div, Finset.sum_sub_distrib]
  ring

theorem eagle_derivative_finite_difference (m : Libm F) (q : TableQuery F)
    (log_10_u : F) (n_h_i : Int) (d_n_h : F) (He_i : Int) (d_He : F) (p : part F)
    (cooling : cooling_function_data F) (cosmo : cosmology F) (phys : phys_const F)
    (element_lambda : Option (Nat → F)) (solar_ratio : Nat → F) :
    (eagle_metal_cooling_rate m q log_10_u (some 0) n_h_i d_n_h He_i d_He p cooling cosmo phys
      element_lambda solar_ratio).dlambda_du =
      some (((eagle_rate_at_offset m q log_10_u n_h_i d_n_h He_i d_He p cooling cosmo phys
            solar_ratio 1 -
          eagle_compton_at_offset q log_10_u n_h_i d_n_h He_i d_He p cooling cosmo phys 1) -
        (eagle_rate_at_offset m q log_10_u n_h_i d_n_h He_i d_He p cooling cosmo phys
            solar_ratio 0 -
          eagle_compton_at_offset q log_10_u n_h_i d_n_h He_i d_He p cooling cosmo phys 0)) /
        (m.exp (m.M_LN10 * cooling.Temp ((q.get_index_1d cooling.Temp cooling.N_Temp
            (q.eagle_convert_u_to_temp log_10_u n_h_i He_i d_n_h d_He cooling cosmo).1).1 +
              1).toNat) -
          m.exp (m.M_LN10 * cooling.Temp (q.get_index_1d cooling.Temp cooling.N_Temp
            (q.eagle_convert_u_to_temp log_10_u n_h_i He_i d_n_h d_He cooling cosmo).1).1.toNat)) *
        (q.eagle_convert_u_to_temp log_10_u n_h_i He_i d_n_h d_He cooling cosmo).2) := by
  unfold eagle_rate_at_offset eagle_compton_at_offset eagle_compton_lambda
    eagle_metal_cooling_rate
  simp only [Option.isSome_some, Option.map_some', Option.isSome_none, Option.map_none']
  by_cases hz : cosmo.z > cooling.Redshifts (cooling.N_Redshifts - 1)
  · simp only [hz, if_true, true_or]
    rw [metal_fold_dlambda_sum _ _
        (fun st i d hs => metal_step_highz_derivative q cooling n_h_i d_n_h _ solar_ratio st i d hs)
        _ _ _ rfl]
    rw [metal_fold_rate _ _
        (fun st i => (metal_step_highz_contribution _ cooling n_h_i d_n_h _ solar_ratio st i).1),
      metal_fold_rate _ _
        (fun st i => (metal_step_highz_contribution _ cooling n_h_i d_n_h _ solar_ratio st i).1)]
    congr 1
    refine @finite_difference_sum F _ _ _ _ _ _ _ _ _ _ _ _ ?_ ?_
    · simp only [metal_free_lookups, solar_electron_lookups, metal_lambda_highz, hz, if_true,
        Bool.false_eq_true, if_false, zero_add]
    · simp only [metal_free_lookups, solar_electron_lookups, metal_lambda_highz, hz, if_true,
        Bool.false_eq_true, if_false, zero_add]
  · simp only [hz, if_false, false_or]
    by_cases hr : cosmo.z > cooling.reionisation_redshift
    · simp only [hr, if_true]
      rw [metal_fold_dlambda_sum _ _
          (fun st i d hs =>
            metal_step_lowz_derivative q cooling n_h_i d_n_h _ solar_ratio st i d hs)
          _ _ _ rfl]
      rw [metal_fold_rate _ _
          (fun st i => (metal_step_lowz_contribution _ cooling n_h_i d_n_h _ solar_ratio st i).1),
        metal_fold_rate _ _
          (fun st i => (metal_step_lowz_contribution _ cooling n_h_i d_n_h _ solar_ratio st i).1)]
      congr 1
      refine @finite_difference_sum F _ _ _ _ _ _ _ _ _ _ _ _ ?_ ?_
      · simp only [metal_free_lookups, solar_electron_lookups, metal_lambda_lowz, hz, if_true,
          Bool.false_eq_true, if_false, zero_add]
      · simp only [metal_free_lookups, solar_electron_lookups, metal_lambda_lowz, hz, if_true,
          Bool.false_eq_true, if_false, zero_add]
    · simp only [hr, if_false]
      rw [metal_fold_dlambda_sum _ _
          (fun st i d hs =>
            metal_step_lowz_derivative q cooling n_h_i d_n_h _ solar_ratio st i d hs)
          _ _ _ rfl]
      rw [metal_fold_rate _ _
          (fun st i => (metal_step_lowz_contribution _ cooling n_h_i d_n_h _ solar_ratio st i).1),
        metal_fold_rate _ _
          (fun st i => (metal_step_lowz_contribution _ cooling n_h_i d_n_h _ solar_ratio st i).1)]
      congr 1
      refine @finite_difference_sum F _ _ _ _ _ _ _ _ _ _ _ _ ?_ ?_
      · simp only [metal_free_lookups, solar_electron_lookups, metal_lambda_lowz, hz, if_true,
          Bool.false_eq_true, if_false, zero_add, add_zero]
      · simp only [metal_free_lookups, solar_electron_lookups, metal_lambda_lowz, hz, if_true,
          Bool.false_eq_true, if_false, zero_add, add_zero]

theorem ex_offset_derivative (m : Libm ℝ) (hm : real_libm m) :
    (eagle_metal_cooling_rate m (ex_query_offset ℝ) 0 (some 0) 0 0 0 0 (ex_part ℝ 1 0)
      (ex_cooling_cmb ℝ) ⟨1, 0, 0⟩ ⟨1⟩ none (fun _ => 0)).dlambda_du = some (1 / 9) ∧
    eagle_rate_at_offset m (ex_query_offset ℝ) 0 0 0 0 0 (ex_part ℝ 1 0) (ex_cooling_cmb ℝ)
      ⟨1, 0, 0⟩ ⟨1⟩ (fun _ => 0) 1 = 50 ∧
    eagle_rate_at_offset m (ex_query_offset ℝ) 0 0 0 0 0 (ex_part ℝ 1 0) (ex_cooling_cmb ℝ)
      ⟨1, 0, 0⟩ ⟨1⟩ (fun _ => 0) 0 = 25 ∧
    m.exp (m.M_LN10 * (ex_cooling_cmb ℝ).Temp 1) - m.exp (m.M_LN10 * (ex_cooling_cmb ℝ).Temp 0) =
      9 := by
  obtain ⟨hexp, -, -, -, -, -, hln⟩ := hm
  have h10 : Real.exp (Real.log 10) = 10 := Real.exp_log (by norm_num)
  refine ⟨?_, ?_, ?_, ?_⟩
  · simp [eagle_metal_cooling_rate, metal_free_lookups, solar_electron_lookups,
      metal_step_highz, metal_lambda_highz, ex_query_offset, ex_cooling_cmb, ex_cooling,
      ex_part, List.range_succ, hexp, hln, h10]
    norm_num
  · simp [eagle_rate_at_offset, eagle_metal_cooling_rate, metal_free_lookups,
      solar_electron_lookups, metal_step_highz, metal_lambda_highz, ex_query_offset,
      ex_cooling_cmb, ex_cooling, ex_part, List.range_succ, chemistry_element_H]
    norm_num
  · simp [eagle_rate_at_offset, eagle_metal_cooling_rate, metal_free_lookups,
      solar_electron_lookups, metal_step_highz, metal_lambda_highz, ex_query_offset,
      ex_cooling_cmb, ex_cooling, ex_part, List.range_succ, chemistry_element_H]
    norm_num
  · simp [ex_cooling_cmb, ex_cooling, hexp, hln, h10]
    norm_num

/-- C26: with the pointee 0 on entry, the derivative that
`eagle_metal_cooling_rate` leaves is the difference of the net rate at the
temperature offsets 1 and 0 with the Compton term taken out of both, divided
by `delta_T = exp(M_LN10 Temp[i+1]) - exp(M_LN10 Temp[i])` and multiplied by
`dT/du`: lines 411 and 478-482 add the H+He and metal differences only.  It
is the difference of the full net rate when the test of lines 423-424 fails.
At `z = 1` above a grid that ends at 0, with `temp = 1/2`, `dT/du = 1`,
`Temp = (0, 1)`, lookups `1 + d_temp`, `C = 1`, `T_CMB0 = 1`, `n_H = 1` and no
metals the derivative is `1/9`, and the difference quotient of the full net
rate, `(50 - 25) / 9`, is `25/9`. -/
theorem eagle_derivative_omits_compton :
    (∀ (m : Libm F) (q : TableQuery F) (log_10_u : F) (n_h_i : Int) (d_n_h : F) (He_i : Int)
      (d_He : F) (p : part F) (cooling : cooling_function_data F) (cosmo : cosmology F)
      (phys : phys_const F) (element_lambda : Option (Nat → F)) (solar_ratio : Nat → F),
      (eagle_metal_cooling_rate m q log_10_u (some 0) n_h_i d_n_h He_i d_He p cooling cosmo phys
        element_lambda solar_ratio).dlambda_du =
        some (((eagle_rate_at_offset m q log_10_u n_h_i d_n_h He_i d_He p cooling cosmo phys
              solar_ratio 1 -
            eagle_compton_at_offset q log_10_u n_h_i d_n_h He_i d_He p cooling cosmo phys 1) -
          (eagle_rate_at_offset m q log_10_u n_h_i d_n_h He_i d_He p cooling cosmo phys
              solar_ratio 0 -
            eagle_compton_at_offset q log_10_u n_h_i d_n_h He_i d_He p cooling cosmo phys 0)) /
          (m.exp (m.M_LN10 * cooling.Temp ((q.get_index_1d cooling.Temp cooling.N_Temp
              (q.eagle_convert_u_to_temp log_10_u n_h_i He_i d_n_h d_He cooling cosmo).1).1 +
                1).toNat) -
            m.exp (m.M_LN10 * cooling.Temp (q.get_index_1d cooling.Temp cooling.N_Temp
              (q.eagle_convert_u_to_temp log_10_u n_h_i He_i d_n_h d_He cooling cosmo).1).1.toNat)) *
          (q.eagle_convert_u_to_temp log_10_u n_h_i He_i d_n_h d_He cooling cosmo).2)) ∧
    (∀ (m : Libm F) (q : TableQuery F) (log_10_u : F) (n_h_i : Int) (d_n_h : F) (He_i : Int)
      (d_He : F) (p : part F) (cooling : cooling_function_data F) (cosmo : cosmology F)
      (phys : phys_const F) (element_lambda : Option (Nat → F)) (solar_ratio : Nat → F),
      ¬ (cosmo.z > cooling.Redshifts (cooling.N_Redshifts - 1) ∨
        cosmo.z > cooling.reionisation_redshift) →
      (eagle_metal_cooling_rate m q log_10_u (some 0) n_h_i d_n_h He_i d_He p cooling cosmo phys
        element_lambda solar_ratio).dlambda_du =
        some ((eagle_rate_at_offset m q log_10_u n_h_i d_n_h He_i d_He p cooling cosmo phys
              solar_ratio 1 -
          eagle_rate_at_offset m q log_10_u n_h_i d_n_h He_i d_He p cooling cosmo phys
              solar_ratio 0) /
          (m.exp (m.M_LN10 * cooling.Temp ((q.get_index_1d cooling.Temp cooling.N_Temp
              (q.eagle_convert_u_to_temp log_10_u n_h_i He_i d_n_h d_He cooling cosmo).1).1 +
                1).toNat) -
            m.exp (m.M_LN10 * cooling.Temp (q.get_index_1d cooling.Temp cooling.N_Temp
              (q.eagle_convert_u_to_temp log_10_u n_h_i He_i d_n_h d_He cooling cosmo).1).1.toNat)) *
          (q.eagle_convert_u_to_temp log_10_u n_h_i He_i d_n_h d_He cooling cosmo).2)) ∧
    ∃ m : Libm ℝ, real_libm m ∧
      (eagle_metal_cooling_rate m (ex_query_offset ℝ) 0 (some 0) 0 0 0 0 (ex_part ℝ 1 0)
        (ex_cooling_cmb ℝ) ⟨1, 0, 0⟩ ⟨1⟩ none (fun _ => 0)).dlambda_du = some (1 / 9) ∧
      (eagle_rate_at_offset m (ex_query_offset ℝ) 0 0 0 0 0 (ex_part ℝ 1 0) (ex_cooling_cmb ℝ)
          ⟨1, 0, 0⟩ ⟨1⟩ (fun _ => 0) 1 -
        eagle_rate_at_offset m (ex_query_offset ℝ) 0 0 0 0 0 (ex_part ℝ 1 0) (ex_cooling_cmb ℝ)
          ⟨1, 0, 0⟩ ⟨1⟩ (fun _ => 0) 0) /
        (m.exp (m.M_LN10 * (ex_cooling_cmb ℝ).Temp 1) -
          m.exp (m.M_LN10 * (ex_cooling_cmb ℝ).Temp 0)) *
        ((ex_query_offset ℝ).eagle_convert_u_to_temp 0 0 0 0 0 (ex_cooling_cmb ℝ) ⟨1, 0, 0⟩).2 =
        25 / 9 := by
  refine ⟨fun m q log_10_u n_h_i d_n_h He_i d_He p cooling cosmo phys element_lambda
      solar_ratio => eagle_derivative_finite_difference m q log_10_u n_h_i d_n_h He_i d_He p
      cooling cosmo phys element_lambda solar_ratio, ?_, ?_⟩
  · intro m q log_10_u n_h_i d_n_h He_i d_He p cooling cosmo phys element_lambda solar_ratio hc
    rw [eagle_derivative_finite_difference]
    simp only [eagle_compton_at_offset, if_neg hc, sub_zero]
  · obtain ⟨h1, h2, h3, h4⟩ := ex_offset_derivative
      { exp := Real.exp, log := Real.log, log10 := fun x => Real.log x / Real.log 10,
        erf := fun x => 2 / Real.sqrt Real.pi * ∫ t in (0 : ℝ)..x, Real.exp (-(t ^ 2)),
        M_SQRT2 := Real.sqrt 2, M_LOG10E := 1 / Real.log 10, M_LN10 := Real.log 10, to_float := fun x => x }
      ⟨rfl, rfl, rfl, rfl, rfl, rfl, rfl⟩
    refine ⟨_, ⟨rfl, rfl, rfl, rfl, rfl, rfl, rfl⟩, h1, ?_⟩
    rw [h2, h3, h4]
    norm_num [ex_query_offset]

/-! ## The redshift bracket (C29, C30) -/

/-- C29 (amended): `cooling_update` makes its tests on the redshift narrowed
to `float` (line 80).  It stores `z_index = -2`, `dz = 0` when
`(float)z > reionisation_redshift` (also when
`(float)z > Redshifts[N_Redshifts - 1]` holds as well), otherwise
`z_index = -1`, `dz = 0` when `(float)z > Redshifts[N_Redshifts - 1]`,
otherwise the pair that `get_redshift_index` leaves for `(float)z` (entered
with `-1` and `0`); no other field changes before
`eagle_check_cooling_tables` receives the result. -/
theorem cooling_update_stores_bracket (m : Libm F) (get_redshift_index : RedshiftIndexFn F)
    (eagle_check_cooling_tables : cooling_function_data F → Int → cooling_function_data F)
    (cosmo : cosmology F) (cooling : cooling_function_data F) (restart_flag : Int) :
    (m.to_float cosmo.z > cooling.reionisation_redshift →
      (cooling_update_bracket m get_redshift_index cosmo cooling).z_index = -2 ∧
      (cooling_update_bracket m get_redshift_index cosmo cooling).dz = 0) ∧
    (¬ m.to_float cosmo.z > cooling.reionisation_redshift →
      m.to_float cosmo.z > cooling.Redshifts (cooling.N_Redshifts - 1) →
      (cooling_update_bracket m get_redshift_index cosmo cooling).z_index = -1 ∧
      (cooling_update_bracket m get_redshift_index cosmo cooling).dz = 0) ∧
    (¬ m.to_float cosmo.z > cooling.reionisation_redshift →
      ¬ m.to_float cosmo.z > cooling.Redshifts (cooling.N_Redshifts - 1) →
      ((cooling_update_bracket m get_redshift_index cosmo cooling).z_index,
        (cooling_update_bracket m get_redshift_index cosmo cooling).dz) =
        get_redshift_index (m.to_float cosmo.z) (-1) 0 cooling) ∧
    cooling_update_bracket m get_redshift_index cosmo cooling =
      { cooling with
        z_index := (cooling_update_bracket m get_redshift_index cosmo cooling).z_index
        dz := (cooling_update_bracket m get_redshift_index cosmo cooling).dz } ∧
    cooling_update m get_redshift_index eagle_check_cooling_tables cosmo cooling restart_flag =
      eagle_check_cooling_tables (cooling_update_bracket m get_redshift_index cosmo cooling)
        restart_flag := by
  refine ⟨fun h => ?_, fun h1 h2 => ?_, fun h1 h2 => ?_, rfl, rfl⟩
  · simp [cooling_update_bracket, h]
  · simp [cooling_update_bracket, h1, h2]
  · simp [cooling_update_bracket, h1, h2]

/-- C29 counterexample: reionisation redshift 5 below a redshift grid that
ends at 9, the redshift `z = 5 + 2^-30` and the conversion `binary32`, with a
resolver that returns the pair `(4, 1/2)`.  `z > reionisation_redshift`, but
`(float)z = 5` is not, and `cooling_update` stores the resolver's pair, not
`z_index = -2`, `dz = 0`. -/
theorem cooling_update_float_redshift_counterexample :
    (⟨5 + 1 / 2 ^ 30, 0, 0⟩ : cosmology ℚ).z > (ex_cooling_late_reion ℚ).reionisation_redshift ∧
    ex_libm_float.to_float (⟨5 + 1 / 2 ^ 30, 0, 0⟩ : cosmology ℚ).z = 5 ∧
    (cooling_update_bracket ex_libm_float (fun _ _ _ _ => (4, 1 / 2)) ⟨5 + 1 / 2 ^ 30, 0, 0⟩
      (ex_cooling_late_reion ℚ)).z_index = 4 ∧
    (cooling_update_bracket ex_libm_float (fun _ _ _ _ => (4, 1 / 2)) ⟨5 + 1 / 2 ^ 30, 0, 0⟩
      (ex_cooling_late_reion ℚ)).dz = 1 / 2 := by
  have h5 : ex_libm_float.to_float (5 + 1 / 2 ^ 30) = 5 := binary32_five_plus
  refine ⟨?_, h5, ?_, ?_⟩
  · simp [ex_cooling_late_reion]
  · simp only [cooling_update_bracket, h5]
    norm_num [ex_cooling_late_reion]
  · simp only [cooling_update_bracket, h5]
    norm_num [ex_cooling_late_reion]

theorem metal_fold_entries (f : metal_rate_out F → Nat → metal_rate_out F) (g : Nat → F)
    (hrate : ∀ st i, (f st i).cooling_rate = st.cooling_rate + g i)
    (hel : ∀ st i, (f st i).element_lambda =
      st.element_lambda.map (fun a => Function.update a (i + 2) (g i)))
    (n : Nat) (st : metal_rate_out F) (a : Nat → F) (c0 : F)
    (hst : st.element_lambda = some a) (h0 : a 0 = c0) :
    ∃ b : Nat → F, (((List.range n).foldl f st).element_lambda = some b ∧ b 0 = c0 ∧
      ∀ i, i < n → b (i + 2) = g i) ∧
      ((List.range n).foldl f st).cooling_rate =
        st.cooling_rate + ∑ i in Finset.range n, b (i + 2) := by
  induction n with
  | zero => exact ⟨a, ⟨by simpa using hst, h0, fun i hi => absurd hi (Nat.not_lt_zero i)⟩,
      by simp⟩
  | succ k ih =>
    obtain ⟨b, ⟨hb, hb0, hbi⟩, hr⟩ := ih
    refine ⟨Function.update b (k + 2) (g k), ⟨?_, ?_, ?_⟩, ?_⟩
    · rw [List.range_succ, List.foldl_append, List.foldl_cons, List.foldl_nil, hel, hb]
      rfl
    · rw [Function.update_noteq (by omega)]
      exact hb0
    · intro i hi
      by_cases hik : i = k
      · rw [hik, Function.update_same]
      · rw [Function.update_noteq (by omega)]
        exact hbi i (by omega)
    · rw [List.range_succ, List.foldl_append, List.foldl_cons, List.foldl_nil, hrate, hr,
        Finset.sum_range_succ, Function.update_same, add_assoc]
      congr 2
      refine Finset.sum_congr rfl (fun i hi => ?_)
      rw [Function.update_noteq (by have := Finset.mem_range.mp hi; omega)]

theorem metal_step_highz_query (q : TableQuery F)
    (f4 : (Nat → F) → Int → Int → Int → Int → F → F → F → F → Nat → Nat → Nat → Nat → F)
    (cooling : cooling_function_data F) (n_h_i : Int) (d_n_h : F) (v : metal_rate_locals F)
    (solar_ratio : Nat → F) :
    metal_step_highz { q with interpolate_4d := f4 } cooling n_h_i d_n_h v solar_ratio =
      metal_step_highz q cooling n_h_i d_n_h v solar_ratio := rfl

theorem eagle_rate_highz_query (m : Libm F) (q : TableQuery F)
    (f4 : (Nat → F) → Int → Int → Int → Int → F → F → F → F → Nat → Nat → Nat → Nat → F)
    (log_10_u : F) (dlambda_du : Option F) (n_h_i : Int) (d_n_h : F) (He_i : Int) (d_He : F)
    (p : part F) (cooling : cooling_function_data F) (cosmo : cosmology F)
    (phys : phys_const F) (element_lambda : Option (Nat → F)) (solar_ratio : Nat → F)
    (hz : cosmo.z > cooling.Redshifts (cooling.N_Redshifts - 1)) :
    eagle_metal_cooling_rate m { q with interpolate_4d := f4 } log_10_u dlambda_du n_h_i d_n_h
        He_i d_He p cooling cosmo phys element_lambda solar_ratio =
      eagle_metal_cooling_rate m q log_10_u dlambda_du n_h_i d_n_h He_i d_He p cooling cosmo
        phys element_lambda solar_ratio := by
  unfold eagle_metal_cooling_rate
  simp only [hz, if_true, true_or, metal_step_highz_query, metal_free_lookups,
    solar_electron_lookups]

theorem eagle_rate_entries_highz (m : Libm F) (q : TableQuery F)
    (log_10_u : F) (dlambda_du : Option F) (n_h_i : Int) (d_n_h : F) (He_i : Int) (d_He : F)
    (p : part F) (cooling : cooling_function_data F) (cosmo : cosmology F)
    (phys : phys_const F) (solar_ratio : Nat → F)
    (hz : cosmo.z > cooling.Redshifts (cooling.N_Redshifts - 1)) :
    ∃ b : Nat → F,
      (eagle_metal_cooling_rate m q log_10_u dlambda_du n_h_i d_n_h He_i d_He p cooling cosmo
        phys (some (fun _ => 0)) solar_ratio).element_lambda = some b ∧
      b 0 = q.interpolate_3d cooling.table.H_plus_He_heating n_h_i He_i
        (q.get_index_1d cooling.Temp cooling.N_Temp
          (q.eagle_convert_u_to_temp log_10_u n_h_i He_i d_n_h d_He cooling cosmo).1).1 d_n_h d_He
        (q.get_index_1d cooling.Temp cooling.N_Temp
          (q.eagle_convert_u_to_temp log_10_u n_h_i He_i d_n_h d_He cooling cosmo).1).2 cooling.N_nH cooling.N_He cooling.N_Temp ∧
      ∀ i, i < cooling.N_Elements →
        b (i + 2) = q.interpolate_3d cooling.table.metal_heating n_h_i
            (q.get_index_1d cooling.Temp cooling.N_Temp
          (q.eagle_convert_u_to_temp log_10_u n_h_i He_i d_n_h d_He cooling cosmo).1).1 (i : Int) d_n_h
            (q.get_index_1d cooling.Temp cooling.N_Temp
          (q.eagle_convert_u_to_temp log_10_u n_h_i He_i d_n_h d_He cooling cosmo).1).2 0 cooling.N_nH cooling.N_Temp cooling.N_Elements *
          (q.interpolate_3d cooling.table.H_plus_He_electron_abundance n_h_i He_i
              (q.get_index_1d cooling.Temp cooling.N_Temp
          (q.eagle_convert_u_to_temp log_10_u n_h_i He_i d_n_h d_He cooling cosmo).1).1 d_n_h d_He
              (q.get_index_1d cooling.Temp cooling.N_Temp
          (q.eagle_convert_u_to_temp log_10_u n_h_i He_i d_n_h d_He cooling cosmo).1).2 cooling.N_nH cooling.N_He cooling.N_Temp /
            q.interpolate_2d cooling.table.electron_abundance n_h_i
              (q.get_index_1d cooling.Temp cooling.N_Temp
          (q.eagle_convert_u_to_temp log_10_u n_h_i He_i d_n_h d_He cooling cosmo).1).1 d_n_h
              (q.get_index_1d cooling.Temp cooling.N_Temp
          (q.eagle_convert_u_to_temp log_10_u n_h_i He_i d_n_h d_He cooling cosmo).1).2 cooling.N_nH cooling.N_Temp) *
          solar_ratio (i + 2) := by
  unfold eagle_metal_cooling_rate
  cases dlambda_du with
  | none =>
    simp only [hz, if_true, true_or, metal_free_lookups, solar_electron_lookups,
      Option.isSome_none, Bool.false_eq_true, if_false, Option.map_some']
    exact (metal_fold_entries _ _
      (fun st i => (metal_step_highz_contribution q cooling n_h_i d_n_h _ solar_ratio st i).1)
      (fun st i => (metal_step_highz_contribution q cooling n_h_i d_n_h _ solar_ratio st i).2)
      _ _ _ _ rfl (by simp)).imp (fun _ hb => hb.1)
  | some d =>
    simp only [hz, if_true, true_or, metal_free_lookups, solar_electron_lookups,
      Option.isSome_some, Option.map_some']
    exact (metal_fold_entries _ _
      (fun st i => (metal_step_highz_contribution q cooling n_h_i d_n_h _ solar_ratio st i).1)
      (fun st i => (metal_step_highz_contribution q cooling n_h_i d_n_h _ solar_ratio st i).2)
      _ _ _ _ rfl (by simp)).imp (fun _ hb => hb.1)

/-- C30: when `cooling_update` stores a sentinel because the redshift it
tests, `(float)z`, is above `reionisation_redshift` or above
`Redshifts[N_Redshifts - 1]`, and the redshift grid ends at or below the
reionisation redshift, the evaluator run on the updated cooling data does not
depend on `interpolate_4d`, and the entries it writes are the 3-D H+He lookup
and the 3-D metal lookups scaled by the 3-D H+He electron abundance over the
2-D solar electron abundance.  The conversion to `float` is monotone and
leaves the last entry of the `float` array `Redshifts` as it is. -/
theorem eagle_rate_sentinel_lookups (m : Libm F) (q : TableQuery F)
    (get_redshift_index : RedshiftIndexFn F)
    (log_10_u : F) (dlambda_du : Option F) (n_h_i : Int) (d_n_h : F) (He_i : Int) (d_He : F)
    (p : part F) (cooling c : cooling_function_data F) (cosmo : cosmology F)
    (phys : phys_const F) (solar_ratio : Nat → F)
    (hc : c = cooling_update_bracket m get_redshift_index cosmo cooling)
    (hgrid : cooling.Redshifts (cooling.N_Redshifts - 1) ≤ cooling.reionisation_redshift)
    (hmono : ∀ x y : F, x ≤ y → m.to_float x ≤ m.to_float y)
    (hlast : m.to_float (cooling.Redshifts (cooling.N_Redshifts - 1)) =
      cooling.Redshifts (cooling.N_Redshifts - 1))
    (hsent : m.to_float cosmo.z > cooling.reionisation_redshift ∨
      m.to_float cosmo.z > cooling.Redshifts (cooling.N_Redshifts - 1)) :
    (c.z_index = -2 ∨ c.z_index = -1) ∧ c.dz = 0 ∧
    (∀ (f4 : (Nat → F) → Int → Int → Int → Int → F → F → F → F → Nat → Nat → Nat → Nat → F)
      (element_lambda : Option (Nat → F)),
      eagle_metal_cooling_rate m { q with interpolate_4d := f4 } log_10_u dlambda_du n_h_i d_n_h
          He_i d_He p c cosmo phys element_lambda solar_ratio =
        eagle_metal_cooling_rate m q log_10_u dlambda_du n_h_i d_n_h He_i d_He p c cosmo
          phys element_lambda solar_ratio) ∧
    ∃ b : Nat → F,
      (eagle_metal_cooling_rate m q log_10_u dlambda_du n_h_i d_n_h He_i d_He p c cosmo
        phys (some (fun _ => 0)) solar_ratio).element_lambda = some b ∧
      b 0 = q.interpolate_3d c.table.H_plus_He_heating n_h_i He_i
        (q.get_index_1d c.Temp c.N_Temp
          (q.eagle_convert_u_to_temp log_10_u n_h_i He_i d_n_h d_He c cosmo).1).1 d_n_h d_He
        (q.get_index_1d c.Temp c.N_Temp
          (q.eagle_convert_u_to_temp log_10_u n_h_i He_i d_n_h d_He c cosmo).1).2 c.N_nH c.N_He c.N_Temp ∧
      ∀ i, i < c.N_Elements →
        b (i + 2) = q.interpolate_3d c.table.metal_heating n_h_i
            (q.get_index_1d c.Temp c.N_Temp
          (q.eagle_convert_u_to_temp log_10_u n_h_i He_i d_n_h d_He c cosmo).1).1 (i : Int) d_n_h
            (q.get_index_1d c.Temp c.N_Temp
          (q.eagle_convert_u_to_temp log_10_u n_h_i He_i d_n_h d_He c cosmo).1).2 0 c.N_nH c.N_Temp c.N_Elements *
          (q.interpolate_3d c.table.H_plus_He_electron_abundance n_h_i He_i
              (q.get_index_1d c.Temp c.N_Temp
          (q.eagle_convert_u_to_temp log_10_u n_h_i He_i d_n_h d_He c cosmo).1).1 d_n_h d_He
              (q.get_index_1d c.Temp c.N_Temp
          (q.eagle_convert_u_to_temp log_10_u n_h_i He_i d_n_h d_He c cosmo).1).2 c.N_nH c.N_He c.N_Temp /
            q.interpolate_2d c.table.electron_abundance n_h_i
              (q.get_index_1d c.Temp c.N_Temp
          (q.eagle_convert_u_to_temp log_10_u n_h_i He_i d_n_h d_He c cosmo).1).1 d_n_h
              (q.get_index_1d c.Temp c.N_Temp
          (q.eagle_convert_u_to_temp log_10_u n_h_i He_i d_n_h d_He c cosmo).1).2 c.N_nH c.N_Temp) *
          solar_ratio (i + 2) := by
  have hzf : m.to_float cosmo.z > cooling.Redshifts (cooling.N_Redshifts - 1) :=
    hsent.elim (fun h => lt_of_le_of_lt hgrid h) id
  have hz : cosmo.z > cooling.Redshifts (cooling.N_Redshifts - 1) := by
    by_contra hn
    have h1 := hmono _ _ (not_lt.mp hn)
    rw [hlast] at h1
    exact absurd hzf (not_lt.mpr h1)
  subst hc
  refine ⟨?_, ?_, fun f4 element_lambda => ?_, ?_⟩
  · by_cases hr : m.to_float cosmo.z > cooling.reionisation_redshift
    · exact Or.inl (by simp [cooling_update_bracket, hr])
    · exact Or.inr (by simp [cooling_update_bracket, hr, hzf])
  · by_cases hr : m.to_float cosmo.z > cooling.reionisation_redshift
    · simp [cooling_update_bracket, hr]
    · simp [cooling_update_bracket, hr, hzf]
  · exact eagle_rate_highz_query m q f4 log_10_u dlambda_du n_h_i d_n_h He_i d_He p _ cosmo phys
      element_lambda solar_ratio hz
  · exact eagle_rate_entries_highz m q log_10_u dlambda_du n_h_i d_n_h He_i d_He p _ cosmo phys
      solar_ratio hz

theorem eagle_rate_sentinel_lookups_witness :
    ((ex_cooling ℚ false).Redshifts ((ex_cooling ℚ false).N_Redshifts - 1) ≤
        (ex_cooling ℚ false).reionisation_redshift ∧
      (ex_libm.to_float (⟨1, 0, 0⟩ : cosmology ℚ).z >
          (ex_cooling ℚ false).reionisation_redshift ∨
        ex_libm.to_float (⟨1, 0, 0⟩ : cosmology ℚ).z >
          (ex_cooling ℚ false).Redshifts ((ex_cooling ℚ false).N_Redshifts - 1))) ∧
    ((cooling_update_bracket ex_libm (ex_redshift_index ℚ) ⟨1, 0, 0⟩ (ex_cooling ℚ false)).z_index = -2 ∨
      (cooling_update_bracket ex_libm (ex_redshift_index ℚ) ⟨1, 0, 0⟩ (ex_cooling ℚ false)).z_index =
        -1) ∧
    (cooling_update_bracket ex_libm (ex_redshift_index ℚ) ⟨1, 0, 0⟩ (ex_cooling ℚ false)).dz = 0 ∧
    ∀ (f4 : (Nat → ℚ) → Int → Int → Int → Int → ℚ → ℚ → ℚ → ℚ → Nat → Nat → Nat → Nat → ℚ)
      (element_lambda : Option (Nat → ℚ)),
      eagle_metal_cooling_rate ex_libm { ex_query ℚ with interpolate_4d := f4 } 0 none 0 0 0 0
          (ex_part ℚ 1 0)
          (cooling_update_bracket ex_libm (ex_redshift_index ℚ) ⟨1, 0, 0⟩ (ex_cooling ℚ false))
          ⟨1, 0, 0⟩ ⟨1⟩ element_lambda (fun _ => 1) =
        eagle_metal_cooling_rate ex_libm (ex_query ℚ) 0 none 0 0 0 0 (ex_part ℚ 1 0)
          (cooling_update_bracket ex_libm (ex_redshift_index ℚ) ⟨1, 0, 0⟩ (ex_cooling ℚ false))
          ⟨1, 0, 0⟩ ⟨1⟩ element_lambda (fun _ => 1) := by
  have hg : (ex_cooling ℚ false).Redshifts ((ex_cooling ℚ false).N_Redshifts - 1) ≤
      (ex_cooling ℚ false).reionisation_redshift := by simp [ex_cooling]
  have hs : ex_libm.to_float (⟨1, 0, 0⟩ : cosmology ℚ).z >
        (ex_cooling ℚ false).reionisation_redshift ∨
      ex_libm.to_float (⟨1, 0, 0⟩ : cosmology ℚ).z >
        (ex_cooling ℚ false).Redshifts ((ex_cooling ℚ false).N_Redshifts - 1) :=
    Or.inl (by simp [ex_cooling, ex_libm])
  have h := eagle_rate_sentinel_lookups ex_libm (ex_query ℚ) (ex_redshift_index ℚ) 0 none 0 0 0 0
    (ex_part ℚ 1 0) (ex_cooling ℚ false) _ ⟨1, 0, 0⟩ ⟨1⟩ (fun _ => 1) rfl hg
    (fun _ _ h => h) rfl hs
  exact ⟨⟨hg, hs⟩, h.1, h.2.1, h.2.2.1⟩

theorem eagle_rate_sentinel_counterexample :
    (⟨7, 0, 0⟩ : cosmology ℚ).z > (ex_cooling_late_reion ℚ).reionisation_redshift ∧
    (cooling_update_bracket ex_libm (ex_redshift_index ℚ) ⟨7, 0, 0⟩ (ex_cooling_late_reion ℚ)).z_index =
      -2 ∧
    (eagle_metal_cooling_rate ex_libm (ex_query_blend ℚ 2) 0 none 0 0 0 0 (ex_part ℚ 1 0)
      (cooling_update_bracket ex_libm (ex_redshift_index ℚ) ⟨7, 0, 0⟩ (ex_cooling_late_reion ℚ))
      ⟨7, 0, 0⟩ ⟨1⟩ none (fun _ => 0)).cooling_rate = 2 ∧
    (eagle_metal_cooling_rate ex_libm (ex_query_blend ℚ 3) 0 none 0 0 0 0 (ex_part ℚ 1 0)
      (cooling_update_bracket ex_libm (ex_redshift_index ℚ) ⟨7, 0, 0⟩ (ex_cooling_late_reion ℚ))
      ⟨7, 0, 0⟩ ⟨1⟩ none (fun _ => 0)).cooling_rate = 3 := by
  refine ⟨?_, ?_, ?_, ?_⟩
  · simp [ex_cooling_late_reion, ex_cooling]
    norm_num
  · simp [cooling_update_bracket, ex_cooling_late_reion, ex_cooling, ex_libm]
    norm_num
  · simp [eagle_metal_cooling_rate, metal_free_lookups, solar_electron_lookups,
      metal_step_lowz, metal_lambda_lowz, cooling_update_bracket, ex_query_blend,
      ex_cooling_late_reion, ex_cooling, ex_part, ex_libm, List.range_succ]
    norm_num
  · simp [eagle_metal_cooling_rate, metal_free_lookups, solar_electron_lookups,
      metal_step_lowz, metal_lambda_lowz, cooling_update_bracket, ex_query_blend,
      ex_cooling_late_reion, ex_cooling, ex_part, ex_libm, List.range_succ]
    norm_num

/-! ## The abundance ratios (C31) -/

/-- C31: `abundance_ratio_to_solar` writes each of the
`chemistry_element_count + 2` entries, whatever the array held before: entry
`e` of a tracked element other than iron is
`mass_fraction[e] / SolarAbundances[e]`, the iron entry is
`mass_fraction[Fe] / SolarAbundances[Fe + 2]`, entry `count` is
`mass_fraction[Si] * sulphur_over_silicon / SolarAbundances[count - 1]` and
entry `count + 1` is
`mass_fraction[Si] * calcium_over_silicon / SolarAbundances[count]`; no entry
beyond these is written. -/
theorem abundance_ratio_to_solar_fills (p : part F) (cooling : cooling_function_data F)
    (r0 : Nat → F) :
    (∀ e, e < chemistry_element_count → e ≠ chemistry_element_Fe →
      abundance_ratio_to_solar p cooling r0 e =
        p.smoothed_metal_mass_fraction e / cooling.SolarAbundances e) ∧
    abundance_ratio_to_solar p cooling r0 chemistry_element_Fe =
      p.smoothed_metal_mass_fraction chemistry_element_Fe /
        cooling.SolarAbundances (chemistry_element_Fe + 2) ∧
    abundance_ratio_to_solar p cooling r0 chemistry_element_count =
      p.smoothed_metal_mass_fraction chemistry_element_Si * cooling.sulphur_over_silicon_ratio /
        cooling.SolarAbundances (chemistry_element_count - 1) ∧
    abundance_ratio_to_solar p cooling r0 (chemistry_element_count + 1) =
      p.smoothed_metal_mass_fraction chemistry_element_Si * cooling.calcium_over_silicon_ratio /
        cooling.SolarAbundances chemistry_element_count ∧
    (∀ (r1 : Nat → F) k, k < chemistry_element_count + 2 →
      abundance_ratio_to_solar p cooling r0 k = abundance_ratio_to_solar p cooling r1 k) ∧
    (∀ k, chemistry_element_count + 2 ≤ k → abundance_ratio_to_solar p cooling r0 k = r0 k) := by
  have h0 := abundance_ratio_to_solar_slots p cooling r0
  refine ⟨?_, h0.2.1, h0.2.2.1, h0.2.2.2, ?_, ?_⟩
  · intro e he hFe
    refine h0.1 e ?_
    simp only [chemistry_element_count, chemistry_element_Fe] at he hFe
    omega
  · intro r1 k hk
    have h1 := abundance_ratio_to_solar_slots p cooling r1
    simp only [chemistry_element_count] at hk
    by_cases h8 : k < 8
    · rw [h0.1 k h8, h1.1 k h8]
    · have hk3 : k = 8 ∨ k = 9 ∨ k = 10 := by omega
      rcases hk3 with h | h | h
      · rw [h, h0.2.1, h1.2.1]
      · rw [h, h0.2.2.1, h1.2.2.1]
      · rw [h, h0.2.2.2, h1.2.2.2]
  · intro k hk
    simp only [chemistry_element_count] at hk
    simp only [abundance_ratio_to_solar, abundance_ratio_elem, chemistry_element_count,
      chemistry_element_Fe, List.range_succ, List.range_zero, List.nil_append,
      List.foldl_append, List.foldl_cons, List.foldl_nil]
    simp only [Nat.reduceAdd, Nat.reduceEqDiff, if_false, if_true]
    rw [Function.update_noteq (by omega), Function.update_noteq (by omega)]
    repeat rw [Function.update_noteq (by omega)]

/-! ## The test helper `random_uniform` (C34) -/

/-- C34: for `a < b` and a value `r` of `rand()` with `0 ≤ r ≤ RAND_MAX`,
`random_uniform(a, b)` is `a - (r / RAND_MAX) (b - a)`, a number between
`2a - b` and `a`: the code multiplies by `(a - b)`, not by `(b - a)`.  It lies
in `[a, b[` only for `r = 0`, where it is `a`; for every `r > 0` it is below
`a`, and `r = RAND_MAX` gives `2a - b`. -/
theorem random_uniform_range (rand RAND_MAX : Nat) (a b : F) (hab : a < b)
    (hmax : 0 < RAND_MAX) (hr : rand ≤ RAND_MAX) :
    random_uniform rand RAND_MAX a b = a - ((rand : F) / (RAND_MAX : F)) * (b - a) ∧
    2 * a - b ≤ random_uniform rand RAND_MAX a b ∧
    random_uniform rand RAND_MAX a b ≤ a ∧
    ((a ≤ random_uniform rand RAND_MAX a b ∧ random_uniform rand RAND_MAX a b < b) ↔
      rand = 0) ∧
    (0 < rand → random_uniform rand RAND_MAX a b < a) ∧
    random_uniform RAND_MAX RAND_MAX a b = 2 * a - b := by
  have hM : (0 : F) < (RAND_MAX : F) := by exact_mod_cast hmax
  have hr0 : (0 : F) ≤ (rand : F) / (RAND_MAX : F) := div_nonneg (Nat.cast_nonneg _) hM.le
  have hr1 : (rand : F) / (RAND_MAX : F) ≤ 1 := by
    rw [div_le_one hM]
    exact_mod_cast hr
  have hba : 0 < b - a := sub_pos.mpr hab
  have e : random_uniform rand RAND_MAX a b = a - ((rand : F) / (RAND_MAX : F)) * (b - a) := by
    unfold random_uniform
    ring
  have hpos : 0 < rand → random_uniform rand RAND_MAX a b < a := by
    intro h
    have h2 : (0 : F) < (rand : F) / (RAND_MAX : F) := div_pos (by exact_mod_cast h) hM
    rw [e]
    nlinarith [mul_pos h2 hba]
  refine ⟨e, ?_, ?_, ?_, hpos, ?_⟩
  · rw [e]
    nlinarith [mul_le_mul_of_nonneg_right hr1 hba.le]
  · rw [e]
    nlinarith [mul_nonneg hr0 hba.le]
  · constructor
    · intro h
      by_contra h0
      exact absurd h.1 (not_le.mpr (hpos (Nat.pos_of_ne_zero h0)))
    · intro h
      subst h
      simp [random_uniform, hab]
  · unfold random_uniform
    rw [div_self hM.ne']
    ring

/-- C34 witness: `random_uniform(-0.5, 0.5)` as `make_cell` calls it, with
`RAND_MAX = 2147483647`; the value `rand() = RAND_MAX` gives `-1.5`. -/
theorem random_uniform_range_witness :
    ((-1 / 2 : ℚ) < 1 / 2 ∧ 0 < 2147483647 ∧ 2147483647 ≤ 2147483647) ∧
    random_uniform 2147483647 2147483647 (-1 / 2 : ℚ) (1 / 2) = -3 / 2 ∧
    ¬ ((-1 / 2 : ℚ) ≤ random_uniform 2147483647 2147483647 (-1 / 2 : ℚ) (1 / 2)) := by
  have h := random_uniform_range 2147483647 2147483647 (-1 / 2 : ℚ) (1 / 2) (by norm_num)
    (by norm_num) (le_refl _)
  refine ⟨⟨by norm_num, by norm_num, le_refl _⟩, ?_, ?_⟩
  · rw [h.2.2.2.2.2]
    norm_num
  · rw [h.2.2.2.2.2]
    norm_num

/-! ## Particle-particle gravity (C37, C38) -/

/-- C37: for every `r2`, `dx` and pair of particles, particle `i` after
`runner_iact_grav_pp_nonsym` is particle `i` after `runner_iact_grav_pp`
(same `a_grav`, same `mass_interacted`, other fields untouched), and particle
`j` is as it came. -/
theorem runner_iact_grav_pp_nonsym_agrees (to_float sqrtf kernel_grav_eval : F → F) (r2 : F)
    (dx : Nat → F) (gpi gpj : gpart F) :
    (runner_iact_grav_pp_nonsym to_float sqrtf kernel_grav_eval r2 dx gpi gpj).1 =
      (runner_iact_grav_pp to_float sqrtf kernel_grav_eval r2 dx gpi gpj).1 ∧
    (runner_iact_grav_pp_nonsym to_float sqrtf kernel_grav_eval r2 dx gpi gpj).2 = gpj ∧
    (runner_iact_grav_pp to_float sqrtf kernel_grav_eval r2 dx gpi gpj).1.mass = gpi.mass ∧
    (runner_iact_grav_pp to_float sqrtf kernel_grav_eval r2 dx gpi gpj).1.epsilon =
      gpi.epsilon ∧
    (runner_iact_grav_pp to_float sqrtf kernel_grav_eval r2 dx gpi gpj).1.mass_interacted =
      to_float (gpi.mass_interacted + gpj.mass) :=
  ⟨rfl, rfl, rfl, rfl, rfl⟩

theorem runner_iact_grav_pp_newtonian (to_float sqrtf kernel_grav_eval : F → F) (r2 : F)
    (dx : Nat → F) (gpi gpj : gpart F) (hi : sqrtf r2 ≥ gpi.epsilon)
    (hj : sqrtf r2 ≥ gpj.epsilon) (k : Nat) :
    (k < 3 →
      (runner_iact_grav_pp to_float sqrtf kernel_grav_eval r2 dx gpi gpj).1.a_grav k =
          to_float (gpi.a_grav k - to_float (to_float (to_float (to_float
            (gpj.mass * to_float (1 / sqrtf r2)) * to_float (1 / sqrtf r2)) *
            to_float (1 / sqrtf r2)) * dx k)) ∧
      (runner_iact_grav_pp to_float sqrtf kernel_grav_eval r2 dx gpi gpj).2.a_grav k =
          to_float (gpj.a_grav k + to_float (to_float (to_float (to_float
            (gpi.mass * to_float (1 / sqrtf r2)) * to_float (1 / sqrtf r2)) *
            to_float (1 / sqrtf r2)) * dx k))) ∧
    (3 ≤ k →
      (runner_iact_grav_pp to_float sqrtf kernel_grav_eval r2 dx gpi gpj).1.a_grav k =
        gpi.a_grav k ∧
      (runner_iact_grav_pp to_float sqrtf kernel_grav_eval r2 dx gpi gpj).2.a_grav k =
        gpj.a_grav k) := by
  constructor
  · intro hk
    have hk3 : k = 0 ∨ k = 1 ∨ k = 2 := by omega
    rcases hk3 with h | h | h <;> subst h <;>
      simp [runner_iact_grav_pp, hi, hj, Function.update]
  · intro hk
    simp only [runner_iact_grav_pp]
    constructor
    · rw [Function.update_noteq (by omega), Function.update_noteq (by omega),
        Function.update_noteq (by omega)]
    · rw [Function.update_noteq (by omega), Function.update_noteq (by omega),
        Function.update_noteq (by omega)]

theorem to_float_mul_error (to_float : F → F) (ε : F) (hε : 0 ≤ ε)
    (hfl : ∀ x, |to_float x - x| ≤ ε * |x|) (a A b B α β : F) (hα : 0 ≤ α)
    (ha : |a - A| ≤ α * |A|) (hb : |b - B| ≤ β * |B|) :
    |to_float (a * b) - A * B| ≤ ((1 + α) * (1 + β) * (1 + ε) - 1) * |A * B| := by
  have hA : |a| ≤ (1 + α) * |A| := by
    have := abs_sub_abs_le_abs_sub a A
    linarith
  have hB : |b| ≤ (1 + β) * |B| := by
    have := abs_sub_abs_le_abs_sub b B
    linarith
  have hab : |a * b| ≤ (1 + α) * (1 + β) * (|A| * |B|) := by
    rw [abs_mul]
    calc |a| * |b| ≤ ((1 + α) * |A|) * ((1 + β) * |B|) :=
          mul_le_mul hA hB (abs_nonneg _) (by positivity)
      _ = (1 + α) * (1 + β) * (|A| * |B|) := by ring
  have hd : |a * b - A * B| ≤ (α * (1 + β) + β) * (|A| * |B|) := by
    have e : a * b - A * B = (a - A) * b + A * (b - B) := by ring
    rw [e]
    calc |(a - A) * b + A * (b - B)| ≤ |(a - A) * b| + |A * (b - B)| := abs_add _ _
      _ = |a - A| * |b| + |A| * |b - B| := by rw [abs_mul, abs_mul]
      _ ≤ (α * |A|) * ((1 + β) * |B|) + |A| * (β * |B|) :=
          add_le_add (mul_le_mul ha hB (abs_nonneg _) (by positivity))
            (mul_le_mul_of_nonneg_left hb (abs_nonneg _))
      _ = (α * (1 + β) + β) * (|A| * |B|) := by ring
  have h1 := hfl (a * b)
  have h2 : ε * |a * b| ≤ ε * ((1 + α) * (1 + β) * (|A| * |B|)) :=
    mul_le_mul_of_nonneg_left hab hε
  have e : to_float (a * b) - A * B = (to_float (a * b) - a * b) + (a * b - A * B) := by ring
  rw [e, abs_mul]
  calc |to_float (a * b) - a * b + (a * b - A * B)|
      ≤ |to_float (a * b) - a * b| + |a * b - A * B| := abs_add _ _
    _ ≤ ε * ((1 + α) * (1 + β) * (|A| * |B|)) + (α * (1 + β) + β) * (|A| * |B|) :=
        add_le_add (le_trans h1 h2) hd
    _ = ((1 + α) * (1 + β) * (1 + ε) - 1) * (|A| * |B|) := by ring

theorem to_float_newtonian_error (to_float : F → F) (ε : F) (hε : 0 ≤ ε)
    (hfl : ∀ x, |to_float x - x| ≤ ε * |x|) (mass r d : F) :
    |to_float (to_float (to_float (to_float (mass * to_float (1 / r)) * to_float (1 / r)) *
        to_float (1 / r)) * d) - mass / r ^ 3 * d| ≤
      ((1 + ε) ^ 7 - 1) * |mass / r ^ 3 * d| := by
  have hp : ∀ n : Nat, 0 ≤ (1 + ε) ^ n - 1 := fun n => by
    have : (1 : F) ≤ (1 + ε) ^ n := one_le_pow₀ (by linarith)
    linarith
  have h0 : |to_float (1 / r) - 1 / r| ≤ ε * |1 / r| := hfl _
  have hm : |mass - mass| ≤ 0 * |mass| := by simp
  have hd : |d - d| ≤ 0 * |d| := by simp
  have h1 := to_float_mul_error to_float ε hε hfl mass mass (to_float (1 / r)) (1 / r) 0 ε
    le_rfl hm h0
  have h1' : |to_float (mass * to_float (1 / r)) - mass * (1 / r)| ≤
      ((1 + ε) ^ 2 - 1) * |mass * (1 / r)| := le_of_le_of_eq h1 (by ring)
  have h2 := to_float_mul_error to_float ε hε hfl _ _ (to_float (1 / r)) (1 / r) _ ε
    (hp 2) h1' h0
  have h2' : |to_float (to_float (mass * to_float (1 / r)) * to_float (1 / r)) -
      mass * (1 / r) * (1 / r)| ≤ ((1 + ε) ^ 4 - 1) * |mass * (1 / r) * (1 / r)| :=
    le_of_le_of_eq h2 (by ring)
  have h3 := to_float_mul_error to_float ε hε hfl _ _ (to_float (1 / r)) (1 / r) _ ε
    (hp 4) h2' h0
  have h3' : |to_float (to_float (to_float (mass * to_float (1 / r)) * to_float (1 / r)) *
      to_float (1 / r)) - mass * (1 / r) * (1 / r) * (1 / r)| ≤
      ((1 + ε) ^ 6 - 1) * |mass * (1 / r) * (1 / r) * (1 / r)| :=
    le_of_le_of_eq h3 (by ring)
  have h4 := to_float_mul_error to_float ε hε hfl _ _ d d _ 0 (hp 6) h3' hd
  have e : mass * (1 / r) * (1 / r) * (1 / r) * d = mass / r ^ 3 * d := by
    simp only [one_div, div_eq_mul_inv, inv_pow]
    ring
  rw [e] at h4
  exact le_of_le_of_eq h4 (by ring)

/-- C38 (amended): every operation of `runner_iact_grav_pp` is rounded to
`float`.  When `r = sqrtf(r2) > 0` is at or beyond both softening lengths,
component `k < 3` of `a_grav` of particle `i` becomes
`(float)(a_i[k] - fidx[k])` and of particle `j` `(float)(a_j[k] + fjdx[k])`,
where `fidx[k]` is `(m_j / r^3) dx[k]` and `fjdx[k]` is `(m_i / r^3) dx[k]`,
each computed with one rounded quotient and four rounded products;
`mass_interacted` of each particle becomes the rounded sum with the mass of
the other, and masses and softening lengths stay.  For a conversion with
relative error at most `ε` the two values differ from the exact ones by at
most the share `(1 + ε)^7 - 1`, the balance `m_i fidx[k] - m_j fjdx[k]` is at
most `2 ((1 + ε)^7 - 1) |m_i m_j / r^3 dx[k]|` in size, and the balance of
the stored increments adds the rounding of the two sums; with `ε = 0`, a
conversion without rounding, these are the equalities of exact arithmetic. -/
theorem runner_iact_grav_pp_momentum (to_float sqrtf kernel_grav_eval : F → F) (r2 : F)
    (dx : Nat → F) (gpi gpj : gpart F) (fidx fjdx : Nat → F) (_hr : 0 < sqrtf r2)
    (hi : sqrtf r2 ≥ gpi.epsilon) (hj : sqrtf r2 ≥ gpj.epsilon)
    (hfi : fidx = fun k => to_float (to_float (to_float (to_float
      (gpj.mass * to_float (1 / sqrtf r2)) * to_float (1 / sqrtf r2)) *
      to_float (1 / sqrtf r2)) * dx k))
    (hfj : fjdx = fun k => to_float (to_float (to_float (to_float
      (gpi.mass * to_float (1 / sqrtf r2)) * to_float (1 / sqrtf r2)) *
      to_float (1 / sqrtf r2)) * dx k)) :
    (∀ k, k < 3 →
      (runner_iact_grav_pp to_float sqrtf kernel_grav_eval r2 dx gpi gpj).1.a_grav k =
        to_float (gpi.a_grav k - fidx k) ∧
      (runner_iact_grav_pp to_float sqrtf kernel_grav_eval r2 dx gpi gpj).2.a_grav k =
        to_float (gpj.a_grav k + fjdx k)) ∧
    (runner_iact_grav_pp to_float sqrtf kernel_grav_eval r2 dx gpi gpj).1.mass_interacted =
      to_float (gpi.mass_interacted + gpj.mass) ∧
    (runner_iact_grav_pp to_float sqrtf kernel_grav_eval r2 dx gpi gpj).2.mass_interacted =
      to_float (gpj.mass_interacted + gpi.mass) ∧
    (runner_iact_grav_pp to_float sqrtf kernel_grav_eval r2 dx gpi gpj).1.mass = gpi.mass ∧
    (runner_iact_grav_pp to_float sqrtf kernel_grav_eval r2 dx gpi gpj).2.mass = gpj.mass ∧
    (runner_iact_grav_pp to_float sqrtf kernel_grav_eval r2 dx gpi gpj).1.epsilon =
      gpi.epsilon ∧
    (runner_iact_grav_pp to_float sqrtf kernel_grav_eval r2 dx gpi gpj).2.epsilon =
      gpj.epsilon ∧
    (∀ ε : F, 0 ≤ ε → (∀ x, |to_float x - x| ≤ ε * |x|) → ∀ k, k < 3 →
      |fidx k - gpj.mass / sqrtf r2 ^ 3 * dx k| ≤
        ((1 + ε) ^ 7 - 1) * |gpj.mass / sqrtf r2 ^ 3 * dx k| ∧
      |fjdx k - gpi.mass / sqrtf r2 ^ 3 * dx k| ≤
        ((1 + ε) ^ 7 - 1) * |gpi.mass / sqrtf r2 ^ 3 * dx k| ∧
      |gpi.mass * fidx k - gpj.mass * fjdx k| ≤
        2 * ((1 + ε) ^ 7 - 1) * |gpi.mass * gpj.mass / sqrtf r2 ^ 3 * dx k| ∧
      |gpi.mass * ((runner_iact_grav_pp to_float sqrtf kernel_grav_eval r2 dx gpi gpj).1.a_grav k -
          gpi.a_grav k) +
        gpj.mass * ((runner_iact_grav_pp to_float sqrtf kernel_grav_eval r2 dx gpi gpj).2.a_grav k -
          gpj.a_grav k)| ≤
        2 * ((1 + ε) ^ 7 - 1) * |gpi.mass * gpj.mass / sqrtf r2 ^ 3 * dx k| +
          ε * (|gpi.mass| * |gpi.a_grav k - fidx k| + |gpj.mass| * |gpj.a_grav k + fjdx k|)) := by
  subst hfi hfj
  refine ⟨fun k hk => (runner_iact_grav_pp_newtonian to_float sqrtf kernel_grav_eval r2 dx
    gpi gpj hi hj k).1 hk, rfl, rfl, rfl, rfl, rfl, rfl, fun ε hε hfl k hk => ?_⟩
  obtain ⟨h1, h2⟩ := (runner_iact_grav_pp_newtonian to_float sqrtf kernel_grav_eval r2 dx
    gpi gpj hi hj k).1 hk
  have b1 := to_float_newtonian_error to_float ε hε hfl gpj.mass (sqrtf r2) (dx k)
  have b2 := to_float_newtonian_error to_float ε hε hfl gpi.mass (sqrtf r2) (dx k)
  have hmom : |gpi.mass * to_float (to_float (to_float (to_float
      (gpj.mass * to_float (1 / sqrtf r2)) * to_float (1 / sqrtf r2)) *
      to_float (1 / sqrtf r2)) * dx k) - gpj.mass * to_float (to_float (to_float (to_float
      (gpi.mass * to_float (1 / sqrtf r2)) * to_float (1 / sqrtf r2)) *
      to_float (1 / sqrtf r2)) * dx k)| ≤
      2 * ((1 + ε) ^ 7 - 1) * |gpi.mass * gpj.mass / sqrtf r2 ^ 3 * dx k| := by
    have c1 := mul_le_mul_of_nonneg_left b1 (abs_nonneg gpi.mass)
    have c2 := mul_le_mul_of_nonneg_left b2 (abs_nonneg gpj.mass)
    rw [← abs_mul] at c1 c2
    have e1 : |gpi.mass| * (((1 + ε) ^ 7 - 1) * |gpj.mass / sqrtf r2 ^ 3 * dx k|) =
        ((1 + ε) ^ 7 - 1) * |gpi.mass * gpj.mass / sqrtf r2 ^ 3 * dx k| := by
      rw [mul_left_comm, ← abs_mul]
      congr 2
      ring
    have e2 : |gpj.mass| * (((1 + ε) ^ 7 - 1) * |gpi.mass / sqrtf r2 ^ 3 * dx k|) =
        ((1 + ε) ^ 7 - 1) * |gpi.mass * gpj.mass / sqrtf r2 ^ 3 * dx k| := by
      rw [mul_left_comm, ← abs_mul]
      congr 2
      ring
    rw [e1] at c1
    rw [e2] at c2
    have e3 : gpi.mass * to_float (to_float (to_float (to_float
      (gpj.mass * to_float (1 / sqrtf r2)) * to_float (1 / sqrtf r2)) *
      to_float (1 / sqrtf r2)) * dx k) - gpj.mass * to_float (to_float (to_float (to_float
      (gpi.mass * to_float (1 / sqrtf r2)) * to_float (1 / sqrtf r2)) *
      to_float (1 / sqrtf r2)) * dx k) =
      gpi.mass * (to_float (to_float (to_float (to_float
      (gpj.mass * to_float (1 / sqrtf r2)) * to_float (1 / sqrtf r2)) *
      to_float (1 / sqrtf r2)) * dx k) - gpj.mass / sqrtf r2 ^ 3 * dx k) -
      gpj.mass * (to_float (to_float (to_float (to_float
      (gpi.mass * to_float (1 / sqrtf r2)) * to_float (1 / sqrtf r2)) *
      to_float (1 / sqrtf r2)) * dx k) - gpi.mass / sqrtf r2 ^ 3 * dx k) := by ring
    rw [e3]
    have := abs_sub (gpi.mass * (to_float (to_float (to_float (to_float
      (gpj.mass * to_float (1 / sqrtf r2)) * to_float (1 / sqrtf r2)) *
      to_float (1 / sqrtf r2)) * dx k) - gpj.mass / sqrtf r2 ^ 3 * dx k))
      (gpj.mass * (to_float (to_float (to_float (to_float
      (gpi.mass * to_float (1 / sqrtf r2)) * to_float (1 / sqrtf r2)) *
      to_float (1 / sqrtf r2)) * dx k) - gpi.mass / sqrtf r2 ^ 3 * dx k))
    linarith
  refine ⟨b1, b2, hmom, ?_⟩
  beta_reduce
  rw [h1, h2]
  have r1 := hfl (gpi.a_grav k - to_float (to_float (to_float (to_float
      (gpj.mass * to_float (1 / sqrtf r2)) * to_float (1 / sqrtf r2)) *
      to_float (1 / sqrtf r2)) * dx k))
  have r2' := hfl (gpj.a_grav k + to_float (to_float (to_float (to_float
      (gpi.mass * to_float (1 / sqrtf r2)) * to_float (1 / sqrtf r2)) *
      to_float (1 / sqrtf r2)) * dx k))
  generalize to_float (to_float (to_float (to_float
      (gpj.mass * to_float (1 / sqrtf r2)) * to_float (1 / sqrtf r2)) *
      to_float (1 / sqrtf r2)) * dx k) = X at *
  generalize to_float (to_float (to_float (to_float
      (gpi.mass * to_float (1 / sqrtf r2)) * to_float (1 / sqrtf r2)) *
      to_float (1 / sqrtf r2)) * dx k) = Y at *
  have c1 := mul_le_mul_of_nonneg_left r1 (abs_nonneg gpi.mass)
  have c2 := mul_le_mul_of_nonneg_left r2' (abs_nonneg gpj.mass)
  rw [← abs_mul] at c1 c2
  have e : gpi.mass * (to_float (gpi.a_grav k - X) - gpi.a_grav k) +
      gpj.mass * (to_float (gpj.a_grav k + Y) - gpj.a_grav k) =
      gpi.mass * (to_float (gpi.a_grav k - X) - (gpi.a_grav k - X)) +
      gpj.mass * (to_float (gpj.a_grav k + Y) - (gpj.a_grav k + Y)) -
      (gpi.mass * X - gpj.mass * Y) := by ring
  rw [e]
  have t1 := abs_sub (gpi.mass * (to_float (gpi.a_grav k - X) - (gpi.a_grav k - X)) +
      gpj.mass * (to_float (gpj.a_grav k + Y) - (gpj.a_grav k + Y)))
      (gpi.mass * X - gpj.mass * Y)
  have t2 := abs_add (gpi.mass * (to_float (gpi.a_grav k - X) - (gpi.a_grav k - X)))
      (gpj.mass * (to_float (gpj.a_grav k + Y) - (gpj.a_grav k + Y)))
  have c1' : |gpi.mass * (to_float (gpi.a_grav k - X) - (gpi.a_grav k - X))| ≤
      ε * (|gpi.mass| * |gpi.a_grav k - X|) := le_of_le_of_eq c1 (by ring)
  have c2' : |gpj.mass * (to_float (gpj.a_grav k + Y) - (gpj.a_grav k + Y))| ≤
      ε * (|gpj.mass| * |gpj.a_grav k + Y|) := le_of_le_of_eq c2 (by ring)
  calc |gpi.mass * (to_float (gpi.a_grav k - X) - (gpi.a_grav k - X)) +
        gpj.mass * (to_float (gpj.a_grav k + Y) - (gpj.a_grav k + Y)) -
        (gpi.mass * X - gpj.mass * Y)|
      ≤ (|gpi.mass * (to_float (gpi.a_grav k - X) - (gpi.a_grav k - X))| +
          |gpj.mass * (to_float (gpj.a_grav k + Y) - (gpj.a_grav k + Y))|) +
          |gpi.mass * X - gpj.mass * Y| := le_trans t1 (add_le_add_right t2 _)
    _ ≤ (ε * (|gpi.mass| * |gpi.a_grav k - X|) + ε * (|gpj.mass| * |gpj.a_grav k + Y|)) +
          2 * ((1 + ε) ^ 7 - 1) * |gpi.mass * gpj.mass / sqrtf r2 ^ 3 * dx k| :=
        add_le_add (add_le_add c1' c2') hmom
    _ = 2 * ((1 + ε) ^ 7 - 1) * |gpi.mass * gpj.mass / sqrtf r2 ^ 3 * dx k| +
          ε * (|gpi.mass| * |gpi.a_grav k - X| + |gpj.mass| * |gpj.a_grav k + Y|) := by ring



/-- C38 witness: masses 1 and 3, softening lengths 1, `r2 = 9` with
`sqrtf(9) = 3`, `dx = (1, 0, 0)`, both particles at rest, and the conversion
`binary32`, whose relative error is at most `2^-24`. -/
theorem runner_iact_grav_pp_momentum_witness :
    (runner_iact_grav_pp binary32 (fun _ => 3) (fun _ => 0) 9 (fun k => if k = 0 then 1 else 0)
      ⟨1, 1, fun _ => 0, 0⟩ ⟨3, 1, fun _ => 0, 0⟩).1.a_grav 0 =
      binary32 (0 - binary32 (binary32 (binary32 (binary32 (3 * binary32 (1 / 3)) *
        binary32 (1 / 3)) * binary32 (1 / 3)) * 1)) ∧
    |binary32 (binary32 (binary32 (binary32 (3 * binary32 (1 / 3)) *
        binary32 (1 / 3)) * binary32 (1 / 3)) * 1) - 3 / 3 ^ 3 * 1| ≤
      ((1 + 1 / 2 ^ 24) ^ 7 - 1) * |(3 : ℚ) / 3 ^ 3 * 1| ∧
    |1 * binary32 (binary32 (binary32 (binary32 (3 * binary32 (1 / 3)) *
        binary32 (1 / 3)) * binary32 (1 / 3)) * 1) -
      3 * binary32 (binary32 (binary32 (binary32 (1 * binary32 (1 / 3)) *
        binary32 (1 / 3)) * binary32 (1 / 3)) * 1)| ≤
      2 * ((1 + 1 / 2 ^ 24) ^ 7 - 1) * |(1 : ℚ) * 3 / 3 ^ 3 * 1| := by
  have T := runner_iact_grav_pp_momentum binary32 (fun _ => 3) (fun _ => 0) 9
    (fun k => if k = 0 then 1 else 0) ⟨1, 1, fun _ => 0, 0⟩ ⟨3, 1, fun _ => 0, 0⟩ _ _
    (by norm_num) (by norm_num) (by norm_num) rfl rfl
  obtain ⟨t1, -⟩ := T.1 0 (by norm_num)
  obtain ⟨t3, -, t5, -⟩ := T.2.2.2.2.2.2.2 (1 / 2 ^ 24) (by positivity)
    (fun x => le_of_le_of_eq (binary32_error x) (by ring)) 0 (by norm_num)
  simp only [if_true] at t1 t3 t5
  exact ⟨t1, t3, t5⟩

theorem binary32_grav_values :
    binary32 (3 * (11184811 / 2 ^ 25)) = 1 ∧
    binary32 (1 * (11184811 / 2 ^ 25)) = 11184811 / 2 ^ 25 ∧
    binary32 (11184811 / 2 ^ 25 * (11184811 / 2 ^ 25)) = 7456541 / 2 ^ 26 ∧
    binary32 (7456541 / 2 ^ 26 * (11184811 / 2 ^ 25)) = 9942055 / 2 ^ 28 ∧
    binary32 (7456541 / 2 ^ 26 * 1) = 7456541 / 2 ^ 26 ∧
    binary32 (9942055 / 2 ^ 28 * 1) = 9942055 / 2 ^ 28 ∧
    binary32 (0 - 7456541 / 2 ^ 26) = -(7456541 / 2 ^ 26) ∧
    binary32 (0 + 9942055 / 2 ^ 28) = 9942055 / 2 ^ 28 := by
  refine ⟨?_, ?_, ?_, ?_, ?_, ?_, ?_, ?_⟩
  · have h := binary32_eq (3 * (11184811 / 2 ^ 25)) 0 8388608 (by norm_num [abs_of_pos])
      (by norm_num [abs_of_pos]) (by norm_num [abs_of_pos])
    rw [h]
    norm_num
  · have h := binary32_eq (1 * (11184811 / 2 ^ 25)) (-2) 11184811 (by norm_num [abs_of_pos])
      (by norm_num [abs_of_pos]) (by norm_num [abs_of_pos])
    rw [h]
    norm_num
  · have h := binary32_eq (11184811 / 2 ^ 25 * (11184811 / 2 ^ 25)) (-4) 14913082
      (by norm_num [abs_of_pos]) (by norm_num [abs_of_pos]) (by norm_num [abs_of_pos])
    rw [h]
    norm_num
  · have h := binary32_eq (7456541 / 2 ^ 26 * (11184811 / 2 ^ 25)) (-5) 9942055
      (by norm_num [abs_of_pos]) (by norm_num [abs_of_pos]) (by norm_num [abs_of_pos])
    rw [h]
    norm_num
  · have h := binary32_eq (7456541 / 2 ^ 26 * 1) (-4) 14913082
      (by norm_num [abs_of_pos]) (by norm_num [abs_of_pos]) (by norm_num [abs_of_pos])
    rw [h]
    norm_num
  · have h := binary32_eq (9942055 / 2 ^ 28 * 1) (-5) 9942055
      (by norm_num [abs_of_pos]) (by norm_num [abs_of_pos]) (by norm_num [abs_of_pos])
    rw [h]
    norm_num
  · have h := binary32_eq (0 - 7456541 / 2 ^ 26) (-4) (-14913082)
      (by norm_num [abs_of_pos]) (by norm_num [abs_of_pos]) (by norm_num [abs_of_pos])
    rw [h]
    norm_num
  · have h := binary32_eq (0 + 9942055 / 2 ^ 28) (-5) 9942055
      (by norm_num [abs_of_pos]) (by norm_num [abs_of_pos]) (by norm_num [abs_of_pos])
    rw [h]
    norm_num

/-- C38 counterexample: masses `m_i = 1` and `m_j = 3`, softening lengths 1,
`r2 = 9` with `sqrtf(9) = 3`, `dx = (1, 0, 0)`, both particles at rest, and the
conversion `binary32`.  `r = 3` is positive and beyond both softening lengths.
`ir = (float)(1/3) = 11184811/2^25`; for particle `i` the products are
`3 ir → 1`, `1 ir → ir`, `ir ir → 7456541/2^26`, for particle `j`
`1 ir → ir`, `ir ir → 7456541/2^26` and then `→ 9942055/2^28`.  The changes
are `-7456541/2^26` and `+9942055/2^28`, not `-1/9` and `+1/27`, and
`m_i delta_a_i + m_j delta_a_j = 2^-28`, not 0. -/
theorem runner_iact_grav_pp_rounding_counterexample :
    ((0 : ℚ) < (fun _ : ℚ => (3 : ℚ)) 9 ∧ (fun _ : ℚ => (3 : ℚ)) 9 ≥ 1) ∧
    (runner_iact_grav_pp binary32 (fun _ => 3) (fun _ => 0) 9 (fun k => if k = 0 then 1 else 0)
      ⟨1, 1, fun _ => 0, 0⟩ ⟨3, 1, fun _ => 0, 0⟩).1.a_grav 0 - 0 = -(7456541 / 2 ^ 26) ∧
    (runner_iact_grav_pp binary32 (fun _ => 3) (fun _ => 0) 9 (fun k => if k = 0 then 1 else 0)
      ⟨1, 1, fun _ => 0, 0⟩ ⟨3, 1, fun _ => 0, 0⟩).2.a_grav 0 - 0 = 9942055 / 2 ^ 28 ∧
    (1 : ℚ) * ((runner_iact_grav_pp binary32 (fun _ => 3) (fun _ => 0) 9
        (fun k => if k = 0 then 1 else 0)
        ⟨1, 1, fun _ => 0, 0⟩ ⟨3, 1, fun _ => 0, 0⟩).1.a_grav 0 - 0) +
      3 * ((runner_iact_grav_pp binary32 (fun _ => 3) (fun _ => 0) 9
        (fun k => if k = 0 then 1 else 0)
        ⟨1, 1, fun _ => 0, 0⟩ ⟨3, 1, fun _ => 0, 0⟩).2.a_grav 0 - 0) = 1 / 2 ^ 28 := by
  obtain ⟨e2, e3, e4, e5, e6, e7, e8, e9⟩ := binary32_grav_values
  obtain ⟨h1, h2⟩ := (runner_iact_grav_pp_newtonian binary32 (fun _ => 3) (fun _ => 0) 9
    (fun k => if k = 0 then 1 else 0) ⟨1, 1, fun _ => 0, 0⟩ ⟨3, 1, fun _ => 0, 0⟩
    (by norm_num) (by norm_num) 0).1 (by norm_num)
  simp only [if_true] at h1 h2
  rw [binary32_third, e2, e3, e4, e6, e8] at h1
  rw [binary32_third, e3, e4, e5, e7, e9] at h2
  rw [h1, h2]
  norm_num

/-! ## A temperature bin of zero width (C32) -/

/-- C32 (amended): `eagle_metal_cooling_rate` has no test of `delta_T`.  When
`Temp[temp_i + 1] = Temp[temp_i]` the local `delta_T` of line 344 is 0 and
the call still returns, with the rate of a call without derivative request;
the evaluator with the fatal error of the specification ends in the error
instead.  The value left behind the derivative pointer, a quotient by that
`delta_T = 0`, is not part of the statement. -/
theorem eagle_rate_zero_width_bin (m : Libm F) (q : TableQuery F)
    (log_10_u : F) (n_h_i : Int) (d_n_h : F) (He_i : Int) (d_He : F) (p : part F)
    (cooling : cooling_function_data F) (cosmo : cosmology F) (phys : phys_const F)
    (element_lambda : Option (Nat → F)) (solar_ratio : Nat → F)
    (hzero : cooling.Temp ((q.get_index_1d cooling.Temp cooling.N_Temp
        (q.eagle_convert_u_to_temp log_10_u n_h_i He_i d_n_h d_He cooling cosmo).1).1 +
          1).toNat =
      cooling.Temp (q.get_index_1d cooling.Temp cooling.N_Temp
        (q.eagle_convert_u_to_temp log_10_u n_h_i He_i d_n_h d_He cooling cosmo).1).1.toNat) :
    m.exp (m.M_LN10 * cooling.Temp ((q.get_index_1d cooling.Temp cooling.N_Temp
        (q.eagle_convert_u_to_temp log_10_u n_h_i He_i d_n_h d_He cooling cosmo).1).1 +
          1).toNat) -
      m.exp (m.M_LN10 * cooling.Temp (q.get_index_1d cooling.Temp cooling.N_Temp
        (q.eagle_convert_u_to_temp log_10_u n_h_i He_i d_n_h d_He cooling cosmo).1).1.toNat) =
      0 ∧
    (eagle_metal_cooling_rate m q log_10_u (some 0) n_h_i d_n_h He_i d_He p cooling cosmo phys
      element_lambda solar_ratio).cooling_rate =
      (eagle_metal_cooling_rate m q log_10_u none n_h_i d_n_h He_i d_He p cooling cosmo phys
        element_lambda solar_ratio).cooling_rate ∧
    eagle_metal_cooling_rate_guarded m q log_10_u (some 0) n_h_i d_n_h He_i d_He p cooling cosmo
      phys element_lambda solar_ratio = none := by
  have hd : m.exp (m.M_LN10 * cooling.Temp ((q.get_index_1d cooling.Temp cooling.N_Temp
        (q.eagle_convert_u_to_temp log_10_u n_h_i He_i d_n_h d_He cooling cosmo).1).1 +
          1).toNat) -
      m.exp (m.M_LN10 * cooling.Temp (q.get_index_1d cooling.Temp cooling.N_Temp
        (q.eagle_convert_u_to_temp log_10_u n_h_i He_i d_n_h d_He cooling cosmo).1).1.toNat) =
      0 := by
    rw [hzero, sub_self]
  refine ⟨hd, ?_, ?_⟩
  · exact (eagle_rate_independent_of_derivative m q log_10_u 0 n_h_i d_n_h He_i d_He p cooling
      cosmo phys element_lambda solar_ratio).1
  · unfold eagle_metal_cooling_rate_guarded
    simp only [hzero, if_true]

/-- C32 witness: the example tables with the temperature grid `(0, 0)` and
the query that finds the first grid cell. -/
theorem eagle_rate_zero_width_bin_witness :
    (ex_cooling_flat ℚ).Temp (((ex_query ℚ).get_index_1d (ex_cooling_flat ℚ).Temp
        (ex_cooling_flat ℚ).N_Temp ((ex_query ℚ).eagle_convert_u_to_temp 0 0 0 0 0
          (ex_cooling_flat ℚ) ⟨0, 0, 0⟩).1).1 + 1).toNat =
      (ex_cooling_flat ℚ).Temp ((ex_query ℚ).get_index_1d (ex_cooling_flat ℚ).Temp
        (ex_cooling_flat ℚ).N_Temp ((ex_query ℚ).eagle_convert_u_to_temp 0 0 0 0 0
          (ex_cooling_flat ℚ) ⟨0, 0, 0⟩).1).1.toNat ∧
    (eagle_metal_cooling_rate ex_libm (ex_query ℚ) 0 (some 0) 0 0 0 0 (ex_part ℚ 1 0)
      (ex_cooling_flat ℚ) ⟨0, 0, 0⟩ ⟨1⟩ none (fun _ => 0)).cooling_rate =
      (eagle_metal_cooling_rate ex_libm (ex_query ℚ) 0 none 0 0 0 0 (ex_part ℚ 1 0)
        (ex_cooling_flat ℚ) ⟨0, 0, 0⟩ ⟨1⟩ none (fun _ => 0)).cooling_rate :=
  ⟨rfl, (eagle_rate_zero_width_bin ex_libm (ex_query ℚ) 0 0 0 0 0 (ex_part ℚ 1 0)
    (ex_cooling_flat ℚ) ⟨0, 0, 0⟩ ⟨1⟩ none (fun _ => 0) rfl).2.1⟩

/-- C32 counterexample: the example tables with the temperature grid
`(0, 0)`.  The bin has zero width, the evaluator with the fatal error ends in
it, and `eagle_metal_cooling_rate` returns the rate 0 and leaves a value
behind the derivative pointer. -/
theorem eagle_rate_zero_width_counterexample :
    (ex_cooling_flat ℚ).Temp 1 = (ex_cooling_flat ℚ).Temp 0 ∧
    ex_libm.exp (ex_libm.M_LN10 * (ex_cooling_flat ℚ).Temp 1) -
      ex_libm.exp (ex_libm.M_LN10 * (ex_cooling_flat ℚ).Temp 0) = 0 ∧
    eagle_metal_cooling_rate_guarded ex_libm (ex_query ℚ) 0 (some 0) 0 0 0 0 (ex_part ℚ 1 0)
      (ex_cooling_flat ℚ) ⟨0, 0, 0⟩ ⟨1⟩ none (fun _ => 0) = none ∧
    (eagle_metal_cooling_rate ex_libm (ex_query ℚ) 0 (some 0) 0 0 0 0 (ex_part ℚ 1 0)
      (ex_cooling_flat ℚ) ⟨0, 0, 0⟩ ⟨1⟩ none (fun _ => 0)).cooling_rate = 0 ∧
    (eagle_metal_cooling_rate ex_libm (ex_query ℚ) 0 (some 0) 0 0 0 0 (ex_part ℚ 1 0)
      (ex_cooling_flat ℚ) ⟨0, 0, 0⟩ ⟨1⟩ none (fun _ => 0)).dlambda_du.isSome = true := by
  refine ⟨rfl, by simp [ex_cooling_flat], ?_, ?_, ?_⟩
  · simp [eagle_metal_cooling_rate_guarded, ex_cooling_flat]
  · simp [eagle_metal_cooling_rate, metal_free_lookups, solar_electron_lookups,
      metal_step_lowz, metal_lambda_lowz, ex_query, ex_cooling_flat, ex_cooling, ex_part,
      List.range_succ]
  · simp [eagle_metal_cooling_rate, metal_free_lookups, solar_electron_lookups,
      metal_step_lowz, metal_lambda_lowz, ex_query, ex_cooling_flat, ex_cooling, ex_part,
      List.range_succ]

/-! ## The bisection loop meets its tolerance (C35) -/

end EagleCooling
